import Mathlib

/-!
# SCTP transport listener (ortc_SCTPTransportListener.cpp)

A shallow embedding of `SCTPListenerHelper` and `SCTPTransportListener`.

* `WORD` values (ports) are naturals below `65536`; every `WORD` assignment whose
  right-hand side can leave that range is written with an explicit `% 65536`.
* `DWORD` tuple ids are naturals below `2 ^ 32`.  `createTuple` copies the local port
  into the first 16-bit word of the result and the remote port into the second one;
  the numeric value is the one of a little-endian host (first word = low half).
* A `std::map` is the list of its entries in ascending key order.
* `size_t` reference counts are unbounded naturals: a run would need `2 ^ 64`
  allocations to wrap an increment, and a count is decremented only when it is stored,
  hence at least 1.
* The last statement of a round of the first loop of `cancel` erases from
  `mPendingTransports` through an iterator of `mAnnouncedTransports`, which has undefined
  behaviour.  `cancel` gives the listener as if that statement did nothing;
  `cancelUndefined` tells whether a call executes it, and `cancelChecked` is the call as
  one that can fail: `none` when it does.
* Collaborators (the association objects, their factory, the subscriber delegates) are
  outside the listener: what they answer is read from a `Collaborators` record, the
  calls the listener makes to them are returned as a list of `Call`s.  A collaborator
  never calls back into the listener while it is being called.
-/

namespace Ortc

/-! ## std::map -/

/-- Lookup `map.find(key)`: the mapped value, `none` for `end()`. -/
def mapFind {β : Type} : List (Nat × β) → Nat → Option β
  | [], _ => none
  | (k, v) :: m, key => if k = key then some v else mapFind m key

/-- Assignment `map[key] = value`: overwrites the entry or inserts it in key order. -/
def mapAssign {β : Type} : List (Nat × β) → Nat → β → List (Nat × β)
  | [], key, value => [(key, value)]
  | (k, v) :: m, key, value =>
    if key < k then (key, value) :: (k, v) :: m
    else if key = k then (key, value) :: m
    else (k, v) :: mapAssign m key value

/-- Removal `map.erase(found)` of the entry stored under `key`. -/
def mapErase {β : Type} (m : List (Nat × β)) (key : Nat) : List (Nat × β) :=
  m.filter (fun e => decide (e.1 ≠ key))

/-- Keys strictly ascending: the shape every `std::map` has. -/
def mapSorted {β : Type} (m : List (Nat × β)) : Prop :=
  (m.map Prod.fst).Pairwise (fun a b => a < b)

/-! ## SCTPListenerHelper -/

/-- One octet of a packet. -/
abbrev BYTE := Fin 256

/-- Packet directions of `SCTPListenerHelper::Directions`. -/
inductive Directions where
  | Direction_Incoming
  | Direction_Outgoing
deriving DecidableEq, Repr

/-- `SCTPListenerHelper::createTuple`: word 0 of the result holds the local port, word 1
the remote port. -/
def createTuple (localPort remotePort : Nat) : Nat :=
  localPort + 65536 * remotePort

/-- `SCTPListenerHelper::splitTuple`: word 0 is the local port, word 1 the remote port. -/
def splitTuple (localRemoteTupleID : Nat) : Nat × Nat :=
  (localRemoteTupleID % 65536, localRemoteTupleID / 65536 % 65536)

/-- `SCTPListenerHelper::getLocalRemoteTuple`: returns the tuple id together with the
two out parameters `(tuple, *outLocalPort, *outRemotePort)`.  A buffer shorter than
`sizeof(DWORD)` gives `0` with both out parameters zeroed.  The two port fields are
read octet by octet in network order (`memcpy` followed by `ntohs`). -/
def getLocalRemoteTuple (packet : List BYTE) (direction : Directions) : Nat × Nat × Nat :=
  match packet with
  | b0 :: b1 :: b2 :: b3 :: _ =>
    let sourcePort := 256 * b0.val + b1.val
    let destPort := 256 * b2.val + b3.val
    match direction with
    | Directions.Direction_Incoming =>
      (createTuple destPort sourcePort, destPort, sourcePort)
    | Directions.Direction_Outgoing =>
      (createTuple sourcePort destPort, sourcePort, destPort)
  | _ => (0, 0, 0)

/-! ## Data model -/

/-- The `Capabilities` value type of the SCTP transport. -/
structure Capabilities where
  mMaxMessageSize : Nat
  mMinPort : Nat
  mMaxPort : Nat
  mMaxUsablePorts : Nat
  mMaxSessionsPerPort : Nat
deriving DecidableEq, Repr

/-- A `UseSCTPTransportPtr`: the association object, identified by its `getID()`. -/
structure UseSCTPTransport where
  id : Nat
deriving DecidableEq, Repr

/-- An `IDTLSTransportPtr` as `registerNewTransport` sees it. -/
structure IDTLSTransport where
  id : Nat
  /-- whether `DTLSTransport::convert` yields a secure transport -/
  isSecureTransport : Bool
  /-- what `getDataTransport()` yields: the id of the listener serving the transport -/
  dataTransport : Option Nat
deriving DecidableEq, Repr

/-- Failures thrown to the caller. -/
inductive Error where
  | InvalidParameters
  | InvalidState
deriving DecidableEq, Repr

/-- Calls the listener makes to its collaborators, in program order. -/
inductive Call where
  /-- the factory call `UseSCTPTransport::create(this, secure, localPort, remotePort)` -/
  | create (localPort remotePort : Nat)
  /-- the call `transport->start(caps)` -/
  | start (transport : Nat) (caps : Capabilities)
  /-- the call `transport->handleDataPacket(buffer, length)` -/
  | handleDataPacket (transport : Nat) (buffer : List BYTE)
  /-- the call `transport->notifyShutdown()` -/
  | notifyShutdown (transport : Nat)
  /-- the call `delegate->onSCTPTransport(transport)` -/
  | onSCTPTransport (delegate : Nat) (transport : Nat)
  /-- the posted `IWakeDelegateProxy::onWake()` -/
  | onWake
deriving DecidableEq, Repr

/-- What the collaborators answer during one listener operation. -/
structure Collaborators where
  /-- result of the association factory for `(localPort, remotePort)`, `none` for null -/
  create : Nat → Nat → Option UseSCTPTransport
  /-- answer of `transport->isShuttingDown()` -/
  isShuttingDown : Nat → Bool
  /-- answer of `transport->isShutdown()` (in `cancel`: asked right after
  `transport->notifyShutdown()`) -/
  isShutdown : Nat → Bool
  /-- answer of `transport->handleDataPacket(buffer, length)` -/
  handleDataPacket : Nat → List BYTE → Bool

/-- The fields of `SCTPTransportListener`. -/
structure SCTPTransportListener where
  mID : Nat
  /-- whether `mThisWeak.lock()` yields the listener -/
  mThisWeak : Bool
  /-- whether `mGracefulShutdownReference` is held -/
  mGracefulShutdownReference : Bool
  /-- the subscribed delegates -/
  mSubscriptions : List Nat
  mShutdown : Bool
  /-- id of the secure transport the listener was created for -/
  mSecureTransport : Nat
  mRemoteCapabilities : Option Capabilities
  mTransports : List (Nat × UseSCTPTransport)
  mPendingTransports : List (Nat × UseSCTPTransport)
  mAnnouncedTransports : List (Nat × UseSCTPTransport)
  mAllocatedLocalPorts : List (Nat × Nat)
  mAllocatedRemotePorts : List (Nat × Nat)
  mMaxPorts : Nat
  mCurrentAllocationPort : Nat
  mMinAllocationPort : Nat
  mMaxAllocationPort : Nat
  mNextAllocationIncremement : Nat
deriving DecidableEq, Repr

/-- The settings read by the constructor. -/
structure Settings where
  listenerMaxPorts : Nat
  listenerMinPort : Nat
  listenerMaxPort : Nat
  listenerDefaultPort : Nat
deriving DecidableEq, Repr

/-- Result of an operation: returned value, listener afterwards, calls made. -/
structure Outcome (α : Type) where
  ret : α
  state : SCTPTransportListener
  calls : List Call

/-- Result of `registerNewTransport`: the thrown failure if any, the three in/out
parameters as the caller finds them, and the listener afterwards. -/
structure RegisterOutcome where
  thrown : Option Error
  ioTransport : Option UseSCTPTransport
  ioLocalPort : Nat
  ioRemotePort : Nat
  state : SCTPTransportListener
deriving DecidableEq, Repr

/-! ## Port reference counts -/

/-- `SCTPTransportListener::allocatePort`. -/
def allocatePort (useMap : List (Nat × Nat)) (port : Nat) : List (Nat × Nat) :=
  match mapFind useMap port with
  | none => mapAssign useMap port 1
  | some total => mapAssign useMap port (total + 1)

/-- `SCTPTransportListener::deallocatePort`. -/
def deallocatePort (useMap : List (Nat × Nat)) (port : Nat) : List (Nat × Nat) :=
  match mapFind useMap port with
  | none => useMap
  | some total =>
    if total - 1 ≠ 0 then mapAssign useMap port (total - 1)
    else mapErase useMap port

/-- The count stored for `port`, `0` when the port has no entry. -/
def portCount (useMap : List (Nat × Nat)) (port : Nat) : Nat :=
  (mapFind useMap port).getD 0

/-! ## SCTPTransportListener -/

/-- The constructor followed by `init()`, `none` when it throws: the three port
settings go through `SafeInt<WORD>`, which throws when the value does not fit, the
maximum number of ports is stored as it is; `increment` is the initial value of
`mNextAllocationIncremement`, which the class declaration fixes. -/
def construct (mID secureTransport : Nat) (settings : Settings) (increment : Nat) :
    Option SCTPTransportListener :=
  if settings.listenerDefaultPort < 65536 ∧ settings.listenerMinPort < 65536 ∧
      settings.listenerMaxPort < 65536 then
    some
      { mID := mID
        mThisWeak := true
        mGracefulShutdownReference := false
        mSubscriptions := []
        mShutdown := false
        mSecureTransport := secureTransport
        mRemoteCapabilities := none
        mTransports := []
        mPendingTransports := []
        mAnnouncedTransports := []
        mAllocatedLocalPorts := []
        mAllocatedRemotePorts := []
        mMaxPorts := settings.listenerMaxPorts
        mCurrentAllocationPort := settings.listenerDefaultPort
        mMinAllocationPort := settings.listenerMinPort
        mMaxAllocationPort := settings.listenerMaxPort
        mNextAllocationIncremement := increment }
  else none

/-- `SCTPTransportListener::isShuttingDown`. -/
def isShuttingDown (s : SCTPTransportListener) : Bool :=
  s.mGracefulShutdownReference

/-- `SCTPTransportListener::isShutdown`. -/
def isShutdown (s : SCTPTransportListener) : Bool :=
  if s.mGracefulShutdownReference then false else s.mShutdown

/-- The `next_port` block of `allocateLocalPort` up to the search-budget test. -/
def nextPort (s : SCTPTransportListener) : SCTPTransportListener :=
  let c1 := (s.mCurrentAllocationPort + s.mNextAllocationIncremement) % 65536
  let c2 := if c1 < s.mMinAllocationPort then (s.mMinAllocationPort + c1 % 2) % 65536 else c1
  let c3 := if c2 > s.mMaxAllocationPort then (s.mMinAllocationPort + c2 % 2) % 65536 else c2
  { s with mCurrentAllocationPort := c3 }

/-- Whether the candidate under the cursor is rejected (`goto next_port`). -/
def portTaken (s : SCTPTransportListener) (remotePort : Nat) : Bool :=
  (mapFind s.mAllocatedLocalPorts s.mCurrentAllocationPort).isSome ||
    (decide (remotePort = 0) &&
      (mapFind s.mAllocatedRemotePorts s.mCurrentAllocationPort).isSome)

/-- The `found_port` block of `allocateLocalPort`. -/
def foundPort (s : SCTPTransportListener) (remotePort : Nat) : Nat × SCTPTransportListener :=
  let remotePort1 := if remotePort = 0 then s.mCurrentAllocationPort else remotePort
  (s.mCurrentAllocationPort,
    { s with
      mAllocatedLocalPorts := allocatePort s.mAllocatedLocalPorts s.mCurrentAllocationPort
      mAllocatedRemotePorts := allocatePort s.mAllocatedRemotePorts remotePort1 })

/-- The `while (true)` loop of `allocateLocalPort` with `maxSearching` still to spend. -/
def allocateLocalPortLoop (remotePort : Nat) :
    Nat → SCTPTransportListener → Nat × SCTPTransportListener
  | 0, s => if portTaken s remotePort then (0, nextPort s) else foundPort s remotePort
  | maxSearching + 1, s =>
    if portTaken s remotePort then allocateLocalPortLoop remotePort maxSearching (nextPort s)
    else foundPort s remotePort

/-- `SCTPTransportListener::allocateLocalPort`: the returned port and the listener
afterwards. -/
def allocateLocalPort (s : SCTPTransportListener) (remotePort : Nat) :
    Nat × SCTPTransportListener :=
  let maxSearching := (s.mMaxAllocationPort + 65536 - s.mMinAllocationPort) % 65536
  allocateLocalPortLoop remotePort maxSearching s

/-- `SCTPTransportListener::handleDataPacket`. -/
def handleDataPacket (w : Collaborators) (s : SCTPTransportListener) (buffer : List BYTE) :
    Outcome Bool :=
  if buffer.length < 4 then ⟨false, s, []⟩
  else
    match getLocalRemoteTuple buffer Directions.Direction_Incoming with
    | (tupleID, localPort, remotePort) =>
      if tupleID = 0 then ⟨false, s, []⟩
      else
        match mapFind s.mTransports tupleID with
        | none =>
          match w.create localPort remotePort with
          | none => ⟨false, s, [Call.create localPort remotePort]⟩
          | some transport =>
            let started : List Call :=
              match s.mRemoteCapabilities with
              | some caps => [Call.start transport.id caps]
              | none => []
            let pending :=
              match s.mRemoteCapabilities with
              | some _ => s.mPendingTransports
              | none => mapAssign s.mPendingTransports transport.id transport
            ⟨w.handleDataPacket transport.id buffer,
              { s with
                mPendingTransports := pending
                mAllocatedLocalPorts := allocatePort s.mAllocatedLocalPorts localPort
                mAllocatedRemotePorts := allocatePort s.mAllocatedRemotePorts remotePort
                mTransports := mapAssign s.mTransports tupleID transport },
              [Call.create localPort remotePort] ++ started ++
                [Call.handleDataPacket transport.id buffer]⟩
        | some transport =>
          ⟨w.handleDataPacket transport.id buffer, s,
            [Call.handleDataPacket transport.id buffer]⟩

/-- The locked block of `registerNewTransport`, entered with the requested ports
(`remotePort` already defaulted to `localPort` when it was `0`), the supplied
association, and both out ports zeroed. -/
def registerLocked (w : Collaborators) (s : SCTPTransportListener)
    (transport : UseSCTPTransport) (localPort remotePort : Nat) : RegisterOutcome :=
  if isShuttingDown s || isShutdown s then
    ⟨some Error.InvalidState, some transport, 0, 0, s⟩
  else if localPort ≠ 0 then
    let tupleID := createTuple localPort remotePort
    match mapFind s.mTransports tupleID with
    | some found =>
      if w.isShuttingDown found.id || w.isShutdown found.id then
        ⟨none, none, 0, 0, s⟩
      else ⟨none, some found, localPort, remotePort, s⟩
    | none =>
      if (mapFind s.mAllocatedLocalPorts localPort).isSome then ⟨none, none, 0, 0, s⟩
      else
        ⟨none, some transport, localPort, remotePort,
          { s with
            mAllocatedLocalPorts := allocatePort s.mAllocatedLocalPorts localPort
            mAllocatedRemotePorts := allocatePort s.mAllocatedRemotePorts remotePort
            mTransports := mapAssign s.mTransports tupleID transport }⟩
  else if s.mTransports.length + 1 > s.mMaxPorts then ⟨none, none, 0, 0, s⟩
  else
    match allocateLocalPort s remotePort with
    | (allocated, s1) =>
      if allocated = 0 then ⟨none, none, 0, 0, s1⟩
      else
        let remotePort1 := if remotePort = 0 then allocated else remotePort
        ⟨none, some transport, allocated, remotePort1,
          { s1 with
            mTransports :=
              mapAssign s1.mTransports (createTuple allocated remotePort1) transport }⟩

/-- `SCTPTransportListener::registerNewTransport`. -/
def registerNewTransport (w : Collaborators) (s : SCTPTransportListener)
    (dtlsTransport : Option IDTLSTransport) (ioTransport : Option UseSCTPTransport)
    (ioLocalPort ioRemotePort : Nat) : RegisterOutcome :=
  match dtlsTransport with
  | none => ⟨some Error.InvalidParameters, ioTransport, ioLocalPort, ioRemotePort, s⟩
  | some dtls =>
    match ioTransport with
    | none => ⟨some Error.InvalidParameters, ioTransport, ioLocalPort, ioRemotePort, s⟩
    | some transport =>
      if !dtls.isSecureTransport then
        ⟨some Error.InvalidState, ioTransport, ioLocalPort, ioRemotePort, s⟩
      else
        match dtls.dataTransport with
        | none => ⟨some Error.InvalidState, ioTransport, ioLocalPort, ioRemotePort, s⟩
        | some _ =>
          let localPort := ioLocalPort
          let remotePort := if ioRemotePort = 0 then localPort else ioRemotePort
          registerLocked w s transport localPort remotePort

/-- `SCTPTransportListener::announceTransport`. -/
def announceTransport (s : SCTPTransportListener) (transport : UseSCTPTransport)
    (localPort remotePort : Nat) : Outcome Unit :=
  if isShutdown s then ⟨(), s, []⟩
  else
    match mapFind s.mTransports (createTuple localPort remotePort) with
    | none => ⟨(), s, []⟩
    | some _ =>
      ⟨(),
        { s with
          mAnnouncedTransports := mapAssign s.mAnnouncedTransports transport.id transport },
        s.mSubscriptions.map (fun delegate => Call.onSCTPTransport delegate transport.id)⟩

/-- `SCTPTransportListener::notifyShutdown`. -/
def notifyShutdown (s : SCTPTransportListener) (transport : UseSCTPTransport)
    (localPort remotePort : Nat) : Outcome Unit :=
  if isShutdown s then ⟨(), s, []⟩
  else
    let tuple := createTuple localPort remotePort
    let s1 :=
      match mapFind s.mTransports tuple with
      | some registeredTransport =>
        if registeredTransport.id = transport.id then
          { s with
            mAllocatedLocalPorts := deallocatePort s.mAllocatedLocalPorts localPort
            mAllocatedRemotePorts := deallocatePort s.mAllocatedRemotePorts remotePort
            mTransports := mapErase s.mTransports tuple }
        else s
      | none => s
    let s2 := { s1 with mAnnouncedTransports := mapErase s1.mAnnouncedTransports transport.id }
    let s3 := { s2 with mPendingTransports := mapErase s2.mPendingTransports transport.id }
    ⟨(), s3, [Call.onWake]⟩

/-- Whether the round of the first loop of `cancel` for `entry` executes its last
statement: the association reports `isShutdown()` and `mAnnouncedTransports.find` of its
id is not `end()`.  The statement is `mPendingTransports.erase(found)` with `found` an
iterator of `mAnnouncedTransports`; erasing from one map through an iterator of another
has undefined behaviour. -/
def cancelVisitUndefined (w : Collaborators) (s : SCTPTransportListener)
    (entry : Nat × UseSCTPTransport) : Bool :=
  w.isShutdown entry.2.id && (mapFind s.mAnnouncedTransports entry.2.id).isSome

/-- One round of the first loop of `cancel`, for the entry `(tupleID, transport)` of
`mTransports`.  When the round executes its last statement (`cancelVisitUndefined`) the
behaviour of the code is undefined; the value given for that case is the listener as the
statements before it leave it, with `mPendingTransports` (from which the id has just
been removed) and `mAnnouncedTransports` untouched by that statement. -/
def cancelVisit (w : Collaborators) (acc : SCTPTransportListener × List Call)
    (entry : Nat × UseSCTPTransport) : SCTPTransportListener × List Call :=
  let s := acc.1
  let calls := acc.2 ++ [Call.notifyShutdown entry.2.id]
  if w.isShutdown entry.2.id then
    let localPort := (splitTuple entry.1).1
    let remotePort := (splitTuple entry.1).2
    let s1 :=
      { s with
        mAllocatedLocalPorts := deallocatePort s.mAllocatedLocalPorts localPort
        mAllocatedRemotePorts := deallocatePort s.mAllocatedRemotePorts remotePort
        mTransports := mapErase s.mTransports entry.1 }
    let s2 := { s1 with mPendingTransports := mapErase s1.mPendingTransports entry.2.id }
    let s3 :=
      match mapFind s2.mAnnouncedTransports entry.2.id with
      | some _ => { s2 with mPendingTransports := mapErase s2.mPendingTransports entry.2.id }
      | none => s2
    (s3, calls)
  else (s, calls)

/-- The final cleanup of `cancel`. -/
def cancelFinal (s : SCTPTransportListener) (calls : List Call) : Outcome Unit :=
  ⟨(),
    { s with
      mShutdown := true
      mSubscriptions := []
      mTransports := []
      mAllocatedLocalPorts := []
      mAllocatedRemotePorts := []
      mPendingTransports := []
      mAnnouncedTransports := []
      mGracefulShutdownReference := false },
    calls ++ s.mTransports.map (fun entry => Call.notifyShutdown entry.2.id)⟩

/-- `SCTPTransportListener::cancel`. -/
def cancel (w : Collaborators) (s : SCTPTransportListener) : Outcome Unit :=
  if isShutdown s then ⟨(), s, []⟩
  else
    let s0 :=
      if !s.mGracefulShutdownReference then
        { s with mGracefulShutdownReference := s.mThisWeak }
      else s
    if s0.mGracefulShutdownReference then
      match s0.mTransports.foldl (cancelVisit w) (s0, []) with
      | (s1, calls) =>
        if s1.mTransports.length > 0 then ⟨(), s1, calls⟩
        else cancelFinal s1 calls
    else cancelFinal s0 []

/-- Whether some round of the first loop of `cancel` over the entries `rest`, started on
the listener `s`, executes the statement with undefined behaviour; every round is
tested on the listener as the rounds before it left it. -/
def cancelLoopUndefined (w : Collaborators) :
    List (Nat × UseSCTPTransport) → SCTPTransportListener → Bool
  | [], _ => false
  | entry :: rest, s =>
    cancelVisitUndefined w s entry || cancelLoopUndefined w rest (cancelVisit w (s, []) entry).1

/-- Whether the call `cancel()` has undefined behaviour: it enters the first loop and
some round executes `mPendingTransports.erase(found)` with the iterator of
`mAnnouncedTransports`. -/
def cancelUndefined (w : Collaborators) (s : SCTPTransportListener) : Bool :=
  if isShutdown s then false
  else
    let s0 :=
      if !s.mGracefulShutdownReference then
        { s with mGracefulShutdownReference := s.mThisWeak }
      else s
    if s0.mGracefulShutdownReference then cancelLoopUndefined w s0.mTransports s0
    else false

/-- The call `cancel()` as a call that can fail: `none` when its behaviour is
undefined, the outcome of `cancel` otherwise. -/
def cancelChecked (w : Collaborators) (s : SCTPTransportListener) : Option (Outcome Unit) :=
  if cancelUndefined w s then none else some (cancel w s)

/-- `SCTPTransportListener::step`. -/
def step (w : Collaborators) (s : SCTPTransportListener) : Outcome Unit :=
  if isShuttingDown s || isShutdown s then cancel w s
  else ⟨(), s, []⟩

/-- `SCTPTransportListener::onWake`. -/
def onWake (w : Collaborators) (s : SCTPTransportListener) : Outcome Unit :=
  step w s

/-- `SCTPTransportListener::subscribe`; `originalDelegate` is `none` for a null
delegate, in which case the subscription carries no delegate. -/
def subscribe (s : SCTPTransportListener) (originalDelegate : Option Nat)
    (remoteCapabilities : Capabilities) : Outcome Unit :=
  let subscriptions :=
    match originalDelegate with
    | some delegate => s.mSubscriptions ++ [delegate]
    | none => s.mSubscriptions
  let started := s.mPendingTransports.map (fun entry => Call.start entry.2.id remoteCapabilities)
  let replayed : List Call :=
    match originalDelegate with
    | some delegate =>
      s.mAnnouncedTransports.map (fun entry => Call.onSCTPTransport delegate entry.2.id)
    | none => []
  let s1 :=
    { s with
      mSubscriptions := subscriptions
      mRemoteCapabilities := some remoteCapabilities
      mPendingTransports := [] }
  let s2 := if isShutdown s1 then { s1 with mSubscriptions := [] } else s1
  ⟨(), s2, started ++ replayed⟩

/-! ## Runs -/

/-- One call of a public operation with its arguments and, where the operation asks
them something, the answers of the collaborators during the call. -/
inductive Op where
  | handleDataPacket (w : Collaborators) (buffer : List BYTE)
  | registerNewTransport (w : Collaborators) (dtlsTransport : Option IDTLSTransport)
      (ioTransport : Option UseSCTPTransport) (ioLocalPort ioRemotePort : Nat)
  | announceTransport (transport : UseSCTPTransport) (localPort remotePort : Nat)
  | notifyShutdown (transport : UseSCTPTransport) (localPort remotePort : Nat)
  | subscribe (originalDelegate : Option Nat) (remoteCapabilities : Capabilities)
  | cancel (w : Collaborators)
  | onWake (w : Collaborators)

/-- The listener after the operation. -/
def Op.apply (s : SCTPTransportListener) : Op → SCTPTransportListener
  | Op.handleDataPacket w buffer => (Ortc.handleDataPacket w s buffer).state
  | Op.registerNewTransport w dtls io l r => (Ortc.registerNewTransport w s dtls io l r).state
  | Op.announceTransport t l r => (Ortc.announceTransport s t l r).state
  | Op.notifyShutdown t l r => (Ortc.notifyShutdown s t l r).state
  | Op.subscribe d caps => (Ortc.subscribe s d caps).state
  | Op.cancel w => (Ortc.cancel w s).state
  | Op.onWake w => (Ortc.onWake w s).state

/-- Port arguments are `WORD`s. -/
def Op.wellTyped : Op → Prop
  | Op.registerNewTransport _ _ _ l r => l < 65536 ∧ r < 65536
  | Op.announceTransport _ l r => l < 65536 ∧ r < 65536
  | Op.notifyShutdown _ l r => l < 65536 ∧ r < 65536
  | _ => True

/-- States reached from a freshly constructed listener by well-typed operations, each
of them satisfying `allowed` in the state it is applied to. -/
inductive ReachableBy (allowed : SCTPTransportListener → Op → Prop) :
    SCTPTransportListener → Prop where
  | fresh (mID secureTransport : Nat) (settings : Settings) (increment : Nat)
      (s : SCTPTransportListener)
      (h : construct mID secureTransport settings increment = some s) :
      ReachableBy allowed s
  | step (s : SCTPTransportListener) (op : Op) (hs : ReachableBy allowed s)
      (hty : op.wellTyped) (hop : allowed s op) : ReachableBy allowed (op.apply s)

/-- States reached from a freshly constructed listener by any sequence of operations. -/
def Reachable (s : SCTPTransportListener) : Prop :=
  ReachableBy (fun _ _ => True) s

/-! ## Packets as `handleDataPacket` reads them, scenario data -/

/-- The tuple id `handleDataPacket` computes for a packet. -/
def inboundTuple (buffer : List BYTE) : Nat :=
  (getLocalRemoteTuple buffer Directions.Direction_Incoming).1

/-- The local port `handleDataPacket` reads from a packet. -/
def inboundLocalPort (buffer : List BYTE) : Nat :=
  (getLocalRemoteTuple buffer Directions.Direction_Incoming).2.1

/-- The remote port `handleDataPacket` reads from a packet. -/
def inboundRemotePort (buffer : List BYTE) : Nat :=
  (getLocalRemoteTuple buffer Directions.Direction_Incoming).2.2

/-- Whether the listener is neither shutting down nor shut down. -/
def isRunning (s : SCTPTransportListener) : Bool :=
  !(isShuttingDown s || isShutdown s)

/-- Collaborators for the scenarios: the factory yields the association with id `1`, no
association is shutting down or shut down, every association accepts every packet. -/
def acceptingCollaborators : Collaborators :=
  { create := fun _ _ => some ⟨1⟩
    isShuttingDown := fun _ => false
    isShutdown := fun _ => false
    handleDataPacket := fun _ _ => true }

/-- The settings of scenario S1: at most `16383` ports, and the minimum, maximum and
default port that `applyDefaults` sets. -/
def scenarioSettings : Settings :=
  { listenerMaxPorts := 16383
    listenerMinPort := 5000
    listenerMaxPort := 65535
    listenerDefaultPort := 5000 }

/-- The freshly constructed listener of scenario S1, with id `1` on secure transport `2`. -/
def scenarioListener : SCTPTransportListener :=
  { mID := 1
    mThisWeak := true
    mGracefulShutdownReference := false
    mSubscriptions := []
    mShutdown := false
    mSecureTransport := 2
    mRemoteCapabilities := none
    mTransports := []
    mPendingTransports := []
    mAnnouncedTransports := []
    mAllocatedLocalPorts := []
    mAllocatedRemotePorts := []
    mMaxPorts := 16383
    mCurrentAllocationPort := 5000
    mMinAllocationPort := 5000
    mMaxAllocationPort := 65535
    mNextAllocationIncremement := 1 }

/-- The secure transport `2`, served by listener `1`. -/
def scenarioDTLS : IDTLSTransport :=
  { id := 2, isSecureTransport := true, dataTransport := some 1 }

/-- The packet of scenario S1: source port 5000, destination port 5001. -/
def scenarioPacket : List BYTE :=
  [0x13, 0x88, 0x13, 0x89, 0, 0, 0, 0]

/-- Collaborators like `acceptingCollaborators` whose factory yields the association
with id `2`. -/
def secondCollaborators : Collaborators :=
  { acceptingCollaborators with create := fun _ _ => some ⟨2⟩ }

/-- The listener of scenario S1 constructed with `listenerMaxPorts = 1`. -/
def cappedListener : SCTPTransportListener :=
  { scenarioListener with mMaxPorts := 1 }

/-- A freshly constructed listener whose settings put the allocation cursor on port 0
(minimum port 0, default port 0, maximum port 65535). -/
def zeroPortListener : SCTPTransportListener :=
  { scenarioListener with mCurrentAllocationPort := 0, mMinAllocationPort := 0 }

/-- Operations that add an entry to `mTransports` without consulting `mMaxPorts`: a
`handleDataPacket` that creates an association and a `registerNewTransport` with an
explicit local port that stores one. -/
def addsUncapped (s : SCTPTransportListener) : Op → Prop
  | Op.handleDataPacket w buffer =>
    s.mTransports.length < (handleDataPacket w s buffer).state.mTransports.length
  | Op.registerNewTransport w dtls io l r =>
    l ≠ 0 ∧ s.mTransports.length < (registerNewTransport w s dtls io l r).state.mTransports.length
  | _ => False

/-- The operations named by the reference-count property: `handleDataPacket`,
`registerNewTransport` and `notifyShutdown`. -/
def countingOp : Op → Prop
  | Op.handleDataPacket _ _ => True
  | Op.registerNewTransport _ _ _ _ _ => True
  | Op.notifyShutdown _ _ _ => True
  | _ => False

/-! ## Consistency of the tables -/

/-- Number of entries of a transport map whose tuple has local port `port`. -/
def tuplesWithLocalPort (m : List (Nat × UseSCTPTransport)) (port : Nat) : Nat :=
  m.countP (fun e => decide ((splitTuple e.1).1 = port))

/-- Number of entries of a transport map whose tuple has remote port `port`. -/
def tuplesWithRemotePort (m : List (Nat × UseSCTPTransport)) (port : Nat) : Nat :=
  m.countP (fun e => decide ((splitTuple e.1).2 = port))

/-- What every reachable listener satisfies: `mTransports` has the shape of a
`std::map`, never holds the zero tuple, every port is counted at least as often as
tuples use it, and the allocation cursor is a `WORD`. -/
structure Consistent (s : SCTPTransportListener) : Prop where
  sorted : mapSorted s.mTransports
  noZero : mapFind s.mTransports 0 = none
  localCounted : ∀ p, tuplesWithLocalPort s.mTransports p ≤ portCount s.mAllocatedLocalPorts p
  remoteCounted : ∀ p,
    tuplesWithRemotePort s.mTransports p ≤ portCount s.mAllocatedRemotePorts p
  cursor : s.mCurrentAllocationPort < 65536

/-- States reached from the listener `s0` by well-typed operations satisfying
`allowed`. -/
inductive ReachableFrom (s0 : SCTPTransportListener) (allowed : Op → Prop) :
    SCTPTransportListener → Prop where
  | start : ReachableFrom s0 allowed s0
  | step (s : SCTPTransportListener) (op : Op) (hs : ReachableFrom s0 allowed s)
      (hty : op.wellTyped) (hop : allowed op) : ReachableFrom s0 allowed (op.apply s)

/-- A consistent listener whose counts equal the number of tuples using each port and
whose allocation cursor cannot be port 0. -/
structure ExactCounts (s : SCTPTransportListener) : Prop where
  consistent : Consistent s
  localExact : ∀ p, tuplesWithLocalPort s.mTransports p = portCount s.mAllocatedLocalPorts p
  remoteExact : ∀ p,
    tuplesWithRemotePort s.mTransports p = portCount s.mAllocatedRemotePorts p
  cursorPos : s.mCurrentAllocationPort ≠ 0
  minPort : 1 ≤ s.mMinAllocationPort ∧ s.mMinAllocationPort ≤ 65534

/-- A secure transport with id `99` served by another listener, with id `5`. -/
def foreignDTLS : IDTLSTransport :=
  { id := 99, isSecureTransport := true, dataTransport := some 5 }

/-- A secure transport that has no data transport. -/
def detachedDTLS : IDTLSTransport :=
  { id := 2, isSecureTransport := true, dataTransport := none }

/-- The remote capabilities of scenario S2. -/
def scenarioCapabilities : Capabilities :=
  { mMaxMessageSize := 16384
    mMinPort := 5000
    mMaxPort := 65535
    mMaxUsablePorts := 16383
    mMaxSessionsPerPort := 1 }

/-- The listener of scenario S1 constructed with maximum port 5000, so that port 5000
is the only port of the allocation range. -/
def singlePortListener : SCTPTransportListener :=
  { scenarioListener with mMaxAllocationPort := 5000 }

/-- The pending and the announced map have the shape of a `std::map` and file every
association under its own id. -/
structure Keyed (s : SCTPTransportListener) : Prop where
  pendingSorted : mapSorted s.mPendingTransports
  pendingKeys : ∀ e ∈ s.mPendingTransports, e.1 = e.2.id
  announcedSorted : mapSorted s.mAnnouncedTransports
  announcedKeys : ∀ e ∈ s.mAnnouncedTransports, e.1 = e.2.id

/-- Operations that cannot put an id into both `mPendingTransports` and
`mAnnouncedTransports`: the factory asked by `handleDataPacket` yields no association
whose id is announced, and `announceTransport` is not called for an association whose
id is pending. -/
def keepsApart (s : SCTPTransportListener) : Op → Prop
  | Op.handleDataPacket w buffer =>
    ∀ t, w.create (inboundLocalPort buffer) (inboundRemotePort buffer) = some t →
      mapFind s.mAnnouncedTransports t.id = none
  | Op.announceTransport t _ _ => mapFind s.mPendingTransports t.id = none
  | _ => True

/-- No id is a key of both `mPendingTransports` and `mAnnouncedTransports`. -/
def Apart (s : SCTPTransportListener) : Prop :=
  ∀ id, mapFind s.mPendingTransports id = none ∨ mapFind s.mAnnouncedTransports id = none

/-- Collaborators like `acceptingCollaborators` whose associations all report
`isShutdown()` once notified. -/
def obligingCollaborators : Collaborators :=
  { acceptingCollaborators with isShutdown := fun _ => true }

/-- The listener after a sequence of operations. -/
def runOps (s : SCTPTransportListener) (ops : List Op) : SCTPTransportListener :=
  ops.foldl Op.apply s

/-- A `cancel` or wake pass during which the association with id `id` reports that it
is not shut down. -/
def refusingPass (id : Nat) : Op → Prop
  | Op.cancel w => w.isShutdown id = false
  | Op.onWake w => w.isShutdown id = false
  | _ => False

/-- A listener whose `mShutdown` is set holds nothing: no association, no pending or
announced association, no counted port, no subscription. -/
def Drained (s : SCTPTransportListener) : Prop :=
  s.mShutdown = true →
    s.mTransports = [] ∧ s.mPendingTransports = [] ∧ s.mAnnouncedTransports = [] ∧
      s.mAllocatedLocalPorts = [] ∧ s.mAllocatedRemotePorts = [] ∧ s.mSubscriptions = []

/-- Operations other than a packet delivered to a listener whose `mShutdown` is set. -/
def packetWhileOpen (s : SCTPTransportListener) : Op → Prop
  | Op.handleDataPacket _ _ => s.mShutdown = false
  | _ => True

/-- The listener of scenario S1 after the association `5` was registered on ports
`(7000, 8000)` and the association `3` on ports `(7001, 8001)`, and then `5` was
announced before `3`. -/
def lateAnnouncedListener : SCTPTransportListener :=
  (announceTransport
    (announceTransport
      (registerNewTransport acceptingCollaborators
        (registerNewTransport acceptingCollaborators scenarioListener (some scenarioDTLS)
          (some ⟨5⟩) 7000 8000).state
        (some scenarioDTLS) (some ⟨3⟩) 7001 8001).state
      ⟨5⟩ 7000 8000).state
    ⟨3⟩ 7001 8001).state

/-- The cursor after one rejected candidate according to the one-test rule: with
`c = mCurrentAllocationPort + mNextAllocationIncremement` in 16-bit arithmetic, `c`
itself when it lies in `[mMinAllocationPort, mMaxAllocationPort]` and
`mMinAllocationPort + (c mod 2)` otherwise. -/
def wrappedOnce (s : SCTPTransportListener) : Nat :=
  let c := (s.mCurrentAllocationPort + s.mNextAllocationIncremement) % 65536
  if s.mMinAllocationPort ≤ c ∧ c ≤ s.mMaxAllocationPort then c
  else s.mMinAllocationPort + c % 2

/-- The settings of scenario S4: ports `5000..5003`, default port `5002`. -/
def wrapSettings : Settings :=
  { listenerMaxPorts := 16383
    listenerMinPort := 5000
    listenerMaxPort := 5003
    listenerDefaultPort := 5002 }

/-- The freshly constructed listener of scenario S4 (allocation step `2`). -/
def wrapListener : SCTPTransportListener :=
  { scenarioListener with
    mCurrentAllocationPort := 5002
    mMinAllocationPort := 5000
    mMaxAllocationPort := 5003
    mNextAllocationIncremement := 2 }

/-- Settings with the one-port range `5001..5001` and default port `4`. -/
def oddRangeSettings : Settings :=
  { listenerMaxPorts := 16383
    listenerMinPort := 5001
    listenerMaxPort := 5001
    listenerDefaultPort := 4 }

/-- The listener constructed from `oddRangeSettings` (allocation step `1`) after the
association `7` was registered on the explicit ports `(4, 8000)`. -/
def oddRangeListener : SCTPTransportListener :=
  (registerNewTransport acceptingCollaborators
    { scenarioListener with
      mCurrentAllocationPort := 4
      mMinAllocationPort := 5001
      mMaxAllocationPort := 5001 }
    (some scenarioDTLS) (some ⟨7⟩) 4 8000).state

/-- Every count stored in a map of port counts is at least 1. -/
def countsPositive (useMap : List (Nat × Nat)) : Prop :=
  ∀ e ∈ useMap, 1 ≤ e.2

/-- The candidates the loop of `allocateLocalPort` tests, in the order it tests them,
with `maxSearching` still to spend: the cursor values at which the two `find` tests at
the head of the loop body are run. -/
def allocateLocalPortCandidates (remotePort : Nat) :
    Nat → SCTPTransportListener → List Nat
  | 0, s => [s.mCurrentAllocationPort]
  | maxSearching + 1, s =>
    if portTaken s remotePort then
      s.mCurrentAllocationPort :: allocateLocalPortCandidates remotePort maxSearching (nextPort s)
    else [s.mCurrentAllocationPort]

/-- The candidates one call `allocateLocalPort(remotePort)` tests. -/
def candidatesExamined (s : SCTPTransportListener) (remotePort : Nat) : List Nat :=
  allocateLocalPortCandidates remotePort
    ((s.mMaxAllocationPort + 65536 - s.mMinAllocationPort) % 65536) s

/-- Whether `allocateLocalPort(remotePort)` would accept the port `port` as a candidate:
it has no entry in `mAllocatedLocalPorts` and, when `remotePort` is `0`, none in
`mAllocatedRemotePorts`. -/
def portAcceptable (s : SCTPTransportListener) (remotePort port : Nat) : Bool :=
  !portTaken { s with mCurrentAllocationPort := port } remotePort

/-- Settings with the range `5000..5002` and default port `5001`. -/
def evenMaxSettings : Settings :=
  { listenerMaxPorts := 16383
    listenerMinPort := 5000
    listenerMaxPort := 5002
    listenerDefaultPort := 5001 }

/-- The listener constructed from `evenMaxSettings` with allocation step `1`. -/
def evenMaxListener : SCTPTransportListener :=
  { scenarioListener with
    mCurrentAllocationPort := 5001
    mMinAllocationPort := 5000
    mMaxAllocationPort := 5002 }

/-- Settings of a listener with the one-port range `5000..5000`. -/
def singlePortSettings : Settings :=
  { scenarioSettings with listenerMaxPort := 5000 }

/-- Collaborators among which only the association `7` has shut down. -/
def partialCollaborators : Collaborators :=
  { acceptingCollaborators with isShutdown := fun id => decide (id = 7) }

/-- The listener of scenario S1 after the association `7` was registered on ports
`(7000, 8000)` and the association `8` on ports `(7001, 8001)`, and `7` was announced. -/
def announcedPairListener : SCTPTransportListener :=
  (announceTransport
    (registerNewTransport acceptingCollaborators
      (registerNewTransport acceptingCollaborators scenarioListener (some scenarioDTLS)
        (some ⟨7⟩) 7000 8000).state
      (some scenarioDTLS) (some ⟨8⟩) 7001 8001).state
    ⟨7⟩ 7000 8000).state

/-- The calls the listener makes during the operation. -/
def Op.calls (s : SCTPTransportListener) : Op → List Call
  | Op.handleDataPacket w buffer => (Ortc.handleDataPacket w s buffer).calls
  | Op.registerNewTransport _ _ _ _ _ => []
  | Op.announceTransport t l r => (Ortc.announceTransport s t l r).calls
  | Op.notifyShutdown t l r => (Ortc.notifyShutdown s t l r).calls
  | Op.subscribe d caps => (Ortc.subscribe s d caps).calls
  | Op.cancel w => (Ortc.cancel w s).calls
  | Op.onWake w => (Ortc.onWake w s).calls

/-- The id of the association the operation obtains from the factory: only
`handleDataPacket` asks the factory, for a packet of at least four octets whose tuple
is not zero and not in `mTransports`. -/
def Op.created (s : SCTPTransportListener) : Op → Option Nat
  | Op.handleDataPacket w buffer =>
    if buffer.length < 4 then none
    else if inboundTuple buffer = 0 then none
    else
      match mapFind s.mTransports (inboundTuple buffer) with
      | some _ => none
      | none =>
        match w.create (inboundLocalPort buffer) (inboundRemotePort buffer) with
        | some transport => some transport.id
        | none => none
  | _ => none

/-- The calls made over a sequence of operations, in order. -/
def runCalls : SCTPTransportListener → List Op → List Call
  | _, [] => []
  | s, op :: ops => op.calls s ++ runCalls (op.apply s) ops

/-- The ids of the associations the factory yields over a sequence of operations, in
order. -/
def createdIds : SCTPTransportListener → List Op → List Nat
  | _, [] => []
  | s, op :: ops => (op.created s).toList ++ createdIds (op.apply s) ops

/-- The associations on which `start` is called in a list of calls, in order. -/
def startedIds (calls : List Call) : List Nat :=
  calls.filterMap (fun c =>
    match c with
    | Call.start transport _ => some transport
    | _ => none)

/-- What a run keeps about `start` calls, for the ids `created` the factory has yielded
so far and the ids `started` on which `start` was called so far: the pending map has
the shape of a `std::map`, files every association under its own id and holds created
ids only; no id was started twice; every started id was created and is not pending. -/
structure StartLedger (s : SCTPTransportListener) (created started : List Nat) : Prop where
  pendingSorted : mapSorted s.mPendingTransports
  pendingKeys : ∀ e ∈ s.mPendingTransports, e.1 = e.2.id
  pendingCreated : ∀ e ∈ s.mPendingTransports, e.1 ∈ created
  startedOnce : started.Nodup
  startedCreated : ∀ t ∈ started, t ∈ created
  startedGone : ∀ t ∈ started, mapFind s.mPendingTransports t = none

/-- Whether the operation has undefined behaviour on the listener `s`: a `cancel()`, or
a wake pass that runs `cancel()`, which executes the statement `cancelVisitUndefined`
describes. -/
def Op.undefined (s : SCTPTransportListener) : Op → Bool
  | Op.cancel w => cancelUndefined w s
  | Op.onWake w => (isShuttingDown s || isShutdown s) && cancelUndefined w s
  | _ => false

/-- The listener after a sequence of operations, `none` when one of them has undefined
behaviour. -/
def runChecked : SCTPTransportListener → List Op → Option SCTPTransportListener
  | s, [] => some s
  | s, op :: ops => if op.undefined s then none else runChecked (op.apply s) ops

/-- The listener of scenario S1 after the association `7` was registered on ports
`(7000, 8000)` and announced. -/
def announcedListener : SCTPTransportListener :=
  (announceTransport
    (registerNewTransport acceptingCollaborators scenarioListener (some scenarioDTLS)
      (some ⟨7⟩) 7000 8000).state
    ⟨7⟩ 7000 8000).state

/-! ## Lemmas on maps and reference counts -/

theorem mapFind_mapAssign {β : Type} (m : List (Nat × β)) (k : Nat) (v : β) (q : Nat) :
    mapFind (mapAssign m k v) q = if q = k then some v else mapFind m q := by
  induction m with
  | nil =>
    by_cases h : q = k
    · simp [mapAssign, mapFind, h]
    · have h2 : ¬ k = q := fun e => h e.symm
      simp [mapAssign, mapFind, h, h2]
  | cons e m ih =>
    obtain ⟨k1, v1⟩ := e
    unfold mapAssign
    by_cases h1 : k < k1
    · simp only [h1, if_true, mapFind]
      by_cases h : q = k
      · simp [h]
      · have h2 : ¬ k = q := fun e => h e.symm
        simp [h, h2]
    · by_cases h2 : k = k1
      · subst h2
        simp only [lt_irrefl, if_false, if_true, mapFind]
        by_cases h : q = k
        · simp [h]
        · have h3 : ¬ k = q := fun e => h e.symm
          simp [h, h3]
      · simp only [h1, h2, if_false, mapFind, ih]
        by_cases h : q = k
        · have h3 : ¬ k1 = q := fun e => h2 (by omega)
          simp [h, h3]
          intro h4; omega
        · simp [h]

theorem mapFind_mapErase {β : Type} (m : List (Nat × β)) (k q : Nat) :
    mapFind (mapErase m k) q = if q = k then none else mapFind m q := by
  induction m with
  | nil => simp [mapErase, mapFind]
  | cons e m ih =>
    obtain ⟨k1, v1⟩ := e
    unfold mapErase at ih ⊢
    by_cases h1 : k1 = k
    · subst h1
      simp only [List.filter, ne_eq, not_true_eq_false, decide_False, ih, mapFind]
      by_cases h : q = k1
      · simp [h]
      · have h3 : ¬ k1 = q := fun e => h e.symm
        simp [h, h3]
    · simp only [List.filter, ne_eq, h1, not_false_eq_true, decide_True, mapFind, ih]
      by_cases h : q = k
      · have h3 : ¬ k1 = q := fun e => h1 (by omega)
        simp [h, h3]
        intro h4; omega
      · simp [h]

theorem mapAssign_perm {β : Type} (m : List (Nat × β)) (k : Nat) (v : β)
    (h : mapFind m k = none) : (mapAssign m k v).Perm ((k, v) :: m) := by
  induction m with
  | nil => simp [mapAssign]
  | cons e m ih =>
    obtain ⟨k1, v1⟩ := e
    unfold mapAssign
    unfold mapFind at h
    by_cases h1 : k < k1
    · simp [h1]
    · have h2 : ¬ k1 = k := by
        intro e
        simp [e] at h
      have h3 : ¬ k = k1 := fun e => h2 e.symm
      simp only [h2, if_false] at h
      simp only [h1, h3, if_false]
      exact ((ih h).cons (k1, v1)).trans (List.Perm.swap _ _ _)

theorem mapFind_mem {β : Type} (m : List (Nat × β)) (k : Nat) (v : β)
    (h : mapFind m k = some v) : (k, v) ∈ m := by
  induction m with
  | nil => simp [mapFind] at h
  | cons e m ih =>
    obtain ⟨k1, v1⟩ := e
    unfold mapFind at h
    by_cases h1 : k1 = k
    · simp only [h1, if_true, Option.some.injEq] at h
      simp [h1, h]
    · simp only [h1, if_false] at h
      exact List.mem_cons_of_mem _ (ih h)

theorem mapFind_none_iff {β : Type} (m : List (Nat × β)) (k : Nat) :
    mapFind m k = none ↔ ∀ e ∈ m, e.1 ≠ k := by
  induction m with
  | nil => simp [mapFind]
  | cons e m ih =>
    obtain ⟨k1, v1⟩ := e
    unfold mapFind
    by_cases h1 : k1 = k
    · simp [h1]
    · simp [h1, ih]

theorem mem_mapAssign {β : Type} (m : List (Nat × β)) (k : Nat) (v : β) (e : Nat × β)
    (h : e ∈ mapAssign m k v) : e = (k, v) ∨ e ∈ m := by
  induction m with
  | nil => simpa [mapAssign] using h
  | cons e1 m ih =>
    obtain ⟨k1, v1⟩ := e1
    unfold mapAssign at h
    by_cases h1 : k < k1
    · simp only [h1, if_true, List.mem_cons] at h
      simpa using h
    · by_cases h2 : k = k1
      · simp only [h1, h2, lt_irrefl, if_false, if_true, List.mem_cons] at h
        rcases h with h | h
        · exact Or.inl (by rw [h, h2])
        · exact Or.inr (List.mem_cons_of_mem _ h)
      · simp only [h1, h2, if_false, List.mem_cons] at h
        rcases h with h | h
        · exact Or.inr (by simp [h])
        · rcases ih h with h3 | h3
          · exact Or.inl h3
          · exact Or.inr (List.mem_cons_of_mem _ h3)

theorem mapSorted_mapErase {β : Type} (m : List (Nat × β)) (k : Nat) (h : mapSorted m) :
    mapSorted (mapErase m k) := by
  unfold mapSorted at h ⊢
  unfold mapErase
  exact List.Pairwise.sublist ((List.filter_sublist m).map Prod.fst) h

theorem mapSorted_mapAssign {β : Type} (m : List (Nat × β)) (k : Nat) (v : β)
    (h : mapSorted m) : mapSorted (mapAssign m k v) := by
  induction m with
  | nil => simp [mapAssign, mapSorted]
  | cons e m ih =>
    obtain ⟨k1, v1⟩ := e
    unfold mapSorted at h ih ⊢
    simp only [List.map_cons, List.pairwise_cons] at h
    unfold mapAssign
    by_cases h1 : k < k1
    · simp only [h1, if_true, List.map_cons, List.pairwise_cons]
      refine ⟨?_, h.1, h.2⟩
      intro a ha
      rcases List.mem_cons.1 ha with ha | ha
      · omega
      · have := h.1 a ha
        omega
    · by_cases h2 : k = k1
      · subst h2
        simp only [lt_irrefl, if_false, if_true, List.map_cons, List.pairwise_cons]
        exact h
      · simp only [h1, h2, if_false, List.map_cons, List.pairwise_cons]
        refine ⟨?_, ih h.2⟩
        intro a ha
        rcases List.mem_map.1 ha with ⟨e, he, rfl⟩
        rcases mem_mapAssign m k v e he with hp | hp
        · rw [hp]
          show k1 < k
          omega
        · exact h.1 e.1 (List.mem_map.2 ⟨e, hp, rfl⟩)

theorem portCount_allocatePort (m : List (Nat × Nat)) (p q : Nat) :
    portCount (allocatePort m p) q = portCount m q + (if q = p then 1 else 0) := by
  unfold portCount allocatePort
  cases h : mapFind m p with
  | none =>
    simp only [mapFind_mapAssign]
    by_cases hq : q = p
    · simp [hq, h]
    · simp [hq]
  | some total =>
    simp only [mapFind_mapAssign]
    by_cases hq : q = p
    · simp [hq, h]
    · simp [hq]

theorem portCount_deallocatePort (m : List (Nat × Nat)) (p q : Nat) :
    portCount (deallocatePort m p) q = if q = p then portCount m p - 1 else portCount m q := by
  unfold portCount deallocatePort
  cases h : mapFind m p with
  | none =>
    by_cases hq : q = p
    · simp [hq, h]
    · simp [hq]
  | some total =>
    by_cases ht : total - 1 ≠ 0
    · show (mapFind (if total - 1 ≠ 0 then mapAssign m p (total - 1) else mapErase m p) q).getD 0 = _
      rw [if_pos ht]
      simp only [mapFind_mapAssign]
      by_cases hq : q = p
      · simp [hq]
      · simp [hq]
    · show (mapFind (if total - 1 ≠ 0 then mapAssign m p (total - 1) else mapErase m p) q).getD 0 = _
      rw [if_neg ht]
      simp only [mapFind_mapErase]
      by_cases hq : q = p
      · simp only [hq, if_true, Option.getD_none, Option.getD_some]
        omega
      · simp [hq]

theorem mapFind_allocatePort_isSome (m : List (Nat × Nat)) (p : Nat) :
    (mapFind (allocatePort m p) p).isSome = true := by
  unfold allocatePort
  cases h : mapFind m p <;> simp [mapFind_mapAssign]

/-! ## Lemmas on the packet path -/

theorem exists_cons4 (packet : List BYTE) (h : 4 ≤ packet.length) :
    ∃ b0 b1 b2 b3 rest, packet = b0 :: b1 :: b2 :: b3 :: rest := by
  match packet, h with
  | b0 :: b1 :: b2 :: b3 :: rest, _ => exact ⟨b0, b1, b2, b3, rest, rfl⟩

theorem getLocalRemoteTuple_short (packet : List BYTE) (h : packet.length < 4)
    (d : Directions) : getLocalRemoteTuple packet d = (0, 0, 0) := by
  match packet, h with
  | [], _ => rfl
  | [_], _ => rfl
  | [_, _], _ => rfl
  | [_, _, _], _ => rfl

theorem createTuple_eq_zero (l r : Nat) : createTuple l r = 0 ↔ l = 0 ∧ r = 0 := by
  unfold createTuple
  omega

theorem handleDataPacket_short (w : Collaborators) (s : SCTPTransportListener)
    (buffer : List BYTE) (h : buffer.length < 4) :
    handleDataPacket w s buffer = ⟨false, s, []⟩ := by
  unfold handleDataPacket
  rw [if_pos h]

theorem handleDataPacket_zero (w : Collaborators) (s : SCTPTransportListener)
    (buffer : List BYTE)
    (h0 : (getLocalRemoteTuple buffer Directions.Direction_Incoming).1 = 0) :
    handleDataPacket w s buffer = ⟨false, s, []⟩ := by
  unfold handleDataPacket
  split
  · rfl
  · split
    rename_i t l r heq
    rw [heq] at h0
    simp only at h0
    rw [if_pos h0]

theorem handleDataPacket_known (w : Collaborators) (s : SCTPTransportListener)
    (buffer : List BYTE) (transport : UseSCTPTransport) (h4 : 4 ≤ buffer.length)
    (h0 : (getLocalRemoteTuple buffer Directions.Direction_Incoming).1 ≠ 0)
    (hf : mapFind s.mTransports (getLocalRemoteTuple buffer Directions.Direction_Incoming).1 =
      some transport) :
    handleDataPacket w s buffer =
      ⟨w.handleDataPacket transport.id buffer, s,
        [Call.handleDataPacket transport.id buffer]⟩ := by
  unfold handleDataPacket
  rw [if_neg (by omega)]
  split
  rename_i t l r heq
  rw [heq] at h0 hf
  simp only at h0 hf
  rw [if_neg h0]
  simp only [hf]

theorem handleDataPacket_createFails (w : Collaborators) (s : SCTPTransportListener)
    (buffer : List BYTE) (h4 : 4 ≤ buffer.length)
    (h0 : (getLocalRemoteTuple buffer Directions.Direction_Incoming).1 ≠ 0)
    (hf : mapFind s.mTransports (getLocalRemoteTuple buffer Directions.Direction_Incoming).1 =
      none)
    (hc : w.create (getLocalRemoteTuple buffer Directions.Direction_Incoming).2.1
      (getLocalRemoteTuple buffer Directions.Direction_Incoming).2.2 = none) :
    handleDataPacket w s buffer =
      ⟨false, s, [Call.create (getLocalRemoteTuple buffer Directions.Direction_Incoming).2.1
        (getLocalRemoteTuple buffer Directions.Direction_Incoming).2.2]⟩ := by
  unfold handleDataPacket
  rw [if_neg (by omega)]
  split
  rename_i t l r heq
  rw [heq] at h0 hf hc
  simp only at h0 hf hc
  rw [if_neg h0]
  simp only [hf, hc, heq]

theorem handleDataPacket_creates (w : Collaborators) (s : SCTPTransportListener)
    (buffer : List BYTE) (transport : UseSCTPTransport) (h4 : 4 ≤ buffer.length)
    (h0 : (getLocalRemoteTuple buffer Directions.Direction_Incoming).1 ≠ 0)
    (hf : mapFind s.mTransports (getLocalRemoteTuple buffer Directions.Direction_Incoming).1 =
      none)
    (hc : w.create (getLocalRemoteTuple buffer Directions.Direction_Incoming).2.1
      (getLocalRemoteTuple buffer Directions.Direction_Incoming).2.2 = some transport) :
    handleDataPacket w s buffer =
      ⟨w.handleDataPacket transport.id buffer,
        { s with
          mPendingTransports :=
            match s.mRemoteCapabilities with
            | some _ => s.mPendingTransports
            | none => mapAssign s.mPendingTransports transport.id transport
          mAllocatedLocalPorts := allocatePort s.mAllocatedLocalPorts
            (getLocalRemoteTuple buffer Directions.Direction_Incoming).2.1
          mAllocatedRemotePorts := allocatePort s.mAllocatedRemotePorts
            (getLocalRemoteTuple buffer Directions.Direction_Incoming).2.2
          mTransports := mapAssign s.mTransports
            (getLocalRemoteTuple buffer Directions.Direction_Incoming).1 transport },
        [Call.create (getLocalRemoteTuple buffer Directions.Direction_Incoming).2.1
            (getLocalRemoteTuple buffer Directions.Direction_Incoming).2.2] ++
          (match s.mRemoteCapabilities with
            | some caps => [Call.start transport.id caps]
            | none => []) ++
          [Call.handleDataPacket transport.id buffer]⟩ := by
  unfold handleDataPacket
  rw [if_neg (by omega)]
  split
  rename_i t l r heq
  rw [heq] at h0 hf hc
  simp only at h0 hf hc
  rw [if_neg h0]
  simp only [hf, hc, heq]

theorem getLocalRemoteTuple_zero_iff (buffer : List BYTE) (d : Directions) :
    (getLocalRemoteTuple buffer d).1 = 0 ↔
      (buffer.length < 4 ∨ buffer.take 4 = [0, 0, 0, 0]) := by
  by_cases h : buffer.length < 4
  · simp [getLocalRemoteTuple_short buffer h d, h]
  · obtain ⟨b0, b1, b2, b3, rest, rfl⟩ := exists_cons4 buffer (by omega)
    have e0 : ∀ b : BYTE, b = 0 ↔ b.val = 0 := fun b => by
      constructor
      · intro hb; rw [hb]; rfl
      · intro hb; exact Fin.ext hb
    cases d <;>
      simp only [getLocalRemoteTuple, createTuple_eq_zero, List.length_cons, List.take_succ_cons,
        List.take_zero, List.cons.injEq, and_true, e0] <;> omega

/-! ## Claims about the packet path -/

/-- C6: for a packet of at least four octets, with source port `256 * b[0] + b[1]` and
destination port `256 * b[2] + b[3]`, the incoming classification reports local =
destination and remote = source, the outgoing one local = source and remote =
destination, the returned tuple is `createTuple` of the reported pair, and two packets
with the same first four octets are classified alike. -/
theorem getLocalRemoteTuple_classifies (packet : List BYTE) (h : 4 ≤ packet.length) :
    (getLocalRemoteTuple packet Directions.Direction_Incoming =
        (createTuple (256 * (packet.getD 2 0).val + (packet.getD 3 0).val)
            (256 * (packet.getD 0 0).val + (packet.getD 1 0).val),
          256 * (packet.getD 2 0).val + (packet.getD 3 0).val,
          256 * (packet.getD 0 0).val + (packet.getD 1 0).val)) ∧
    (getLocalRemoteTuple packet Directions.Direction_Outgoing =
        (createTuple (256 * (packet.getD 0 0).val + (packet.getD 1 0).val)
            (256 * (packet.getD 2 0).val + (packet.getD 3 0).val),
          256 * (packet.getD 0 0).val + (packet.getD 1 0).val,
          256 * (packet.getD 2 0).val + (packet.getD 3 0).val)) ∧
    (∀ (other : List BYTE) (d : Directions), other.take 4 = packet.take 4 →
        getLocalRemoteTuple other d = getLocalRemoteTuple packet d) := by
  obtain ⟨b0, b1, b2, b3, rest, rfl⟩ := exists_cons4 packet h
  refine ⟨rfl, rfl, ?_⟩
  intro other d ho
  match other, ho with
  | c0 :: c1 :: c2 :: c3 :: rest2, ho =>
    simp only [List.take_succ_cons, List.take_zero, List.cons.injEq, and_true] at ho
    obtain ⟨h0, h1, h2, h3⟩ := ho
    subst h0 h1 h2 h3
    cases d <;> rfl
  | [], ho => simp at ho
  | [_], ho => simp at ho
  | [_, _], ho => simp at ho
  | [_, _, _], ho => simp at ho

/-- Witness of C6 on the packet of scenario S1 (source 5000, destination 5001). -/
theorem getLocalRemoteTuple_classifies_witness :
    4 ≤ scenarioPacket.length ∧
    getLocalRemoteTuple scenarioPacket Directions.Direction_Incoming =
      (createTuple 5001 5000, 5001, 5000) ∧
    getLocalRemoteTuple scenarioPacket Directions.Direction_Outgoing =
      (createTuple 5000 5001, 5000, 5001) ∧
    getLocalRemoteTuple [0x13, 0x88, 0x13, 0x89, 7, 7] Directions.Direction_Incoming =
      getLocalRemoteTuple scenarioPacket Directions.Direction_Incoming :=
  ⟨by decide,
    (getLocalRemoteTuple_classifies scenarioPacket (by decide)).1,
    (getLocalRemoteTuple_classifies scenarioPacket (by decide)).2.1,
    (getLocalRemoteTuple_classifies scenarioPacket (by decide)).2.2
      [0x13, 0x88, 0x13, 0x89, 7, 7] Directions.Direction_Incoming (by decide)⟩

/-- C7 as stated fails: the four-octet packet `00 00 00 00` is classified with the
zero tuple, the value a too-short packet gets, and `handleDataPacket` returns `false`
for it without asking the factory or any association, although here the factory would
succeed and the association would accept the packet. -/
theorem handleDataPacket_rejects_zero_ports :
    4 ≤ ([0, 0, 0, 0] : List BYTE).length ∧
    getLocalRemoteTuple [0, 0, 0, 0] Directions.Direction_Incoming =
      getLocalRemoteTuple [] Directions.Direction_Incoming ∧
    (handleDataPacket acceptingCollaborators scenarioListener [0, 0, 0, 0]).ret = false ∧
    (handleDataPacket acceptingCollaborators scenarioListener [0, 0, 0, 0]).calls = [] := by
  decide

/-- C7 amended: in either direction the classification returns the zero tuple exactly
when the packet is shorter than four octets or its two port fields are both zero;
exactly for those packets `handleDataPacket` makes no call to the factory or to an
association, and for them it returns `false` and leaves the listener as it was. -/
theorem handleDataPacket_invalid_iff (w : Collaborators) (s : SCTPTransportListener)
    (buffer : List BYTE) :
    (∀ d : Directions, (getLocalRemoteTuple buffer d).1 = 0 ↔
        (buffer.length < 4 ∨ buffer.take 4 = [0, 0, 0, 0])) ∧
    ((handleDataPacket w s buffer).calls = [] ↔
        (buffer.length < 4 ∨ buffer.take 4 = [0, 0, 0, 0])) ∧
    ((buffer.length < 4 ∨ buffer.take 4 = [0, 0, 0, 0]) →
        handleDataPacket w s buffer = ⟨false, s, []⟩) := by
  have hz := getLocalRemoteTuple_zero_iff buffer Directions.Direction_Incoming
  have key : (buffer.length < 4 ∨ buffer.take 4 = [0, 0, 0, 0]) →
      handleDataPacket w s buffer = ⟨false, s, []⟩ :=
    fun h => handleDataPacket_zero w s buffer (hz.2 h)
  refine ⟨fun d => getLocalRemoteTuple_zero_iff buffer d, ⟨?_, ?_⟩, key⟩
  · intro hcalls
    by_contra hne
    have h0 : (getLocalRemoteTuple buffer Directions.Direction_Incoming).1 ≠ 0 :=
      fun e => hne (hz.1 e)
    have h4 : 4 ≤ buffer.length := by
      by_contra h4
      exact hne (Or.inl (by omega))
    cases hf : mapFind s.mTransports
        (getLocalRemoteTuple buffer Directions.Direction_Incoming).1 with
    | some transport =>
      rw [handleDataPacket_known w s buffer transport h4 h0 hf] at hcalls
      simp at hcalls
    | none =>
      cases hc : w.create (getLocalRemoteTuple buffer Directions.Direction_Incoming).2.1
          (getLocalRemoteTuple buffer Directions.Direction_Incoming).2.2 with
      | none =>
        rw [handleDataPacket_createFails w s buffer h4 h0 hf hc] at hcalls
        simp at hcalls
      | some transport =>
        rw [handleDataPacket_creates w s buffer transport h4 h0 hf hc] at hcalls
        simp at hcalls
  · intro h
    rw [key h]

/-- C8: when the packet is shorter than four octets, or its tuple is unknown and the
factory returns no association, `handleDataPacket` returns `false` and the listener is
exactly as before. -/
theorem handleDataPacket_rejected_unchanged (w : Collaborators) (s : SCTPTransportListener)
    (buffer : List BYTE)
    (h : buffer.length < 4 ∨
      (mapFind s.mTransports (inboundTuple buffer) = none ∧
        w.create (inboundLocalPort buffer) (inboundRemotePort buffer) = none)) :
    (handleDataPacket w s buffer).ret = false ∧ (handleDataPacket w s buffer).state = s := by
  unfold inboundTuple inboundLocalPort inboundRemotePort at h
  rcases h with h | ⟨hf, hc⟩
  · rw [handleDataPacket_short w s buffer h]
    exact ⟨rfl, rfl⟩
  · by_cases h4 : buffer.length < 4
    · rw [handleDataPacket_short w s buffer h4]
      exact ⟨rfl, rfl⟩
    · by_cases h0 : (getLocalRemoteTuple buffer Directions.Direction_Incoming).1 = 0
      · rw [handleDataPacket_zero w s buffer h0]
        exact ⟨rfl, rfl⟩
      · rw [handleDataPacket_createFails w s buffer (by omega) h0 hf hc]
        exact ⟨rfl, rfl⟩

/-- Witness of C8, scenario S5: the three-octet packet `00 01 02`. -/
theorem handleDataPacket_rejected_unchanged_witness :
    ([0, 1, 2] : List BYTE).length < 4 ∧
    (handleDataPacket acceptingCollaborators scenarioListener [0, 1, 2]).ret = false ∧
    (handleDataPacket acceptingCollaborators scenarioListener [0, 1, 2]).state =
      scenarioListener :=
  ⟨by decide,
    handleDataPacket_rejected_unchanged acceptingCollaborators scenarioListener [0, 1, 2]
      (Or.inl (by decide))⟩

theorem length_mapAssign_of_none {β : Type} (m : List (Nat × β)) (k : Nat) (v : β)
    (h : mapFind m k = none) : (mapAssign m k v).length = m.length + 1 := by
  have := (mapAssign_perm m k v h).length_eq
  simpa using this

theorem inboundTuple_eq (buffer : List BYTE) (h4 : 4 ≤ buffer.length) :
    inboundTuple buffer = createTuple (inboundLocalPort buffer) (inboundRemotePort buffer) := by
  obtain ⟨b0, b1, b2, b3, rest, rfl⟩ := exists_cons4 buffer h4
  rfl

theorem inboundPorts_lt (buffer : List BYTE) :
    inboundLocalPort buffer < 65536 ∧ inboundRemotePort buffer < 65536 := by
  by_cases h : buffer.length < 4
  · unfold inboundLocalPort inboundRemotePort
    rw [getLocalRemoteTuple_short buffer h]
    exact ⟨by decide, by decide⟩
  · obtain ⟨b0, b1, b2, b3, rest, rfl⟩ := exists_cons4 buffer (by omega)
    have h0 := b0.isLt
    have h1 := b1.isLt
    have h2 := b2.isLt
    have h3 := b3.isLt
    simp only [inboundLocalPort, inboundRemotePort, getLocalRemoteTuple]
    omega

/-- C1: a packet of at least four octets whose port fields are not both zero and whose
tuple is unknown, when the factory yields an association, stores that association under
the tuple as the one new entry of `mTransports`, raises the count of the local port in
`mAllocatedLocalPorts` and of the remote port in `mAllocatedRemotePorts` by one (other
counts unchanged), makes no delegate call, and either starts the association with the
stored remote capabilities, leaving `mPendingTransports` alone, or, without stored
capabilities, files it in `mPendingTransports` and does not start it. -/
theorem handleDataPacket_new_association (w : Collaborators) (s : SCTPTransportListener)
    (buffer : List BYTE) (transport : UseSCTPTransport) (h4 : 4 ≤ buffer.length)
    (hports : ¬ (inboundLocalPort buffer = 0 ∧ inboundRemotePort buffer = 0))
    (hf : mapFind s.mTransports (inboundTuple buffer) = none)
    (hc : w.create (inboundLocalPort buffer) (inboundRemotePort buffer) = some transport) :
    mapFind (handleDataPacket w s buffer).state.mTransports (inboundTuple buffer) =
      some transport ∧
    (∀ k, k ≠ inboundTuple buffer →
      mapFind (handleDataPacket w s buffer).state.mTransports k = mapFind s.mTransports k) ∧
    (handleDataPacket w s buffer).state.mTransports.length = s.mTransports.length + 1 ∧
    (∀ p, portCount (handleDataPacket w s buffer).state.mAllocatedLocalPorts p =
      portCount s.mAllocatedLocalPorts p + (if p = inboundLocalPort buffer then 1 else 0)) ∧
    (∀ p, portCount (handleDataPacket w s buffer).state.mAllocatedRemotePorts p =
      portCount s.mAllocatedRemotePorts p + (if p = inboundRemotePort buffer then 1 else 0)) ∧
    (∀ delegate t, Call.onSCTPTransport delegate t ∉ (handleDataPacket w s buffer).calls) ∧
    (handleDataPacket w s buffer).state.mAnnouncedTransports = s.mAnnouncedTransports ∧
    (match s.mRemoteCapabilities with
      | some caps =>
        (handleDataPacket w s buffer).calls =
          [Call.create (inboundLocalPort buffer) (inboundRemotePort buffer),
            Call.start transport.id caps, Call.handleDataPacket transport.id buffer] ∧
        (handleDataPacket w s buffer).state.mPendingTransports = s.mPendingTransports
      | none =>
        (handleDataPacket w s buffer).calls =
          [Call.create (inboundLocalPort buffer) (inboundRemotePort buffer),
            Call.handleDataPacket transport.id buffer] ∧
        (handleDataPacket w s buffer).state.mPendingTransports =
          mapAssign s.mPendingTransports transport.id transport) := by
  have h0 : (getLocalRemoteTuple buffer Directions.Direction_Incoming).1 ≠ 0 := by
    intro e
    have h1 := inboundTuple_eq buffer h4
    unfold inboundTuple at h1
    rw [e] at h1
    exact hports ((createTuple_eq_zero _ _).1 h1.symm)
  unfold inboundTuple inboundLocalPort inboundRemotePort at *
  rw [handleDataPacket_creates w s buffer transport h4 h0 hf hc]
  refine ⟨?_, ?_, ?_, ?_, ?_, ?_, rfl, ?_⟩
  · simp [mapFind_mapAssign]
  · intro k hk
    simp [mapFind_mapAssign, hk]
  · exact length_mapAssign_of_none _ _ _ hf
  · intro p
    exact portCount_allocatePort _ _ _
  · intro p
    exact portCount_allocatePort _ _ _
  · intro delegate t
    cases s.mRemoteCapabilities <;> simp
  · cases s.mRemoteCapabilities <;> simp

/-- Witness of C1, scenario S1: the packet `13 88 13 89 00 00 00 00` on the empty
listener without remote capabilities. -/
theorem handleDataPacket_new_association_witness :
    inboundLocalPort scenarioPacket = 5001 ∧ inboundRemotePort scenarioPacket = 5000 ∧
    scenarioListener.mRemoteCapabilities = none ∧
    mapFind (handleDataPacket acceptingCollaborators scenarioListener
      scenarioPacket).state.mTransports (createTuple 5001 5000) = some ⟨1⟩ ∧
    (handleDataPacket acceptingCollaborators scenarioListener
      scenarioPacket).state.mTransports.length = 1 ∧
    (handleDataPacket acceptingCollaborators scenarioListener
      scenarioPacket).state.mPendingTransports = [(1, ⟨1⟩)] ∧
    (handleDataPacket acceptingCollaborators scenarioListener
      scenarioPacket).state.mAllocatedLocalPorts = [(5001, 1)] ∧
    (handleDataPacket acceptingCollaborators scenarioListener
      scenarioPacket).state.mAllocatedRemotePorts = [(5000, 1)] ∧
    (∀ delegate t, Call.onSCTPTransport delegate t ∉
      (handleDataPacket acceptingCollaborators scenarioListener scenarioPacket).calls) :=
  ⟨by decide, by decide, rfl,
    (handleDataPacket_new_association acceptingCollaborators scenarioListener scenarioPacket
      ⟨1⟩ (by decide) (by decide) (by decide) (by decide)).1,
    (handleDataPacket_new_association acceptingCollaborators scenarioListener scenarioPacket
      ⟨1⟩ (by decide) (by decide) (by decide) (by decide)).2.2.1,
    by decide, by decide, by decide,
    (handleDataPacket_new_association acceptingCollaborators scenarioListener scenarioPacket
      ⟨1⟩ (by decide) (by decide) (by decide) (by decide)).2.2.2.2.2.1⟩

/-! ## Lemmas on counting tuples -/

theorem splitTuple_createTuple (l r : Nat) (hl : l < 65536) (hr : r < 65536) :
    splitTuple (createTuple l r) = (l, r) := by
  unfold splitTuple createTuple
  ext <;> simp <;> omega

theorem countP_mapAssign_le (P : Nat → Bool) (m : List (Nat × UseSCTPTransport)) (k : Nat)
    (v : UseSCTPTransport) :
    (mapAssign m k v).countP (fun e => P e.1) ≤
      m.countP (fun e => P e.1) + (if P k then 1 else 0) := by
  induction m with
  | nil => simp [mapAssign, List.countP_cons]
  | cons e m ih =>
    obtain ⟨k1, v1⟩ := e
    unfold mapAssign
    by_cases h1 : k < k1
    · simp only [h1, if_true, List.countP_cons]
      omega
    · by_cases h2 : k = k1
      · subst h2
        simp only [lt_irrefl, if_false, if_true, List.countP_cons]
        omega
      · simp only [h1, h2, if_false, List.countP_cons]
        omega

theorem countP_mapErase_le (P : Nat → Bool) (m : List (Nat × UseSCTPTransport)) (k : Nat) :
    (mapErase m k).countP (fun e => P e.1) ≤ m.countP (fun e => P e.1) := by
  unfold mapErase
  exact List.Sublist.countP_le _ (List.filter_sublist m)

theorem mapErase_cons_eq {β : Type} (m : List (Nat × β)) (k : Nat) (v : β) :
    mapErase ((k, v) :: m) k = mapErase m k := by
  simp [mapErase]

theorem mapErase_cons_ne {β : Type} (m : List (Nat × β)) (k k1 : Nat) (v1 : β)
    (h : k1 ≠ k) : mapErase ((k1, v1) :: m) k = (k1, v1) :: mapErase m k := by
  simp [mapErase, h]

theorem countP_mapErase_lt (P : Nat → Bool) (m : List (Nat × UseSCTPTransport)) (k : Nat)
    (v : UseSCTPTransport) (hmem : (k, v) ∈ m) (hP : P k = true) :
    (mapErase m k).countP (fun e => P e.1) + 1 ≤ m.countP (fun e => P e.1) := by
  induction m with
  | nil => simp at hmem
  | cons e m ih =>
    obtain ⟨k1, v1⟩ := e
    by_cases h1 : k1 = k
    · subst h1
      have h2 := countP_mapErase_le P m k1
      rw [mapErase_cons_eq]
      simp only [List.countP_cons, hP, if_true]
      omega
    · have hm : (k, v) ∈ m := by
        rcases List.mem_cons.1 hmem with h | h
        · exact absurd (congrArg Prod.fst h).symm h1
        · exact h
      have h2 := ih hm
      rw [mapErase_cons_ne m k k1 v1 h1]
      simp only [List.countP_cons]
      omega


theorem mapFind_of_mem_sorted {β : Type} (m : List (Nat × β)) (hs : mapSorted m)
    (e : Nat × β) (he : e ∈ m) : mapFind m e.1 = some e.2 := by
  induction m with
  | nil => simp at he
  | cons e1 m ih =>
    obtain ⟨k1, v1⟩ := e1
    unfold mapSorted at hs ih
    simp only [List.map_cons, List.pairwise_cons] at hs
    unfold mapFind
    rcases List.mem_cons.1 he with h | h
    · subst h
      simp
    · have hlt := hs.1 e.1 (List.mem_map.2 ⟨e, h, rfl⟩)
      have hne : ¬ k1 = e.1 := by omega
      simp only [hne, if_false]
      exact ih hs.2 h

/-! ## Preservation of consistency -/

theorem consistent_of_insert (s s1 : SCTPTransportListener) (hs : Consistent s)
    (l r : Nat) (t : UseSCTPTransport) (hl : l < 65536) (hr : r < 65536)
    (hne : ¬ (l = 0 ∧ r = 0))
    (hT : s1.mTransports = mapAssign s.mTransports (createTuple l r) t)
    (hL : ∀ p, portCount s.mAllocatedLocalPorts p + (if p = l then 1 else 0) ≤
      portCount s1.mAllocatedLocalPorts p)
    (hR : ∀ p, portCount s.mAllocatedRemotePorts p + (if p = r then 1 else 0) ≤
      portCount s1.mAllocatedRemotePorts p)
    (hc : s1.mCurrentAllocationPort < 65536) : Consistent s1 := by
  have hsplit := splitTuple_createTuple l r hl hr
  refine ⟨?_, ?_, ?_, ?_, hc⟩
  · rw [hT]
    exact mapSorted_mapAssign _ _ _ hs.sorted
  · rw [hT, mapFind_mapAssign]
    have h0 : ¬ (0 = createTuple l r) := fun e => hne ((createTuple_eq_zero l r).1 e.symm)
    simp only [h0, if_false]
    exact hs.noZero
  · intro p
    have h1 := countP_mapAssign_le (fun k => decide ((splitTuple k).1 = p)) s.mTransports
      (createTuple l r) t
    have h2 := hs.localCounted p
    have h3 := hL p
    unfold tuplesWithLocalPort at h2 ⊢
    rw [hT]
    rw [hsplit] at h1
    simp only [decide_eq_true_eq] at h1
    by_cases hp : p = l
    · subst hp
      simp only [if_true] at h1 h3
      omega
    · have hp2 : ¬ l = p := fun e => hp e.symm
      simp only [hp, hp2, if_false] at h1 h3
      omega
  · intro p
    have h1 := countP_mapAssign_le (fun k => decide ((splitTuple k).2 = p)) s.mTransports
      (createTuple l r) t
    have h2 := hs.remoteCounted p
    have h3 := hR p
    unfold tuplesWithRemotePort at h2 ⊢
    rw [hT]
    rw [hsplit] at h1
    simp only [decide_eq_true_eq] at h1
    by_cases hp : p = r
    · subst hp
      simp only [if_true] at h1 h3
      omega
    · have hp2 : ¬ r = p := fun e => hp e.symm
      simp only [hp, hp2, if_false] at h1 h3
      omega

theorem consistent_of_erase (s s1 : SCTPTransportListener) (hs : Consistent s)
    (k : Nat) (v : UseSCTPTransport) (hf : mapFind s.mTransports k = some v)
    (hT : s1.mTransports = mapErase s.mTransports k)
    (hL : s1.mAllocatedLocalPorts = deallocatePort s.mAllocatedLocalPorts (splitTuple k).1)
    (hR : s1.mAllocatedRemotePorts = deallocatePort s.mAllocatedRemotePorts (splitTuple k).2)
    (hc : s1.mCurrentAllocationPort < 65536) : Consistent s1 := by
  have hmem := mapFind_mem _ _ _ hf
  refine ⟨?_, ?_, ?_, ?_, hc⟩
  · rw [hT]
    exact mapSorted_mapErase _ _ hs.sorted
  · rw [hT, mapFind_mapErase]
    split
    · rfl
    · exact hs.noZero
  · intro p
    have h2 := hs.localCounted p
    unfold tuplesWithLocalPort at h2 ⊢
    rw [hT, hL, portCount_deallocatePort]
    by_cases hp : p = (splitTuple k).1
    · have h1 := countP_mapErase_lt (fun k => decide ((splitTuple k).1 = p)) s.mTransports k v
        hmem (by simp [hp])
      simp only [hp, if_true]
      rw [hp] at h1 h2
      beta_reduce at h1
      omega
    · have h1 := countP_mapErase_le (fun k => decide ((splitTuple k).1 = p)) s.mTransports k
      simp only [hp, if_false]
      omega
  · intro p
    have h2 := hs.remoteCounted p
    unfold tuplesWithRemotePort at h2 ⊢
    rw [hT, hR, portCount_deallocatePort]
    by_cases hp : p = (splitTuple k).2
    · have h1 := countP_mapErase_lt (fun k => decide ((splitTuple k).2 = p)) s.mTransports k v
        hmem (by simp [hp])
      simp only [hp, if_true]
      rw [hp] at h1 h2
      beta_reduce at h1
      omega
    · have h1 := countP_mapErase_le (fun k => decide ((splitTuple k).2 = p)) s.mTransports k
      simp only [hp, if_false]
      omega

theorem consistent_of_same (s s1 : SCTPTransportListener) (hs : Consistent s)
    (hT : s1.mTransports = s.mTransports)
    (hL : ∀ p, portCount s.mAllocatedLocalPorts p ≤ portCount s1.mAllocatedLocalPorts p)
    (hR : ∀ p, portCount s.mAllocatedRemotePorts p ≤ portCount s1.mAllocatedRemotePorts p)
    (hc : s1.mCurrentAllocationPort < 65536) : Consistent s1 := by
  refine ⟨?_, ?_, ?_, ?_, hc⟩
  · rw [hT]; exact hs.sorted
  · rw [hT]; exact hs.noZero
  · intro p
    rw [hT]
    exact le_trans (hs.localCounted p) (hL p)
  · intro p
    rw [hT]
    exact le_trans (hs.remoteCounted p) (hR p)

theorem consistent_of_empty (s1 : SCTPTransportListener) (hT : s1.mTransports = [])
    (hc : s1.mCurrentAllocationPort < 65536) : Consistent s1 := by
  refine ⟨?_, ?_, ?_, ?_, hc⟩
  · rw [hT]; simp [mapSorted]
  · rw [hT]; rfl
  · intro p
    rw [hT]
    simp [tuplesWithLocalPort]
  · intro p
    rw [hT]
    simp [tuplesWithRemotePort]

theorem handleDataPacket_consistent (w : Collaborators) (s : SCTPTransportListener)
    (buffer : List BYTE) (hs : Consistent s) : Consistent (handleDataPacket w s buffer).state := by
  by_cases h4 : buffer.length < 4
  · rw [handleDataPacket_short w s buffer h4]
    exact hs
  · by_cases h0 : (getLocalRemoteTuple buffer Directions.Direction_Incoming).1 = 0
    · rw [handleDataPacket_zero w s buffer h0]
      exact hs
    · cases hf : mapFind s.mTransports
          (getLocalRemoteTuple buffer Directions.Direction_Incoming).1 with
      | some transport =>
        rw [handleDataPacket_known w s buffer transport (by omega) h0 hf]
        exact hs
      | none =>
        cases hc : w.create (getLocalRemoteTuple buffer Directions.Direction_Incoming).2.1
            (getLocalRemoteTuple buffer Directions.Direction_Incoming).2.2 with
        | none =>
          rw [handleDataPacket_createFails w s buffer (by omega) h0 hf hc]
          exact hs
        | some transport =>
          rw [handleDataPacket_creates w s buffer transport (by omega) h0 hf hc]
          have hlt := inboundPorts_lt buffer
          have he := inboundTuple_eq buffer (by omega)
          unfold inboundTuple inboundLocalPort inboundRemotePort at hlt he
          refine consistent_of_insert s _ hs _ _ transport hlt.1 hlt.2 ?_ ?_ ?_ ?_ hs.cursor
          · intro hz
            apply h0
            rw [he]
            exact (createTuple_eq_zero _ _).2 hz
          · show mapAssign _ _ _ = _
            rw [← he]
          · intro p
            show _ ≤ portCount (allocatePort _ _) p
            rw [portCount_allocatePort]
          · intro p
            show _ ≤ portCount (allocatePort _ _) p
            rw [portCount_allocatePort]

theorem nextPort_cursor_lt (s : SCTPTransportListener) :
    (nextPort s).mCurrentAllocationPort < 65536 := by
  unfold nextPort
  simp only
  split <;> split <;> omega

/-- What `allocateLocalPort` can do: give up with only the cursor moved, or take the
candidate under some cursor position. -/
theorem allocateLocalPortLoop_cases (remotePort : Nat) (n : Nat) (s : SCTPTransportListener)
    (hc : s.mCurrentAllocationPort < 65536) :
    (∃ c, c < 65536 ∧
      allocateLocalPortLoop remotePort n s = (0, { s with mCurrentAllocationPort := c })) ∨
    (∃ c, c < 65536 ∧ portTaken { s with mCurrentAllocationPort := c } remotePort = false ∧
      allocateLocalPortLoop remotePort n s =
        foundPort { s with mCurrentAllocationPort := c } remotePort) := by
  induction n generalizing s with
  | zero =>
    unfold allocateLocalPortLoop
    by_cases ht : portTaken s remotePort = true
    · rw [if_pos ht]
      exact Or.inl ⟨_, nextPort_cursor_lt s, rfl⟩
    · rw [if_neg ht]
      exact Or.inr ⟨s.mCurrentAllocationPort, hc, by simpa using ht, rfl⟩
  | succ n ih =>
    unfold allocateLocalPortLoop
    by_cases ht : portTaken s remotePort = true
    · rw [if_pos ht]
      rcases ih (nextPort s) (nextPort_cursor_lt s) with ⟨c, hc1, h⟩ | ⟨c, hc1, h1, h⟩
      · exact Or.inl ⟨c, hc1, by rw [h]; rfl⟩
      · exact Or.inr ⟨c, hc1, h1, by rw [h]; rfl⟩
    · rw [if_neg ht]
      exact Or.inr ⟨s.mCurrentAllocationPort, hc, by simpa using ht, rfl⟩

/-! ## The cases of `registerLocked` -/

theorem registerLocked_shutdown (w : Collaborators) (s : SCTPTransportListener)
    (transport : UseSCTPTransport) (l r : Nat) (hrun : isRunning s = false) :
    registerLocked w s transport l r = ⟨some Error.InvalidState, some transport, 0, 0, s⟩ := by
  have h : (isShuttingDown s || isShutdown s) = true := by
    unfold isRunning at hrun
    cases hb : (isShuttingDown s || isShutdown s)
    · rw [hb] at hrun
      exact absurd hrun (by decide)
    · rfl
  unfold registerLocked
  rw [if_pos h]

theorem registerLocked_found (w : Collaborators) (s : SCTPTransportListener)
    (transport found : UseSCTPTransport) (l r : Nat) (hrun : isRunning s = true)
    (hl : l ≠ 0) (hf : mapFind s.mTransports (createTuple l r) = some found) :
    registerLocked w s transport l r =
      if (w.isShuttingDown found.id || w.isShutdown found.id) = true then
        ⟨none, none, 0, 0, s⟩
      else ⟨none, some found, l, r, s⟩ := by
  have h : ¬ (isShuttingDown s || isShutdown s) = true := by
    unfold isRunning at hrun
    intro hb
    rw [hb] at hrun
    exact absurd hrun (by decide)
  unfold registerLocked
  rw [if_neg h, if_pos hl]
  simp only [hf]

theorem registerLocked_inUse (w : Collaborators) (s : SCTPTransportListener)
    (transport : UseSCTPTransport) (l r : Nat) (hrun : isRunning s = true)
    (hl : l ≠ 0) (hf : mapFind s.mTransports (createTuple l r) = none)
    (hu : (mapFind s.mAllocatedLocalPorts l).isSome = true) :
    registerLocked w s transport l r = ⟨none, none, 0, 0, s⟩ := by
  have h : ¬ (isShuttingDown s || isShutdown s) = true := by
    unfold isRunning at hrun
    intro hb
    rw [hb] at hrun
    exact absurd hrun (by decide)
  unfold registerLocked
  rw [if_neg h, if_pos hl]
  simp only [hf, hu, if_true]

theorem registerLocked_explicit (w : Collaborators) (s : SCTPTransportListener)
    (transport : UseSCTPTransport) (l r : Nat) (hrun : isRunning s = true)
    (hl : l ≠ 0) (hf : mapFind s.mTransports (createTuple l r) = none)
    (hu : (mapFind s.mAllocatedLocalPorts l).isSome = false) :
    registerLocked w s transport l r =
      ⟨none, some transport, l, r,
        { s with
          mAllocatedLocalPorts := allocatePort s.mAllocatedLocalPorts l
          mAllocatedRemotePorts := allocatePort s.mAllocatedRemotePorts r
          mTransports := mapAssign s.mTransports (createTuple l r) transport }⟩ := by
  have h : ¬ (isShuttingDown s || isShutdown s) = true := by
    unfold isRunning at hrun
    intro hb
    rw [hb] at hrun
    exact absurd hrun (by decide)
  unfold registerLocked
  rw [if_neg h, if_pos hl]
  simp only [hf, hu, Bool.false_eq_true, if_false]

theorem registerLocked_full (w : Collaborators) (s : SCTPTransportListener)
    (transport : UseSCTPTransport) (r : Nat) (hrun : isRunning s = true)
    (hfull : s.mTransports.length + 1 > s.mMaxPorts) :
    registerLocked w s transport 0 r = ⟨none, none, 0, 0, s⟩ := by
  have h : ¬ (isShuttingDown s || isShutdown s) = true := by
    unfold isRunning at hrun
    intro hb
    rw [hb] at hrun
    exact absurd hrun (by decide)
  unfold registerLocked
  rw [if_neg h, if_neg (by simp), if_pos hfull]

theorem registerLocked_ephemeral (w : Collaborators) (s : SCTPTransportListener)
    (transport : UseSCTPTransport) (r : Nat) (hrun : isRunning s = true)
    (hfull : ¬ s.mTransports.length + 1 > s.mMaxPorts) :
    registerLocked w s transport 0 r =
      if (allocateLocalPort s r).1 = 0 then ⟨none, none, 0, 0, (allocateLocalPort s r).2⟩
      else
        ⟨none, some transport, (allocateLocalPort s r).1,
          if r = 0 then (allocateLocalPort s r).1 else r,
          { (allocateLocalPort s r).2 with
            mTransports :=
              mapAssign (allocateLocalPort s r).2.mTransports
                (createTuple (allocateLocalPort s r).1
                  (if r = 0 then (allocateLocalPort s r).1 else r)) transport }⟩ := by
  have h : ¬ (isShuttingDown s || isShutdown s) = true := by
    unfold isRunning at hrun
    intro hb
    rw [hb] at hrun
    exact absurd hrun (by decide)
  unfold registerLocked
  rw [if_neg h, if_neg (by simp), if_neg hfull]

theorem registerLocked_consistent (w : Collaborators) (s : SCTPTransportListener)
    (transport : UseSCTPTransport) (l r : Nat) (hl : l < 65536) (hr : r < 65536)
    (hs : Consistent s) : Consistent (registerLocked w s transport l r).state := by
  cases hrun : isRunning s with
  | false =>
    rw [registerLocked_shutdown w s transport l r hrun]
    exact hs
  | true =>
    by_cases hl0 : l = 0
    · subst hl0
      by_cases hfull : s.mTransports.length + 1 > s.mMaxPorts
      · rw [registerLocked_full w s transport r hrun hfull]
        exact hs
      · rw [registerLocked_ephemeral w s transport r hrun hfull]
        unfold allocateLocalPort
        rcases allocateLocalPortLoop_cases r
            ((s.mMaxAllocationPort + 65536 - s.mMinAllocationPort) % 65536) s hs.cursor with
          ⟨c, hc, h⟩ | ⟨c, hc, _, h⟩
        · simp only [h, if_true]
          exact consistent_of_same s _ hs rfl (fun _ => le_rfl) (fun _ => le_rfl) hc
        · simp only [h, foundPort]
          split
          · refine consistent_of_same s _ hs rfl ?_ ?_ hc
            · intro p
              show _ ≤ portCount (allocatePort _ _) p
              rw [portCount_allocatePort]
              omega
            · intro p
              show _ ≤ portCount (allocatePort _ _) p
              rw [portCount_allocatePort]
              omega
          · rename_i hc0
            have hr1 : (if r = 0 then c else r) < 65536 := by split <;> omega
            refine consistent_of_insert s _ hs c (if r = 0 then c else r) transport hc hr1
              (fun h => hc0 h.1) rfl ?_ ?_ hc
            · intro p
              show _ ≤ portCount (allocatePort _ _) p
              rw [portCount_allocatePort]
            · intro p
              show _ ≤ portCount (allocatePort _ _) p
              rw [portCount_allocatePort]
    · cases hf : mapFind s.mTransports (createTuple l r) with
      | some found =>
        rw [registerLocked_found w s transport found l r hrun hl0 hf]
        split <;> exact hs
      | none =>
        cases hu : (mapFind s.mAllocatedLocalPorts l).isSome with
        | true =>
          rw [registerLocked_inUse w s transport l r hrun hl0 hf hu]
          exact hs
        | false =>
          rw [registerLocked_explicit w s transport l r hrun hl0 hf hu]
          refine consistent_of_insert s _ hs l r transport hl hr (fun h => hl0 h.1) rfl ?_ ?_
            hs.cursor
          · intro p
            show _ ≤ portCount (allocatePort _ _) p
            rw [portCount_allocatePort]
          · intro p
            show _ ≤ portCount (allocatePort _ _) p
            rw [portCount_allocatePort]

theorem registerNewTransport_consistent (w : Collaborators) (s : SCTPTransportListener)
    (dtlsTransport : Option IDTLSTransport) (ioTransport : Option UseSCTPTransport)
    (l r : Nat) (hl : l < 65536) (hr : r < 65536) (hs : Consistent s) :
    Consistent (registerNewTransport w s dtlsTransport ioTransport l r).state := by
  unfold registerNewTransport
  split
  · exact hs
  · split
    · exact hs
    · split
      · exact hs
      · split
        · exact hs
        · exact registerLocked_consistent w s _ l _ hl (by split <;> omega) hs

theorem announceTransport_consistent (s : SCTPTransportListener) (t : UseSCTPTransport)
    (l r : Nat) (hs : Consistent s) : Consistent (announceTransport s t l r).state := by
  unfold announceTransport
  split
  · exact hs
  · split
    · exact hs
    · exact consistent_of_same s _ hs rfl (fun _ => le_rfl) (fun _ => le_rfl) hs.cursor

theorem subscribe_consistent (s : SCTPTransportListener) (d : Option Nat)
    (caps : Capabilities) (hs : Consistent s) : Consistent (subscribe s d caps).state := by
  unfold subscribe
  simp only
  split
  · exact consistent_of_same s _ hs rfl (fun _ => le_rfl) (fun _ => le_rfl) hs.cursor
  · exact consistent_of_same s _ hs rfl (fun _ => le_rfl) (fun _ => le_rfl) hs.cursor

theorem notifyShutdown_consistent (s : SCTPTransportListener) (t : UseSCTPTransport)
    (l r : Nat) (hl : l < 65536) (hr : r < 65536) (hs : Consistent s) :
    Consistent (notifyShutdown s t l r).state := by
  unfold notifyShutdown
  split
  · exact hs
  · simp only
    cases hf : mapFind s.mTransports (createTuple l r) with
    | none =>
      exact consistent_of_same s _ hs rfl (fun _ => le_rfl) (fun _ => le_rfl) hs.cursor
    | some registered =>
      simp only
      by_cases hid : registered.id = t.id
      · rw [if_pos hid]
        have hsplit := splitTuple_createTuple l r hl hr
        refine consistent_of_erase s _ hs (createTuple l r) registered hf rfl ?_ ?_ hs.cursor
        · rw [hsplit]
        · rw [hsplit]
      · rw [if_neg hid]
        exact consistent_of_same s _ hs rfl (fun _ => le_rfl) (fun _ => le_rfl) hs.cursor

/-! ## The shutdown path -/

theorem cancelVisit_alive (w : Collaborators) (acc : SCTPTransportListener × List Call)
    (e : Nat × UseSCTPTransport) (h : w.isShutdown e.2.id = false) :
    cancelVisit w acc e = (acc.1, acc.2 ++ [Call.notifyShutdown e.2.id]) := by
  unfold cancelVisit
  simp [h]

theorem cancelVisit_shutdown (w : Collaborators) (acc : SCTPTransportListener × List Call)
    (e : Nat × UseSCTPTransport) (h : w.isShutdown e.2.id = true) :
    cancelVisit w acc e =
      ({ acc.1 with
          mAllocatedLocalPorts :=
            deallocatePort acc.1.mAllocatedLocalPorts (splitTuple e.1).1
          mAllocatedRemotePorts :=
            deallocatePort acc.1.mAllocatedRemotePorts (splitTuple e.1).2
          mTransports := mapErase acc.1.mTransports e.1
          mPendingTransports := mapErase acc.1.mPendingTransports e.2.id },
        acc.2 ++ [Call.notifyShutdown e.2.id]) := by
  have hidem : mapErase (mapErase acc.1.mPendingTransports e.2.id) e.2.id =
      mapErase acc.1.mPendingTransports e.2.id := by
    simp [mapErase, List.filter_filter]
  unfold cancelVisit
  simp only [h, if_true]
  split
  · simp only [hidem]
  · rfl

theorem cancelLoop_consistent (w : Collaborators) (rest : List (Nat × UseSCTPTransport)) :
    ∀ acc : SCTPTransportListener × List Call, Consistent acc.1 → mapSorted rest →
      (∀ e ∈ rest, mapFind acc.1.mTransports e.1 = some e.2) →
      Consistent (rest.foldl (cancelVisit w) acc).1 := by
  induction rest with
  | nil =>
    intro acc hs _ _
    exact hs
  | cons e rest ih =>
    intro acc hs hsorted hpresent
    unfold mapSorted at hsorted
    simp only [List.map_cons, List.pairwise_cons] at hsorted
    rw [List.foldl_cons]
    cases h : w.isShutdown e.2.id with
    | false =>
      rw [cancelVisit_alive w acc e h]
      exact ih _ hs hsorted.2 (fun e1 he1 => hpresent e1 (List.mem_cons_of_mem _ he1))
    | true =>
      rw [cancelVisit_shutdown w acc e h]
      refine ih _ ?_ hsorted.2 ?_
      · exact consistent_of_erase acc.1 _ hs e.1 e.2 (hpresent e (List.mem_cons_self _ _))
          rfl rfl rfl hs.cursor
      · intro e1 he1
        have hlt := hsorted.1 e1.1 (List.mem_map.2 ⟨e1, he1, rfl⟩)
        show mapFind (mapErase acc.1.mTransports e.1) e1.1 = some e1.2
        rw [mapFind_mapErase, if_neg (by omega)]
        exact hpresent e1 (List.mem_cons_of_mem _ he1)

theorem cancel_consistent (w : Collaborators) (s : SCTPTransportListener)
    (hs : Consistent s) : Consistent (cancel w s).state := by
  unfold cancel
  split
  · exact hs
  · simp only
    have hs0 : Consistent (if (!s.mGracefulShutdownReference) = true then
        { s with mGracefulShutdownReference := s.mThisWeak } else s) := by
      split
      · exact consistent_of_same s _ hs rfl (fun _ => le_rfl) (fun _ => le_rfl) hs.cursor
      · exact hs
    generalize (if (!s.mGracefulShutdownReference) = true then
        { s with mGracefulShutdownReference := s.mThisWeak } else s) = s0 at hs0
    split
    · have hloop := cancelLoop_consistent w s0.mTransports (s0, []) hs0 hs0.sorted
        (fun e he => mapFind_of_mem_sorted _ hs0.sorted e he)
      split
      · exact hloop
      · exact consistent_of_empty _ rfl hloop.cursor
    · exact consistent_of_empty _ rfl hs0.cursor

theorem onWake_consistent (w : Collaborators) (s : SCTPTransportListener)
    (hs : Consistent s) : Consistent (onWake w s).state := by
  unfold onWake step
  split
  · exact cancel_consistent w s hs
  · exact hs

theorem construct_consistent (mID secureTransport : Nat) (settings : Settings)
    (increment : Nat) (s : SCTPTransportListener)
    (h : construct mID secureTransport settings increment = some s) : Consistent s := by
  unfold construct at h
  split at h
  · rename_i hb
    cases h
    exact consistent_of_empty _ rfl hb.1
  · cases h

theorem apply_consistent (s : SCTPTransportListener) (op : Op) (hty : op.wellTyped)
    (hs : Consistent s) : Consistent (op.apply s) := by
  cases op with
  | handleDataPacket w buffer => exact handleDataPacket_consistent w s buffer hs
  | registerNewTransport w dtls io l r =>
    exact registerNewTransport_consistent w s dtls io l r hty.1 hty.2 hs
  | announceTransport t l r => exact announceTransport_consistent s t l r hs
  | notifyShutdown t l r => exact notifyShutdown_consistent s t l r hty.1 hty.2 hs
  | subscribe d caps => exact subscribe_consistent s d caps hs
  | cancel w => exact cancel_consistent w s hs
  | onWake w => exact onWake_consistent w s hs

theorem reachableBy_consistent (allowed : SCTPTransportListener → Op → Prop)
    (s : SCTPTransportListener) (h : ReachableBy allowed s) : Consistent s := by
  induction h with
  | fresh mID secureTransport settings increment s h =>
    exact construct_consistent mID secureTransport settings increment s h
  | step s op _ hty _ ih => exact apply_consistent s op hty ih

theorem registerNewTransport_valid (w : Collaborators) (s : SCTPTransportListener)
    (dtls : IDTLSTransport) (transport : UseSCTPTransport) (l r listener : Nat)
    (hsec : dtls.isSecureTransport = true) (hdata : dtls.dataTransport = some listener) :
    registerNewTransport w s (some dtls) (some transport) l r =
      registerLocked w s transport l (if r = 0 then l else r) := by
  unfold registerNewTransport
  simp only [hsec, hdata, Bool.not_true, Bool.false_eq_true, if_false]

/-! ## Claims about known tuples and port counts -/

/-- C2: in a reachable listener, a packet of at least four octets whose tuple is already
in `mTransports` creates nothing and changes nothing: the only call made is the delivery
of the same octets to the association stored under the tuple, and the value returned is
the one that association returned. -/
theorem handleDataPacket_known_tuple (w : Collaborators) (s : SCTPTransportListener)
    (buffer : List BYTE) (transport : UseSCTPTransport) (hreach : Reachable s)
    (h4 : 4 ≤ buffer.length)
    (hf : mapFind s.mTransports (inboundTuple buffer) = some transport) :
    handleDataPacket w s buffer =
      ⟨w.handleDataPacket transport.id buffer, s,
        [Call.handleDataPacket transport.id buffer]⟩ := by
  have hcons := reachableBy_consistent _ s hreach
  unfold inboundTuple at hf
  refine handleDataPacket_known w s buffer transport h4 ?_ hf
  intro h0
  rw [h0, hcons.noZero] at hf
  cases hf

/-- Witness of C2: the packet of scenario S1 delivered a second time. -/
theorem handleDataPacket_known_tuple_witness :
    Reachable (handleDataPacket acceptingCollaborators scenarioListener scenarioPacket).state ∧
    4 ≤ scenarioPacket.length ∧
    mapFind (handleDataPacket acceptingCollaborators scenarioListener
      scenarioPacket).state.mTransports (inboundTuple scenarioPacket) = some ⟨1⟩ ∧
    handleDataPacket acceptingCollaborators
        (handleDataPacket acceptingCollaborators scenarioListener scenarioPacket).state
        scenarioPacket =
      ⟨true, (handleDataPacket acceptingCollaborators scenarioListener scenarioPacket).state,
        [Call.handleDataPacket 1 scenarioPacket]⟩ :=
  ⟨ReachableBy.step scenarioListener (Op.handleDataPacket acceptingCollaborators scenarioPacket)
      (ReachableBy.fresh 1 2 scenarioSettings 1 scenarioListener rfl) trivial trivial,
    by decide, by decide,
    handleDataPacket_known_tuple acceptingCollaborators
      (handleDataPacket acceptingCollaborators scenarioListener scenarioPacket).state
      scenarioPacket ⟨1⟩
      (ReachableBy.step scenarioListener
        (Op.handleDataPacket acceptingCollaborators scenarioPacket)
        (ReachableBy.fresh 1 2 scenarioSettings 1 scenarioListener rfl) trivial trivial)
      (by decide) (by decide)⟩

/-- C4: in every reachable listener, a tuple `(localPort, remotePort)` present in
`mTransports` has a count of at least one for its local port in `mAllocatedLocalPorts`
and for its remote port in `mAllocatedRemotePorts`. -/
theorem associations_ports_counted (s : SCTPTransportListener) (hreach : Reachable s)
    (localPort remotePort : Nat) (hl : localPort < 65536) (hr : remotePort < 65536)
    (transport : UseSCTPTransport)
    (hf : mapFind s.mTransports (createTuple localPort remotePort) = some transport) :
    1 ≤ portCount s.mAllocatedLocalPorts localPort ∧
      1 ≤ portCount s.mAllocatedRemotePorts remotePort := by
  have hcons := reachableBy_consistent _ s hreach
  have hmem := mapFind_mem _ _ _ hf
  have hsplit := splitTuple_createTuple localPort remotePort hl hr
  constructor
  · refine le_trans ?_ (hcons.localCounted localPort)
    unfold tuplesWithLocalPort
    exact List.countP_pos_iff.2 ⟨_, hmem, by simp [hsplit]⟩
  · refine le_trans ?_ (hcons.remoteCounted remotePort)
    unfold tuplesWithRemotePort
    exact List.countP_pos_iff.2 ⟨_, hmem, by simp [hsplit]⟩

/-- Witness of C4: the listener of scenario S1 after its packet, tuple `(5001, 5000)`. -/
theorem associations_ports_counted_witness :
    Reachable (handleDataPacket acceptingCollaborators scenarioListener scenarioPacket).state ∧
    mapFind (handleDataPacket acceptingCollaborators scenarioListener
      scenarioPacket).state.mTransports (createTuple 5001 5000) = some ⟨1⟩ ∧
    1 ≤ portCount (handleDataPacket acceptingCollaborators scenarioListener
      scenarioPacket).state.mAllocatedLocalPorts 5001 ∧
    1 ≤ portCount (handleDataPacket acceptingCollaborators scenarioListener
      scenarioPacket).state.mAllocatedRemotePorts 5000 :=
  ⟨ReachableBy.step scenarioListener (Op.handleDataPacket acceptingCollaborators scenarioPacket)
      (ReachableBy.fresh 1 2 scenarioSettings 1 scenarioListener rfl) trivial trivial,
    by decide,
    associations_ports_counted
      (handleDataPacket acceptingCollaborators scenarioListener scenarioPacket).state
      (ReachableBy.step scenarioListener
        (Op.handleDataPacket acceptingCollaborators scenarioPacket)
        (ReachableBy.fresh 1 2 scenarioSettings 1 scenarioListener rfl) trivial trivial)
      5001 5000 (by decide) (by decide) ⟨1⟩ (by decide)⟩

/-! ## Claims about explicit registration -/

/-- C9 as stated fails for a requested remote port `0`: after `(7000, 0)` was registered
(stored as tuple `(7000, 7000)`), local port 7000 has an entry in `mAllocatedLocalPorts`
and tuple `(7000, 0)` is not in `mTransports`, yet registering `(7000, 0)` again does not
clear the association: it returns the one registered before, with ports `(7000, 7000)`. -/
theorem registerNewTransport_zero_remote_adopts :
    isRunning (registerNewTransport acceptingCollaborators scenarioListener
      (some scenarioDTLS) (some ⟨7⟩) 7000 0).state = true ∧
    (mapFind (registerNewTransport acceptingCollaborators scenarioListener
      (some scenarioDTLS) (some ⟨7⟩) 7000 0).state.mAllocatedLocalPorts 7000).isSome = true ∧
    mapFind (registerNewTransport acceptingCollaborators scenarioListener
      (some scenarioDTLS) (some ⟨7⟩) 7000 0).state.mTransports (createTuple 7000 0) = none ∧
    registerNewTransport acceptingCollaborators
        (registerNewTransport acceptingCollaborators scenarioListener
          (some scenarioDTLS) (some ⟨7⟩) 7000 0).state
        (some scenarioDTLS) (some ⟨8⟩) 7000 0 =
      ⟨none, some ⟨7⟩, 7000, 7000,
        (registerNewTransport acceptingCollaborators scenarioListener
          (some scenarioDTLS) (some ⟨7⟩) 7000 0).state⟩ := by
  decide

/-- C9 amended: on a running listener, for a non-zero local port that already has an
entry in `mAllocatedLocalPorts` and a requested remote port such that, with remote port
`0` read as the local port, the tuple is not in `mTransports`, `registerNewTransport`
returns normally with the association cleared and both out ports `0`, and the listener
is exactly as before. -/
theorem registerNewTransport_port_in_use (w : Collaborators) (s : SCTPTransportListener)
    (dtls : IDTLSTransport) (transport : UseSCTPTransport) (localPort remotePort : Nat)
    (listener : Nat) (hsec : dtls.isSecureTransport = true)
    (hdata : dtls.dataTransport = some listener) (hrun : isRunning s = true)
    (hl : localPort ≠ 0)
    (hu : (mapFind s.mAllocatedLocalPorts localPort).isSome = true)
    (hf : mapFind s.mTransports
      (createTuple localPort (if remotePort = 0 then localPort else remotePort)) = none) :
    registerNewTransport w s (some dtls) (some transport) localPort remotePort =
      ⟨none, none, 0, 0, s⟩ := by
  rw [registerNewTransport_valid w s dtls transport localPort remotePort listener hsec hdata]
  exact registerLocked_inUse w s transport localPort _ hrun hl hf hu

/-- Witness of C9, scenario S3: after `(7000, 8000)` was registered, registering
`(7000, 9000)` is refused and changes nothing. -/
theorem registerNewTransport_port_in_use_witness :
    (mapFind (registerNewTransport acceptingCollaborators scenarioListener
      (some scenarioDTLS) (some ⟨7⟩) 7000 8000).state.mAllocatedLocalPorts 7000).isSome = true ∧
    mapFind (registerNewTransport acceptingCollaborators scenarioListener
      (some scenarioDTLS) (some ⟨7⟩) 7000 8000).state.mTransports (createTuple 7000 9000) =
        none ∧
    registerNewTransport acceptingCollaborators
        (registerNewTransport acceptingCollaborators scenarioListener
          (some scenarioDTLS) (some ⟨7⟩) 7000 8000).state
        (some scenarioDTLS) (some ⟨8⟩) 7000 9000 =
      ⟨none, none, 0, 0,
        (registerNewTransport acceptingCollaborators scenarioListener
          (some scenarioDTLS) (some ⟨7⟩) 7000 8000).state⟩ :=
  ⟨by decide, by decide,
    registerNewTransport_port_in_use acceptingCollaborators
      (registerNewTransport acceptingCollaborators scenarioListener
        (some scenarioDTLS) (some ⟨7⟩) 7000 8000).state
      scenarioDTLS ⟨8⟩ 7000 9000 1 rfl rfl (by decide) (by decide) (by decide) (by decide)⟩

/-- C10 as stated fails for a requested remote port `0`: after the packet with source
port 0 and destination port 7000 created the association of tuple `(7000, 0)`, which is
neither shutting down nor shut down, registering `(7000, 0)` looks up tuple
`(7000, 7000)` and returns with the association cleared and both out ports `0`. -/
theorem registerNewTransport_zero_remote_misses :
    isRunning (handleDataPacket acceptingCollaborators scenarioListener
      [0, 0, 0x1B, 0x58]).state = true ∧
    mapFind (handleDataPacket acceptingCollaborators scenarioListener
      [0, 0, 0x1B, 0x58]).state.mTransports (createTuple 7000 0) = some ⟨1⟩ ∧
    acceptingCollaborators.isShuttingDown 1 = false ∧
    acceptingCollaborators.isShutdown 1 = false ∧
    registerNewTransport acceptingCollaborators
        (handleDataPacket acceptingCollaborators scenarioListener [0, 0, 0x1B, 0x58]).state
        (some scenarioDTLS) (some ⟨8⟩) 7000 0 =
      ⟨none, none, 0, 0,
        (handleDataPacket acceptingCollaborators scenarioListener
          [0, 0, 0x1B, 0x58]).state⟩ := by
  decide

/-- C10 amended: on a running listener, for a non-zero local port and a requested remote
port such that, with remote port `0` read as the local port, the tuple is already in
`mTransports`, `registerNewTransport` leaves the listener exactly as it was; if the
stored association is neither shutting down nor shut down it is returned and the out
ports are the local port and the remote port so read; otherwise the association is
cleared and both out ports are `0`. -/
theorem registerNewTransport_existing (w : Collaborators) (s : SCTPTransportListener)
    (dtls : IDTLSTransport) (transport found : UseSCTPTransport)
    (localPort remotePort : Nat) (listener : Nat) (hsec : dtls.isSecureTransport = true)
    (hdata : dtls.dataTransport = some listener) (hrun : isRunning s = true)
    (hl : localPort ≠ 0)
    (hf : mapFind s.mTransports
      (createTuple localPort (if remotePort = 0 then localPort else remotePort)) =
        some found) :
    registerNewTransport w s (some dtls) (some transport) localPort remotePort =
      if (w.isShuttingDown found.id || w.isShutdown found.id) = true then
        ⟨none, none, 0, 0, s⟩
      else
        ⟨none, some found, localPort, if remotePort = 0 then localPort else remotePort, s⟩ := by
  rw [registerNewTransport_valid w s dtls transport localPort remotePort listener hsec hdata]
  exact registerLocked_found w s transport found localPort _ hrun hl hf

/-- Witness of C10: after `(7000, 8000)` was registered with association `7`, a second
registration of `(7000, 8000)` returns association `7` and echoes the ports. -/
theorem registerNewTransport_existing_witness :
    mapFind (registerNewTransport acceptingCollaborators scenarioListener
      (some scenarioDTLS) (some ⟨7⟩) 7000 8000).state.mTransports (createTuple 7000 8000) =
        some ⟨7⟩ ∧
    registerNewTransport acceptingCollaborators
        (registerNewTransport acceptingCollaborators scenarioListener
          (some scenarioDTLS) (some ⟨7⟩) 7000 8000).state
        (some scenarioDTLS) (some ⟨8⟩) 7000 8000 =
      ⟨none, some ⟨7⟩, 7000, 8000,
        (registerNewTransport acceptingCollaborators scenarioListener
          (some scenarioDTLS) (some ⟨7⟩) 7000 8000).state⟩ :=
  ⟨by decide,
    registerNewTransport_existing acceptingCollaborators
      (registerNewTransport acceptingCollaborators scenarioListener
        (some scenarioDTLS) (some ⟨7⟩) 7000 8000).state
      scenarioDTLS ⟨8⟩ ⟨7⟩ 7000 8000 1 rfl rfl (by decide) (by decide) (by decide)⟩

/-! ## The cap on the number of associations -/

theorem length_mapAssign_le {β : Type} (m : List (Nat × β)) (k : Nat) (v : β) :
    (mapAssign m k v).length ≤ m.length + 1 := by
  induction m with
  | nil => simp [mapAssign]
  | cons e m ih =>
    obtain ⟨k1, v1⟩ := e
    unfold mapAssign
    split
    · simp
    · split
      · simp
      · simp only [List.length_cons]
        omega

theorem length_mapErase_le {β : Type} (m : List (Nat × β)) (k : Nat) :
    (mapErase m k).length ≤ m.length := by
  unfold mapErase
  exact List.length_filter_le _ _

theorem cancelVisit_length_le (w : Collaborators) (acc : SCTPTransportListener × List Call)
    (e : Nat × UseSCTPTransport) :
    (cancelVisit w acc e).1.mTransports.length ≤ acc.1.mTransports.length ∧
      (cancelVisit w acc e).1.mMaxPorts = acc.1.mMaxPorts := by
  cases h : w.isShutdown e.2.id with
  | false =>
    rw [cancelVisit_alive w acc e h]
    exact ⟨le_rfl, rfl⟩
  | true =>
    rw [cancelVisit_shutdown w acc e h]
    exact ⟨length_mapErase_le _ _, rfl⟩

theorem cancelLoop_length_le (w : Collaborators) (rest : List (Nat × UseSCTPTransport)) :
    ∀ acc : SCTPTransportListener × List Call,
      (rest.foldl (cancelVisit w) acc).1.mTransports.length ≤ acc.1.mTransports.length ∧
        (rest.foldl (cancelVisit w) acc).1.mMaxPorts = acc.1.mMaxPorts := by
  induction rest with
  | nil =>
    intro acc
    exact ⟨le_rfl, rfl⟩
  | cons e rest ih =>
    intro acc
    rw [List.foldl_cons]
    have h1 := ih (cancelVisit w acc e)
    have h2 := cancelVisit_length_le w acc e
    exact ⟨le_trans h1.1 h2.1, h1.2.trans h2.2⟩

theorem cancel_length_le (w : Collaborators) (s : SCTPTransportListener) :
    (cancel w s).state.mTransports.length ≤ s.mTransports.length ∧
      (cancel w s).state.mMaxPorts = s.mMaxPorts := by
  unfold cancel
  split
  · exact ⟨le_rfl, rfl⟩
  · simp only
    have hs0 : (if (!s.mGracefulShutdownReference) = true then
        { s with mGracefulShutdownReference := s.mThisWeak } else s).mTransports =
          s.mTransports ∧
        (if (!s.mGracefulShutdownReference) = true then
        { s with mGracefulShutdownReference := s.mThisWeak } else s).mMaxPorts =
          s.mMaxPorts := by
      split <;> exact ⟨rfl, rfl⟩
    generalize (if (!s.mGracefulShutdownReference) = true then
        { s with mGracefulShutdownReference := s.mThisWeak } else s) = s0 at hs0
    split
    · have hloop := cancelLoop_length_le w s0.mTransports (s0, [])
      split
      · rw [← hs0.1, ← hs0.2]
        exact hloop
      · exact ⟨Nat.zero_le _, by rw [← hs0.2]; exact hloop.2⟩
    · exact ⟨Nat.zero_le _, hs0.2⟩

theorem allocateLocalPort_fields (s : SCTPTransportListener) (r : Nat) :
    (allocateLocalPort s r).2.mTransports = s.mTransports ∧
      (allocateLocalPort s r).2.mMaxPorts = s.mMaxPorts := by
  unfold allocateLocalPort
  simp only
  generalize (s.mMaxAllocationPort + 65536 - s.mMinAllocationPort) % 65536 = n
  induction n generalizing s with
  | zero =>
    unfold allocateLocalPortLoop
    split <;> exact ⟨rfl, rfl⟩
  | succ n ih =>
    unfold allocateLocalPortLoop
    split
    · exact ih (nextPort s)
    · exact ⟨rfl, rfl⟩

theorem registerNewTransport_state (w : Collaborators) (s : SCTPTransportListener)
    (dtls : Option IDTLSTransport) (io : Option UseSCTPTransport) (l r : Nat) :
    (registerNewTransport w s dtls io l r).state = s ∨
      ∃ transport, (registerNewTransport w s dtls io l r).state =
        (registerLocked w s transport l (if r = 0 then l else r)).state := by
  unfold registerNewTransport
  split
  · exact Or.inl rfl
  · split
    · exact Or.inl rfl
    · split
      · exact Or.inl rfl
      · split
        · exact Or.inl rfl
        · rename_i transport _ _ _ _
          exact Or.inr ⟨transport, rfl⟩

theorem registerLocked_explicit_maxPorts (w : Collaborators) (s : SCTPTransportListener)
    (transport : UseSCTPTransport) (l r : Nat) (hl0 : l ≠ 0) :
    (registerLocked w s transport l r).state.mMaxPorts = s.mMaxPorts := by
  cases hrun : isRunning s with
  | false => rw [registerLocked_shutdown w s transport l r hrun]
  | true =>
    cases hf : mapFind s.mTransports (createTuple l r) with
    | some found =>
      rw [registerLocked_found w s transport found l r hrun hl0 hf]
      split <;> rfl
    | none =>
      cases hu : (mapFind s.mAllocatedLocalPorts l).isSome with
      | true => rw [registerLocked_inUse w s transport l r hrun hl0 hf hu]
      | false => rw [registerLocked_explicit w s transport l r hrun hl0 hf hu]

theorem registerLocked_ephemeral_capped (w : Collaborators) (s : SCTPTransportListener)
    (transport : UseSCTPTransport) (r : Nat) (hs : s.mTransports.length ≤ s.mMaxPorts) :
    (registerLocked w s transport 0 r).state.mTransports.length ≤
      (registerLocked w s transport 0 r).state.mMaxPorts := by
  cases hrun : isRunning s with
  | false =>
    rw [registerLocked_shutdown w s transport 0 r hrun]
    exact hs
  | true =>
    by_cases hfull : s.mTransports.length + 1 > s.mMaxPorts
    · rw [registerLocked_full w s transport r hrun hfull]
      exact hs
    · rw [registerLocked_ephemeral w s transport r hrun hfull]
      have hf := allocateLocalPort_fields s r
      split
      · show (allocateLocalPort s r).2.mTransports.length ≤
          (allocateLocalPort s r).2.mMaxPorts
        rw [hf.1, hf.2]
        exact hs
      · show (mapAssign (allocateLocalPort s r).2.mTransports _ _).length ≤
          (allocateLocalPort s r).2.mMaxPorts
        have h1 := length_mapAssign_le (allocateLocalPort s r).2.mTransports
          (createTuple (allocateLocalPort s r).1
            (if r = 0 then (allocateLocalPort s r).1 else r)) transport
        have h2 : (allocateLocalPort s r).2.mTransports.length = s.mTransports.length := by
          rw [hf.1]
        rw [hf.2]
        omega

theorem handleDataPacket_maxPorts (w : Collaborators) (s : SCTPTransportListener)
    (buffer : List BYTE) : (handleDataPacket w s buffer).state.mMaxPorts = s.mMaxPorts := by
  unfold handleDataPacket
  split
  · rfl
  · split
    split
    · rfl
    · split
      · split <;> rfl
      · rfl

/-- An operation that is not `addsUncapped` keeps the number of associations within
`mMaxPorts`. -/
theorem apply_capped (s : SCTPTransportListener) (op : Op) (hop : ¬ addsUncapped s op)
    (hs : s.mTransports.length ≤ s.mMaxPorts) :
    (op.apply s).mTransports.length ≤ (op.apply s).mMaxPorts := by
  cases op with
  | handleDataPacket w buffer =>
    show (handleDataPacket w s buffer).state.mTransports.length ≤
      (handleDataPacket w s buffer).state.mMaxPorts
    rw [handleDataPacket_maxPorts]
    have : ¬ s.mTransports.length < (handleDataPacket w s buffer).state.mTransports.length :=
      hop
    omega
  | registerNewTransport w dtls io l r =>
    show (registerNewTransport w s dtls io l r).state.mTransports.length ≤
      (registerNewTransport w s dtls io l r).state.mMaxPorts
    have hop1 : ¬ (l ≠ 0 ∧ s.mTransports.length <
      (registerNewTransport w s dtls io l r).state.mTransports.length) := hop
    rcases registerNewTransport_state w s dtls io l r with h | ⟨transport, h⟩
    · rw [h]
      exact hs
    · by_cases hl0 : l = 0
      · rw [h]
        subst hl0
        exact registerLocked_ephemeral_capped w s transport _ hs
      · have hlen : ¬ s.mTransports.length <
            (registerNewTransport w s dtls io l r).state.mTransports.length :=
          fun hlt => hop1 ⟨hl0, hlt⟩
        have hm := registerLocked_explicit_maxPorts w s transport l (if r = 0 then l else r) hl0
        rw [← h] at hm
        rw [hm]
        omega
  | announceTransport t l r =>
    show (announceTransport s t l r).state.mTransports.length ≤
      (announceTransport s t l r).state.mMaxPorts
    unfold announceTransport
    split
    · exact hs
    · split <;> exact hs
  | notifyShutdown t l r =>
    show (notifyShutdown s t l r).state.mTransports.length ≤
      (notifyShutdown s t l r).state.mMaxPorts
    unfold notifyShutdown
    split
    · exact hs
    · simp only
      split
      · split
        · exact le_trans (length_mapErase_le _ _) hs
        · exact hs
      · exact hs
  | subscribe d caps =>
    show (subscribe s d caps).state.mTransports.length ≤ (subscribe s d caps).state.mMaxPorts
    unfold subscribe
    simp only
    split <;> exact hs
  | cancel w =>
    have h := cancel_length_le w s
    show (cancel w s).state.mTransports.length ≤ (cancel w s).state.mMaxPorts
    rw [h.2]
    exact le_trans h.1 hs
  | onWake w =>
    show (onWake w s).state.mTransports.length ≤ (onWake w s).state.mMaxPorts
    unfold onWake step
    split
    · have h := cancel_length_le w s
      rw [h.2]
      exact le_trans h.1 hs
    · exact hs

/-! ## Claim about the cap -/

/-- C5 as stated fails: on a listener constructed with `listenerMaxPorts = 1`, two
packets for two unknown tuples leave two associations, and so do two registrations with
explicit local ports. -/
theorem associations_exceed_max_ports :
    Reachable (handleDataPacket secondCollaborators
      (handleDataPacket acceptingCollaborators cappedListener scenarioPacket).state
      [0x13, 0x88, 0x13, 0x8A]).state ∧
    (handleDataPacket secondCollaborators
      (handleDataPacket acceptingCollaborators cappedListener scenarioPacket).state
      [0x13, 0x88, 0x13, 0x8A]).state.mMaxPorts = 1 ∧
    (handleDataPacket secondCollaborators
      (handleDataPacket acceptingCollaborators cappedListener scenarioPacket).state
      [0x13, 0x88, 0x13, 0x8A]).state.mTransports.length = 2 ∧
    (registerNewTransport acceptingCollaborators
      (registerNewTransport acceptingCollaborators cappedListener (some scenarioDTLS)
        (some ⟨7⟩) 7000 8000).state
      (some scenarioDTLS) (some ⟨8⟩) 7001 8000).state.mTransports.length = 2 :=
  ⟨ReachableBy.step _ (Op.handleDataPacket secondCollaborators [0x13, 0x88, 0x13, 0x8A])
      (ReachableBy.step cappedListener
        (Op.handleDataPacket acceptingCollaborators scenarioPacket)
        (ReachableBy.fresh 1 2 { scenarioSettings with listenerMaxPorts := 1 } 1
          cappedListener rfl) trivial trivial) trivial trivial,
    by decide, by decide, by decide⟩

/-- C5 amended: the cap is enforced where `registerNewTransport` allocates an ephemeral
local port.  In every state reached by operations among which no `handleDataPacket`
creates an association and no `registerNewTransport` with an explicit local port stores
one, the number of entries of `mTransports` is at most `mMaxPorts`. -/
theorem associations_capped (s : SCTPTransportListener)
    (hreach : ReachableBy (fun s1 op => ¬ addsUncapped s1 op) s) :
    s.mTransports.length ≤ s.mMaxPorts := by
  induction hreach with
  | fresh mID secureTransport settings increment s h =>
    unfold construct at h
    split at h
    · cases h
      exact Nat.zero_le _
    · cases h
  | step s op _ _ hop ih => exact apply_capped s op hop ih

/-- Witness of C5 amended: on the listener with `listenerMaxPorts = 1`, one ephemeral
registration is stored and a second one is refused. -/
theorem associations_capped_witness :
    (registerNewTransport acceptingCollaborators
      (registerNewTransport acceptingCollaborators cappedListener (some scenarioDTLS)
        (some ⟨7⟩) 0 0).state
      (some scenarioDTLS) (some ⟨8⟩) 0 0).ioTransport = none ∧
    (registerNewTransport acceptingCollaborators
      (registerNewTransport acceptingCollaborators cappedListener (some scenarioDTLS)
        (some ⟨7⟩) 0 0).state
      (some scenarioDTLS) (some ⟨8⟩) 0 0).state.mTransports.length ≤
    (registerNewTransport acceptingCollaborators
      (registerNewTransport acceptingCollaborators cappedListener (some scenarioDTLS)
        (some ⟨7⟩) 0 0).state
      (some scenarioDTLS) (some ⟨8⟩) 0 0).state.mMaxPorts :=
  ⟨by decide,
    associations_capped _
      (ReachableBy.step _
        (Op.registerNewTransport acceptingCollaborators (some scenarioDTLS) (some ⟨8⟩) 0 0)
        (ReachableBy.step cappedListener
          (Op.registerNewTransport acceptingCollaborators (some scenarioDTLS) (some ⟨7⟩) 0 0)
          (ReachableBy.fresh 1 2 { scenarioSettings with listenerMaxPorts := 1 } 1
            cappedListener rfl)
          ⟨by decide, by decide⟩ (fun h => h.1 rfl))
        ⟨by decide, by decide⟩ (fun h => h.1 rfl))⟩

/-! ## Exact reference counts -/

theorem countP_mapAssign_of_none (P : Nat → Bool) (m : List (Nat × UseSCTPTransport))
    (k : Nat) (v : UseSCTPTransport) (h : mapFind m k = none) :
    (mapAssign m k v).countP (fun e => P e.1) =
      m.countP (fun e => P e.1) + (if P k then 1 else 0) := by
  rw [(mapAssign_perm m k v h).countP_eq, List.countP_cons]

theorem mapErase_of_absent {β : Type} (m : List (Nat × β)) (k : Nat)
    (h : ∀ e ∈ m, e.1 ≠ k) : mapErase m k = m := by
  unfold mapErase
  exact List.filter_eq_self.2 (fun e he => by simpa using h e he)

theorem countP_mapErase_of_sorted (P : Nat → Bool) (m : List (Nat × UseSCTPTransport))
    (k : Nat) (v : UseSCTPTransport) (hs : mapSorted m) (hf : mapFind m k = some v) :
    (mapErase m k).countP (fun e => P e.1) + (if P k then 1 else 0) =
      m.countP (fun e => P e.1) := by
  induction m with
  | nil => simp [mapFind] at hf
  | cons e m ih =>
    obtain ⟨k1, v1⟩ := e
    unfold mapSorted at hs ih
    simp only [List.map_cons, List.pairwise_cons] at hs
    by_cases h1 : k1 = k
    · subst h1
      rw [mapErase_cons_eq, List.countP_cons]
      have habs : ∀ e ∈ m, e.1 ≠ k1 := by
        intro e he
        have := hs.1 e.1 (List.mem_map.2 ⟨e, he, rfl⟩)
        omega
      rw [mapErase_of_absent m k1 habs]
    · unfold mapFind at hf
      simp only [h1, if_false] at hf
      rw [mapErase_cons_ne m k k1 v1 h1, List.countP_cons, List.countP_cons]
      have := ih hs.2 hf
      omega

theorem mapFind_none_of_localCount (m : List (Nat × UseSCTPTransport)) (l r : Nat)
    (hl : l < 65536) (hr : r < 65536) (h : tuplesWithLocalPort m l = 0) :
    mapFind m (createTuple l r) = none := by
  cases hf : mapFind m (createTuple l r) with
  | none => rfl
  | some v =>
    have hmem := mapFind_mem _ _ _ hf
    have hpos : 0 < tuplesWithLocalPort m l := by
      unfold tuplesWithLocalPort
      exact List.countP_pos_iff.2 ⟨_, hmem, by simp [splitTuple_createTuple l r hl hr]⟩
    omega

theorem exact_of_insert (s s1 : SCTPTransportListener) (hs : ExactCounts s)
    (l r : Nat) (t : UseSCTPTransport) (hl : l < 65536) (hr : r < 65536)
    (hne : ¬ (l = 0 ∧ r = 0))
    (hf : mapFind s.mTransports (createTuple l r) = none)
    (hT : s1.mTransports = mapAssign s.mTransports (createTuple l r) t)
    (hL : s1.mAllocatedLocalPorts = allocatePort s.mAllocatedLocalPorts l)
    (hR : s1.mAllocatedRemotePorts = allocatePort s.mAllocatedRemotePorts r)
    (hc : s1.mCurrentAllocationPort < 65536) (hc0 : s1.mCurrentAllocationPort ≠ 0)
    (hmin : s1.mMinAllocationPort = s.mMinAllocationPort) : ExactCounts s1 := by
  have hsplit := splitTuple_createTuple l r hl hr
  refine ⟨?_, ?_, ?_, hc0, by rw [hmin]; exact hs.minPort⟩
  · refine consistent_of_insert s s1 hs.consistent l r t hl hr hne hT ?_ ?_ hc
    · intro p
      rw [hL, portCount_allocatePort]
    · intro p
      rw [hR, portCount_allocatePort]
  · intro p
    have h1 := countP_mapAssign_of_none (fun k => decide ((splitTuple k).1 = p)) s.mTransports
      (createTuple l r) t hf
    have h2 := hs.localExact p
    unfold tuplesWithLocalPort at h2 ⊢
    beta_reduce at h1
    rw [hsplit] at h1
    rw [hT, hL, portCount_allocatePort, h1, h2]
    by_cases hp : p = l
    · subst hp
      simp
    · have hp2 : ¬ l = p := fun e => hp e.symm
      simp [hp, hp2]
  · intro p
    have h1 := countP_mapAssign_of_none (fun k => decide ((splitTuple k).2 = p)) s.mTransports
      (createTuple l r) t hf
    have h2 := hs.remoteExact p
    unfold tuplesWithRemotePort at h2 ⊢
    beta_reduce at h1
    rw [hsplit] at h1
    rw [hT, hR, portCount_allocatePort, h1, h2]
    by_cases hp : p = r
    · subst hp
      simp
    · have hp2 : ¬ r = p := fun e => hp e.symm
      simp [hp, hp2]

theorem exact_of_erase (s s1 : SCTPTransportListener) (hs : ExactCounts s)
    (k : Nat) (v : UseSCTPTransport) (hf : mapFind s.mTransports k = some v)
    (hT : s1.mTransports = mapErase s.mTransports k)
    (hL : s1.mAllocatedLocalPorts = deallocatePort s.mAllocatedLocalPorts (splitTuple k).1)
    (hR : s1.mAllocatedRemotePorts = deallocatePort s.mAllocatedRemotePorts (splitTuple k).2)
    (hc : s1.mCurrentAllocationPort = s.mCurrentAllocationPort)
    (hmin : s1.mMinAllocationPort = s.mMinAllocationPort) : ExactCounts s1 := by
  refine ⟨?_, ?_, ?_, by rw [hc]; exact hs.cursorPos, by rw [hmin]; exact hs.minPort⟩
  · exact consistent_of_erase s s1 hs.consistent k v hf hT hL hR
      (by rw [hc]; exact hs.consistent.cursor)
  · intro p
    have h1 := countP_mapErase_of_sorted (fun k => decide ((splitTuple k).1 = p)) s.mTransports
      k v hs.consistent.sorted hf
    have h2 := hs.localExact p
    unfold tuplesWithLocalPort at h2 ⊢
    rw [hT, hL, portCount_deallocatePort]
    beta_reduce at h1
    by_cases hp : p = (splitTuple k).1
    · simp only [hp, decide_True, if_true] at h1 ⊢
      rw [hp] at h2
      omega
    · have hp2 : ¬ (splitTuple k).1 = p := fun e => hp e.symm
      simp only [hp, hp2, decide_False, if_false, Bool.false_eq_true] at h1 ⊢
      omega
  · intro p
    have h1 := countP_mapErase_of_sorted (fun k => decide ((splitTuple k).2 = p)) s.mTransports
      k v hs.consistent.sorted hf
    have h2 := hs.remoteExact p
    unfold tuplesWithRemotePort at h2 ⊢
    rw [hT, hR, portCount_deallocatePort]
    beta_reduce at h1
    by_cases hp : p = (splitTuple k).2
    · simp only [hp, decide_True, if_true] at h1 ⊢
      rw [hp] at h2
      omega
    · have hp2 : ¬ (splitTuple k).2 = p := fun e => hp e.symm
      simp only [hp, hp2, decide_False, if_false, Bool.false_eq_true] at h1 ⊢
      omega

theorem exact_of_same (s s1 : SCTPTransportListener) (hs : ExactCounts s)
    (hT : s1.mTransports = s.mTransports)
    (hL : s1.mAllocatedLocalPorts = s.mAllocatedLocalPorts)
    (hR : s1.mAllocatedRemotePorts = s.mAllocatedRemotePorts)
    (hc : s1.mCurrentAllocationPort < 65536) (hc0 : s1.mCurrentAllocationPort ≠ 0)
    (hmin : s1.mMinAllocationPort = s.mMinAllocationPort) : ExactCounts s1 := by
  refine ⟨?_, ?_, ?_, hc0, by rw [hmin]; exact hs.minPort⟩
  · exact consistent_of_same s s1 hs.consistent hT (fun p => by rw [hL])
      (fun p => by rw [hR]) hc
  · intro p
    rw [hT, hL]
    exact hs.localExact p
  · intro p
    rw [hT, hR]
    exact hs.remoteExact p

theorem handleDataPacket_exact (w : Collaborators) (s : SCTPTransportListener)
    (buffer : List BYTE) (hs : ExactCounts s) : ExactCounts (handleDataPacket w s buffer).state := by
  by_cases h4 : buffer.length < 4
  · rw [handleDataPacket_short w s buffer h4]
    exact hs
  · by_cases h0 : (getLocalRemoteTuple buffer Directions.Direction_Incoming).1 = 0
    · rw [handleDataPacket_zero w s buffer h0]
      exact hs
    · cases hf : mapFind s.mTransports
          (getLocalRemoteTuple buffer Directions.Direction_Incoming).1 with
      | some transport =>
        rw [handleDataPacket_known w s buffer transport (by omega) h0 hf]
        exact hs
      | none =>
        cases hc : w.create (getLocalRemoteTuple buffer Directions.Direction_Incoming).2.1
            (getLocalRemoteTuple buffer Directions.Direction_Incoming).2.2 with
        | none =>
          rw [handleDataPacket_createFails w s buffer (by omega) h0 hf hc]
          exact hs
        | some transport =>
          rw [handleDataPacket_creates w s buffer transport (by omega) h0 hf hc]
          have hlt := inboundPorts_lt buffer
          have he := inboundTuple_eq buffer (by omega)
          unfold inboundTuple inboundLocalPort inboundRemotePort at hlt he
          refine exact_of_insert s _ hs _ _ transport hlt.1 hlt.2 ?_ ?_ ?_ rfl rfl
            hs.consistent.cursor hs.cursorPos rfl
          · intro hz
            apply h0
            rw [he]
            exact (createTuple_eq_zero _ _).2 hz
          · rw [← he]
            exact hf
          · show mapAssign _ _ _ = _
            rw [← he]

theorem nextPort_cursor_pos (s : SCTPTransportListener)
    (hmin : 1 ≤ s.mMinAllocationPort ∧ s.mMinAllocationPort ≤ 65534) :
    (nextPort s).mCurrentAllocationPort ≠ 0 := by
  unfold nextPort
  simp only
  split <;> split <;> omega

theorem allocateLocalPortLoop_cases_pos (remotePort : Nat) (n : Nat)
    (s : SCTPTransportListener) (hc : s.mCurrentAllocationPort < 65536)
    (hc0 : s.mCurrentAllocationPort ≠ 0)
    (hmin : 1 ≤ s.mMinAllocationPort ∧ s.mMinAllocationPort ≤ 65534) :
    (∃ c, c < 65536 ∧ c ≠ 0 ∧
      allocateLocalPortLoop remotePort n s = (0, { s with mCurrentAllocationPort := c })) ∨
    (∃ c, c < 65536 ∧ c ≠ 0 ∧
      portTaken { s with mCurrentAllocationPort := c } remotePort = false ∧
      allocateLocalPortLoop remotePort n s =
        foundPort { s with mCurrentAllocationPort := c } remotePort) := by
  induction n generalizing s with
  | zero =>
    unfold allocateLocalPortLoop
    by_cases ht : portTaken s remotePort = true
    · rw [if_pos ht]
      exact Or.inl ⟨_, nextPort_cursor_lt s, nextPort_cursor_pos s hmin, rfl⟩
    · rw [if_neg ht]
      exact Or.inr ⟨s.mCurrentAllocationPort, hc, hc0, by simpa using ht, rfl⟩
  | succ n ih =>
    unfold allocateLocalPortLoop
    by_cases ht : portTaken s remotePort = true
    · rw [if_pos ht]
      rcases ih (nextPort s) (nextPort_cursor_lt s) (nextPort_cursor_pos s hmin) hmin with
        ⟨c, hc1, hc2, h⟩ | ⟨c, hc1, hc2, h1, h⟩
      · exact Or.inl ⟨c, hc1, hc2, by rw [h]; rfl⟩
      · exact Or.inr ⟨c, hc1, hc2, h1, by rw [h]; rfl⟩
    · rw [if_neg ht]
      exact Or.inr ⟨s.mCurrentAllocationPort, hc, hc0, by simpa using ht, rfl⟩

theorem registerLocked_exact (w : Collaborators) (s : SCTPTransportListener)
    (transport : UseSCTPTransport) (l r : Nat) (hl : l < 65536) (hr : r < 65536)
    (hs : ExactCounts s) : ExactCounts (registerLocked w s transport l r).state := by
  cases hrun : isRunning s with
  | false =>
    rw [registerLocked_shutdown w s transport l r hrun]
    exact hs
  | true =>
    by_cases hl0 : l = 0
    · subst hl0
      by_cases hfull : s.mTransports.length + 1 > s.mMaxPorts
      · rw [registerLocked_full w s transport r hrun hfull]
        exact hs
      · rw [registerLocked_ephemeral w s transport r hrun hfull]
        unfold allocateLocalPort
        rcases allocateLocalPortLoop_cases_pos r
            ((s.mMaxAllocationPort + 65536 - s.mMinAllocationPort) % 65536) s
            hs.consistent.cursor hs.cursorPos hs.minPort with
          ⟨c, hc, hc0, h⟩ | ⟨c, hc, hc0, htaken, h⟩
        · simp only [h, if_true]
          exact exact_of_same s _ hs rfl rfl rfl hc hc0 rfl
        · simp only [h, foundPort, hc0, if_false]
          have hr1 : (if r = 0 then c else r) < 65536 := by split <;> omega
          have hfree : mapFind s.mAllocatedLocalPorts c = none := by
            unfold portTaken at htaken
            simp only [Bool.or_eq_false_iff] at htaken
            cases hm : mapFind s.mAllocatedLocalPorts c with
            | none => rfl
            | some v =>
              have := htaken.1
              rw [hm] at this
              cases this
          have hcount : tuplesWithLocalPort s.mTransports c = 0 := by
            rw [hs.localExact c]
            unfold portCount
            rw [hfree]
            rfl
          exact exact_of_insert s _ hs c (if r = 0 then c else r) transport hc hr1
            (fun h => hc0 h.1)
            (mapFind_none_of_localCount s.mTransports c _ hc hr1 hcount) rfl rfl rfl hc hc0 rfl
    · cases hf : mapFind s.mTransports (createTuple l r) with
      | some found =>
        rw [registerLocked_found w s transport found l r hrun hl0 hf]
        split <;> exact hs
      | none =>
        cases hu : (mapFind s.mAllocatedLocalPorts l).isSome with
        | true =>
          rw [registerLocked_inUse w s transport l r hrun hl0 hf hu]
          exact hs
        | false =>
          rw [registerLocked_explicit w s transport l r hrun hl0 hf hu]
          exact exact_of_insert s _ hs l r transport hl hr (fun h => hl0 h.1) hf rfl rfl rfl
            hs.consistent.cursor hs.cursorPos rfl

theorem registerNewTransport_exact (w : Collaborators) (s : SCTPTransportListener)
    (dtls : Option IDTLSTransport) (io : Option UseSCTPTransport)
    (l r : Nat) (hl : l < 65536) (hr : r < 65536) (hs : ExactCounts s) :
    ExactCounts (registerNewTransport w s dtls io l r).state := by
  rcases registerNewTransport_state w s dtls io l r with h | ⟨transport, h⟩
  · rw [h]
    exact hs
  · rw [h]
    exact registerLocked_exact w s transport l _ hl (by split <;> omega) hs

theorem notifyShutdown_exact (s : SCTPTransportListener) (t : UseSCTPTransport)
    (l r : Nat) (hl : l < 65536) (hr : r < 65536) (hs : ExactCounts s) :
    ExactCounts (notifyShutdown s t l r).state := by
  unfold notifyShutdown
  split
  · exact hs
  · simp only
    cases hf : mapFind s.mTransports (createTuple l r) with
    | none =>
      exact exact_of_same s _ hs rfl rfl rfl hs.consistent.cursor hs.cursorPos rfl
    | some registered =>
      simp only
      by_cases hid : registered.id = t.id
      · rw [if_pos hid]
        have hsplit := splitTuple_createTuple l r hl hr
        refine exact_of_erase s _ hs (createTuple l r) registered hf rfl ?_ ?_ rfl rfl
        · rw [hsplit]
        · rw [hsplit]
      · rw [if_neg hid]
        exact exact_of_same s _ hs rfl rfl rfl hs.consistent.cursor hs.cursorPos rfl

theorem construct_exact (mID secureTransport : Nat) (settings : Settings)
    (increment : Nat) (s : SCTPTransportListener)
    (h : construct mID secureTransport settings increment = some s)
    (hmin : 1 ≤ settings.listenerMinPort ∧ settings.listenerMinPort ≤ 65534)
    (hdefault : 1 ≤ settings.listenerDefaultPort) : ExactCounts s := by
  have hcons := construct_consistent mID secureTransport settings increment s h
  unfold construct at h
  split at h
  · cases h
    refine ⟨hcons, ?_, ?_, ?_, hmin⟩
    · intro p
      rfl
    · intro p
      rfl
    · show settings.listenerDefaultPort ≠ 0
      omega
  · cases h

/-- The reference-count property where the allocation cursor cannot be port 0: for a
listener constructed with `1 ≤ listenerMinPort ≤ 65534` and `1 ≤ listenerDefaultPort`,
after any sequence of `handleDataPacket`, `registerNewTransport` and `notifyShutdown`
calls the count stored for a port equals the number of tuples of `mTransports` with that
local port, respectively remote port. -/
theorem refcounts_exact_of_nonzero_cursor (mID secureTransport : Nat) (settings : Settings)
    (increment : Nat) (s0 s : SCTPTransportListener)
    (h0 : construct mID secureTransport settings increment = some s0)
    (hmin : 1 ≤ settings.listenerMinPort ∧ settings.listenerMinPort ≤ 65534)
    (hdefault : 1 ≤ settings.listenerDefaultPort)
    (hreach : ReachableFrom s0 countingOp s) (p : Nat) :
    portCount s.mAllocatedLocalPorts p = tuplesWithLocalPort s.mTransports p ∧
      portCount s.mAllocatedRemotePorts p = tuplesWithRemotePort s.mTransports p := by
  have hex : ExactCounts s := by
    induction hreach with
    | start => exact construct_exact mID secureTransport settings increment s0 h0 hmin hdefault
    | step s op _ hty hop ih =>
      cases op with
      | handleDataPacket w buffer => exact handleDataPacket_exact w s buffer ih
      | registerNewTransport w dtls io l r =>
        exact registerNewTransport_exact w s dtls io l r hty.1 hty.2 ih
      | notifyShutdown t l r => exact notifyShutdown_exact s t l r hty.1 hty.2 ih
      | announceTransport t l r => exact hop.elim
      | subscribe d caps => exact hop.elim
      | cancel w => exact hop.elim
      | onWake w => exact hop.elim
  exact ⟨(hex.localExact p).symm, (hex.remoteExact p).symm⟩

/-- The reference-count property on the listener of scenario S1 after its packet. -/
theorem refcounts_exact_of_nonzero_cursor_witness :
    portCount (handleDataPacket acceptingCollaborators scenarioListener
        scenarioPacket).state.mAllocatedLocalPorts 5001 =
      tuplesWithLocalPort (handleDataPacket acceptingCollaborators scenarioListener
        scenarioPacket).state.mTransports 5001 ∧
    portCount (handleDataPacket acceptingCollaborators scenarioListener
        scenarioPacket).state.mAllocatedRemotePorts 5001 =
      tuplesWithRemotePort (handleDataPacket acceptingCollaborators scenarioListener
        scenarioPacket).state.mTransports 5001 :=
  refcounts_exact_of_nonzero_cursor 1 2 scenarioSettings 1 scenarioListener _ rfl
    ⟨by decide, by decide⟩ (by decide)
    (ReachableFrom.step scenarioListener
      (Op.handleDataPacket acceptingCollaborators scenarioPacket) ReachableFrom.start
      trivial trivial) 5001

/-- C3 fails on the code: a listener constructed with minimum and default port 0 takes
port 0 as the ephemeral port, counts it in both maps, and `registerNewTransport` then
reads the returned 0 as a failed allocation: the association comes back cleared, no
tuple is stored, and port 0 is counted once in each map with no tuple using it. -/
theorem refcount_leak_at_port_zero :
    construct 1 2 ⟨16383, 0, 65535, 0⟩ 1 = some zeroPortListener ∧
    ReachableBy (fun _ op => countingOp op)
      (registerNewTransport acceptingCollaborators zeroPortListener (some scenarioDTLS)
        (some ⟨7⟩) 0 0).state ∧
    registerNewTransport acceptingCollaborators zeroPortListener (some scenarioDTLS)
        (some ⟨7⟩) 0 0 =
      ⟨none, none, 0, 0,
        { zeroPortListener with
          mAllocatedLocalPorts := [(0, 1)], mAllocatedRemotePorts := [(0, 1)] }⟩ ∧
    portCount (registerNewTransport acceptingCollaborators zeroPortListener
      (some scenarioDTLS) (some ⟨7⟩) 0 0).state.mAllocatedLocalPorts 0 = 1 ∧
    tuplesWithLocalPort (registerNewTransport acceptingCollaborators zeroPortListener
      (some scenarioDTLS) (some ⟨7⟩) 0 0).state.mTransports 0 = 0 ∧
    portCount (registerNewTransport acceptingCollaborators zeroPortListener
      (some scenarioDTLS) (some ⟨7⟩) 0 0).state.mAllocatedRemotePorts 0 = 1 ∧
    tuplesWithRemotePort (registerNewTransport acceptingCollaborators zeroPortListener
      (some scenarioDTLS) (some ⟨7⟩) 0 0).state.mTransports 0 = 0 :=
  ⟨by decide,
    ReachableBy.step zeroPortListener
      (Op.registerNewTransport acceptingCollaborators (some scenarioDTLS) (some ⟨7⟩) 0 0)
      (ReachableBy.fresh 1 2 ⟨16383, 0, 65535, 0⟩ 1 zeroPortListener (by decide))
      ⟨by decide, by decide⟩ trivial,
    by decide, by decide, by decide, by decide, by decide⟩

/-! ## Claims about new registrations -/

/-- C11: on a running listener, for a non-zero local port without entry in
`mAllocatedLocalPorts` and a requested remote port such that, with remote port `0` read
as the local port, the tuple is not in `mTransports`, `registerNewTransport` returns
normally with the supplied association and the ports so read, stores the association
under the tuple, keeps every other entry of `mTransports`, raises the count of the local
port and of the remote port by one, keeps every other count, and leaves the pending and
announced maps alone. -/
theorem registerNewTransport_explicit_new (w : Collaborators) (s : SCTPTransportListener)
    (dtls : IDTLSTransport) (transport : UseSCTPTransport) (localPort remotePort : Nat)
    (listener : Nat) (hsec : dtls.isSecureTransport = true)
    (hdata : dtls.dataTransport = some listener) (hrun : isRunning s = true)
    (hl : localPort ≠ 0) (hfree : mapFind s.mAllocatedLocalPorts localPort = none)
    (hf : mapFind s.mTransports
      (createTuple localPort (if remotePort = 0 then localPort else remotePort)) = none) :
    (registerNewTransport w s (some dtls) (some transport) localPort remotePort).thrown =
      none ∧
    (registerNewTransport w s (some dtls) (some transport) localPort remotePort).ioTransport =
      some transport ∧
    (registerNewTransport w s (some dtls) (some transport) localPort remotePort).ioLocalPort =
      localPort ∧
    (registerNewTransport w s (some dtls) (some transport) localPort remotePort).ioRemotePort =
      (if remotePort = 0 then localPort else remotePort) ∧
    mapFind (registerNewTransport w s (some dtls) (some transport) localPort
        remotePort).state.mTransports
      (createTuple localPort (if remotePort = 0 then localPort else remotePort)) =
        some transport ∧
    (∀ k, k ≠ createTuple localPort (if remotePort = 0 then localPort else remotePort) →
      mapFind (registerNewTransport w s (some dtls) (some transport) localPort
        remotePort).state.mTransports k = mapFind s.mTransports k) ∧
    (∀ p, portCount (registerNewTransport w s (some dtls) (some transport) localPort
        remotePort).state.mAllocatedLocalPorts p =
      portCount s.mAllocatedLocalPorts p + (if p = localPort then 1 else 0)) ∧
    (∀ p, portCount (registerNewTransport w s (some dtls) (some transport) localPort
        remotePort).state.mAllocatedRemotePorts p =
      portCount s.mAllocatedRemotePorts p +
        (if p = (if remotePort = 0 then localPort else remotePort) then 1 else 0)) ∧
    (registerNewTransport w s (some dtls) (some transport) localPort
        remotePort).state.mPendingTransports = s.mPendingTransports ∧
    (registerNewTransport w s (some dtls) (some transport) localPort
        remotePort).state.mAnnouncedTransports = s.mAnnouncedTransports := by
  have hu : (mapFind s.mAllocatedLocalPorts localPort).isSome = false := by
    rw [hfree]
    rfl
  rw [registerNewTransport_valid w s dtls transport localPort remotePort listener hsec hdata,
    registerLocked_explicit w s transport localPort _ hrun hl hf hu]
  refine ⟨rfl, rfl, rfl, rfl, ?_, ?_, ?_, ?_, rfl, rfl⟩
  · simp [mapFind_mapAssign]
  · intro k hk
    simp [mapFind_mapAssign, hk]
  · intro p
    exact portCount_allocatePort _ _ _
  · intro p
    exact portCount_allocatePort _ _ _

/-- Witness of C11: registering `(7000, 8000)` on the fresh listener of scenario S1. -/
theorem registerNewTransport_explicit_new_witness :
    (registerNewTransport acceptingCollaborators scenarioListener (some scenarioDTLS)
      (some ⟨7⟩) 7000 8000).ioTransport = some ⟨7⟩ ∧
    (registerNewTransport acceptingCollaborators scenarioListener (some scenarioDTLS)
      (some ⟨7⟩) 7000 8000).ioLocalPort = 7000 ∧
    (registerNewTransport acceptingCollaborators scenarioListener (some scenarioDTLS)
      (some ⟨7⟩) 7000 8000).ioRemotePort = 8000 ∧
    mapFind (registerNewTransport acceptingCollaborators scenarioListener (some scenarioDTLS)
      (some ⟨7⟩) 7000 8000).state.mTransports (createTuple 7000 8000) = some ⟨7⟩ ∧
    portCount (registerNewTransport acceptingCollaborators scenarioListener
      (some scenarioDTLS) (some ⟨7⟩) 7000 8000).state.mAllocatedLocalPorts 7000 = 1 ∧
    portCount (registerNewTransport acceptingCollaborators scenarioListener
      (some scenarioDTLS) (some ⟨7⟩) 7000 8000).state.mAllocatedRemotePorts 8000 = 1 :=
  ⟨(registerNewTransport_explicit_new acceptingCollaborators scenarioListener scenarioDTLS
      ⟨7⟩ 7000 8000 1 rfl rfl (by decide) (by decide) (by decide) (by decide)).2.1,
    by decide, by decide, by decide, by decide, by decide⟩

/-- C13: on a running listener whose number of associations plus one exceeds
`mMaxPorts`, `registerNewTransport` with local port `0` returns normally with the
association cleared and both out ports `0`, and the listener, allocation cursor
included, is exactly as before. -/
theorem registerNewTransport_full (w : Collaborators) (s : SCTPTransportListener)
    (dtls : IDTLSTransport) (transport : UseSCTPTransport) (remotePort : Nat)
    (listener : Nat) (hsec : dtls.isSecureTransport = true)
    (hdata : dtls.dataTransport = some listener) (hrun : isRunning s = true)
    (hfull : s.mTransports.length + 1 > s.mMaxPorts) :
    registerNewTransport w s (some dtls) (some transport) 0 remotePort =
      ⟨none, none, 0, 0, s⟩ := by
  rw [registerNewTransport_valid w s dtls transport 0 remotePort listener hsec hdata]
  exact registerLocked_full w s transport _ hrun hfull

/-- Witness of C13: the listener with `listenerMaxPorts = 1` holding one association. -/
theorem registerNewTransport_full_witness :
    (registerNewTransport acceptingCollaborators cappedListener (some scenarioDTLS)
      (some ⟨7⟩) 7000 8000).state.mTransports.length + 1 >
      (registerNewTransport acceptingCollaborators cappedListener (some scenarioDTLS)
        (some ⟨7⟩) 7000 8000).state.mMaxPorts ∧
    registerNewTransport acceptingCollaborators
        (registerNewTransport acceptingCollaborators cappedListener (some scenarioDTLS)
          (some ⟨7⟩) 7000 8000).state
        (some scenarioDTLS) (some ⟨8⟩) 0 9000 =
      ⟨none, none, 0, 0,
        (registerNewTransport acceptingCollaborators cappedListener (some scenarioDTLS)
          (some ⟨7⟩) 7000 8000).state⟩ :=
  ⟨by decide,
    registerNewTransport_full acceptingCollaborators
      (registerNewTransport acceptingCollaborators cappedListener (some scenarioDTLS)
        (some ⟨7⟩) 7000 8000).state
      scenarioDTLS ⟨8⟩ 9000 1 rfl rfl (by decide) (by decide)⟩

/-- C15: on a listener that is shutting down or shut down, `registerNewTransport` fails
with `InvalidState` whatever the requested ports, and the listener is exactly as
before. -/
theorem registerNewTransport_shutdown (w : Collaborators) (s : SCTPTransportListener)
    (dtls : IDTLSTransport) (transport : UseSCTPTransport) (localPort remotePort : Nat)
    (listener : Nat) (hsec : dtls.isSecureTransport = true)
    (hdata : dtls.dataTransport = some listener)
    (hdown : (isShuttingDown s || isShutdown s) = true) :
    (registerNewTransport w s (some dtls) (some transport) localPort remotePort).thrown =
      some Error.InvalidState ∧
    (registerNewTransport w s (some dtls) (some transport) localPort remotePort).state = s := by
  have hrun : isRunning s = false := by
    unfold isRunning
    rw [hdown]
    rfl
  rw [registerNewTransport_valid w s dtls transport localPort remotePort listener hsec hdata,
    registerLocked_shutdown w s transport localPort _ hrun]
  exact ⟨rfl, rfl⟩

/-- Witness of C15: the listener of scenario S1 after `cancel`, which is shut down. -/
theorem registerNewTransport_shutdown_witness :
    isShutdown (cancel acceptingCollaborators scenarioListener).state = true ∧
    (registerNewTransport acceptingCollaborators
      (cancel acceptingCollaborators scenarioListener).state (some scenarioDTLS)
      (some ⟨7⟩) 7000 8000).thrown = some Error.InvalidState ∧
    (registerNewTransport acceptingCollaborators
      (cancel acceptingCollaborators scenarioListener).state (some scenarioDTLS)
      (some ⟨7⟩) 7000 8000).state = (cancel acceptingCollaborators scenarioListener).state :=
  ⟨by decide,
    registerNewTransport_shutdown acceptingCollaborators
      (cancel acceptingCollaborators scenarioListener).state scenarioDTLS ⟨7⟩ 7000 8000 1
      rfl rfl (by decide)⟩

/-! ## The ephemeral path of `registerNewTransport` -/

theorem registerLocked_ephemeral_cases (w : Collaborators) (s : SCTPTransportListener)
    (transport : UseSCTPTransport) (r : Nat) (hrun : isRunning s = true)
    (hfull : ¬ s.mTransports.length + 1 > s.mMaxPorts)
    (hc : s.mCurrentAllocationPort < 65536) :
    ((allocateLocalPort s r).1 = 0 ∧
      registerLocked w s transport 0 r = ⟨none, none, 0, 0, (allocateLocalPort s r).2⟩) ∨
    (∃ c, c < 65536 ∧ c ≠ 0 ∧ (allocateLocalPort s r).1 = c ∧
      (mapFind s.mAllocatedLocalPorts c).isSome = false ∧
      (r = 0 → (mapFind s.mAllocatedRemotePorts c).isSome = false) ∧
      registerLocked w s transport 0 r =
        ⟨none, some transport, c, if r = 0 then c else r,
          { s with
            mCurrentAllocationPort := c
            mAllocatedLocalPorts := allocatePort s.mAllocatedLocalPorts c
            mAllocatedRemotePorts :=
              allocatePort s.mAllocatedRemotePorts (if r = 0 then c else r)
            mTransports :=
              mapAssign s.mTransports (createTuple c (if r = 0 then c else r)) transport }⟩) := by
  rw [registerLocked_ephemeral w s transport r hrun hfull]
  by_cases h0 : (allocateLocalPort s r).1 = 0
  · left
    exact ⟨h0, by rw [if_pos h0]⟩
  · right
    rw [if_neg h0]
    have hcases := allocateLocalPortLoop_cases r
      ((s.mMaxAllocationPort + 65536 - s.mMinAllocationPort) % 65536) s hc
    have hdef : allocateLocalPort s r = allocateLocalPortLoop r
      ((s.mMaxAllocationPort + 65536 - s.mMinAllocationPort) % 65536) s := rfl
    rcases hcases with ⟨c, _, h⟩ | ⟨c, hc1, htaken, h⟩
    · rw [hdef, h] at h0
      exact absurd rfl h0
    · rw [← hdef] at h
      have hfound : allocateLocalPort s r =
          (c, { s with
            mCurrentAllocationPort := c
            mAllocatedLocalPorts := allocatePort s.mAllocatedLocalPorts c
            mAllocatedRemotePorts :=
              allocatePort s.mAllocatedRemotePorts (if r = 0 then c else r) }) := by
        rw [h]
        rfl
      rw [hfound] at h0 ⊢
      unfold portTaken at htaken
      simp only [Bool.or_eq_false_iff, Bool.and_eq_false_imp, decide_eq_true_eq] at htaken
      exact ⟨c, hc1, h0, rfl, htaken.1, htaken.2, rfl⟩

theorem registerNewTransport_returns (w : Collaborators) (s : SCTPTransportListener)
    (dtls : Option IDTLSTransport) (io : Option UseSCTPTransport) (l r : Nat)
    (h : (registerNewTransport w s dtls io l r).thrown = none) :
    ∃ transport, io = some transport ∧ isRunning s = true ∧
      registerNewTransport w s dtls io l r =
        registerLocked w s transport l (if r = 0 then l else r) := by
  unfold registerNewTransport at h ⊢
  split at h
  · cases h
  · split at h
    · cases h
    · rename_i transport
      split at h
      · cases h
      · split at h
        · cases h
        · rename_i hsec _ _ hdata
          refine ⟨transport, rfl, ?_, ?_⟩
          · cases hrun : isRunning s with
            | true => rfl
            | false =>
              simp only at h
              rw [registerLocked_shutdown w s transport _ _ hrun] at h
              cases h
          · simp only [hsec, hdata]
            rfl

/-- C12: a `registerNewTransport` call with local port `0` on a reachable listener that
returns normally with a non-cleared association echoes a non-zero local port `p` that
had no entry in `mAllocatedLocalPorts`; when the requested remote port was `0`, `p` had
no entry in `mAllocatedRemotePorts` either and the echoed remote port is `p`, otherwise
the echoed remote port is the requested one; afterwards the supplied association is
stored under the tuple of the echoed ports, which was not in `mTransports` before, every
entry of `mTransports` present before is retained, and the counts of `p` and of the
echoed remote port have grown by one, every other count being as before. -/
theorem registerNewTransport_ephemeral (w : Collaborators) (s : SCTPTransportListener)
    (dtls : Option IDTLSTransport) (io : Option UseSCTPTransport) (remotePort : Nat)
    (out : RegisterOutcome) (hreach : Reachable s) (hr : remotePort < 65536)
    (hout : out = registerNewTransport w s dtls io 0 remotePort)
    (hret : out.thrown = none) (hkept : out.ioTransport ≠ none) :
    out.ioLocalPort ≠ 0 ∧
    mapFind s.mAllocatedLocalPorts out.ioLocalPort = none ∧
    (remotePort = 0 →
      mapFind s.mAllocatedRemotePorts out.ioLocalPort = none ∧
        out.ioRemotePort = out.ioLocalPort) ∧
    (remotePort ≠ 0 → out.ioRemotePort = remotePort) ∧
    out.ioTransport = io ∧
    mapFind out.state.mTransports (createTuple out.ioLocalPort out.ioRemotePort) = io ∧
    mapFind s.mTransports (createTuple out.ioLocalPort out.ioRemotePort) = none ∧
    (∀ k v, mapFind s.mTransports k = some v → mapFind out.state.mTransports k = some v) ∧
    (∀ p, portCount out.state.mAllocatedLocalPorts p =
      portCount s.mAllocatedLocalPorts p + (if p = out.ioLocalPort then 1 else 0)) ∧
    (∀ p, portCount out.state.mAllocatedRemotePorts p =
      portCount s.mAllocatedRemotePorts p + (if p = out.ioRemotePort then 1 else 0)) := by
  have hcons := reachableBy_consistent _ s hreach
  rw [hout] at hret
  obtain ⟨transport, hio, hrun, heq⟩ := registerNewTransport_returns w s dtls io 0 remotePort hret
  have heq2 : out = registerLocked w s transport 0 remotePort := by
    rw [hout, heq]
    by_cases h0 : remotePort = 0
    · rw [if_pos h0, h0]
    · rw [if_neg h0]
  by_cases hfull : s.mTransports.length + 1 > s.mMaxPorts
  · rw [registerLocked_full w s transport remotePort hrun hfull] at heq2
    rw [heq2] at hkept
    exact absurd rfl hkept
  · rcases registerLocked_ephemeral_cases w s transport remotePort hrun hfull hcons.cursor with
      ⟨_, h⟩ | ⟨c, hc, hc0, _, hlocal, hremote, h⟩
    · rw [h] at heq2
      rw [heq2] at hkept
      exact absurd rfl hkept
    · rw [h] at heq2
      have hfreeL : mapFind s.mAllocatedLocalPorts c = none := by
        cases hm : mapFind s.mAllocatedLocalPorts c with
        | none => rfl
        | some v =>
          rw [hm] at hlocal
          cases hlocal
      have hr1 : (if remotePort = 0 then c else remotePort) < 65536 := by split <;> omega
      have hcount : tuplesWithLocalPort s.mTransports c = 0 := by
        have h1 := hcons.localCounted c
        unfold portCount at h1
        rw [hfreeL] at h1
        exact Nat.le_zero.1 h1
      have hnew := mapFind_none_of_localCount s.mTransports c _ hc hr1 hcount
      rw [heq2]
      refine ⟨hc0, hfreeL, ?_, ?_, hio.symm, ?_, hnew, ?_, ?_, ?_⟩
      · intro h0
        constructor
        · have h2 := hremote h0
          cases hm : mapFind s.mAllocatedRemotePorts c with
          | none => rfl
          | some v =>
            rw [hm] at h2
            cases h2
        · show (if remotePort = 0 then c else remotePort) = c
          rw [if_pos h0]
      · intro h0
        show (if remotePort = 0 then c else remotePort) = remotePort
        rw [if_neg h0]
      · show mapFind (mapAssign s.mTransports _ transport) _ = io
        rw [mapFind_mapAssign, if_pos rfl, hio]
      · intro k v hk
        show mapFind (mapAssign s.mTransports _ transport) k = some v
        rw [mapFind_mapAssign]
        by_cases hkeq : k = createTuple c (if remotePort = 0 then c else remotePort)
        · rw [hkeq, hnew] at hk
          cases hk
        · rw [if_neg hkeq]
          exact hk
      · intro p
        exact portCount_allocatePort _ _ _
      · intro p
        exact portCount_allocatePort _ _ _

/-- Witness of C12: an ephemeral registration with requested remote port `0` on the
fresh listener of scenario S1 yields ports `(5000, 5000)`. -/
theorem registerNewTransport_ephemeral_witness :
    (registerNewTransport acceptingCollaborators scenarioListener (some scenarioDTLS)
      (some ⟨7⟩) 0 0).thrown = none ∧
    (registerNewTransport acceptingCollaborators scenarioListener (some scenarioDTLS)
      (some ⟨7⟩) 0 0).ioTransport = some ⟨7⟩ ∧
    (registerNewTransport acceptingCollaborators scenarioListener (some scenarioDTLS)
      (some ⟨7⟩) 0 0).ioLocalPort = 5000 ∧
    (registerNewTransport acceptingCollaborators scenarioListener (some scenarioDTLS)
      (some ⟨7⟩) 0 0).ioRemotePort = 5000 ∧
    mapFind (registerNewTransport acceptingCollaborators scenarioListener (some scenarioDTLS)
      (some ⟨7⟩) 0 0).state.mTransports (createTuple 5000 5000) = some ⟨7⟩ :=
  ⟨by decide, by decide, by decide, by decide,
    (registerNewTransport_ephemeral acceptingCollaborators scenarioListener
      (some scenarioDTLS) (some ⟨7⟩) 0 _
      (ReachableBy.fresh 1 2 scenarioSettings 1 scenarioListener rfl) (by decide) rfl
      (by decide) (by decide)).2.2.2.2.2.1⟩

/-- C14 fails on the code, by the defect of C3: on the listener whose cursor is on
port 0, `allocateLocalPort` yields `0` after counting port 0 as local port and the
requested port 9000 as remote port; `registerNewTransport` returns normally with the
association cleared and both out ports `0`, but both maps of counts have changed. -/
theorem registerNewTransport_zero_port_counted :
    (allocateLocalPort zeroPortListener 9000).1 = 0 ∧
    registerNewTransport acceptingCollaborators zeroPortListener (some scenarioDTLS)
        (some ⟨7⟩) 0 9000 =
      ⟨none, none, 0, 0,
        { zeroPortListener with
          mAllocatedLocalPorts := [(0, 1)], mAllocatedRemotePorts := [(9000, 1)] }⟩ ∧
    zeroPortListener.mAllocatedLocalPorts = [] ∧
    zeroPortListener.mAllocatedRemotePorts = [] := by
  decide

/-- The property of C14 where the allocation cursor cannot be port 0: on a running
listener with cursor different from `0` and `1 ≤ mMinAllocationPort ≤ 65534`, when
`allocateLocalPort` yields `0` the call returns normally with the association cleared
and both out ports `0`, and `mTransports` and both maps of counts are as before. -/
theorem registerNewTransport_exhausted (w : Collaborators) (s : SCTPTransportListener)
    (dtls : IDTLSTransport) (transport : UseSCTPTransport) (remotePort : Nat)
    (listener : Nat) (hsec : dtls.isSecureTransport = true)
    (hdata : dtls.dataTransport = some listener) (hrun : isRunning s = true)
    (hfull : ¬ s.mTransports.length + 1 > s.mMaxPorts)
    (hc : s.mCurrentAllocationPort < 65536) (hc0 : s.mCurrentAllocationPort ≠ 0)
    (hmin : 1 ≤ s.mMinAllocationPort ∧ s.mMinAllocationPort ≤ 65534)
    (hzero : (allocateLocalPort s remotePort).1 = 0) :
    (registerNewTransport w s (some dtls) (some transport) 0 remotePort).thrown = none ∧
    (registerNewTransport w s (some dtls) (some transport) 0 remotePort).ioTransport = none ∧
    (registerNewTransport w s (some dtls) (some transport) 0 remotePort).ioLocalPort = 0 ∧
    (registerNewTransport w s (some dtls) (some transport) 0 remotePort).ioRemotePort = 0 ∧
    (registerNewTransport w s (some dtls) (some transport) 0 remotePort).state.mTransports =
      s.mTransports ∧
    (registerNewTransport w s (some dtls) (some transport) 0
      remotePort).state.mAllocatedLocalPorts = s.mAllocatedLocalPorts ∧
    (registerNewTransport w s (some dtls) (some transport) 0
      remotePort).state.mAllocatedRemotePorts = s.mAllocatedRemotePorts := by
  have hsame : (if remotePort = 0 then 0 else remotePort) = remotePort := by
    split
    · rename_i h0
      exact h0.symm
    · rfl
  rw [registerNewTransport_valid w s dtls transport 0 remotePort listener hsec hdata, hsame,
    registerLocked_ephemeral w s transport _ hrun hfull, if_pos hzero]
  have hdef : allocateLocalPort s remotePort =
      allocateLocalPortLoop remotePort
        ((s.mMaxAllocationPort + 65536 - s.mMinAllocationPort) % 65536) s := rfl
  rcases allocateLocalPortLoop_cases_pos remotePort
      ((s.mMaxAllocationPort + 65536 - s.mMinAllocationPort) % 65536) s hc hc0 hmin with
    ⟨c, _, _, h⟩ | ⟨c, _, hcpos, _, h⟩
  · rw [hdef, h]
    exact ⟨rfl, rfl, rfl, rfl, rfl, rfl, rfl⟩
  · rw [hdef, h] at hzero
    exact absurd hzero hcpos

/-- The property of C14 on the listener whose only port, 5000, is taken. -/
theorem registerNewTransport_exhausted_witness :
    (allocateLocalPort (registerNewTransport acceptingCollaborators singlePortListener
      (some scenarioDTLS) (some ⟨7⟩) 5000 6000).state 0).1 = 0 ∧
    (registerNewTransport acceptingCollaborators
      (registerNewTransport acceptingCollaborators singlePortListener
        (some scenarioDTLS) (some ⟨7⟩) 5000 6000).state
      (some scenarioDTLS) (some ⟨8⟩) 0 0).ioTransport = none ∧
    (registerNewTransport acceptingCollaborators
      (registerNewTransport acceptingCollaborators singlePortListener
        (some scenarioDTLS) (some ⟨7⟩) 5000 6000).state
      (some scenarioDTLS) (some ⟨8⟩) 0 0).state.mAllocatedLocalPorts =
      (registerNewTransport acceptingCollaborators singlePortListener
        (some scenarioDTLS) (some ⟨7⟩) 5000 6000).state.mAllocatedLocalPorts :=
  ⟨by decide,
    (registerNewTransport_exhausted acceptingCollaborators
      (registerNewTransport acceptingCollaborators singlePortListener
        (some scenarioDTLS) (some ⟨7⟩) 5000 6000).state
      scenarioDTLS ⟨8⟩ 0 1 rfl rfl (by decide) (by decide) (by decide) (by decide)
      ⟨by decide, by decide⟩ (by decide)).2.1,
    (registerNewTransport_exhausted acceptingCollaborators
      (registerNewTransport acceptingCollaborators singlePortListener
        (some scenarioDTLS) (some ⟨7⟩) 5000 6000).state
      scenarioDTLS ⟨8⟩ 0 1 rfl rfl (by decide) (by decide) (by decide) (by decide)
      ⟨by decide, by decide⟩ (by decide)).2.2.2.2.2.1⟩

/-- C16 as stated fails: the listener of scenario S1, bound to secure transport `2`, is
handed secure transport `99`, whose data transport is listener `5`; the call returns
normally and the association is registered under `(7000, 8000)`. -/
theorem registerNewTransport_foreign_transport_accepted :
    foreignDTLS.id ≠ scenarioListener.mSecureTransport ∧
    foreignDTLS.dataTransport ≠ some scenarioListener.mID ∧
    (registerNewTransport acceptingCollaborators scenarioListener (some foreignDTLS)
      (some ⟨7⟩) 7000 8000).thrown = none ∧
    mapFind (registerNewTransport acceptingCollaborators scenarioListener (some foreignDTLS)
      (some ⟨7⟩) 7000 8000).state.mTransports (createTuple 7000 8000) = some ⟨7⟩ := by
  decide

/-- C16 amended: `registerNewTransport` fails with `InvalidState`, leaving the listener
and the in/out parameters as they were, when the supplied transport is not a secure
transport or has no data transport; it does not compare the supplied secure transport
with the one the listener is bound to: for every secure transport that has a data
transport the call proceeds to the locked block whichever transport and data transport
these are. -/
theorem registerNewTransport_transport_checks (w : Collaborators) (s : SCTPTransportListener)
    (dtls : IDTLSTransport) (transport : UseSCTPTransport) (localPort remotePort : Nat) :
    ((dtls.isSecureTransport = false ∨ dtls.dataTransport = none) →
      registerNewTransport w s (some dtls) (some transport) localPort remotePort =
        ⟨some Error.InvalidState, some transport, localPort, remotePort, s⟩) ∧
    (∀ listener, dtls.isSecureTransport = true → dtls.dataTransport = some listener →
      registerNewTransport w s (some dtls) (some transport) localPort remotePort =
        registerLocked w s transport localPort
          (if remotePort = 0 then localPort else remotePort)) := by
  constructor
  · intro h
    unfold registerNewTransport
    cases hsec : dtls.isSecureTransport with
    | false => simp [hsec]
    | true =>
      rcases h with h | h
      · rw [hsec] at h
        cases h
      · simp [h]
  · intro listener hsec hdata
    exact registerNewTransport_valid w s dtls transport localPort remotePort listener hsec hdata

/-- Witness of C16 amended: a secure transport without data transport is refused. -/
theorem registerNewTransport_transport_checks_witness :
    detachedDTLS.dataTransport = none ∧
    registerNewTransport acceptingCollaborators scenarioListener (some detachedDTLS)
        (some ⟨7⟩) 7000 8000 =
      ⟨some Error.InvalidState, some ⟨7⟩, 7000, 8000, scenarioListener⟩ :=
  ⟨rfl,
    (registerNewTransport_transport_checks acceptingCollaborators scenarioListener
      detachedDTLS ⟨7⟩ 7000 8000).1 (Or.inr rfl)⟩

/-! ## Announcement and shutdown notification -/

theorem consistent_ports_counted (s : SCTPTransportListener) (hcons : Consistent s)
    (l r : Nat) (hl : l < 65536) (hr : r < 65536) (t : UseSCTPTransport)
    (hf : mapFind s.mTransports (createTuple l r) = some t) :
    1 ≤ portCount s.mAllocatedLocalPorts l ∧ 1 ≤ portCount s.mAllocatedRemotePorts r := by
  have hmem := mapFind_mem _ _ _ hf
  have hsplit := splitTuple_createTuple l r hl hr
  constructor
  · refine le_trans ?_ (hcons.localCounted l)
    unfold tuplesWithLocalPort
    exact List.countP_pos_iff.2 ⟨_, hmem, by simp [hsplit]⟩
  · refine le_trans ?_ (hcons.remoteCounted r)
    unfold tuplesWithRemotePort
    exact List.countP_pos_iff.2 ⟨_, hmem, by simp [hsplit]⟩

theorem notifyShutdown_erases (s : SCTPTransportListener) (a reg : UseSCTPTransport)
    (l r : Nat) (hs : isShutdown s = false)
    (hf : mapFind s.mTransports (createTuple l r) = some reg) (hid : reg.id = a.id) :
    notifyShutdown s a l r =
      ⟨(),
        { s with
          mAllocatedLocalPorts := deallocatePort s.mAllocatedLocalPorts l
          mAllocatedRemotePorts := deallocatePort s.mAllocatedRemotePorts r
          mTransports := mapErase s.mTransports (createTuple l r)
          mAnnouncedTransports := mapErase s.mAnnouncedTransports a.id
          mPendingTransports := mapErase s.mPendingTransports a.id },
        [Call.onWake]⟩ := by
  unfold notifyShutdown
  rw [if_neg (by rw [hs]; decide)]
  simp only [hf, hid, if_true]

theorem notifyShutdown_keeps (s : SCTPTransportListener) (a : UseSCTPTransport)
    (l r : Nat) (hs : isShutdown s = false)
    (hno : ∀ reg, mapFind s.mTransports (createTuple l r) = some reg → reg.id ≠ a.id) :
    notifyShutdown s a l r =
      ⟨(),
        { s with
          mAnnouncedTransports := mapErase s.mAnnouncedTransports a.id
          mPendingTransports := mapErase s.mPendingTransports a.id },
        [Call.onWake]⟩ := by
  unfold notifyShutdown
  rw [if_neg (by rw [hs]; decide)]
  cases hf : mapFind s.mTransports (createTuple l r) with
  | none => simp only [hf]
  | some reg => simp only [hf, hno reg hf, if_false]

theorem announceTransport_absent (s : SCTPTransportListener) (a : UseSCTPTransport)
    (l r : Nat) (hf : mapFind s.mTransports (createTuple l r) = none) :
    announceTransport s a l r = ⟨(), s, []⟩ := by
  unfold announceTransport
  split
  · rfl
  · simp only [hf]

theorem announceTransport_present (s : SCTPTransportListener) (a found : UseSCTPTransport)
    (l r : Nat) (hs : isShutdown s = false)
    (hf : mapFind s.mTransports (createTuple l r) = some found) :
    announceTransport s a l r =
      ⟨(), { s with mAnnouncedTransports := mapAssign s.mAnnouncedTransports a.id a },
        s.mSubscriptions.map (fun delegate => Call.onSCTPTransport delegate a.id)⟩ := by
  unfold announceTransport
  rw [if_neg (by rw [hs]; decide)]
  simp only [hf]

/-- C17: on a listener that is not shut down, `announceTransport` for a tuple present in
`mTransports` calls `onSCTPTransport` with the association once on every subscribed
delegate, records the association in `mAnnouncedTransports` and changes nothing else;
for an absent tuple it calls no delegate and leaves the listener as it is; in
particular, after a `notifyShutdown` that erased the tuple, announcing any association
for that tuple does nothing. -/
theorem announceTransport_effect (s : SCTPTransportListener) (a : UseSCTPTransport)
    (localPort remotePort : Nat) (hs : isShutdown s = false) :
    (∀ found, mapFind s.mTransports (createTuple localPort remotePort) = some found →
      (announceTransport s a localPort remotePort).calls =
          s.mSubscriptions.map (fun delegate => Call.onSCTPTransport delegate a.id) ∧
        mapFind (announceTransport s a localPort remotePort).state.mAnnouncedTransports a.id =
          some a ∧
        (announceTransport s a localPort remotePort).state =
          { s with mAnnouncedTransports := mapAssign s.mAnnouncedTransports a.id a }) ∧
    (mapFind s.mTransports (createTuple localPort remotePort) = none →
      announceTransport s a localPort remotePort = ⟨(), s, []⟩) ∧
    (∀ gone registered, mapFind s.mTransports (createTuple localPort remotePort) =
        some registered → registered.id = gone.id →
      announceTransport (notifyShutdown s gone localPort remotePort).state a localPort
          remotePort =
        ⟨(), (notifyShutdown s gone localPort remotePort).state, []⟩) := by
  refine ⟨?_, ?_, ?_⟩
  · intro found hf
    rw [announceTransport_present s a found localPort remotePort hs hf]
    refine ⟨rfl, ?_, rfl⟩
    show mapFind (mapAssign s.mAnnouncedTransports a.id a) a.id = some a
    rw [mapFind_mapAssign, if_pos rfl]
  · intro hf
    exact announceTransport_absent s a localPort remotePort hf
  · intro gone registered hf hid
    apply announceTransport_absent
    rw [notifyShutdown_erases s gone registered localPort remotePort hs hf hid]
    show mapFind (mapErase s.mTransports _) _ = none
    rw [mapFind_mapErase, if_pos rfl]

/-- Witness of C17: after the packet of scenario S1 and the subscription of delegate
`42`, announcing association `1` for `(5001, 5000)` calls delegate `42` once; after the
shutdown notification of association `1` the same announcement does nothing. -/
theorem announceTransport_effect_witness :
    isShutdown (subscribe (handleDataPacket acceptingCollaborators scenarioListener
      scenarioPacket).state (some 42) scenarioCapabilities).state = false ∧
    (announceTransport (subscribe (handleDataPacket acceptingCollaborators scenarioListener
      scenarioPacket).state (some 42) scenarioCapabilities).state ⟨1⟩ 5001 5000).calls =
        [Call.onSCTPTransport 42 1] ∧
    mapFind (announceTransport (subscribe (handleDataPacket acceptingCollaborators
      scenarioListener scenarioPacket).state (some 42) scenarioCapabilities).state ⟨1⟩ 5001
        5000).state.mAnnouncedTransports 1 = some ⟨1⟩ ∧
    announceTransport (notifyShutdown (subscribe (handleDataPacket acceptingCollaborators
        scenarioListener scenarioPacket).state (some 42) scenarioCapabilities).state ⟨1⟩ 5001
        5000).state ⟨1⟩ 5001 5000 =
      ⟨(), (notifyShutdown (subscribe (handleDataPacket acceptingCollaborators
        scenarioListener scenarioPacket).state (some 42) scenarioCapabilities).state ⟨1⟩ 5001
        5000).state, []⟩ :=
  ⟨by decide,
    ((announceTransport_effect (subscribe (handleDataPacket acceptingCollaborators
      scenarioListener scenarioPacket).state (some 42) scenarioCapabilities).state ⟨1⟩ 5001
      5000 (by decide)).1 ⟨1⟩ (by decide)).1,
    ((announceTransport_effect (subscribe (handleDataPacket acceptingCollaborators
      scenarioListener scenarioPacket).state (some 42) scenarioCapabilities).state ⟨1⟩ 5001
      5000 (by decide)).1 ⟨1⟩ (by decide)).2.1,
    (announceTransport_effect (subscribe (handleDataPacket acceptingCollaborators
      scenarioListener scenarioPacket).state (some 42) scenarioCapabilities).state ⟨1⟩ 5001
      5000 (by decide)).2.2 ⟨1⟩ ⟨1⟩ (by decide) rfl⟩

/-- C19: on a reachable listener that is not shut down, `notifyShutdown` for an
association and a tuple under which `mTransports` holds an association with the same id
erases that entry and lowers the count of the local port and of the remote port by one;
otherwise `mTransports` and both maps of counts are unchanged; in both cases the id is
afterwards in neither `mPendingTransports` nor `mAnnouncedTransports`, and every other
entry of every table is as before. -/
theorem notifyShutdown_effect (s : SCTPTransportListener) (a : UseSCTPTransport)
    (localPort remotePort : Nat) (hreach : Reachable s) (hl : localPort < 65536)
    (hr : remotePort < 65536) (hs : isShutdown s = false) :
    (∀ registered, mapFind s.mTransports (createTuple localPort remotePort) =
        some registered → registered.id = a.id →
      mapFind (notifyShutdown s a localPort remotePort).state.mTransports
          (createTuple localPort remotePort) = none ∧
        (∀ k, k ≠ createTuple localPort remotePort →
          mapFind (notifyShutdown s a localPort remotePort).state.mTransports k =
            mapFind s.mTransports k) ∧
        portCount (notifyShutdown s a localPort remotePort).state.mAllocatedLocalPorts
            localPort + 1 = portCount s.mAllocatedLocalPorts localPort ∧
        (∀ p, p ≠ localPort →
          portCount (notifyShutdown s a localPort remotePort).state.mAllocatedLocalPorts p =
            portCount s.mAllocatedLocalPorts p) ∧
        portCount (notifyShutdown s a localPort remotePort).state.mAllocatedRemotePorts
            remotePort + 1 = portCount s.mAllocatedRemotePorts remotePort ∧
        (∀ p, p ≠ remotePort →
          portCount (notifyShutdown s a localPort remotePort).state.mAllocatedRemotePorts p =
            portCount s.mAllocatedRemotePorts p)) ∧
    ((∀ registered, mapFind s.mTransports (createTuple localPort remotePort) =
        some registered → registered.id ≠ a.id) →
      (notifyShutdown s a localPort remotePort).state.mTransports = s.mTransports ∧
        (notifyShutdown s a localPort remotePort).state.mAllocatedLocalPorts =
          s.mAllocatedLocalPorts ∧
        (notifyShutdown s a localPort remotePort).state.mAllocatedRemotePorts =
          s.mAllocatedRemotePorts) ∧
    mapFind (notifyShutdown s a localPort remotePort).state.mPendingTransports a.id = none ∧
    mapFind (notifyShutdown s a localPort remotePort).state.mAnnouncedTransports a.id =
      none ∧
    (∀ k, k ≠ a.id →
      mapFind (notifyShutdown s a localPort remotePort).state.mPendingTransports k =
          mapFind s.mPendingTransports k ∧
        mapFind (notifyShutdown s a localPort remotePort).state.mAnnouncedTransports k =
          mapFind s.mAnnouncedTransports k) := by
  have hcons := reachableBy_consistent _ s hreach
  have htables : mapFind (notifyShutdown s a localPort remotePort).state.mPendingTransports
        a.id = none ∧
      mapFind (notifyShutdown s a localPort remotePort).state.mAnnouncedTransports a.id =
        none ∧
      (∀ k, k ≠ a.id →
        mapFind (notifyShutdown s a localPort remotePort).state.mPendingTransports k =
            mapFind s.mPendingTransports k ∧
          mapFind (notifyShutdown s a localPort remotePort).state.mAnnouncedTransports k =
            mapFind s.mAnnouncedTransports k) := by
    by_cases hm : ∃ registered, mapFind s.mTransports (createTuple localPort remotePort) =
        some registered ∧ registered.id = a.id
    · obtain ⟨registered, hf, hid⟩ := hm
      rw [notifyShutdown_erases s a registered localPort remotePort hs hf hid]
      refine ⟨?_, ?_, ?_⟩
      · show mapFind (mapErase s.mPendingTransports a.id) a.id = none
        rw [mapFind_mapErase, if_pos rfl]
      · show mapFind (mapErase s.mAnnouncedTransports a.id) a.id = none
        rw [mapFind_mapErase, if_pos rfl]
      · intro k hk
        constructor
        · show mapFind (mapErase s.mPendingTransports a.id) k = _
          rw [mapFind_mapErase, if_neg hk]
        · show mapFind (mapErase s.mAnnouncedTransports a.id) k = _
          rw [mapFind_mapErase, if_neg hk]
    · have hno : ∀ registered, mapFind s.mTransports (createTuple localPort remotePort) =
          some registered → registered.id ≠ a.id :=
        fun registered hf hid => hm ⟨registered, hf, hid⟩
      rw [notifyShutdown_keeps s a localPort remotePort hs hno]
      refine ⟨?_, ?_, ?_⟩
      · show mapFind (mapErase s.mPendingTransports a.id) a.id = none
        rw [mapFind_mapErase, if_pos rfl]
      · show mapFind (mapErase s.mAnnouncedTransports a.id) a.id = none
        rw [mapFind_mapErase, if_pos rfl]
      · intro k hk
        constructor
        · show mapFind (mapErase s.mPendingTransports a.id) k = _
          rw [mapFind_mapErase, if_neg hk]
        · show mapFind (mapErase s.mAnnouncedTransports a.id) k = _
          rw [mapFind_mapErase, if_neg hk]
  refine ⟨?_, ?_, htables⟩
  · intro registered hf hid
    have hcount := consistent_ports_counted s hcons localPort remotePort hl hr registered hf
    rw [notifyShutdown_erases s a registered localPort remotePort hs hf hid]
    refine ⟨?_, ?_, ?_, ?_, ?_, ?_⟩
    · show mapFind (mapErase s.mTransports _) _ = none
      rw [mapFind_mapErase, if_pos rfl]
    · intro k hk
      show mapFind (mapErase s.mTransports _) k = _
      rw [mapFind_mapErase, if_neg hk]
    · show portCount (deallocatePort s.mAllocatedLocalPorts localPort) localPort + 1 = _
      rw [portCount_deallocatePort, if_pos rfl]
      omega
    · intro p hp
      show portCount (deallocatePort s.mAllocatedLocalPorts localPort) p = _
      rw [portCount_deallocatePort, if_neg hp]
    · show portCount (deallocatePort s.mAllocatedRemotePorts remotePort) remotePort + 1 = _
      rw [portCount_deallocatePort, if_pos rfl]
      omega
    · intro p hp
      show portCount (deallocatePort s.mAllocatedRemotePorts remotePort) p = _
      rw [portCount_deallocatePort, if_neg hp]
  · intro hno
    rw [notifyShutdown_keeps s a localPort remotePort hs hno]
    exact ⟨rfl, rfl, rfl⟩

/-- Witness of C19: after the packet of scenario S1, the shutdown notification of
association `1` for `(5001, 5000)` erases the tuple and both counts. -/
theorem notifyShutdown_effect_witness :
    mapFind (handleDataPacket acceptingCollaborators scenarioListener
      scenarioPacket).state.mTransports (createTuple 5001 5000) = some ⟨1⟩ ∧
    mapFind (notifyShutdown (handleDataPacket acceptingCollaborators scenarioListener
      scenarioPacket).state ⟨1⟩ 5001 5000).state.mTransports (createTuple 5001 5000) = none ∧
    portCount (notifyShutdown (handleDataPacket acceptingCollaborators scenarioListener
      scenarioPacket).state ⟨1⟩ 5001 5000).state.mAllocatedLocalPorts 5001 = 0 ∧
    mapFind (notifyShutdown (handleDataPacket acceptingCollaborators scenarioListener
      scenarioPacket).state ⟨1⟩ 5001 5000).state.mPendingTransports 1 = none :=
  ⟨by decide,
    ((notifyShutdown_effect (handleDataPacket acceptingCollaborators scenarioListener
      scenarioPacket).state ⟨1⟩ 5001 5000
      (ReachableBy.step scenarioListener
        (Op.handleDataPacket acceptingCollaborators scenarioPacket)
        (ReachableBy.fresh 1 2 scenarioSettings 1 scenarioListener rfl) trivial trivial)
      (by decide) (by decide) (by decide)).1 ⟨1⟩ (by decide) rfl).1,
    by decide,
    (notifyShutdown_effect (handleDataPacket acceptingCollaborators scenarioListener
      scenarioPacket).state ⟨1⟩ 5001 5000
      (ReachableBy.step scenarioListener
        (Op.handleDataPacket acceptingCollaborators scenarioPacket)
        (ReachableBy.fresh 1 2 scenarioSettings 1 scenarioListener rfl) trivial trivial)
      (by decide) (by decide) (by decide)).2.2.1⟩

/-! ## What the operations leave alone -/

theorem allocateLocalPortLoop_frame (remotePort : Nat) (n : Nat) (s : SCTPTransportListener) :
    ∃ c L R, (allocateLocalPortLoop remotePort n s).2 =
      { s with
        mCurrentAllocationPort := c, mAllocatedLocalPorts := L, mAllocatedRemotePorts := R } := by
  induction n generalizing s with
  | zero =>
    unfold allocateLocalPortLoop
    split
    · exact ⟨_, _, _, rfl⟩
    · exact ⟨_, _, _, rfl⟩
  | succ n ih =>
    unfold allocateLocalPortLoop
    split
    · obtain ⟨c, L, R, h⟩ := ih (nextPort s)
      exact ⟨c, L, R, by rw [h]; rfl⟩
    · exact ⟨_, _, _, rfl⟩

/-- The fields `registerNewTransport` can change: the allocation cursor, the two maps of
counts and `mTransports`. -/
theorem registerNewTransport_frame (w : Collaborators) (s : SCTPTransportListener)
    (dtls : Option IDTLSTransport) (io : Option UseSCTPTransport) (l r : Nat) :
    ∃ c L R T, (registerNewTransport w s dtls io l r).state =
      { s with
        mCurrentAllocationPort := c, mAllocatedLocalPorts := L, mAllocatedRemotePorts := R,
        mTransports := T } := by
  rcases registerNewTransport_state w s dtls io l r with h | ⟨transport, h⟩
  · exact ⟨_, _, _, _, by rw [h]⟩
  · rw [h]
    generalize (if r = 0 then l else r) = r1
    cases hrun : isRunning s with
    | false =>
      rw [registerLocked_shutdown w s transport l r1 hrun]
      exact ⟨_, _, _, _, rfl⟩
    | true =>
      by_cases hl0 : l = 0
      · subst hl0
        by_cases hfull : s.mTransports.length + 1 > s.mMaxPorts
        · rw [registerLocked_full w s transport r1 hrun hfull]
          exact ⟨_, _, _, _, rfl⟩
        · rw [registerLocked_ephemeral w s transport r1 hrun hfull]
          obtain ⟨c, L, R, hfr⟩ := allocateLocalPortLoop_frame r1
            ((s.mMaxAllocationPort + 65536 - s.mMinAllocationPort) % 65536) s
          have hdef : allocateLocalPort s r1 = allocateLocalPortLoop r1
            ((s.mMaxAllocationPort + 65536 - s.mMinAllocationPort) % 65536) s := rfl
          rw [← hdef] at hfr
          split
          · exact ⟨c, L, R, s.mTransports, by rw [hfr]⟩
          · exact ⟨c, L, R,
              mapAssign s.mTransports
                (createTuple (allocateLocalPort s r1).1
                  (if r1 = 0 then (allocateLocalPort s r1).1 else r1)) transport,
              by simp only [hfr]⟩
      · cases hf : mapFind s.mTransports (createTuple l r1) with
        | some found =>
          rw [registerLocked_found w s transport found l r1 hrun hl0 hf]
          split <;> exact ⟨_, _, _, _, rfl⟩
        | none =>
          cases hu : (mapFind s.mAllocatedLocalPorts l).isSome with
          | true =>
            rw [registerLocked_inUse w s transport l r1 hrun hl0 hf hu]
            exact ⟨_, _, _, _, rfl⟩
          | false =>
            rw [registerLocked_explicit w s transport l r1 hrun hl0 hf hu]
            exact ⟨_, _, _, _, rfl⟩

/-- The first loop of `cancel` leaves `mAnnouncedTransports` alone and only removes
entries from `mPendingTransports`. -/
theorem cancelLoop_tables (w : Collaborators) (rest : List (Nat × UseSCTPTransport)) :
    ∀ acc : SCTPTransportListener × List Call,
      (rest.foldl (cancelVisit w) acc).1.mAnnouncedTransports = acc.1.mAnnouncedTransports ∧
        (rest.foldl (cancelVisit w) acc).1.mPendingTransports.Sublist
          acc.1.mPendingTransports := by
  induction rest with
  | nil =>
    intro acc
    exact ⟨rfl, List.Sublist.refl _⟩
  | cons e rest ih =>
    intro acc
    rw [List.foldl_cons]
    have h1 := ih (cancelVisit w acc e)
    have h2 : (cancelVisit w acc e).1.mAnnouncedTransports = acc.1.mAnnouncedTransports ∧
        (cancelVisit w acc e).1.mPendingTransports.Sublist acc.1.mPendingTransports := by
      cases h : w.isShutdown e.2.id with
      | false =>
        rw [cancelVisit_alive w acc e h]
        exact ⟨rfl, List.Sublist.refl _⟩
      | true =>
        rw [cancelVisit_shutdown w acc e h]
        exact ⟨rfl, List.filter_sublist _⟩
    exact ⟨h1.1.trans h2.1, h1.2.trans h2.2⟩

/-- What `cancel` does to the pending and the announced map: it empties both, or it
leaves the announced map alone and only removes entries from the pending map. -/
theorem cancel_tables (w : Collaborators) (s : SCTPTransportListener) :
    ((cancel w s).state.mAnnouncedTransports = [] ∧
        (cancel w s).state.mPendingTransports = []) ∨
      ((cancel w s).state.mAnnouncedTransports = s.mAnnouncedTransports ∧
        (cancel w s).state.mPendingTransports.Sublist s.mPendingTransports) := by
  unfold cancel
  split
  · exact Or.inr ⟨rfl, List.Sublist.refl _⟩
  · simp only
    have hs0 : (if (!s.mGracefulShutdownReference) = true then
        { s with mGracefulShutdownReference := s.mThisWeak } else s).mAnnouncedTransports =
          s.mAnnouncedTransports ∧
        (if (!s.mGracefulShutdownReference) = true then
        { s with mGracefulShutdownReference := s.mThisWeak } else s).mPendingTransports =
          s.mPendingTransports := by
      split <;> exact ⟨rfl, rfl⟩
    generalize (if (!s.mGracefulShutdownReference) = true then
        { s with mGracefulShutdownReference := s.mThisWeak } else s) = s0 at hs0
    split
    · have hloop := cancelLoop_tables w s0.mTransports (s0, [])
      split
      · right
        rw [← hs0.1, ← hs0.2]
        exact hloop
      · exact Or.inl ⟨rfl, rfl⟩
    · exact Or.inl ⟨rfl, rfl⟩

theorem mapSorted_sublist {β : Type} (m m1 : List (Nat × β)) (h : m1.Sublist m)
    (hs : mapSorted m) : mapSorted m1 := by
  unfold mapSorted at hs ⊢
  exact List.Pairwise.sublist (h.map Prod.fst) hs

theorem mapFind_none_sublist {β : Type} (m m1 : List (Nat × β)) (h : m1.Sublist m)
    (k : Nat) (hf : mapFind m k = none) : mapFind m1 k = none := by
  rw [mapFind_none_iff] at hf ⊢
  intro e he
  exact hf e (h.subset he)

/-! ## The pending and the announced map -/

theorem keyed_of_sublist (s s1 : SCTPTransportListener) (hk : Keyed s)
    (hp : s1.mPendingTransports.Sublist s.mPendingTransports)
    (ha : s1.mAnnouncedTransports.Sublist s.mAnnouncedTransports) : Keyed s1 :=
  ⟨mapSorted_sublist _ _ hp hk.pendingSorted,
    fun e he => hk.pendingKeys e (hp.subset he),
    mapSorted_sublist _ _ ha hk.announcedSorted,
    fun e he => hk.announcedKeys e (ha.subset he)⟩

theorem keyed_of_same (s s1 : SCTPTransportListener) (hk : Keyed s)
    (hp : s1.mPendingTransports = s.mPendingTransports)
    (ha : s1.mAnnouncedTransports = s.mAnnouncedTransports) : Keyed s1 :=
  keyed_of_sublist s s1 hk (by rw [hp]) (by rw [ha])

theorem apart_of_sublist (s s1 : SCTPTransportListener) (hk : Apart s)
    (hp : s1.mPendingTransports.Sublist s.mPendingTransports)
    (ha : s1.mAnnouncedTransports.Sublist s.mAnnouncedTransports) : Apart s1 := by
  intro id
  rcases hk id with h | h
  · exact Or.inl (mapFind_none_sublist _ _ hp id h)
  · exact Or.inr (mapFind_none_sublist _ _ ha id h)

theorem apart_of_same (s s1 : SCTPTransportListener) (hk : Apart s)
    (hp : s1.mPendingTransports = s.mPendingTransports)
    (ha : s1.mAnnouncedTransports = s.mAnnouncedTransports) : Apart s1 :=
  apart_of_sublist s s1 hk (by rw [hp]) (by rw [ha])

theorem mapSorted_keys_mapAssign (m : List (Nat × UseSCTPTransport)) (t : UseSCTPTransport)
    (hs : mapSorted m) (hk : ∀ e ∈ m, e.1 = e.2.id) :
    mapSorted (mapAssign m t.id t) ∧ ∀ e ∈ mapAssign m t.id t, e.1 = e.2.id := by
  refine ⟨mapSorted_mapAssign _ _ _ hs, ?_⟩
  intro e he
  rcases mem_mapAssign m t.id t e he with h | h
  · rw [h]
  · exact hk e h

/-- What `handleDataPacket` does to the pending and the announced map: nothing, or it
files the association the factory yielded in the pending map. -/
theorem handleDataPacket_tables (w : Collaborators) (s : SCTPTransportListener)
    (buffer : List BYTE) :
    (handleDataPacket w s buffer).state.mAnnouncedTransports = s.mAnnouncedTransports ∧
      ((handleDataPacket w s buffer).state.mPendingTransports = s.mPendingTransports ∨
        ∃ t, w.create (inboundLocalPort buffer) (inboundRemotePort buffer) = some t ∧
          (handleDataPacket w s buffer).state.mPendingTransports =
            mapAssign s.mPendingTransports t.id t) := by
  by_cases h4 : buffer.length < 4
  · rw [handleDataPacket_short w s buffer h4]
    exact ⟨rfl, Or.inl rfl⟩
  · by_cases h0 : (getLocalRemoteTuple buffer Directions.Direction_Incoming).1 = 0
    · rw [handleDataPacket_zero w s buffer h0]
      exact ⟨rfl, Or.inl rfl⟩
    · cases hf : mapFind s.mTransports
          (getLocalRemoteTuple buffer Directions.Direction_Incoming).1 with
      | some transport =>
        rw [handleDataPacket_known w s buffer transport (by omega) h0 hf]
        exact ⟨rfl, Or.inl rfl⟩
      | none =>
        cases hc : w.create (getLocalRemoteTuple buffer Directions.Direction_Incoming).2.1
            (getLocalRemoteTuple buffer Directions.Direction_Incoming).2.2 with
        | none =>
          rw [handleDataPacket_createFails w s buffer (by omega) h0 hf hc]
          exact ⟨rfl, Or.inl rfl⟩
        | some transport =>
          rw [handleDataPacket_creates w s buffer transport (by omega) h0 hf hc]
          refine ⟨rfl, ?_⟩
          cases hcaps : s.mRemoteCapabilities with
          | some caps =>
            left
            simp only [hcaps]
          | none =>
            right
            refine ⟨transport, hc, ?_⟩
            simp only [hcaps]

theorem handleDataPacket_keyed (w : Collaborators) (s : SCTPTransportListener)
    (buffer : List BYTE) (hk : Keyed s) : Keyed (handleDataPacket w s buffer).state := by
  obtain ⟨ha, hp | ⟨t, _, hp⟩⟩ := handleDataPacket_tables w s buffer
  · exact keyed_of_same s _ hk hp ha
  · have h := mapSorted_keys_mapAssign s.mPendingTransports t hk.pendingSorted hk.pendingKeys
    refine ⟨?_, ?_, ?_, ?_⟩
    · rw [hp]; exact h.1
    · rw [hp]; exact h.2
    · rw [ha]; exact hk.announcedSorted
    · rw [ha]; exact hk.announcedKeys

theorem handleDataPacket_apart (w : Collaborators) (s : SCTPTransportListener)
    (buffer : List BYTE) (hk : Apart s)
    (hfresh : ∀ t, w.create (inboundLocalPort buffer) (inboundRemotePort buffer) = some t →
      mapFind s.mAnnouncedTransports t.id = none) :
    Apart (handleDataPacket w s buffer).state := by
  obtain ⟨ha, hp | ⟨t, hc, hp⟩⟩ := handleDataPacket_tables w s buffer
  · exact apart_of_same s _ hk hp ha
  · intro id
    rw [ha, hp, mapFind_mapAssign]
    by_cases hid : id = t.id
    · right
      rw [hid]
      exact hfresh t hc
    · rw [if_neg hid]
      exact hk id

theorem registerNewTransport_tables (w : Collaborators) (s : SCTPTransportListener)
    (dtls : Option IDTLSTransport) (io : Option UseSCTPTransport) (l r : Nat) :
    (registerNewTransport w s dtls io l r).state.mPendingTransports = s.mPendingTransports ∧
      (registerNewTransport w s dtls io l r).state.mAnnouncedTransports =
        s.mAnnouncedTransports := by
  obtain ⟨c, L, R, T, h⟩ := registerNewTransport_frame w s dtls io l r
  rw [h]
  exact ⟨rfl, rfl⟩

theorem announceTransport_tables (s : SCTPTransportListener) (a : UseSCTPTransport)
    (l r : Nat) :
    (announceTransport s a l r).state.mPendingTransports = s.mPendingTransports ∧
      ((announceTransport s a l r).state.mAnnouncedTransports = s.mAnnouncedTransports ∨
        (announceTransport s a l r).state.mAnnouncedTransports =
          mapAssign s.mAnnouncedTransports a.id a) := by
  unfold announceTransport
  split
  · exact ⟨rfl, Or.inl rfl⟩
  · split
    · exact ⟨rfl, Or.inl rfl⟩
    · exact ⟨rfl, Or.inr rfl⟩

theorem notifyShutdown_tables (s : SCTPTransportListener) (a : UseSCTPTransport)
    (l r : Nat) :
    (notifyShutdown s a l r).state.mPendingTransports.Sublist s.mPendingTransports ∧
      (notifyShutdown s a l r).state.mAnnouncedTransports.Sublist s.mAnnouncedTransports := by
  unfold notifyShutdown
  split
  · exact ⟨List.Sublist.refl _, List.Sublist.refl _⟩
  · simp only
    split
    · split
      · exact ⟨List.filter_sublist _, List.filter_sublist _⟩
      · exact ⟨List.filter_sublist _, List.filter_sublist _⟩
    · exact ⟨List.filter_sublist _, List.filter_sublist _⟩

theorem subscribe_tables (s : SCTPTransportListener) (d : Option Nat) (caps : Capabilities) :
    (subscribe s d caps).state.mPendingTransports = [] ∧
      (subscribe s d caps).state.mAnnouncedTransports = s.mAnnouncedTransports := by
  unfold subscribe
  simp only
  split <;> exact ⟨rfl, rfl⟩

theorem onWake_tables (w : Collaborators) (s : SCTPTransportListener) :
    ((onWake w s).state.mAnnouncedTransports = [] ∧
        (onWake w s).state.mPendingTransports = []) ∨
      ((onWake w s).state.mAnnouncedTransports = s.mAnnouncedTransports ∧
        (onWake w s).state.mPendingTransports.Sublist s.mPendingTransports) := by
  unfold onWake step
  split
  · exact cancel_tables w s
  · exact Or.inr ⟨rfl, List.Sublist.refl _⟩

theorem keyed_of_empty (s1 : SCTPTransportListener) (hp : s1.mPendingTransports = [])
    (ha : s1.mAnnouncedTransports = []) : Keyed s1 := by
  refine ⟨?_, ?_, ?_, ?_⟩
  · rw [hp]; simp [mapSorted]
  · rw [hp]; simp
  · rw [ha]; simp [mapSorted]
  · rw [ha]; simp

theorem apply_keyed (s : SCTPTransportListener) (op : Op) (hk : Keyed s) :
    Keyed (op.apply s) := by
  cases op with
  | handleDataPacket w buffer => exact handleDataPacket_keyed w s buffer hk
  | registerNewTransport w dtls io l r =>
    have h := registerNewTransport_tables w s dtls io l r
    exact keyed_of_same s _ hk h.1 h.2
  | announceTransport t l r =>
    obtain ⟨hp, ha | ha⟩ := announceTransport_tables s t l r
    · exact keyed_of_same s _ hk hp ha
    · have h := mapSorted_keys_mapAssign s.mAnnouncedTransports t hk.announcedSorted
        hk.announcedKeys
      refine ⟨?_, ?_, ?_, ?_⟩
      · show mapSorted (announceTransport s t l r).state.mPendingTransports
        rw [hp]; exact hk.pendingSorted
      · show ∀ e ∈ (announceTransport s t l r).state.mPendingTransports, e.1 = e.2.id
        rw [hp]; exact hk.pendingKeys
      · show mapSorted (announceTransport s t l r).state.mAnnouncedTransports
        rw [ha]; exact h.1
      · show ∀ e ∈ (announceTransport s t l r).state.mAnnouncedTransports, e.1 = e.2.id
        rw [ha]; exact h.2
  | notifyShutdown t l r =>
    have h := notifyShutdown_tables s t l r
    exact keyed_of_sublist s _ hk h.1 h.2
  | subscribe d caps =>
    have h := subscribe_tables s d caps
    refine keyed_of_sublist s _ hk ?_ ?_
    · show (subscribe s d caps).state.mPendingTransports.Sublist _
      rw [h.1]
      exact List.nil_sublist _
    · show (subscribe s d caps).state.mAnnouncedTransports.Sublist _
      rw [h.2]
  | cancel w =>
    rcases cancel_tables w s with h | h
    · exact keyed_of_empty _ h.2 h.1
    · exact keyed_of_sublist s _ hk h.2 (by
        show (cancel w s).state.mAnnouncedTransports.Sublist _
        rw [h.1])
  | onWake w =>
    rcases onWake_tables w s with h | h
    · exact keyed_of_empty _ h.2 h.1
    · exact keyed_of_sublist s _ hk h.2 (by
        show (onWake w s).state.mAnnouncedTransports.Sublist _
        rw [h.1])

theorem construct_tables (mID secureTransport : Nat) (settings : Settings)
    (increment : Nat) (s : SCTPTransportListener)
    (h : construct mID secureTransport settings increment = some s) :
    s.mPendingTransports = [] ∧ s.mAnnouncedTransports = [] := by
  unfold construct at h
  split at h
  · cases h
    exact ⟨rfl, rfl⟩
  · cases h

theorem reachableBy_keyed (allowed : SCTPTransportListener → Op → Prop)
    (s : SCTPTransportListener) (h : ReachableBy allowed s) : Keyed s := by
  induction h with
  | fresh mID secureTransport settings increment s h =>
    have ht := construct_tables mID secureTransport settings increment s h
    exact keyed_of_empty s ht.1 ht.2
  | step s op _ _ _ ih => exact apply_keyed s op ih

theorem apply_apart (s : SCTPTransportListener) (op : Op) (hop : keepsApart s op)
    (hk : Apart s) : Apart (op.apply s) := by
  cases op with
  | handleDataPacket w buffer => exact handleDataPacket_apart w s buffer hk hop
  | registerNewTransport w dtls io l r =>
    have h := registerNewTransport_tables w s dtls io l r
    exact apart_of_same s _ hk h.1 h.2
  | announceTransport t l r =>
    obtain ⟨hp, ha | ha⟩ := announceTransport_tables s t l r
    · exact apart_of_same s _ hk hp ha
    · intro id
      show mapFind (announceTransport s t l r).state.mPendingTransports id = none ∨
        mapFind (announceTransport s t l r).state.mAnnouncedTransports id = none
      rw [hp, ha, mapFind_mapAssign]
      by_cases hid : id = t.id
      · left
        rw [hid]
        exact hop
      · rw [if_neg hid]
        exact hk id
  | notifyShutdown t l r =>
    have h := notifyShutdown_tables s t l r
    exact apart_of_sublist s _ hk h.1 h.2
  | subscribe d caps =>
    have h := subscribe_tables s d caps
    intro id
    left
    show mapFind (subscribe s d caps).state.mPendingTransports id = none
    rw [h.1]
    rfl
  | cancel w =>
    rcases cancel_tables w s with h | h
    · intro id
      left
      show mapFind (cancel w s).state.mPendingTransports id = none
      rw [h.2]
      rfl
    · exact apart_of_sublist s _ hk h.2 (by
        show (cancel w s).state.mAnnouncedTransports.Sublist _
        rw [h.1])
  | onWake w =>
    rcases onWake_tables w s with h | h
    · intro id
      left
      show mapFind (onWake w s).state.mPendingTransports id = none
      rw [h.2]
      rfl
    · exact apart_of_sublist s _ hk h.2 (by
        show (onWake w s).state.mAnnouncedTransports.Sublist _
        rw [h.1])

/-! ## Claims about the pending and the announced map -/

/-- C18 as stated fails: after the packet of scenario S1 (no remote capabilities, so
association `1` is pending), announcing association `1` for `(5001, 5000)` leaves its id
in both `mPendingTransports` and `mAnnouncedTransports`. -/
theorem announced_while_pending :
    Reachable (announceTransport (handleDataPacket acceptingCollaborators scenarioListener
      scenarioPacket).state ⟨1⟩ 5001 5000).state ∧
    mapFind (announceTransport (handleDataPacket acceptingCollaborators scenarioListener
      scenarioPacket).state ⟨1⟩ 5001 5000).state.mPendingTransports 1 = some ⟨1⟩ ∧
    mapFind (announceTransport (handleDataPacket acceptingCollaborators scenarioListener
      scenarioPacket).state ⟨1⟩ 5001 5000).state.mAnnouncedTransports 1 = some ⟨1⟩ :=
  ⟨ReachableBy.step _ (Op.announceTransport ⟨1⟩ 5001 5000)
      (ReachableBy.step scenarioListener
        (Op.handleDataPacket acceptingCollaborators scenarioPacket)
        (ReachableBy.fresh 1 2 scenarioSettings 1 scenarioListener rfl) trivial trivial)
      ⟨by decide, by decide⟩ trivial,
    by decide, by decide⟩

/-- C18 amended: in every state reached by operations among which `announceTransport`
is never called for an association whose id is pending and the factory never yields an
association whose id is announced, no id is in both `mPendingTransports` and
`mAnnouncedTransports`; and `announceTransport` for a present tuple, on a listener that
is not shut down, records the association in `mAnnouncedTransports` and leaves
`mPendingTransports` as it is. -/
theorem pending_announced_apart (s : SCTPTransportListener)
    (hreach : ReachableBy keepsApart s) :
    (∀ id, ¬ ((mapFind s.mPendingTransports id).isSome = true ∧
      (mapFind s.mAnnouncedTransports id).isSome = true)) ∧
    (∀ (a found : UseSCTPTransport) (localPort remotePort : Nat), isShutdown s = false →
      mapFind s.mTransports (createTuple localPort remotePort) = some found →
      mapFind (announceTransport s a localPort remotePort).state.mAnnouncedTransports a.id =
          some a ∧
        (announceTransport s a localPort remotePort).state.mPendingTransports =
          s.mPendingTransports) := by
  constructor
  · have hap : Apart s := by
      induction hreach with
      | fresh mID secureTransport settings increment s h =>
        have ht := construct_tables mID secureTransport settings increment s h
        intro id
        left
        rw [ht.1]
        rfl
      | step s op _ _ hop ih => exact apply_apart s op hop ih
    intro id h
    rcases hap id with h1 | h1
    · rw [h1] at h
      exact absurd h.1 (by decide)
    · rw [h1] at h
      exact absurd h.2 (by decide)
  · intro a found localPort remotePort hs hf
    rw [announceTransport_present s a found localPort remotePort hs hf]
    refine ⟨?_, rfl⟩
    show mapFind (mapAssign s.mAnnouncedTransports a.id a) a.id = some a
    rw [mapFind_mapAssign, if_pos rfl]

/-- Witness of C18 amended: the packet of scenario S1, a subscription (which empties the
pending map) and then the announcement of association `1`. -/
theorem pending_announced_apart_witness :
    mapFind (announceTransport (subscribe (handleDataPacket acceptingCollaborators
      scenarioListener scenarioPacket).state (some 42) scenarioCapabilities).state ⟨1⟩ 5001
      5000).state.mAnnouncedTransports 1 = some ⟨1⟩ ∧
    ¬ ((mapFind (announceTransport (subscribe (handleDataPacket acceptingCollaborators
      scenarioListener scenarioPacket).state (some 42) scenarioCapabilities).state ⟨1⟩ 5001
      5000).state.mPendingTransports 1).isSome = true ∧
      (mapFind (announceTransport (subscribe (handleDataPacket acceptingCollaborators
      scenarioListener scenarioPacket).state (some 42) scenarioCapabilities).state ⟨1⟩ 5001
      5000).state.mAnnouncedTransports 1).isSome = true) :=
  ⟨by decide,
    (pending_announced_apart _
      (ReachableBy.step _ (Op.announceTransport ⟨1⟩ 5001 5000)
        (ReachableBy.step _ (Op.subscribe (some 42) scenarioCapabilities)
          (ReachableBy.step scenarioListener
            (Op.handleDataPacket acceptingCollaborators scenarioPacket)
            (ReachableBy.fresh 1 2 scenarioSettings 1 scenarioListener rfl) trivial
            (fun _ _ => rfl))
          trivial trivial)
        ⟨by decide, by decide⟩ (by show mapFind _ _ = none; rfl))).1 1⟩

theorem mapFind_cons {β : Type} (m : List (Nat × β)) (k : Nat) (v : β) (key : Nat) :
    mapFind ((k, v) :: m) key = if k = key then some v else mapFind m key := rfl

theorem count_start_map (m : List (Nat × UseSCTPTransport)) (caps c : Capabilities)
    (t : Nat) (hs : mapSorted m) (hk : ∀ e ∈ m, e.1 = e.2.id) :
    List.count (Call.start t c) (m.map (fun entry => Call.start entry.2.id caps)) =
      if c = caps ∧ (mapFind m t).isSome = true then 1 else 0 := by
  induction m with
  | nil => simp [mapFind]
  | cons e m ih =>
    obtain ⟨k, v⟩ := e
    unfold mapSorted at hs ih
    simp only [List.map_cons, List.pairwise_cons] at hs
    have hkv : k = v.id := hk (k, v) (List.mem_cons_self _ _)
    have ih1 := ih hs.2 (fun e he => hk e (List.mem_cons_of_mem _ he))
    rw [List.map_cons, List.count_cons, ih1, mapFind_cons]
    by_cases hkt : k = t
    · have hrest : mapFind m t = none := by
        rw [mapFind_none_iff]
        intro e he
        have := hs.1 e.1 (List.mem_map.2 ⟨e, he, rfl⟩)
        omega
      rw [hrest]
      simp only [hkt, if_true, Option.isSome_some, Option.isSome_none, and_true, and_false,
        Bool.false_eq_true, if_false, Nat.zero_add]
      have hvt : v.id = t := by rw [← hkv, hkt]
      by_cases hc : c = caps
      · subst hc
        simp [hvt]
      · have hc2 : ¬ caps = c := fun e => hc e.symm
        simp [hc, hc2]
    · have hvt : ¬ v.id = t := by rw [← hkv]; exact hkt
      simp [hkt, hvt]

theorem count_start_replay (m : List (Nat × UseSCTPTransport)) (delegate : Nat)
    (c : Capabilities) (t : Nat) :
    List.count (Call.start t c)
      (m.map (fun entry => Call.onSCTPTransport delegate entry.2.id)) = 0 := by
  rw [List.count_eq_zero]
  intro h
  rcases List.mem_map.1 h with ⟨e, _, he⟩
  cases he

/-- C20: on a reachable listener, after `subscribe(delegate, caps)` the stored remote
capabilities are `caps`, `start(caps)` has been called exactly once on each association
that was in `mPendingTransports` and `start` has been called on nothing else and with
nothing else, `mPendingTransports` is empty, and `mTransports` and both maps of counts
are unchanged. -/
theorem subscribe_effect (s : SCTPTransportListener) (delegate : Option Nat)
    (caps : Capabilities) (hreach : Reachable s) :
    (subscribe s delegate caps).state.mRemoteCapabilities = some caps ∧
    (∀ t c, List.count (Call.start t c) (subscribe s delegate caps).calls =
      if c = caps ∧ (mapFind s.mPendingTransports t).isSome = true then 1 else 0) ∧
    (subscribe s delegate caps).state.mPendingTransports = [] ∧
    (subscribe s delegate caps).state.mTransports = s.mTransports ∧
    (subscribe s delegate caps).state.mAllocatedLocalPorts = s.mAllocatedLocalPorts ∧
    (subscribe s delegate caps).state.mAllocatedRemotePorts = s.mAllocatedRemotePorts := by
  have hk := reachableBy_keyed _ s hreach
  have hcalls : (subscribe s delegate caps).calls =
      s.mPendingTransports.map (fun entry => Call.start entry.2.id caps) ++
        (match delegate with
          | some d => s.mAnnouncedTransports.map (fun entry => Call.onSCTPTransport d entry.2.id)
          | none => []) := by
    unfold subscribe
    cases delegate <;> rfl
  have hstate : (subscribe s delegate caps).state.mRemoteCapabilities = some caps ∧
      (subscribe s delegate caps).state.mPendingTransports = [] ∧
      (subscribe s delegate caps).state.mTransports = s.mTransports ∧
      (subscribe s delegate caps).state.mAllocatedLocalPorts = s.mAllocatedLocalPorts ∧
      (subscribe s delegate caps).state.mAllocatedRemotePorts = s.mAllocatedRemotePorts := by
    unfold subscribe
    simp only
    split <;> exact ⟨rfl, rfl, rfl, rfl, rfl⟩
  refine ⟨hstate.1, ?_, hstate.2⟩
  intro t c
  rw [hcalls, List.count_append,
    count_start_map s.mPendingTransports caps c t hk.pendingSorted hk.pendingKeys]
  cases delegate with
  | none => simp
  | some d =>
    simp only
    rw [count_start_replay s.mAnnouncedTransports d c t]
    rfl

/-- Witness of C20, scenario S2: subscribing after the packet of scenario S1 starts the
pending association `1` and makes no `onSCTPTransport` call. -/
theorem subscribe_effect_witness :
    (subscribe (handleDataPacket acceptingCollaborators scenarioListener
      scenarioPacket).state (some 42) scenarioCapabilities).calls =
        [Call.start 1 scenarioCapabilities] ∧
    (subscribe (handleDataPacket acceptingCollaborators scenarioListener
      scenarioPacket).state (some 42) scenarioCapabilities).state.mRemoteCapabilities =
        some scenarioCapabilities ∧
    List.count (Call.start 1 scenarioCapabilities)
      (subscribe (handleDataPacket acceptingCollaborators scenarioListener
        scenarioPacket).state (some 42) scenarioCapabilities).calls = 1 ∧
    (subscribe (handleDataPacket acceptingCollaborators scenarioListener
      scenarioPacket).state (some 42) scenarioCapabilities).state.mPendingTransports = [] :=
  ⟨by decide,
    (subscribe_effect (handleDataPacket acceptingCollaborators scenarioListener
      scenarioPacket).state (some 42) scenarioCapabilities
      (ReachableBy.step scenarioListener
        (Op.handleDataPacket acceptingCollaborators scenarioPacket)
        (ReachableBy.fresh 1 2 scenarioSettings 1 scenarioListener rfl) trivial trivial)).1,
    by decide,
    (subscribe_effect (handleDataPacket acceptingCollaborators scenarioListener
      scenarioPacket).state (some 42) scenarioCapabilities
      (ReachableBy.step scenarioListener
        (Op.handleDataPacket acceptingCollaborators scenarioPacket)
        (ReachableBy.fresh 1 2 scenarioSettings 1 scenarioListener rfl) trivial trivial)).2.2.1⟩

/-! ## Claims about tuples -/

/-- C29: for a packet of at least four octets, if the incoming classification reports
`(local, remote) = (a, b)` then the outgoing classification of the same octets reports
`(b, a)`, and the two returned tuples are `createTuple a b` and `createTuple b a`. -/
theorem getLocalRemoteTuple_swapped (packet : List BYTE) (a b : Nat)
    (h : 4 ≤ packet.length)
    (hin : (getLocalRemoteTuple packet Directions.Direction_Incoming).2 = (a, b)) :
    getLocalRemoteTuple packet Directions.Direction_Incoming = (createTuple a b, a, b) ∧
      getLocalRemoteTuple packet Directions.Direction_Outgoing = (createTuple b a, b, a) := by
  obtain ⟨b0, b1, b2, b3, rest, rfl⟩ := exists_cons4 packet h
  simp only [getLocalRemoteTuple, Prod.mk.injEq] at hin ⊢
  obtain ⟨ha, hb⟩ := hin
  subst ha hb
  exact ⟨⟨rfl, rfl, rfl⟩, ⟨rfl, rfl, rfl⟩⟩

/-- Witness of C29 on the packet of scenario S1. -/
theorem getLocalRemoteTuple_swapped_witness :
    (getLocalRemoteTuple scenarioPacket Directions.Direction_Incoming).2 = (5001, 5000) ∧
    getLocalRemoteTuple scenarioPacket Directions.Direction_Incoming =
      (createTuple 5001 5000, 5001, 5000) ∧
    getLocalRemoteTuple scenarioPacket Directions.Direction_Outgoing =
      (createTuple 5000 5001, 5000, 5001) :=
  ⟨by decide,
    getLocalRemoteTuple_swapped scenarioPacket 5001 5000 (by decide) (by decide)⟩

/-- C30: for 16-bit ports, `splitTuple (createTuple L R)` is `(L, R)`; hence two port
pairs with the same tuple are the same pair. -/
theorem splitTuple_createTuple_roundtrip (localPort remotePort : Nat)
    (hl : localPort < 65536) (hr : remotePort < 65536) :
    splitTuple (createTuple localPort remotePort) = (localPort, remotePort) ∧
      ∀ l r, l < 65536 → r < 65536 →
        createTuple localPort remotePort = createTuple l r → localPort = l ∧ remotePort = r := by
  refine ⟨splitTuple_createTuple localPort remotePort hl hr, ?_⟩
  intro l r hl1 hr1 he
  have h1 := splitTuple_createTuple localPort remotePort hl hr
  have h2 := splitTuple_createTuple l r hl1 hr1
  rw [he, h2] at h1
  exact ⟨(congrArg Prod.fst h1).symm, (congrArg Prod.snd h1).symm⟩

/-- Witness of C30 on the ports of scenario S1. -/
theorem splitTuple_createTuple_roundtrip_witness :
    splitTuple (createTuple 5001 5000) = (5001, 5000) ∧
      (createTuple 5001 5000 = createTuple 5001 5000 → 5001 = 5001 ∧ 5000 = 5000) :=
  ⟨(splitTuple_createTuple_roundtrip 5001 5000 (by decide) (by decide)).1,
    (splitTuple_createTuple_roundtrip 5001 5000 (by decide) (by decide)).2 5001 5000
      (by decide) (by decide)⟩

/-! ## The fields each operation can change -/

theorem handleDataPacket_frame (w : Collaborators) (s : SCTPTransportListener)
    (buffer : List BYTE) :
    ∃ P L R T, (handleDataPacket w s buffer).state =
      { s with
        mPendingTransports := P, mAllocatedLocalPorts := L, mAllocatedRemotePorts := R,
        mTransports := T } := by
  by_cases h4 : buffer.length < 4
  · rw [handleDataPacket_short w s buffer h4]
    exact ⟨_, _, _, _, rfl⟩
  · by_cases h0 : (getLocalRemoteTuple buffer Directions.Direction_Incoming).1 = 0
    · rw [handleDataPacket_zero w s buffer h0]
      exact ⟨_, _, _, _, rfl⟩
    · cases hf : mapFind s.mTransports
          (getLocalRemoteTuple buffer Directions.Direction_Incoming).1 with
      | some transport =>
        rw [handleDataPacket_known w s buffer transport (by omega) h0 hf]
        exact ⟨_, _, _, _, rfl⟩
      | none =>
        cases hc : w.create (getLocalRemoteTuple buffer Directions.Direction_Incoming).2.1
            (getLocalRemoteTuple buffer Directions.Direction_Incoming).2.2 with
        | none =>
          rw [handleDataPacket_createFails w s buffer (by omega) h0 hf hc]
          exact ⟨_, _, _, _, rfl⟩
        | some transport =>
          rw [handleDataPacket_creates w s buffer transport (by omega) h0 hf hc]
          exact ⟨_, _, _, _, rfl⟩

theorem announceTransport_frame (s : SCTPTransportListener) (a : UseSCTPTransport)
    (l r : Nat) :
    ∃ A, (announceTransport s a l r).state = { s with mAnnouncedTransports := A } := by
  unfold announceTransport
  split
  · exact ⟨_, rfl⟩
  · split
    · exact ⟨_, rfl⟩
    · exact ⟨_, rfl⟩

theorem notifyShutdown_frame (s : SCTPTransportListener) (a : UseSCTPTransport)
    (l r : Nat) :
    ∃ P A L R T, (notifyShutdown s a l r).state =
      { s with
        mPendingTransports := P, mAnnouncedTransports := A, mAllocatedLocalPorts := L,
        mAllocatedRemotePorts := R, mTransports := T } := by
  cases hs : isShutdown s with
  | true =>
    unfold notifyShutdown
    rw [if_pos hs]
    exact ⟨_, _, _, _, _, rfl⟩
  | false =>
    by_cases hm : ∃ registered, mapFind s.mTransports (createTuple l r) = some registered ∧
        registered.id = a.id
    · obtain ⟨registered, hf, hid⟩ := hm
      rw [notifyShutdown_erases s a registered l r hs hf hid]
      exact ⟨_, _, _, _, _, rfl⟩
    · rw [notifyShutdown_keeps s a l r hs (fun registered hf hid => hm ⟨registered, hf, hid⟩)]
      exact ⟨_, _, _, _, _, rfl⟩

theorem cancelLoop_frame (w : Collaborators) (rest : List (Nat × UseSCTPTransport)) :
    ∀ acc : SCTPTransportListener × List Call,
      ∃ P L R T, (rest.foldl (cancelVisit w) acc).1 =
        { acc.1 with
          mPendingTransports := P, mAllocatedLocalPorts := L, mAllocatedRemotePorts := R,
          mTransports := T } := by
  induction rest with
  | nil =>
    intro acc
    exact ⟨_, _, _, _, rfl⟩
  | cons e rest ih =>
    intro acc
    rw [List.foldl_cons]
    obtain ⟨P, L, R, T, h⟩ := ih (cancelVisit w acc e)
    cases hsd : w.isShutdown e.2.id with
    | false =>
      rw [cancelVisit_alive w acc e hsd] at h ⊢
      exact ⟨P, L, R, T, h⟩
    | true =>
      rw [cancelVisit_shutdown w acc e hsd] at h ⊢
      exact ⟨P, L, R, T, h⟩

/-- What the first loop of `cancel` leaves in `mTransports`: the entries whose key is
not the key of a visited entry that reported `isShutdown()`. -/
theorem cancelLoop_transports (w : Collaborators) (rest : List (Nat × UseSCTPTransport)) :
    ∀ acc : SCTPTransportListener × List Call,
      (rest.foldl (cancelVisit w) acc).1.mTransports =
        acc.1.mTransports.filter
          (fun e => !(rest.any (fun v => w.isShutdown v.2.id && decide (v.1 = e.1)))) := by
  induction rest with
  | nil =>
    intro acc
    simp
  | cons v rest ih =>
    intro acc
    rw [List.foldl_cons, ih]
    cases hsd : w.isShutdown v.2.id with
    | false =>
      rw [cancelVisit_alive w acc v hsd]
      simp [hsd]
    | true =>
      rw [cancelVisit_shutdown w acc v hsd]
      show List.filter _ (mapErase acc.1.mTransports v.1) = _
      unfold mapErase
      rw [List.filter_filter]
      congr 1
      funext e
      have hcomm : decide (v.1 = e.1) = decide (e.1 = v.1) := by
        by_cases hk : e.1 = v.1
        · rw [hk]
        · have hk2 : ¬ v.1 = e.1 := fun h => hk h.symm
          simp only [hk, hk2]
      simp only [hsd, List.any_cons, Bool.true_and, Bool.not_or, ne_eq, decide_not, hcomm]
      rw [Bool.and_comm]

theorem cancelLoop_alive (w : Collaborators) (rest : List (Nat × UseSCTPTransport))
    (halive : ∀ e ∈ rest, w.isShutdown e.2.id = false) :
    ∀ acc : SCTPTransportListener × List Call, (rest.foldl (cancelVisit w) acc).1 = acc.1 := by
  induction rest with
  | nil =>
    intro acc
    rfl
  | cons e rest ih =>
    intro acc
    rw [List.foldl_cons, ih (fun e1 he1 => halive e1 (List.mem_cons_of_mem _ he1)),
      cancelVisit_alive w acc e (halive e (List.mem_cons_self _ _))]

/-! ## The cases of `cancel` -/

theorem cancel_shutdown (w : Collaborators) (s : SCTPTransportListener)
    (hs : isShutdown s = true) : cancel w s = ⟨(), s, []⟩ := by
  unfold cancel
  rw [if_pos hs]

theorem cancel_unreferenced (w : Collaborators) (s : SCTPTransportListener)
    (hs : isShutdown s = false) (hg : s.mGracefulShutdownReference = false)
    (hw : s.mThisWeak = false) : cancel w s = cancelFinal s [] := by
  unfold cancel
  rw [if_neg (by rw [hs]; decide)]
  simp only [hg, hw, Bool.not_false, if_true, Bool.false_eq_true, if_false]
  cases s
  simp_all

theorem cancel_graceful (w : Collaborators) (s : SCTPTransportListener)
    (hs : isShutdown s = false)
    (hg : s.mGracefulShutdownReference = true ∨ s.mThisWeak = true) :
    cancel w s =
      if ((s.mTransports.foldl (cancelVisit w)
          ({ s with mGracefulShutdownReference := true }, [])).1.mTransports.length > 0) then
        ⟨(), (s.mTransports.foldl (cancelVisit w)
            ({ s with mGracefulShutdownReference := true }, [])).1,
          (s.mTransports.foldl (cancelVisit w)
            ({ s with mGracefulShutdownReference := true }, [])).2⟩
      else
        cancelFinal (s.mTransports.foldl (cancelVisit w)
            ({ s with mGracefulShutdownReference := true }, [])).1
          (s.mTransports.foldl (cancelVisit w)
            ({ s with mGracefulShutdownReference := true }, [])).2 := by
  have hs0 : (if (!s.mGracefulShutdownReference) = true then
      { s with mGracefulShutdownReference := s.mThisWeak } else s) =
        { s with mGracefulShutdownReference := true } := by
    cases hgr : s.mGracefulShutdownReference with
    | true =>
      simp only [Bool.not_true, Bool.false_eq_true, if_false]
      cases s
      simp_all
    | false =>
      rcases hg with hg | hg
      · rw [hgr] at hg
        cases hg
      · simp only [Bool.not_false, if_true, hg]
  unfold cancel
  rw [if_neg (by rw [hs]; decide)]
  simp only [hs0, if_true]

/-! ## Claims about `cancel` -/

theorem isRunning_flags (s : SCTPTransportListener) (h : isRunning s = true) :
    isShutdown s = false ∧ s.mGracefulShutdownReference = false := by
  unfold isRunning isShuttingDown at h
  cases hg : s.mGracefulShutdownReference with
  | true =>
    rw [hg] at h
    simp at h
  | false =>
    rw [hg] at h
    cases hsd : isShutdown s with
    | true =>
      rw [hsd] at h
      simp at h
    | false => exact ⟨rfl, rfl⟩

/-! ### `cancel` as a call that can fail -/

theorem cancelChecked_some (w : Collaborators) (s : SCTPTransportListener)
    (o : Outcome Unit) (h : cancelChecked w s = some o) :
    cancelUndefined w s = false ∧ o = cancel w s := by
  unfold cancelChecked at h
  cases hu : cancelUndefined w s with
  | true =>
    rw [hu, if_pos rfl] at h
    cases h
  | false =>
    rw [hu] at h
    simp only [Bool.false_eq_true, if_false] at h
    injection h with h
    exact ⟨rfl, h.symm⟩

theorem cancelChecked_of_defined (w : Collaborators) (s : SCTPTransportListener)
    (h : cancelUndefined w s = false) : cancelChecked w s = some (cancel w s) := by
  unfold cancelChecked
  rw [h]
  rfl

theorem cancelLoopUndefined_alive (w : Collaborators) (rest : List (Nat × UseSCTPTransport))
    (halive : ∀ e ∈ rest, w.isShutdown e.2.id = false) :
    ∀ s : SCTPTransportListener, cancelLoopUndefined w rest s = false := by
  induction rest with
  | nil =>
    intro s
    rfl
  | cons e rest ih =>
    intro s
    unfold cancelLoopUndefined cancelVisitUndefined
    rw [halive e (List.mem_cons_self _ _), Bool.false_and, Bool.false_or]
    exact ih (fun e1 he1 => halive e1 (List.mem_cons_of_mem _ he1)) _

theorem cancelUndefined_shutdown (w : Collaborators) (s : SCTPTransportListener)
    (hs : isShutdown s = true) : cancelUndefined w s = false := by
  unfold cancelUndefined
  rw [if_pos hs]

theorem runChecked_some (ops : List Op) :
    ∀ s s1 : SCTPTransportListener, runChecked s ops = some s1 → s1 = runOps s ops := by
  induction ops with
  | nil =>
    intro s s1 h
    injection h with h
    exact h.symm
  | cons op ops ih =>
    intro s s1 h
    unfold runChecked at h
    cases hu : op.undefined s with
    | true =>
      rw [hu, if_pos rfl] at h
      cases h
    | false =>
      rw [hu] at h
      simp only [Bool.false_eq_true, if_false] at h
      exact ih (op.apply s) s1 h

/-- C22, the failing run: on the listener of scenario S1 the association `7` is
registered on ports `(7000, 8000)` and announced. The listener is running and its only
association reports `isShutdown()` once notified. The round of `cancel()` for `7` finds
it in `mAnnouncedTransports` and executes `mPendingTransports.erase(found)` with the
iterator of `mAnnouncedTransports`: the call has undefined behaviour and does not end
with an emptied, shut-down listener. -/
theorem cancel_undefined_when_announced :
    Reachable announcedListener ∧
    isRunning announcedListener = true ∧
    announcedListener.mTransports = [(createTuple 7000 8000, ⟨7⟩)] ∧
    (∀ e ∈ announcedListener.mTransports, obligingCollaborators.isShutdown e.2.id = true) ∧
    announcedListener.mAnnouncedTransports = [(7, ⟨7⟩)] ∧
    cancelVisitUndefined obligingCollaborators
      { announcedListener with mGracefulShutdownReference := true }
      (createTuple 7000 8000, ⟨7⟩) = true ∧
    cancelUndefined obligingCollaborators announcedListener = true ∧
    cancelChecked obligingCollaborators announcedListener = none := by
  refine ⟨?_, by decide, by decide, fun _ _ => rfl, by decide, by decide, by decide, ?_⟩
  · exact ReachableBy.step _ (Op.announceTransport ⟨7⟩ 7000 8000)
      (ReachableBy.step _
        (Op.registerNewTransport acceptingCollaborators (some scenarioDTLS) (some ⟨7⟩)
          7000 8000)
        (ReachableBy.fresh 1 2 scenarioSettings 1 scenarioListener rfl)
        ⟨by decide, by decide⟩ trivial)
      ⟨by decide, by decide⟩ trivial
  · unfold cancelChecked
    rw [if_pos (by decide)]

/-- What holds of C22: on a running listener all of whose associations report
`isShutdown()` once notified, a `cancel()` whose behaviour is defined ends with
`mShutdown` set, the graceful self-reference dropped, no subscriber, and `mTransports`,
`mPendingTransports`, `mAnnouncedTransports` and both maps of counts empty. -/
theorem cancel_drains (w : Collaborators) (s : SCTPTransportListener) (o : Outcome Unit)
    (hrun : isRunning s = true)
    (hall : ∀ e ∈ s.mTransports, w.isShutdown e.2.id = true)
    (hdef : cancelChecked w s = some o) :
    o.state.mShutdown = true ∧
    o.state.mGracefulShutdownReference = false ∧
    isShutdown o.state = true ∧
    o.state.mSubscriptions = [] ∧
    o.state.mTransports = [] ∧
    o.state.mPendingTransports = [] ∧
    o.state.mAnnouncedTransports = [] ∧
    o.state.mAllocatedLocalPorts = [] ∧
    o.state.mAllocatedRemotePorts = [] := by
  rw [(cancelChecked_some w s o hdef).2]
  obtain ⟨hs, hg⟩ := isRunning_flags s hrun
  have hfinal : ∀ s1 calls, cancel w s = cancelFinal s1 calls →
      (cancel w s).state.mShutdown = true ∧
      (cancel w s).state.mGracefulShutdownReference = false ∧
      isShutdown (cancel w s).state = true ∧
      (cancel w s).state.mSubscriptions = [] ∧
      (cancel w s).state.mTransports = [] ∧
      (cancel w s).state.mPendingTransports = [] ∧
      (cancel w s).state.mAnnouncedTransports = [] ∧
      (cancel w s).state.mAllocatedLocalPorts = [] ∧
      (cancel w s).state.mAllocatedRemotePorts = [] := by
    intro s1 calls h
    rw [h]
    exact ⟨rfl, rfl, rfl, rfl, rfl, rfl, rfl, rfl, rfl⟩
  cases hw : s.mThisWeak with
  | false => exact hfinal s [] (cancel_unreferenced w s hs hg hw)
  | true =>
    have hempty : (s.mTransports.foldl (cancelVisit w)
        ({ s with mGracefulShutdownReference := true }, [])).1.mTransports = [] := by
      rw [cancelLoop_transports]
      show List.filter _ s.mTransports = []
      rw [List.filter_eq_nil_iff]
      intro e he
      have hany : (s.mTransports.any
          (fun v => w.isShutdown v.2.id && decide (v.1 = e.1))) = true := by
        rw [List.any_eq_true]
        exact ⟨e, he, by simp [hall e he]⟩
      rw [hany]
      decide
    have hcg := cancel_graceful w s hs (Or.inr hw)
    rw [hempty, if_neg (by decide)] at hcg
    exact hfinal _ _ hcg

/-- An instance of `cancel_drains`, scenario S6: two registered associations, neither
announced, that both shut down on notification. -/
theorem cancel_drains_witness :
    (registerNewTransport acceptingCollaborators
        (registerNewTransport acceptingCollaborators scenarioListener (some scenarioDTLS)
          (some ⟨7⟩) 7000 8000).state
        (some scenarioDTLS) (some ⟨8⟩) 7001 8001).state.mTransports.length = 2 ∧
    cancelUndefined obligingCollaborators
      (registerNewTransport acceptingCollaborators
        (registerNewTransport acceptingCollaborators scenarioListener (some scenarioDTLS)
          (some ⟨7⟩) 7000 8000).state
        (some scenarioDTLS) (some ⟨8⟩) 7001 8001).state = false ∧
    (cancel obligingCollaborators
      (registerNewTransport acceptingCollaborators
        (registerNewTransport acceptingCollaborators scenarioListener (some scenarioDTLS)
          (some ⟨7⟩) 7000 8000).state
        (some scenarioDTLS) (some ⟨8⟩) 7001 8001).state).calls =
      [Call.notifyShutdown 7, Call.notifyShutdown 8] ∧
    isShutdown (cancel obligingCollaborators
      (registerNewTransport acceptingCollaborators
        (registerNewTransport acceptingCollaborators scenarioListener (some scenarioDTLS)
          (some ⟨7⟩) 7000 8000).state
        (some scenarioDTLS) (some ⟨8⟩) 7001 8001).state).state = true ∧
    (cancel obligingCollaborators
      (registerNewTransport acceptingCollaborators
        (registerNewTransport acceptingCollaborators scenarioListener (some scenarioDTLS)
          (some ⟨7⟩) 7000 8000).state
        (some scenarioDTLS) (some ⟨8⟩) 7001 8001).state).state.mTransports = [] :=
  ⟨by decide, by decide, by decide,
    (cancel_drains obligingCollaborators
      (registerNewTransport acceptingCollaborators
        (registerNewTransport acceptingCollaborators scenarioListener (some scenarioDTLS)
          (some ⟨7⟩) 7000 8000).state
        (some scenarioDTLS) (some ⟨8⟩) 7001 8001).state _
      (by decide) (fun _ _ => rfl)
      (cancelChecked_of_defined _ _ (by decide))).2.2.1,
    (cancel_drains obligingCollaborators
      (registerNewTransport acceptingCollaborators
        (registerNewTransport acceptingCollaborators scenarioListener (some scenarioDTLS)
          (some ⟨7⟩) 7000 8000).state
        (some scenarioDTLS) (some ⟨8⟩) 7001 8001).state _
      (by decide) (fun _ _ => rfl)
      (cancelChecked_of_defined _ _ (by decide))).2.2.2.2.1⟩

theorem cancelFinal_isShutdown (s : SCTPTransportListener) (calls : List Call) :
    isShutdown (cancelFinal s calls).state = true := rfl

/-- The listener after two consecutive `cancel` passes is the listener after one. -/
theorem cancel_cancel_state (w : Collaborators) (s : SCTPTransportListener) :
    (cancel w (cancel w s).state).state = (cancel w s).state := by
  cases hs : isShutdown s with
  | true =>
    rw [cancel_shutdown w s hs]
    show (cancel w s).state = s
    rw [cancel_shutdown w s hs]
  | false =>
    by_cases hg : s.mGracefulShutdownReference = true ∨ s.mThisWeak = true
    · rw [cancel_graceful w s hs hg]
      split
      · rename_i hlen
        show (cancel w (s.mTransports.foldl (cancelVisit w)
          ({ s with mGracefulShutdownReference := true }, [])).1).state = _
        obtain ⟨P, L, R, T, hfr⟩ := cancelLoop_frame w s.mTransports
          ({ s with mGracefulShutdownReference := true }, [])
        have hgr : (s.mTransports.foldl (cancelVisit w)
            ({ s with mGracefulShutdownReference := true }, [])).1.mGracefulShutdownReference =
              true := by
          rw [hfr]
        have hnot : isShutdown (s.mTransports.foldl (cancelVisit w)
            ({ s with mGracefulShutdownReference := true }, [])).1 = false := by
          unfold isShutdown
          rw [hgr]
          rfl
        have halive : ∀ e ∈ (s.mTransports.foldl (cancelVisit w)
            ({ s with mGracefulShutdownReference := true }, [])).1.mTransports,
            w.isShutdown e.2.id = false := by
          intro e he
          rw [cancelLoop_transports] at he
          have he2 := List.mem_filter.1 he
          have hmem : e ∈ s.mTransports := he2.1
          cases hsd : w.isShutdown e.2.id with
          | false => rfl
          | true =>
            have hany : (s.mTransports.any
                (fun v => w.isShutdown v.2.id && decide (v.1 = e.1))) = true := by
              rw [List.any_eq_true]
              exact ⟨e, hmem, by simp [hsd]⟩
            have h2 := he2.2
            rw [hany] at h2
            cases h2
        generalize (s.mTransports.foldl (cancelVisit w)
            ({ s with mGracefulShutdownReference := true }, [])).1 = s1 at hlen hgr hnot halive
        have hself : ({ s1 with mGracefulShutdownReference := true } : SCTPTransportListener) =
            s1 := by
          cases s1
          simp_all
        rw [cancel_graceful w s1 hnot (Or.inl hgr), hself,
          cancelLoop_alive w s1.mTransports halive (s1, []), if_pos hlen]
      · rw [cancel_shutdown w _ (cancelFinal_isShutdown _ _)]
    · have hg1 : s.mGracefulShutdownReference = false := by
        cases h : s.mGracefulShutdownReference with
        | true => exact absurd (Or.inl h) hg
        | false => rfl
      have hw1 : s.mThisWeak = false := by
        cases h : s.mThisWeak with
        | true => exact absurd (Or.inr h) hg
        | false => rfl
      rw [cancel_unreferenced w s hs hg1 hw1,
        cancel_shutdown w _ (cancelFinal_isShutdown _ _)]

/-- A `cancel` pass on the listener a `cancel` pass leaves meets no association that
reports `isShutdown()`, so it does not execute the statement with undefined behaviour. -/
theorem cancel_second_defined (w : Collaborators) (s : SCTPTransportListener) :
    cancelUndefined w (cancel w s).state = false := by
  cases hs : isShutdown s with
  | true =>
    rw [cancel_shutdown w s hs]
    exact cancelUndefined_shutdown w s hs
  | false =>
    by_cases hg : s.mGracefulShutdownReference = true ∨ s.mThisWeak = true
    · rw [cancel_graceful w s hs hg]
      split
      · show cancelUndefined w (s.mTransports.foldl (cancelVisit w)
          ({ s with mGracefulShutdownReference := true }, [])).1 = false
        obtain ⟨P, L, R, T, hfr⟩ := cancelLoop_frame w s.mTransports
          ({ s with mGracefulShutdownReference := true }, [])
        have hgr : (s.mTransports.foldl (cancelVisit w)
            ({ s with mGracefulShutdownReference := true }, [])).1.mGracefulShutdownReference =
              true := by
          rw [hfr]
        have halive : ∀ e ∈ (s.mTransports.foldl (cancelVisit w)
            ({ s with mGracefulShutdownReference := true }, [])).1.mTransports,
            w.isShutdown e.2.id = false := by
          intro e he
          rw [cancelLoop_transports] at he
          have he2 := List.mem_filter.1 he
          have hmem : e ∈ s.mTransports := he2.1
          cases hsd : w.isShutdown e.2.id with
          | false => rfl
          | true =>
            have hany : (s.mTransports.any
                (fun v => w.isShutdown v.2.id && decide (v.1 = e.1))) = true := by
              rw [List.any_eq_true]
              exact ⟨e, hmem, by simp [hsd]⟩
            have h2 := he2.2
            rw [hany] at h2
            cases h2
        generalize (s.mTransports.foldl (cancelVisit w)
            ({ s with mGracefulShutdownReference := true }, [])).1 = s1 at hgr halive
        unfold cancelUndefined
        split
        · rfl
        · simp only [hgr, Bool.not_true, Bool.false_eq_true, if_false, if_true]
          exact cancelLoopUndefined_alive w s1.mTransports halive s1
      · exact cancelUndefined_shutdown w _ (cancelFinal_isShutdown _ _)
    · have hg1 : s.mGracefulShutdownReference = false := by
        cases h : s.mGracefulShutdownReference with
        | true => exact absurd (Or.inl h) hg
        | false => rfl
      have hw1 : s.mThisWeak = false := by
        cases h : s.mThisWeak with
        | true => exact absurd (Or.inr h) hg
        | false => rfl
      rw [cancel_unreferenced w s hs hg1 hw1]
      exact cancelUndefined_shutdown w _ (cancelFinal_isShutdown _ _)

/-- C24, the failing run: on the listener of scenario S1 the associations `5` and `3`
are registered and announced; both report `isShutdown()` once notified. The listener is
not shut down, and already the first of the two `cancel()` calls executes
`mPendingTransports.erase(found)` with the iterator of `mAnnouncedTransports`: it has
undefined behaviour, so there is no listener after one call for the listener after two
to be equal to. -/
theorem cancel_twice_undefined_when_announced :
    Reachable lateAnnouncedListener ∧
    isShutdown lateAnnouncedListener = false ∧
    lateAnnouncedListener.mTransports =
      [(createTuple 7000 8000, ⟨5⟩), (createTuple 7001 8001, ⟨3⟩)] ∧
    lateAnnouncedListener.mAnnouncedTransports = [(3, ⟨3⟩), (5, ⟨5⟩)] ∧
    obligingCollaborators.isShutdown 5 = true ∧
    obligingCollaborators.isShutdown 3 = true ∧
    cancelUndefined obligingCollaborators lateAnnouncedListener = true ∧
    cancelChecked obligingCollaborators lateAnnouncedListener = none ∧
    runChecked lateAnnouncedListener
      [Op.cancel obligingCollaborators, Op.cancel obligingCollaborators] = none := by
  refine ⟨?_, by decide, by decide, by decide, rfl, rfl, by decide, ?_, ?_⟩
  · exact ReachableBy.step _ (Op.announceTransport ⟨3⟩ 7001 8001)
      (ReachableBy.step _ (Op.announceTransport ⟨5⟩ 7000 8000)
        (ReachableBy.step _
          (Op.registerNewTransport acceptingCollaborators (some scenarioDTLS) (some ⟨3⟩)
            7001 8001)
          (ReachableBy.step _
            (Op.registerNewTransport acceptingCollaborators (some scenarioDTLS) (some ⟨5⟩)
              7000 8000)
            (ReachableBy.fresh 1 2 scenarioSettings 1 scenarioListener rfl)
            ⟨by decide, by decide⟩ trivial)
          ⟨by decide, by decide⟩ trivial)
        ⟨by decide, by decide⟩ trivial)
      ⟨by decide, by decide⟩ trivial
  · unfold cancelChecked
    rw [if_pos (by decide)]
  · decide

/-- What holds of C24: for every listener state and every assignment of `isShutdown()`
answers, when the first `cancel()` has defined behaviour so has a second one, and the
listener after the two calls is the listener after one; and `cancel()` on a listener
that is shut down is defined, changes nothing and calls nothing. -/
theorem cancel_idempotent (w : Collaborators) (s : SCTPTransportListener) (o : Outcome Unit)
    (hdef : cancelChecked w s = some o) :
    (∃ o2, cancelChecked w o.state = some o2 ∧ o2.state = o.state) ∧
      (isShutdown s = true → o = ⟨(), s, []⟩) := by
  obtain ⟨_, ho⟩ := cancelChecked_some w s o hdef
  rw [ho]
  refine ⟨⟨cancel w (cancel w s).state,
    cancelChecked_of_defined w _ (cancel_second_defined w s), cancel_cancel_state w s⟩,
    cancel_shutdown w s⟩

/-- An instance of `cancel_idempotent`: the listener of scenario S1 holding the
association `1` created by the packet of scenario S1, which refuses to shut down. The
first `cancel()` leaves the listener shutting down with the association in place, the
second changes nothing more. -/
theorem cancel_idempotent_witness :
    isShuttingDown (cancel acceptingCollaborators
      (handleDataPacket acceptingCollaborators scenarioListener scenarioPacket).state).state = true ∧
    (cancel acceptingCollaborators
      (handleDataPacket acceptingCollaborators scenarioListener scenarioPacket).state).state.mTransports =
        [(createTuple 5001 5000, ⟨1⟩)] ∧
    (∃ o2, cancelChecked acceptingCollaborators (cancel acceptingCollaborators
        (handleDataPacket acceptingCollaborators scenarioListener scenarioPacket).state).state = some o2 ∧
      o2.state = (cancel acceptingCollaborators
        (handleDataPacket acceptingCollaborators scenarioListener scenarioPacket).state).state) :=
  ⟨by decide, by decide,
    (cancel_idempotent acceptingCollaborators
      (handleDataPacket acceptingCollaborators scenarioListener scenarioPacket).state _
      (cancelChecked_of_defined _ _ (by decide))).1⟩

/-! ## The lifecycle flags -/

theorem subscribe_frame (s : SCTPTransportListener) (d : Option Nat) (caps : Capabilities) :
    ∃ S, (subscribe s d caps).state =
      { s with
        mSubscriptions := S, mRemoteCapabilities := some caps, mPendingTransports := [] } := by
  unfold subscribe
  simp only
  split
  · exact ⟨_, rfl⟩
  · exact ⟨_, rfl⟩

/-- The operations other than `cancel` and the wake pass leave both lifecycle flags
alone. -/
theorem apply_flags (s : SCTPTransportListener) (op : Op)
    (hop : ∀ w, op ≠ Op.cancel w ∧ op ≠ Op.onWake w) :
    (op.apply s).mGracefulShutdownReference = s.mGracefulShutdownReference ∧
      (op.apply s).mShutdown = s.mShutdown := by
  cases op with
  | handleDataPacket w buffer =>
    obtain ⟨P, L, R, T, h⟩ := handleDataPacket_frame w s buffer
    show (handleDataPacket w s buffer).state.mGracefulShutdownReference = _ ∧
      (handleDataPacket w s buffer).state.mShutdown = _
    rw [h]
    exact ⟨rfl, rfl⟩
  | registerNewTransport w dtls io l r =>
    obtain ⟨c, L, R, T, h⟩ := registerNewTransport_frame w s dtls io l r
    show (registerNewTransport w s dtls io l r).state.mGracefulShutdownReference = _ ∧
      (registerNewTransport w s dtls io l r).state.mShutdown = _
    rw [h]
    exact ⟨rfl, rfl⟩
  | announceTransport t l r =>
    obtain ⟨A, h⟩ := announceTransport_frame s t l r
    show (announceTransport s t l r).state.mGracefulShutdownReference = _ ∧
      (announceTransport s t l r).state.mShutdown = _
    rw [h]
    exact ⟨rfl, rfl⟩
  | notifyShutdown t l r =>
    obtain ⟨P, A, L, R, T, h⟩ := notifyShutdown_frame s t l r
    show (notifyShutdown s t l r).state.mGracefulShutdownReference = _ ∧
      (notifyShutdown s t l r).state.mShutdown = _
    rw [h]
    exact ⟨rfl, rfl⟩
  | subscribe d caps =>
    obtain ⟨S, h⟩ := subscribe_frame s d caps
    show (subscribe s d caps).state.mGracefulShutdownReference = _ ∧
      (subscribe s d caps).state.mShutdown = _
    rw [h]
    exact ⟨rfl, rfl⟩
  | cancel w => exact absurd rfl (hop w).1
  | onWake w => exact absurd rfl (hop w).2

/-- What `cancel` does to the lifecycle flags: nothing on a listener that is shut down;
otherwise it ends shut down, or holding the graceful self-reference with `mShutdown` as
before. -/
theorem cancel_flags (w : Collaborators) (s : SCTPTransportListener) :
    (isShutdown s = true ∧ (cancel w s).state = s) ∨
    (isShutdown s = false ∧ (cancel w s).state.mShutdown = true ∧
      (cancel w s).state.mGracefulShutdownReference = false) ∨
    (isShutdown s = false ∧ (cancel w s).state.mShutdown = s.mShutdown ∧
      (cancel w s).state.mGracefulShutdownReference = true) := by
  cases hs : isShutdown s with
  | true =>
    left
    rw [cancel_shutdown w s hs]
    exact ⟨rfl, rfl⟩
  | false =>
    right
    by_cases hg : s.mGracefulShutdownReference = true ∨ s.mThisWeak = true
    · rw [cancel_graceful w s hs hg]
      split
      · right
        obtain ⟨P, L, R, T, hfr⟩ := cancelLoop_frame w s.mTransports
          ({ s with mGracefulShutdownReference := true }, [])
        rw [hfr]
        exact ⟨rfl, rfl, rfl⟩
      · left
        exact ⟨rfl, rfl, rfl⟩
    · have hg1 : s.mGracefulShutdownReference = false := by
        cases h : s.mGracefulShutdownReference with
        | true => exact absurd (Or.inl h) hg
        | false => rfl
      have hw1 : s.mThisWeak = false := by
        cases h : s.mThisWeak with
        | true => exact absurd (Or.inr h) hg
        | false => rfl
      left
      rw [cancel_unreferenced w s hs hg1 hw1]
      exact ⟨rfl, rfl, rfl⟩

theorem onWake_eq (w : Collaborators) (s : SCTPTransportListener) :
    (isRunning s = true ∧ onWake w s = ⟨(), s, []⟩) ∨
      (isRunning s = false ∧ onWake w s = cancel w s) := by
  unfold onWake step isRunning
  cases h : (isShuttingDown s || isShutdown s) with
  | true => exact Or.inr ⟨rfl, by simp⟩
  | false => exact Or.inl ⟨rfl, by simp⟩

/-- The graceful self-reference is never held while `mShutdown` is set. -/
theorem apply_flagsExclusive (s : SCTPTransportListener) (op : Op)
    (h : ¬ (s.mGracefulShutdownReference = true ∧ s.mShutdown = true)) :
    ¬ ((op.apply s).mGracefulShutdownReference = true ∧ (op.apply s).mShutdown = true) := by
  have hcancel : ∀ w, ¬ ((cancel w s).state.mGracefulShutdownReference = true ∧
      (cancel w s).state.mShutdown = true) := by
    intro w
    rcases cancel_flags w s with ⟨_, h1⟩ | ⟨_, h1, h2⟩ | ⟨hs, h1, h2⟩
    · rw [h1]
      exact h
    · rw [h1, h2]
      simp
    · rw [h1, h2]
      intro hc
      unfold isShutdown at hs
      cases hg : s.mGracefulShutdownReference with
      | true => exact h ⟨hg, hc.2⟩
      | false =>
        rw [hg] at hs
        simp only [Bool.false_eq_true, if_false] at hs
        rw [hs] at hc
        exact absurd hc.2 (by decide)
  by_cases hop : ∀ w, op ≠ Op.cancel w ∧ op ≠ Op.onWake w
  · have hf := apply_flags s op hop
    rw [hf.1, hf.2]
    exact h
  · cases op with
    | cancel w => exact hcancel w
    | onWake w =>
      show ¬ ((onWake w s).state.mGracefulShutdownReference = true ∧
        (onWake w s).state.mShutdown = true)
      rcases onWake_eq w s with ⟨_, h1⟩ | ⟨_, h1⟩
      · rw [h1]
        exact h
      · rw [h1]
        exact hcancel w
    | handleDataPacket w buffer => exact absurd (fun w1 => ⟨by simp, by simp⟩) hop
    | registerNewTransport w dtls io l r => exact absurd (fun w1 => ⟨by simp, by simp⟩) hop
    | announceTransport t l r => exact absurd (fun w1 => ⟨by simp, by simp⟩) hop
    | notifyShutdown t l r => exact absurd (fun w1 => ⟨by simp, by simp⟩) hop
    | subscribe d caps => exact absurd (fun w1 => ⟨by simp, by simp⟩) hop

theorem reachableBy_flagsExclusive (allowed : SCTPTransportListener → Op → Prop)
    (s : SCTPTransportListener) (h : ReachableBy allowed s) :
    ¬ (s.mGracefulShutdownReference = true ∧ s.mShutdown = true) := by
  induction h with
  | fresh mID secureTransport settings increment s h =>
    unfold construct at h
    split at h
    · cases h
      simp
    · cases h
  | step s op _ _ _ ih => exact apply_flagsExclusive s op ih

/-- C25: in every reachable listener, `isShuttingDown()` holds exactly when the graceful
self-reference is held and `mShutdown` is not set, `isShutdown()` holds exactly when
`mShutdown` is set and the graceful self-reference is not held, and the listener is in
exactly one of the three states running, shutting down, shut down. -/
theorem lifecycle_states (s : SCTPTransportListener) (hreach : Reachable s) :
    (isShuttingDown s = true ↔
      (s.mGracefulShutdownReference = true ∧ s.mShutdown = false)) ∧
    (isShutdown s = true ↔
      (s.mShutdown = true ∧ s.mGracefulShutdownReference = false)) ∧
    ((isRunning s = true ∧ isShuttingDown s = false ∧ isShutdown s = false) ∨
      (isRunning s = false ∧ isShuttingDown s = true ∧ isShutdown s = false) ∨
      (isRunning s = false ∧ isShuttingDown s = false ∧ isShutdown s = true)) := by
  have hex := reachableBy_flagsExclusive _ s hreach
  unfold isRunning isShuttingDown isShutdown
  cases hg : s.mGracefulShutdownReference <;> cases hsd : s.mShutdown <;>
    simp_all

/-- Witness of C25: the fresh listener of scenario S1 is running. -/
theorem lifecycle_states_witness :
    isRunning scenarioListener = true ∧
    (isShuttingDown scenarioListener = true ↔
      (scenarioListener.mGracefulShutdownReference = true ∧
        scenarioListener.mShutdown = false)) :=
  ⟨by decide,
    (lifecycle_states scenarioListener
      (ReachableBy.fresh 1 2 scenarioSettings 1 scenarioListener rfl)).1⟩

/-- C26: no operation moves the lifecycle backwards: a listener that is shut down
before an operation is shut down after it, and a listener that is shutting down before
an operation is shutting down or shut down after it. -/
theorem lifecycle_monotone (s : SCTPTransportListener) (op : Op) :
    (isShutdown s = true → isShutdown (op.apply s) = true) ∧
      (isShuttingDown s = true →
        isShuttingDown (op.apply s) = true ∨ isShutdown (op.apply s) = true) := by
  have hcancel : ∀ w, (isShutdown s = true → isShutdown (cancel w s).state = true) ∧
      (isShuttingDown s = true →
        isShuttingDown (cancel w s).state = true ∨ isShutdown (cancel w s).state = true) := by
    intro w
    rcases cancel_flags w s with ⟨_, h1⟩ | ⟨hs, h1, h2⟩ | ⟨hs, h1, h2⟩
    · rw [h1]
      exact ⟨fun h => h, fun h => Or.inl h⟩
    · constructor
      · intro h
        rw [hs] at h
        cases h
      · intro _
        right
        unfold isShutdown
        rw [h2, h1]
        rfl
    · constructor
      · intro h
        rw [hs] at h
        cases h
      · intro _
        left
        exact h2
  by_cases hop : ∀ w, op ≠ Op.cancel w ∧ op ≠ Op.onWake w
  · have hf := apply_flags s op hop
    unfold isShutdown isShuttingDown
    rw [hf.1, hf.2]
    exact ⟨fun h => h, fun h => Or.inl h⟩
  · cases op with
    | cancel w => exact hcancel w
    | onWake w =>
      show (isShutdown s = true → isShutdown (onWake w s).state = true) ∧
        (isShuttingDown s = true →
          isShuttingDown (onWake w s).state = true ∨ isShutdown (onWake w s).state = true)
      rcases onWake_eq w s with ⟨_, h1⟩ | ⟨_, h1⟩
      · rw [h1]
        exact ⟨fun h => h, fun h => Or.inl h⟩
      · rw [h1]
        exact hcancel w
    | handleDataPacket w buffer => exact absurd (fun w1 => ⟨by simp, by simp⟩) hop
    | registerNewTransport w dtls io l r => exact absurd (fun w1 => ⟨by simp, by simp⟩) hop
    | announceTransport t l r => exact absurd (fun w1 => ⟨by simp, by simp⟩) hop
    | notifyShutdown t l r => exact absurd (fun w1 => ⟨by simp, by simp⟩) hop
    | subscribe d caps => exact absurd (fun w1 => ⟨by simp, by simp⟩) hop

/-- Witness of C26: a packet delivered to the shut-down listener that `cancel()` of the
fresh listener of scenario S1 leaves does not revive it. -/
theorem lifecycle_monotone_witness :
    isShutdown (cancel acceptingCollaborators scenarioListener).state = true ∧
    isShutdown ((Op.handleDataPacket acceptingCollaborators scenarioPacket).apply
      (cancel acceptingCollaborators scenarioListener).state) = true :=
  ⟨by decide,
    (lifecycle_monotone (cancel acceptingCollaborators scenarioListener).state
      (Op.handleDataPacket acceptingCollaborators scenarioPacket)).1 (by decide)⟩

/-! ## An association that refuses to shut down -/

/-- A `cancel` pass over a listener that is not shut down and can hold its graceful
self-reference keeps every association that reports `isShutdown()` false, and returns
holding the self-reference. -/
theorem cancel_refused (w : Collaborators) (s : SCTPTransportListener)
    (hcons : Consistent s) (hs : isShutdown s = false)
    (hg : s.mGracefulShutdownReference = true ∨ s.mThisWeak = true)
    (e : Nat × UseSCTPTransport) (he : e ∈ s.mTransports)
    (hw : w.isShutdown e.2.id = false) :
    (cancel w s).state.mGracefulShutdownReference = true ∧
      e ∈ (cancel w s).state.mTransports := by
  have hmem : e ∈ (s.mTransports.foldl (cancelVisit w)
      ({ s with mGracefulShutdownReference := true }, [])).1.mTransports := by
    rw [cancelLoop_transports]
    show e ∈ List.filter _ s.mTransports
    rw [List.mem_filter]
    refine ⟨he, ?_⟩
    simp only [Bool.not_eq_true', List.any_eq_false]
    intro v hv hc
    rw [Bool.and_eq_true, decide_eq_true_eq] at hc
    have h1 := mapFind_of_mem_sorted _ hcons.sorted v hv
    have h2 := mapFind_of_mem_sorted _ hcons.sorted e he
    rw [hc.2, h2] at h1
    injection h1 with h1
    rw [← h1, hw] at hc
    exact absurd hc.1 (by decide)
  rw [cancel_graceful w s hs hg, if_pos (List.length_pos_of_mem hmem)]
  refine ⟨?_, hmem⟩
  obtain ⟨P, L, R, T, hfr⟩ := cancelLoop_frame w s.mTransports
    ({ s with mGracefulShutdownReference := true }, [])
  show (s.mTransports.foldl (cancelVisit w)
      ({ s with mGracefulShutdownReference := true }, [])).1.mGracefulShutdownReference = true
  rw [hfr]

theorem isShutdown_of_graceful (s : SCTPTransportListener)
    (hg : s.mGracefulShutdownReference = true) :
    isShuttingDown s = true ∧ isShutdown s = false := by
  unfold isShuttingDown isShutdown
  rw [hg]
  exact ⟨rfl, rfl⟩

/-- Further `cancel` and wake passes during which the association keeps refusing leave
a listener that holds its graceful self-reference as it is in these respects. -/
theorem runOps_refused (e : Nat × UseSCTPTransport) (ops : List Op)
    (hops : ∀ op ∈ ops, refusingPass e.2.id op) :
    ∀ s : SCTPTransportListener, Consistent s → s.mGracefulShutdownReference = true →
      e ∈ s.mTransports →
      Consistent (runOps s ops) ∧ (runOps s ops).mGracefulShutdownReference = true ∧
        e ∈ (runOps s ops).mTransports := by
  induction ops with
  | nil =>
    intro s hc hg he
    exact ⟨hc, hg, he⟩
  | cons op ops ih =>
    intro s hc hg he
    have hop := hops op (List.mem_cons_self _ _)
    have hrest : ∀ op1 ∈ ops, refusingPass e.2.id op1 :=
      fun op1 h1 => hops op1 (List.mem_cons_of_mem _ h1)
    have hcancel : ∀ w : Collaborators, w.isShutdown e.2.id = false →
        Consistent (cancel w s).state ∧ (cancel w s).state.mGracefulShutdownReference = true ∧
          e ∈ (cancel w s).state.mTransports := by
      intro w hw
      have h := cancel_refused w s hc (isShutdown_of_graceful s hg).2 (Or.inl hg) e he hw
      exact ⟨cancel_consistent w s hc, h.1, h.2⟩
    have hcons : runOps s (op :: ops) = runOps (op.apply s) ops := rfl
    rw [hcons]
    cases op with
    | cancel w =>
      obtain ⟨h1, h2, h3⟩ := hcancel w hop
      exact ih hrest _ h1 h2 h3
    | onWake w =>
      have hw : onWake w s = cancel w s := by
        rcases onWake_eq w s with ⟨h1, _⟩ | ⟨_, h1⟩
        · unfold isRunning at h1
          rw [(isShutdown_of_graceful s hg).1] at h1
          simp at h1
        · exact h1
      obtain ⟨h1, h2, h3⟩ := hcancel w hop
      have happ : (Op.onWake w).apply s = (cancel w s).state := by
        show (onWake w s).state = _
        rw [hw]
      rw [happ]
      exact ih hrest _ h1 h2 h3
    | handleDataPacket w buffer => exact False.elim hop
    | registerNewTransport w dtls io l r => exact False.elim hop
    | announceTransport t l r => exact False.elim hop
    | notifyShutdown t l r => exact False.elim hop
    | subscribe d caps => exact False.elim hop

/-- C23, the failing run: on the listener of scenario S1 the associations `7` (ports
`(7000, 8000)`) and `8` (ports `(7001, 8001)`) are registered and `7` is announced. The
listener object is still referenced and the listener is not shut down. During `cancel()`
the association `8` reports `isShutdown()` false, but `7` reports true: its round
executes `mPendingTransports.erase(found)` with the iterator of `mAnnouncedTransports`,
so the call has undefined behaviour and does not return with the listener shutting
down. -/
theorem cancel_undefined_beside_refusing :
    Reachable announcedPairListener ∧
    announcedPairListener.mThisWeak = true ∧
    isShutdown announcedPairListener = false ∧
    ((createTuple 7001 8001, (⟨8⟩ : UseSCTPTransport)) ∈ announcedPairListener.mTransports) ∧
    partialCollaborators.isShutdown 8 = false ∧
    ((createTuple 7000 8000, (⟨7⟩ : UseSCTPTransport)) ∈ announcedPairListener.mTransports) ∧
    cancelVisitUndefined partialCollaborators
      { announcedPairListener with mGracefulShutdownReference := true }
      (createTuple 7000 8000, ⟨7⟩) = true ∧
    cancelUndefined partialCollaborators announcedPairListener = true ∧
    cancelChecked partialCollaborators announcedPairListener = none ∧
    runChecked announcedPairListener [Op.cancel partialCollaborators] = none := by
  refine ⟨?_, by decide, by decide, by decide, by decide, by decide, by decide, by decide,
    ?_, by decide⟩
  · exact ReachableBy.step _ (Op.announceTransport ⟨7⟩ 7000 8000)
      (ReachableBy.step _
        (Op.registerNewTransport acceptingCollaborators (some scenarioDTLS) (some ⟨8⟩)
          7001 8001)
        (ReachableBy.step _
          (Op.registerNewTransport acceptingCollaborators (some scenarioDTLS) (some ⟨7⟩)
            7000 8000)
          (ReachableBy.fresh 1 2 scenarioSettings 1 scenarioListener rfl)
          ⟨by decide, by decide⟩ trivial)
        ⟨by decide, by decide⟩ trivial)
      ⟨by decide, by decide⟩ trivial
  · unfold cancelChecked
    rw [if_pos (by decide)]

/-- What holds of C23: while the listener object is still referenced, if an association
in `mTransports` reports `isShutdown()` false during a `cancel()` that runs its
notification pass (the listener is not yet shut down), and that call and any number of
further `cancel()` and wake passes, during which the association keeps reporting
`isShutdown()` false, all have defined behaviour, then the listener is shutting down
and not shut down after them, with that association still in `mTransports` and both of
its ports still counted. -/
theorem cancel_waits_for_refusing (s : SCTPTransportListener) (hreach : Reachable s)
    (hweak : s.mThisWeak = true) (hnot : isShutdown s = false)
    (e : Nat × UseSCTPTransport) (he : e ∈ s.mTransports)
    (w : Collaborators) (hw : w.isShutdown e.2.id = false)
    (ops : List Op) (hops : ∀ op ∈ ops, refusingPass e.2.id op)
    (s1 : SCTPTransportListener) (hdef : runChecked s (Op.cancel w :: ops) = some s1) :
    isShuttingDown s1 = true ∧
    isShutdown s1 = false ∧
    e ∈ s1.mTransports ∧
    1 ≤ portCount s1.mAllocatedLocalPorts (splitTuple e.1).1 ∧
    1 ≤ portCount s1.mAllocatedRemotePorts (splitTuple e.1).2 := by
  have hs1 : s1 = runOps (cancel w s).state ops := runChecked_some _ s s1 hdef
  rw [hs1]
  have hcons := reachableBy_consistent _ s hreach
  have h0 := cancel_refused w s hcons hnot (Or.inr hweak) e he hw
  obtain ⟨hc, hg, hm⟩ := runOps_refused e ops hops (cancel w s).state
    (cancel_consistent w s hcons) h0.1 h0.2
  refine ⟨(isShutdown_of_graceful _ hg).1, (isShutdown_of_graceful _ hg).2, hm, ?_, ?_⟩
  · refine le_trans ?_ (hc.localCounted _)
    unfold tuplesWithLocalPort
    exact List.countP_pos_iff.mpr ⟨e, hm, by simp⟩
  · refine le_trans ?_ (hc.remoteCounted _)
    unfold tuplesWithRemotePort
    exact List.countP_pos_iff.mpr ⟨e, hm, by simp⟩

/-- An instance of `cancel_waits_for_refusing`: the listener of scenario S1 holding the
association created by the packet of scenario S1, which refuses to shut down through
`cancel()`, a wake pass and another `cancel()`. -/
theorem cancel_waits_for_refusing_witness :
    runChecked (handleDataPacket acceptingCollaborators scenarioListener scenarioPacket).state
      [Op.cancel acceptingCollaborators, Op.onWake acceptingCollaborators,
        Op.cancel acceptingCollaborators] =
      some (runOps (handleDataPacket acceptingCollaborators scenarioListener scenarioPacket).state
        [Op.cancel acceptingCollaborators, Op.onWake acceptingCollaborators,
          Op.cancel acceptingCollaborators]) ∧
    isShuttingDown (runOps (handleDataPacket acceptingCollaborators scenarioListener scenarioPacket).state
      [Op.cancel acceptingCollaborators, Op.onWake acceptingCollaborators,
        Op.cancel acceptingCollaborators]) = true ∧
    isShutdown (runOps (handleDataPacket acceptingCollaborators scenarioListener scenarioPacket).state
      [Op.cancel acceptingCollaborators, Op.onWake acceptingCollaborators,
        Op.cancel acceptingCollaborators]) = false ∧
    ((createTuple 5001 5000, (⟨1⟩ : UseSCTPTransport)) ∈
      (runOps (handleDataPacket acceptingCollaborators scenarioListener scenarioPacket).state
        [Op.cancel acceptingCollaborators, Op.onWake acceptingCollaborators,
          Op.cancel acceptingCollaborators]).mTransports) := by
  have hrun : runChecked (handleDataPacket acceptingCollaborators scenarioListener scenarioPacket).state
      [Op.cancel acceptingCollaborators, Op.onWake acceptingCollaborators,
        Op.cancel acceptingCollaborators] =
      some (runOps (handleDataPacket acceptingCollaborators scenarioListener scenarioPacket).state
        [Op.cancel acceptingCollaborators, Op.onWake acceptingCollaborators,
          Op.cancel acceptingCollaborators]) := by decide
  have h := cancel_waits_for_refusing
    (handleDataPacket acceptingCollaborators scenarioListener scenarioPacket).state
    (ReachableBy.step _ (Op.handleDataPacket acceptingCollaborators scenarioPacket)
      (ReachableBy.fresh 1 2 scenarioSettings 1 scenarioListener rfl) trivial trivial)
    (by decide) (by decide) (createTuple 5001 5000, ⟨1⟩) (by decide)
    acceptingCollaborators rfl
    [Op.onWake acceptingCollaborators, Op.cancel acceptingCollaborators]
    (by
      intro op hop
      simp only [List.mem_cons, List.mem_singleton, List.not_mem_nil, or_false] at hop
      rcases hop with h | h
      · rw [h]
        show acceptingCollaborators.isShutdown 1 = false
        rfl
      · rw [h]
        show acceptingCollaborators.isShutdown 1 = false
        rfl)
    _ hrun
  exact ⟨hrun, h.1, h.2.1, h.2.2.1⟩

/-! ## The listener after shutdown -/

/-- The three ways `cancel` can end. -/
theorem cancel_cases (w : Collaborators) (s : SCTPTransportListener) :
    (isShutdown s = true ∧ (cancel w s).state = s) ∨
    (isShutdown s = false ∧ ∃ s1 calls, cancel w s = cancelFinal s1 calls) ∨
    (isShutdown s = false ∧ (cancel w s).state.mShutdown = s.mShutdown ∧
      (cancel w s).state.mGracefulShutdownReference = true) := by
  cases hs : isShutdown s with
  | true =>
    left
    rw [cancel_shutdown w s hs]
    exact ⟨rfl, rfl⟩
  | false =>
    right
    by_cases hg : s.mGracefulShutdownReference = true ∨ s.mThisWeak = true
    · rw [cancel_graceful w s hs hg]
      split
      · right
        obtain ⟨P, L, R, T, hfr⟩ := cancelLoop_frame w s.mTransports
          ({ s with mGracefulShutdownReference := true }, [])
        rw [hfr]
        exact ⟨rfl, rfl, rfl⟩
      · left
        exact ⟨rfl, _, _, rfl⟩
    · have hg1 : s.mGracefulShutdownReference = false := by
        cases h : s.mGracefulShutdownReference with
        | true => exact absurd (Or.inl h) hg
        | false => rfl
      have hw1 : s.mThisWeak = false := by
        cases h : s.mThisWeak with
        | true => exact absurd (Or.inr h) hg
        | false => rfl
      left
      rw [cancel_unreferenced w s hs hg1 hw1]
      exact ⟨rfl, _, _, rfl⟩

theorem isShutdown_of_flags (s : SCTPTransportListener)
    (hex : ¬ (s.mGracefulShutdownReference = true ∧ s.mShutdown = true))
    (hsd : s.mShutdown = true) : isShutdown s = true ∧ isRunning s = false := by
  have hg : s.mGracefulShutdownReference = false := by
    cases h : s.mGracefulShutdownReference with
    | true => exact absurd ⟨h, hsd⟩ hex
    | false => rfl
  unfold isRunning isShuttingDown isShutdown
  rw [hg, hsd]
  exact ⟨rfl, rfl⟩

theorem cancel_drained (w : Collaborators) (s : SCTPTransportListener)
    (hex : ¬ (s.mGracefulShutdownReference = true ∧ s.mShutdown = true))
    (hd : Drained s) : Drained (cancel w s).state := by
  rcases cancel_cases w s with ⟨_, h1⟩ | ⟨_, s1, calls, h1⟩ | ⟨hs, h1, h2⟩
  · rw [h1]
    exact hd
  · rw [h1]
    intro _
    exact ⟨rfl, rfl, rfl, rfl, rfl, rfl⟩
  · intro hsd
    rw [h1] at hsd
    have := (isShutdown_of_flags s hex hsd).1
    rw [hs] at this
    cases this

/-- Every operation other than a packet delivered after shutdown keeps a shut-down
listener empty. -/
theorem apply_drained (s : SCTPTransportListener) (op : Op)
    (hex : ¬ (s.mGracefulShutdownReference = true ∧ s.mShutdown = true))
    (hd : Drained s) (hop : packetWhileOpen s op) : Drained (op.apply s) := by
  cases op with
  | handleDataPacket w buffer =>
    intro hsd
    have hf := (apply_flags s (Op.handleDataPacket w buffer) (fun w1 => ⟨by simp, by simp⟩)).2
    rw [hf] at hsd
    have hop1 : s.mShutdown = false := hop
    rw [hop1] at hsd
    cases hsd
  | registerNewTransport w dtls io l r =>
    intro hsd
    have hf := (apply_flags s (Op.registerNewTransport w dtls io l r)
      (fun w1 => ⟨by simp, by simp⟩)).2
    rw [hf] at hsd
    have hst : (registerNewTransport w s dtls io l r).state = s := by
      rcases registerNewTransport_state w s dtls io l r with h | ⟨transport, h⟩
      · exact h
      · rw [h, registerLocked_shutdown w s transport _ _ (isShutdown_of_flags s hex hsd).2]
    have happ : (Op.registerNewTransport w dtls io l r).apply s = s := hst
    rw [happ]
    exact hd hsd
  | announceTransport t l r =>
    intro hsd
    have hf := (apply_flags s (Op.announceTransport t l r) (fun w1 => ⟨by simp, by simp⟩)).2
    rw [hf] at hsd
    have hst : (announceTransport s t l r).state = s := by
      unfold announceTransport
      rw [if_pos (isShutdown_of_flags s hex hsd).1]
    have happ : (Op.announceTransport t l r).apply s = s := hst
    rw [happ]
    exact hd hsd
  | notifyShutdown t l r =>
    intro hsd
    have hf := (apply_flags s (Op.notifyShutdown t l r) (fun w1 => ⟨by simp, by simp⟩)).2
    rw [hf] at hsd
    have hst : (notifyShutdown s t l r).state = s := by
      unfold notifyShutdown
      rw [if_pos (isShutdown_of_flags s hex hsd).1]
    have happ : (Op.notifyShutdown t l r).apply s = s := hst
    rw [happ]
    exact hd hsd
  | subscribe d caps =>
    intro hsd
    have hf := (apply_flags s (Op.subscribe d caps) (fun w1 => ⟨by simp, by simp⟩)).2
    rw [hf] at hsd
    obtain ⟨h1, h2, h3, h4, h5, h6⟩ := hd hsd
    have hg : s.mGracefulShutdownReference = false := by
      cases h : s.mGracefulShutdownReference with
      | true => exact absurd ⟨h, hsd⟩ hex
      | false => rfl
    have hst : (subscribe s d caps).state =
        { s with
          mSubscriptions := [], mRemoteCapabilities := some caps, mPendingTransports := [] } := by
      unfold subscribe isShutdown
      simp only [hg, hsd, Bool.false_eq_true, if_false, if_true]
    have happ : (Op.subscribe d caps).apply s =
        { s with
          mSubscriptions := [], mRemoteCapabilities := some caps, mPendingTransports := [] } :=
      hst
    rw [happ]
    exact ⟨h1, rfl, h3, h4, h5, rfl⟩
  | cancel w => exact cancel_drained w s hex hd
  | onWake w =>
    show Drained (onWake w s).state
    rcases onWake_eq w s with ⟨_, h1⟩ | ⟨_, h1⟩
    · rw [h1]
      exact hd
    · rw [h1]
      exact cancel_drained w s hex hd

theorem reachableBy_drained (s : SCTPTransportListener)
    (h : ReachableBy packetWhileOpen s) : Drained s := by
  induction h with
  | fresh mID secureTransport settings increment s h =>
    unfold construct at h
    split at h
    · cases h
      intro hsd
      cases hsd
    · cases h
  | step s op hs _ hop ih =>
    exact apply_drained s op (reachableBy_flagsExclusive _ s hs) ih hop

/-- C27, the failing run: the listener of scenario S1 is cancelled while empty, which
sets `mShutdown`, and then receives the packet of scenario S1. `handleDataPacket` has no
shutdown test: it creates the association `1`, files it in `mTransports` and
`mPendingTransports` and counts both ports, so `mShutdown` is set while the tables are
not empty. -/
theorem packet_after_shutdown_fills_tables :
    Reachable ((Op.handleDataPacket acceptingCollaborators scenarioPacket).apply
      ((Op.cancel acceptingCollaborators).apply scenarioListener)) ∧
    ((Op.cancel acceptingCollaborators).apply scenarioListener).mShutdown = true ∧
    (handleDataPacket acceptingCollaborators
      ((Op.cancel acceptingCollaborators).apply scenarioListener) scenarioPacket).ret = true ∧
    ((Op.handleDataPacket acceptingCollaborators scenarioPacket).apply
      ((Op.cancel acceptingCollaborators).apply scenarioListener)).mShutdown = true ∧
    isShutdown ((Op.handleDataPacket acceptingCollaborators scenarioPacket).apply
      ((Op.cancel acceptingCollaborators).apply scenarioListener)) = true ∧
    ((Op.handleDataPacket acceptingCollaborators scenarioPacket).apply
      ((Op.cancel acceptingCollaborators).apply scenarioListener)).mTransports =
        [(createTuple 5001 5000, ⟨1⟩)] ∧
    ((Op.handleDataPacket acceptingCollaborators scenarioPacket).apply
      ((Op.cancel acceptingCollaborators).apply scenarioListener)).mPendingTransports =
        [(1, ⟨1⟩)] ∧
    ((Op.handleDataPacket acceptingCollaborators scenarioPacket).apply
      ((Op.cancel acceptingCollaborators).apply scenarioListener)).mAllocatedLocalPorts =
        [(5001, 1)] ∧
    ((Op.handleDataPacket acceptingCollaborators scenarioPacket).apply
      ((Op.cancel acceptingCollaborators).apply scenarioListener)).mAllocatedRemotePorts =
        [(5000, 1)] := by
  refine ⟨?_, by decide, by decide, by decide, by decide, by decide, by decide, by decide,
    by decide⟩
  exact ReachableBy.step _ (Op.handleDataPacket acceptingCollaborators scenarioPacket)
    (ReachableBy.step _ (Op.cancel acceptingCollaborators)
      (ReachableBy.fresh 1 2 scenarioSettings 1 scenarioListener rfl) trivial trivial)
    trivial trivial

/-- What holds of C27: in every listener state reached by operations among which no
packet is delivered to a listener whose `mShutdown` is set, if `mShutdown` is set then
`mTransports`, `mPendingTransports`, `mAnnouncedTransports`, both maps of counts and
the subscriptions are empty. -/
theorem shutdown_tables_empty (s : SCTPTransportListener)
    (hreach : ReachableBy packetWhileOpen s) (hsd : s.mShutdown = true) :
    s.mTransports = [] ∧ s.mPendingTransports = [] ∧ s.mAnnouncedTransports = [] ∧
      s.mAllocatedLocalPorts = [] ∧ s.mAllocatedRemotePorts = [] ∧ s.mSubscriptions = [] :=
  reachableBy_drained s hreach hsd

/-- An instance of `shutdown_tables_empty`: the listener of scenario S1 after the packet
of scenario S1, a subscription and `cancel()` with an association that shuts down at
once. -/
theorem shutdown_tables_empty_witness :
    ((Op.cancel obligingCollaborators).apply
      ((Op.subscribe (some 42) scenarioCapabilities).apply
        ((Op.handleDataPacket acceptingCollaborators scenarioPacket).apply
          scenarioListener))).mShutdown = true ∧
    ((Op.cancel obligingCollaborators).apply
      ((Op.subscribe (some 42) scenarioCapabilities).apply
        ((Op.handleDataPacket acceptingCollaborators scenarioPacket).apply
          scenarioListener))).mTransports = [] :=
  ⟨by decide,
    (shutdown_tables_empty _
      (ReachableBy.step _ (Op.cancel obligingCollaborators)
        (ReachableBy.step _ (Op.subscribe (some 42) scenarioCapabilities)
          (ReachableBy.step _ (Op.handleDataPacket acceptingCollaborators scenarioPacket)
            (ReachableBy.fresh 1 2 scenarioSettings 1 scenarioListener rfl)
            trivial (by show scenarioListener.mShutdown = false; rfl))
          trivial trivial)
        trivial trivial)
      (by decide)).1⟩

/-! ## The replay of announced associations -/

/-- C21, the failing run: on the listener of scenario S1 the association `5` is
registered on ports `(7000, 8000)` and the association `3` on ports `(7001, 8001)`;
`5` is announced first, then `3`. `subscribe` walks `mAnnouncedTransports`, a map keyed
by id, so the new delegate `42` receives the event for `3` before the event for `5`:
the reverse of the order in which the ids were inserted. -/
theorem subscribe_replays_in_id_order :
    Reachable lateAnnouncedListener ∧
    (announceTransport
      (registerNewTransport acceptingCollaborators
        (registerNewTransport acceptingCollaborators scenarioListener (some scenarioDTLS)
          (some ⟨5⟩) 7000 8000).state
        (some scenarioDTLS) (some ⟨3⟩) 7001 8001).state
      ⟨5⟩ 7000 8000).state.mAnnouncedTransports = [(5, ⟨5⟩)] ∧
    lateAnnouncedListener.mAnnouncedTransports = [(3, ⟨3⟩), (5, ⟨5⟩)] ∧
    (subscribe lateAnnouncedListener (some 42) scenarioCapabilities).calls =
      [Call.onSCTPTransport 42 3, Call.onSCTPTransport 42 5] := by
  refine ⟨?_, by decide, by decide, by decide⟩
  exact ReachableBy.step _ (Op.announceTransport ⟨3⟩ 7001 8001)
    (ReachableBy.step _ (Op.announceTransport ⟨5⟩ 7000 8000)
      (ReachableBy.step _
        (Op.registerNewTransport acceptingCollaborators (some scenarioDTLS) (some ⟨3⟩)
          7001 8001)
        (ReachableBy.step _
          (Op.registerNewTransport acceptingCollaborators (some scenarioDTLS) (some ⟨5⟩)
            7000 8000)
          (ReachableBy.fresh 1 2 scenarioSettings 1 scenarioListener rfl)
          ⟨by decide, by decide⟩ trivial)
        ⟨by decide, by decide⟩ trivial)
      ⟨by decide, by decide⟩ trivial)
    ⟨by decide, by decide⟩ trivial

/-- What holds of C21: on a reachable listener, `subscribe` with a delegate makes, after
the `start` calls for the pending associations, one `onSCTPTransport` call to that
delegate for each id in a list of ids that is strictly ascending and holds exactly the
ids filed in `mAnnouncedTransports`. -/
theorem subscribe_replays_ascending (s : SCTPTransportListener) (hreach : Reachable s)
    (delegate : Nat) (caps : Capabilities) :
    ∃ ids : List Nat,
      (subscribe s (some delegate) caps).calls =
        s.mPendingTransports.map (fun entry => Call.start entry.2.id caps) ++
          ids.map (fun id => Call.onSCTPTransport delegate id) ∧
      ids.Pairwise (fun a b => a < b) ∧
      ∀ id, id ∈ ids ↔ (mapFind s.mAnnouncedTransports id).isSome = true := by
  have hk := reachableBy_keyed _ s hreach
  refine ⟨s.mAnnouncedTransports.map Prod.fst, ?_, hk.announcedSorted, ?_⟩
  · have hcalls : (subscribe s (some delegate) caps).calls =
        s.mPendingTransports.map (fun entry => Call.start entry.2.id caps) ++
          s.mAnnouncedTransports.map (fun entry => Call.onSCTPTransport delegate entry.2.id) :=
      rfl
    rw [hcalls, List.map_map]
    congr 1
    apply List.map_congr_left
    intro e he
    show Call.onSCTPTransport delegate e.2.id = Call.onSCTPTransport delegate e.1
    rw [hk.announcedKeys e he]
  · intro id
    constructor
    · intro h
      rcases List.mem_map.1 h with ⟨e, he, hid⟩
      rw [← hid, mapFind_of_mem_sorted _ hk.announcedSorted e he]
      rfl
    · intro h
      cases hf : mapFind s.mAnnouncedTransports id with
      | none =>
        rw [hf] at h
        cases h
      | some v => exact List.mem_map.2 ⟨(id, v), mapFind_mem _ _ _ hf, rfl⟩

/-- An instance of `subscribe_replays_ascending`: the listener on which `5` was
announced before `3`. -/
theorem subscribe_replays_ascending_witness :
    ∃ ids : List Nat,
      (subscribe lateAnnouncedListener (some 42) scenarioCapabilities).calls =
        lateAnnouncedListener.mPendingTransports.map
            (fun entry => Call.start entry.2.id scenarioCapabilities) ++
          ids.map (fun id => Call.onSCTPTransport 42 id) ∧
      ids.Pairwise (fun a b => a < b) ∧
      ∀ id, id ∈ ids ↔ (mapFind lateAnnouncedListener.mAnnouncedTransports id).isSome = true :=
  subscribe_replays_ascending lateAnnouncedListener
    (ReachableBy.step _ (Op.announceTransport ⟨3⟩ 7001 8001)
      (ReachableBy.step _ (Op.announceTransport ⟨5⟩ 7000 8000)
        (ReachableBy.step _
          (Op.registerNewTransport acceptingCollaborators (some scenarioDTLS) (some ⟨3⟩)
            7001 8001)
          (ReachableBy.step _
            (Op.registerNewTransport acceptingCollaborators (some scenarioDTLS) (some ⟨5⟩)
              7000 8000)
            (ReachableBy.fresh 1 2 scenarioSettings 1 scenarioListener rfl)
            ⟨by decide, by decide⟩ trivial)
          ⟨by decide, by decide⟩ trivial)
        ⟨by decide, by decide⟩ trivial)
      ⟨by decide, by decide⟩ trivial)
    42 scenarioCapabilities

/-! ## The advance of the allocation cursor -/

theorem nextPort_iterate_fields (k : Nat) (s : SCTPTransportListener) :
    (nextPort^[k] s).mAllocatedLocalPorts = s.mAllocatedLocalPorts ∧
      (nextPort^[k] s).mAllocatedRemotePorts = s.mAllocatedRemotePorts ∧
      (nextPort^[k] s).mTransports = s.mTransports := by
  induction k generalizing s with
  | zero => exact ⟨rfl, rfl, rfl⟩
  | succ k ih =>
    rw [Function.iterate_succ_apply]
    exact ih (nextPort s)

/-- The loop of `allocateLocalPort` when every candidate it examines is rejected: it
returns `0` after `n + 1` advances of the cursor. -/
theorem allocateLocalPortLoop_exhausted (remotePort : Nat) (n : Nat)
    (s : SCTPTransportListener)
    (h : ∀ k, k ≤ n → portTaken (nextPort^[k] s) remotePort = true) :
    allocateLocalPortLoop remotePort n s = (0, nextPort^[n + 1] s) := by
  induction n generalizing s with
  | zero =>
    have h0 : portTaken s remotePort = true := h 0 (Nat.le_refl 0)
    unfold allocateLocalPortLoop
    rw [if_pos h0]
    rfl
  | succ n ih =>
    have h0 : portTaken s remotePort = true := h 0 (Nat.zero_le _)
    unfold allocateLocalPortLoop
    rw [if_pos h0,
      ih (nextPort s) (fun k hk => by
        have := h (k + 1) (Nat.succ_le_succ hk)
        rw [Function.iterate_succ_apply] at this
        exact this)]
    rw [Function.iterate_succ_apply nextPort (n + 1) s]

/-- Counterexample to C28 as stated: the listener constructed with the one-port range
`5001..5001`, default port `4` and step `1`, on which port `4` was registered
explicitly. The candidate `4` is rejected and `c = 5`, below the range: the one-test
rule gives `5001 + (5 mod 2) = 5002`, outside the range, whereas the code tests the
replaced value against the maximum again and leaves the cursor on `5001`. -/
theorem nextPort_wraps_twice :
    Reachable oddRangeListener ∧
    portTaken oddRangeListener 0 = true ∧
    (oddRangeListener.mCurrentAllocationPort + oddRangeListener.mNextAllocationIncremement)
      % 65536 = 5 ∧
    oddRangeListener.mMinAllocationPort = 5001 ∧
    oddRangeListener.mMaxAllocationPort = 5001 ∧
    wrappedOnce oddRangeListener = 5002 ∧
    (nextPort oddRangeListener).mCurrentAllocationPort = 5001 ∧
    (allocateLocalPort oddRangeListener 0).2.mCurrentAllocationPort = 5001 := by
  refine ⟨?_, by decide, by decide, by decide, by decide, by decide, by decide, by decide⟩
  exact ReachableBy.step _
    (Op.registerNewTransport acceptingCollaborators (some scenarioDTLS) (some ⟨7⟩) 4 8000)
    (ReachableBy.fresh 1 2 oddRangeSettings 1 _ rfl) ⟨by decide, by decide⟩ trivial

/-- C28, amended: in `allocateLocalPort` every rejected candidate advances the cursor
by `nextPort`, which takes `c = mCurrentAllocationPort + mNextAllocationIncremement`
in 16-bit arithmetic, replaces it by `mMinAllocationPort + (c mod 2)` when
`c < mMinAllocationPort`, and then replaces the result `d` by
`mMinAllocationPort + (d mod 2)` when `d > mMaxAllocationPort`; when
`mMinAllocationPort ≤ 65534` and `mMinAllocationPort` is even or below
`mMaxAllocationPort`, that is `c` itself when `c` lies in the range and
`mMinAllocationPort + (c mod 2)` otherwise. When every candidate examined within the
search budget is rejected the call returns `0` and leaves both maps of counts and
`mTransports` as they were. And in scenario S4 (range `5000..5003`, cursor `5002`,
step `2`, nothing allocated) three successive `allocateLocalPort(0)` calls return
`5002`, `5000`, `0`. -/
theorem allocateLocalPort_advances (s : SCTPTransportListener) (remotePort : Nat) :
    (∀ n, portTaken s remotePort = true →
      allocateLocalPortLoop remotePort (n + 1) s =
        allocateLocalPortLoop remotePort n (nextPort s)) ∧
    (portTaken s remotePort = true →
      allocateLocalPortLoop remotePort 0 s = (0, nextPort s)) ∧
    (nextPort s).mCurrentAllocationPort =
      (if (if (s.mCurrentAllocationPort + s.mNextAllocationIncremement) % 65536
              < s.mMinAllocationPort then
            (s.mMinAllocationPort
              + (s.mCurrentAllocationPort + s.mNextAllocationIncremement) % 65536 % 2) % 65536
          else (s.mCurrentAllocationPort + s.mNextAllocationIncremement) % 65536)
            > s.mMaxAllocationPort then
        (s.mMinAllocationPort +
          (if (s.mCurrentAllocationPort + s.mNextAllocationIncremement) % 65536
              < s.mMinAllocationPort then
            (s.mMinAllocationPort
              + (s.mCurrentAllocationPort + s.mNextAllocationIncremement) % 65536 % 2) % 65536
          else (s.mCurrentAllocationPort + s.mNextAllocationIncremement) % 65536) % 2) % 65536
      else
        (if (s.mCurrentAllocationPort + s.mNextAllocationIncremement) % 65536
            < s.mMinAllocationPort then
          (s.mMinAllocationPort
            + (s.mCurrentAllocationPort + s.mNextAllocationIncremement) % 65536 % 2) % 65536
        else (s.mCurrentAllocationPort + s.mNextAllocationIncremement) % 65536)) ∧
    (s.mMinAllocationPort ≤ 65534 →
      (s.mMinAllocationPort % 2 = 0 ∨ s.mMinAllocationPort + 1 ≤ s.mMaxAllocationPort) →
      (nextPort s).mCurrentAllocationPort = wrappedOnce s) ∧
    ((∀ k, k ≤ (s.mMaxAllocationPort + 65536 - s.mMinAllocationPort) % 65536 →
        portTaken (nextPort^[k] s) remotePort = true) →
      (allocateLocalPort s remotePort).1 = 0 ∧
      (allocateLocalPort s remotePort).2.mAllocatedLocalPorts = s.mAllocatedLocalPorts ∧
      (allocateLocalPort s remotePort).2.mAllocatedRemotePorts = s.mAllocatedRemotePorts ∧
      (allocateLocalPort s remotePort).2.mTransports = s.mTransports) ∧
    ((allocateLocalPort wrapListener 0).1 = 5002 ∧
      (allocateLocalPort (allocateLocalPort wrapListener 0).2 0).1 = 5000 ∧
      (allocateLocalPort (allocateLocalPort (allocateLocalPort wrapListener 0).2 0).2 0).1
        = 0) := by
  refine ⟨?_, ?_, rfl, ?_, ?_, by decide, by decide, by decide⟩
  · intro n ht
    rw [allocateLocalPortLoop, if_pos ht]
  · intro ht
    rw [allocateLocalPortLoop, if_pos ht]
  · intro hmin hpar
    unfold nextPort wrappedOnce
    simp only
    split_ifs <;> omega
  · intro h
    have hx := allocateLocalPortLoop_exhausted remotePort _ s h
    have hf := nextPort_iterate_fields
      ((s.mMaxAllocationPort + 65536 - s.mMinAllocationPort) % 65536 + 1) s
    unfold allocateLocalPort
    simp only
    rw [hx]
    exact ⟨rfl, hf.1, hf.2.1, hf.2.2⟩

/-- Witness of C28: the third call of scenario S4. Every candidate within the budget of
`3` further candidates is taken, the call returns `0` and the counts stay
`5000 ↦ 1, 5002 ↦ 1`. -/
theorem allocateLocalPort_advances_witness :
    portTaken (allocateLocalPort (allocateLocalPort wrapListener 0).2 0).2 0 = true ∧
    (nextPort (allocateLocalPort (allocateLocalPort wrapListener 0).2 0).2).mCurrentAllocationPort
      = wrappedOnce (allocateLocalPort (allocateLocalPort wrapListener 0).2 0).2 ∧
    (allocateLocalPort (allocateLocalPort (allocateLocalPort wrapListener 0).2 0).2 0).1 = 0 ∧
    (allocateLocalPort (allocateLocalPort (allocateLocalPort wrapListener 0).2 0).2
      0).2.mAllocatedLocalPorts = [(5000, 1), (5002, 1)] := by
  have h := allocateLocalPort_advances
    (allocateLocalPort (allocateLocalPort wrapListener 0).2 0).2 0
  have hx := h.2.2.2.2.1 (by
    intro k hk
    have hk3 : k ≤ 3 := hk
    interval_cases k <;> decide)
  exact ⟨by decide, h.2.2.2.1 (by decide) (Or.inl (by decide)), hx.1,
    hx.2.1.trans (by decide)⟩

/-! ## The port allocator -/

theorem mapErase_mapAssign_absent {β : Type} (m : List (Nat × β)) (k : Nat) (v : β)
    (h : mapFind m k = none) : mapErase (mapAssign m k v) k = m := by
  induction m with
  | nil => simp [mapAssign, mapErase]
  | cons e m ih =>
    obtain ⟨k1, v1⟩ := e
    rw [mapFind_cons] at h
    have hk : ¬ k1 = k := by
      intro hk
      rw [if_pos hk] at h
      cases h
    rw [if_neg hk] at h
    have hk2 : ¬ k = k1 := fun h2 => hk h2.symm
    have habs : ∀ e ∈ m, e.1 ≠ k := (mapFind_none_iff m k).1 h
    unfold mapAssign
    by_cases hlt : k < k1
    · rw [if_pos hlt, mapErase_cons_eq]
      rw [mapErase_cons_ne _ _ _ _ hk, mapErase_of_absent m k habs]
    · rw [if_neg hlt, if_neg hk2, mapErase_cons_ne _ _ _ _ hk, ih h]

theorem mapFind_none_of_lt {β : Type} (m : List (Nat × β)) (k1 : Nat) (v1 : β) (k : Nat)
    (hs : mapSorted ((k1, v1) :: m)) (hlt : k ≤ k1) : mapFind m k = none := by
  rw [mapFind_none_iff]
  intro e he heq
  unfold mapSorted at hs
  rw [List.map_cons, List.pairwise_cons] at hs
  have := hs.1 e.1 (List.mem_map_of_mem _ he)
  simp only at this
  omega

theorem mapAssign_stored {β : Type} (m : List (Nat × β)) (k : Nat) (v t : β)
    (hs : mapSorted m) (h : mapFind m k = some t) :
    mapAssign (mapAssign m k v) k t = m := by
  induction m with
  | nil => simp [mapFind] at h
  | cons e m ih =>
    obtain ⟨k1, v1⟩ := e
    rw [mapFind_cons] at h
    have hs1 : mapSorted m := by
      unfold mapSorted at hs ⊢
      rw [List.map_cons, List.pairwise_cons] at hs
      exact hs.2
    by_cases hk : k1 = k
    · rw [if_pos hk] at h
      injection h with h
      subst hk
      subst h
      simp [mapAssign]
    · rw [if_neg hk] at h
      have hk2 : ¬ k = k1 := fun h2 => hk h2.symm
      have hlt : ¬ k < k1 := by
        intro hlt
        have := mapFind_none_of_lt m k1 v1 k hs (Nat.le_of_lt hlt)
        rw [this] at h
        cases h
      have h1 : mapAssign ((k1, v1) :: m) k v = (k1, v1) :: mapAssign m k v := by
        simp [mapAssign, hlt, hk2]
      have h2 : mapAssign ((k1, v1) :: mapAssign m k v) k t =
          (k1, v1) :: mapAssign (mapAssign m k v) k t := by
        simp [mapAssign, hlt, hk2]
      rw [h1, h2, ih hs1 h]

/-- C31: for every map of port counts (keys ascending, every stored count at least 1)
and every port, `deallocatePort` after `allocatePort` of the same port gives the map
back, both when the port had an entry and when it had none. -/
theorem deallocatePort_allocatePort (m : List (Nat × Nat)) (p : Nat)
    (hs : mapSorted m) (hpos : countsPositive m) :
    deallocatePort (allocatePort m p) p = m ∧
      (mapFind m p = none → mapFind (allocatePort m p) p = some 1) ∧
      (∀ total, mapFind m p = some total →
        mapFind (allocatePort m p) p = some (total + 1)) := by
  cases h : mapFind m p with
  | none =>
    have ha : allocatePort m p = mapAssign m p 1 := by
      unfold allocatePort
      rw [h]
    refine ⟨?_, ?_, ?_⟩
    · rw [ha]
      unfold deallocatePort
      rw [mapFind_mapAssign, if_pos rfl]
      simp only [Nat.sub_self, ne_eq, not_true_eq_false, if_false]
      exact mapErase_mapAssign_absent m p 1 h
    · intro _
      rw [ha, mapFind_mapAssign, if_pos rfl]
    · intro total ht
      cases ht
  | some total =>
    have ha : allocatePort m p = mapAssign m p (total + 1) := by
      unfold allocatePort
      rw [h]
    have ht : 1 ≤ total := hpos (p, total) (mapFind_mem m p total h)
    refine ⟨?_, ?_, ?_⟩
    · rw [ha]
      unfold deallocatePort
      rw [mapFind_mapAssign, if_pos rfl]
      simp only [Nat.add_sub_cancel]
      rw [if_pos (by omega)]
      exact mapAssign_stored m p (total + 1) total hs h
    · intro hn
      cases hn
    · intro t1 ht1
      injection ht1 with ht1
      rw [ha, mapFind_mapAssign, if_pos rfl, ht1]

/-- Witness of C31: port `5000` allocated on and released from the map
`5000 ↦ 2, 5002 ↦ 1`, and port `5001`, which has no entry. -/
theorem deallocatePort_allocatePort_witness :
    deallocatePort (allocatePort [(5000, 2), (5002, 1)] 5000) 5000 = [(5000, 2), (5002, 1)] ∧
    deallocatePort (allocatePort [(5000, 2), (5002, 1)] 5001) 5001 = [(5000, 2), (5002, 1)] :=
  ⟨(deallocatePort_allocatePort [(5000, 2), (5002, 1)] 5000
      (by unfold mapSorted; decide) (by unfold countsPositive; decide)).1,
    (deallocatePort_allocatePort [(5000, 2), (5002, 1)] 5001
      (by unfold mapSorted; decide) (by unfold countsPositive; decide)).1⟩

/-! ## Properties of the maps of counts kept by every operation -/

theorem allocateLocalPortLoop_ports (P : List (Nat × Nat) → Prop)
    (ha : ∀ m p, P m → P (allocatePort m p)) (r n : Nat) (s : SCTPTransportListener)
    (hl : P s.mAllocatedLocalPorts) (hr : P s.mAllocatedRemotePorts) :
    P (allocateLocalPortLoop r n s).2.mAllocatedLocalPorts ∧
      P (allocateLocalPortLoop r n s).2.mAllocatedRemotePorts := by
  induction n generalizing s with
  | zero =>
    unfold allocateLocalPortLoop
    split
    · exact ⟨hl, hr⟩
    · exact ⟨ha _ _ hl, ha _ _ hr⟩
  | succ n ih =>
    unfold allocateLocalPortLoop
    split
    · exact ih (nextPort s) hl hr
    · exact ⟨ha _ _ hl, ha _ _ hr⟩

theorem handleDataPacket_ports (P : List (Nat × Nat) → Prop)
    (ha : ∀ m p, P m → P (allocatePort m p)) (w : Collaborators)
    (s : SCTPTransportListener) (buffer : List BYTE)
    (hl : P s.mAllocatedLocalPorts) (hr : P s.mAllocatedRemotePorts) :
    P (handleDataPacket w s buffer).state.mAllocatedLocalPorts ∧
      P (handleDataPacket w s buffer).state.mAllocatedRemotePorts := by
  by_cases h4 : buffer.length < 4
  · rw [handleDataPacket_short w s buffer h4]
    exact ⟨hl, hr⟩
  · by_cases h0 : (getLocalRemoteTuple buffer Directions.Direction_Incoming).1 = 0
    · rw [handleDataPacket_zero w s buffer h0]
      exact ⟨hl, hr⟩
    · cases hf : mapFind s.mTransports
          (getLocalRemoteTuple buffer Directions.Direction_Incoming).1 with
      | some transport =>
        rw [handleDataPacket_known w s buffer transport (by omega) h0 hf]
        exact ⟨hl, hr⟩
      | none =>
        cases hc : w.create (getLocalRemoteTuple buffer Directions.Direction_Incoming).2.1
            (getLocalRemoteTuple buffer Directions.Direction_Incoming).2.2 with
        | none =>
          rw [handleDataPacket_createFails w s buffer (by omega) h0 hf hc]
          exact ⟨hl, hr⟩
        | some transport =>
          rw [handleDataPacket_creates w s buffer transport (by omega) h0 hf hc]
          exact ⟨ha _ _ hl, ha _ _ hr⟩

theorem registerNewTransport_ports (P : List (Nat × Nat) → Prop)
    (ha : ∀ m p, P m → P (allocatePort m p)) (w : Collaborators)
    (s : SCTPTransportListener) (dtls : Option IDTLSTransport)
    (io : Option UseSCTPTransport) (l r : Nat)
    (hl : P s.mAllocatedLocalPorts) (hr : P s.mAllocatedRemotePorts) :
    P (registerNewTransport w s dtls io l r).state.mAllocatedLocalPorts ∧
      P (registerNewTransport w s dtls io l r).state.mAllocatedRemotePorts := by
  rcases registerNewTransport_state w s dtls io l r with h | ⟨transport, h⟩
  · rw [h]
    exact ⟨hl, hr⟩
  · rw [h]
    generalize (if r = 0 then l else r) = r1
    cases hrun : isRunning s with
    | false =>
      rw [registerLocked_shutdown w s transport l r1 hrun]
      exact ⟨hl, hr⟩
    | true =>
      by_cases hl0 : l = 0
      · subst hl0
        by_cases hfull : s.mTransports.length + 1 > s.mMaxPorts
        · rw [registerLocked_full w s transport r1 hrun hfull]
          exact ⟨hl, hr⟩
        · rw [registerLocked_ephemeral w s transport r1 hrun hfull]
          have hp := allocateLocalPortLoop_ports P ha r1
            ((s.mMaxAllocationPort + 65536 - s.mMinAllocationPort) % 65536) s hl hr
          have hdef : allocateLocalPort s r1 = allocateLocalPortLoop r1
            ((s.mMaxAllocationPort + 65536 - s.mMinAllocationPort) % 65536) s := rfl
          rw [← hdef] at hp
          split
          · exact hp
          · exact hp
      · cases hf : mapFind s.mTransports (createTuple l r1) with
        | some found =>
          rw [registerLocked_found w s transport found l r1 hrun hl0 hf]
          split <;> exact ⟨hl, hr⟩
        | none =>
          cases hu : (mapFind s.mAllocatedLocalPorts l).isSome with
          | true =>
            rw [registerLocked_inUse w s transport l r1 hrun hl0 hf hu]
            exact ⟨hl, hr⟩
          | false =>
            rw [registerLocked_explicit w s transport l r1 hrun hl0 hf hu]
            exact ⟨ha _ _ hl, ha _ _ hr⟩

theorem notifyShutdown_ports (P : List (Nat × Nat) → Prop)
    (hd : ∀ m p, P m → P (deallocatePort m p))
    (s : SCTPTransportListener) (a : UseSCTPTransport) (l r : Nat)
    (hl : P s.mAllocatedLocalPorts) (hr : P s.mAllocatedRemotePorts) :
    P (notifyShutdown s a l r).state.mAllocatedLocalPorts ∧
      P (notifyShutdown s a l r).state.mAllocatedRemotePorts := by
  cases hs : isShutdown s with
  | true =>
    unfold notifyShutdown
    rw [if_pos hs]
    exact ⟨hl, hr⟩
  | false =>
    by_cases hm : ∃ registered, mapFind s.mTransports (createTuple l r) = some registered ∧
        registered.id = a.id
    · obtain ⟨registered, hf, hid⟩ := hm
      rw [notifyShutdown_erases s a registered l r hs hf hid]
      exact ⟨hd _ _ hl, hd _ _ hr⟩
    · rw [notifyShutdown_keeps s a l r hs (fun registered hf hid => hm ⟨registered, hf, hid⟩)]
      exact ⟨hl, hr⟩

theorem cancelLoop_ports (P : List (Nat × Nat) → Prop)
    (hd : ∀ m p, P m → P (deallocatePort m p)) (w : Collaborators)
    (rest : List (Nat × UseSCTPTransport)) :
    ∀ acc : SCTPTransportListener × List Call,
      P acc.1.mAllocatedLocalPorts → P acc.1.mAllocatedRemotePorts →
      P (rest.foldl (cancelVisit w) acc).1.mAllocatedLocalPorts ∧
        P (rest.foldl (cancelVisit w) acc).1.mAllocatedRemotePorts := by
  induction rest with
  | nil =>
    intro acc hl hr
    exact ⟨hl, hr⟩
  | cons e rest ih =>
    intro acc hl hr
    rw [List.foldl_cons]
    cases hsd : w.isShutdown e.2.id with
    | false =>
      rw [cancelVisit_alive w acc e hsd]
      exact ih _ hl hr
    | true =>
      rw [cancelVisit_shutdown w acc e hsd]
      exact ih _ (hd _ _ hl) (hd _ _ hr)

theorem cancel_ports (P : List (Nat × Nat) → Prop) (hnil : P [])
    (hd : ∀ m p, P m → P (deallocatePort m p)) (w : Collaborators)
    (s : SCTPTransportListener)
    (hl : P s.mAllocatedLocalPorts) (hr : P s.mAllocatedRemotePorts) :
    P (cancel w s).state.mAllocatedLocalPorts ∧
      P (cancel w s).state.mAllocatedRemotePorts := by
  cases hs : isShutdown s with
  | true =>
    rw [cancel_shutdown w s hs]
    exact ⟨hl, hr⟩
  | false =>
    by_cases hg : s.mGracefulShutdownReference = true ∨ s.mThisWeak = true
    · rw [cancel_graceful w s hs hg]
      split
      · exact cancelLoop_ports P hd w s.mTransports
          ({ s with mGracefulShutdownReference := true }, []) hl hr
      · exact ⟨hnil, hnil⟩
    · have hg1 : s.mGracefulShutdownReference = false := by
        cases h : s.mGracefulShutdownReference with
        | true => exact absurd (Or.inl h) hg
        | false => rfl
      have hw1 : s.mThisWeak = false := by
        cases h : s.mThisWeak with
        | true => exact absurd (Or.inr h) hg
        | false => rfl
      rw [cancel_unreferenced w s hs hg1 hw1]
      exact ⟨hnil, hnil⟩

/-- A property of maps of counts that the empty map has and that `allocatePort` and
`deallocatePort` keep is kept by every operation of the listener, for both maps. -/
theorem apply_ports (P : List (Nat × Nat) → Prop) (hnil : P [])
    (ha : ∀ m p, P m → P (allocatePort m p)) (hd : ∀ m p, P m → P (deallocatePort m p))
    (s : SCTPTransportListener) (op : Op)
    (hl : P s.mAllocatedLocalPorts) (hr : P s.mAllocatedRemotePorts) :
    P (op.apply s).mAllocatedLocalPorts ∧ P (op.apply s).mAllocatedRemotePorts := by
  cases op with
  | handleDataPacket w buffer => exact handleDataPacket_ports P ha w s buffer hl hr
  | registerNewTransport w dtls io l r =>
    exact registerNewTransport_ports P ha w s dtls io l r hl hr
  | announceTransport t l r =>
    obtain ⟨A, h⟩ := announceTransport_frame s t l r
    show P (announceTransport s t l r).state.mAllocatedLocalPorts ∧
      P (announceTransport s t l r).state.mAllocatedRemotePorts
    rw [h]
    exact ⟨hl, hr⟩
  | notifyShutdown t l r => exact notifyShutdown_ports P hd s t l r hl hr
  | subscribe d caps =>
    obtain ⟨S, h⟩ := subscribe_frame s d caps
    show P (subscribe s d caps).state.mAllocatedLocalPorts ∧
      P (subscribe s d caps).state.mAllocatedRemotePorts
    rw [h]
    exact ⟨hl, hr⟩
  | cancel w => exact cancel_ports P hnil hd w s hl hr
  | onWake w =>
    show P (onWake w s).state.mAllocatedLocalPorts ∧
      P (onWake w s).state.mAllocatedRemotePorts
    rcases onWake_eq w s with ⟨_, h1⟩ | ⟨_, h1⟩
    · rw [h1]
      exact ⟨hl, hr⟩
    · rw [h1]
      exact cancel_ports P hnil hd w s hl hr

theorem reachableBy_ports (P : List (Nat × Nat) → Prop) (hnil : P [])
    (ha : ∀ m p, P m → P (allocatePort m p)) (hd : ∀ m p, P m → P (deallocatePort m p))
    (allowed : SCTPTransportListener → Op → Prop) (s : SCTPTransportListener)
    (h : ReachableBy allowed s) :
    P s.mAllocatedLocalPorts ∧ P s.mAllocatedRemotePorts := by
  induction h with
  | fresh mID secureTransport settings increment s h =>
    unfold construct at h
    split at h
    · cases h
      exact ⟨hnil, hnil⟩
    · cases h
  | step s op _ _ _ ih => exact apply_ports P hnil ha hd s op ih.1 ih.2

theorem countsPositive_allocatePort (m : List (Nat × Nat)) (p : Nat)
    (h : countsPositive m) : countsPositive (allocatePort m p) := by
  intro e he
  unfold allocatePort at he
  cases hf : mapFind m p with
  | none =>
    rw [hf] at he
    rcases mem_mapAssign _ _ _ _ he with h1 | h1
    · rw [h1]
    · exact h e h1
  | some total =>
    rw [hf] at he
    rcases mem_mapAssign _ _ _ _ he with h1 | h1
    · rw [h1]
      exact Nat.le_add_left 1 total
    · exact h e h1

theorem countsPositive_deallocatePort (m : List (Nat × Nat)) (p : Nat)
    (h : countsPositive m) : countsPositive (deallocatePort m p) := by
  intro e he
  unfold deallocatePort at he
  cases hf : mapFind m p with
  | none =>
    rw [hf] at he
    exact h e he
  | some total =>
    rw [hf] at he
    simp only at he
    by_cases ht : total - 1 ≠ 0
    · rw [if_pos ht] at he
      rcases mem_mapAssign _ _ _ _ he with h1 | h1
      · rw [h1]
        show 1 ≤ total - 1
        omega
      · exact h e h1
    · rw [if_neg ht] at he
      unfold mapErase at he
      exact h e (List.mem_filter.1 he).1

/-- C37: neither map of port counts ever stores a count of `0`. In every reachable
listener every count stored in `mAllocatedLocalPorts` and in `mAllocatedRemotePorts` is
at least 1; `allocatePort` stores `1` for a port without entry and the count plus one
otherwise; `deallocatePort` leaves the map as it is when the port has no entry, removes
the entry when the count was `1`, and stores the count minus one otherwise. -/
theorem counts_never_zero (s : SCTPTransportListener) (hreach : Reachable s) :
    countsPositive s.mAllocatedLocalPorts ∧ countsPositive s.mAllocatedRemotePorts ∧
    (∀ (m : List (Nat × Nat)) (p : Nat), mapFind m p = none →
      mapFind (allocatePort m p) p = some 1 ∧ deallocatePort m p = m) ∧
    (∀ (m : List (Nat × Nat)) (p total : Nat), mapFind m p = some total →
      mapFind (allocatePort m p) p = some (total + 1) ∧
      (total = 1 → mapFind (deallocatePort m p) p = none) ∧
      (2 ≤ total → mapFind (deallocatePort m p) p = some (total - 1))) := by
  have h := reachableBy_ports countsPositive (fun e he => by cases he)
    countsPositive_allocatePort countsPositive_deallocatePort _ s hreach
  refine ⟨h.1, h.2, ?_, ?_⟩
  · intro m p hf
    unfold allocatePort deallocatePort
    rw [hf]
    exact ⟨by rw [mapFind_mapAssign, if_pos rfl], rfl⟩
  · intro m p total hf
    unfold allocatePort deallocatePort
    rw [hf]
    refine ⟨by rw [mapFind_mapAssign, if_pos rfl], ?_, ?_⟩
    · intro h1
      subst h1
      simp only [Nat.sub_self, ne_eq, not_true_eq_false, if_false]
      rw [mapFind_mapErase, if_pos rfl]
    · intro h2
      simp only
      rw [if_pos (by omega), mapFind_mapAssign, if_pos rfl]

/-- Witness of C37: after the packet of scenario S1 the listener stores the count `1`
for local port `5001` and for remote port `5000`, and nothing else. -/
theorem counts_never_zero_witness :
    (handleDataPacket acceptingCollaborators scenarioListener
      scenarioPacket).state.mAllocatedLocalPorts = [(5001, 1)] ∧
    countsPositive (handleDataPacket acceptingCollaborators scenarioListener
      scenarioPacket).state.mAllocatedLocalPorts ∧
    countsPositive (handleDataPacket acceptingCollaborators scenarioListener
      scenarioPacket).state.mAllocatedRemotePorts :=
  ⟨by decide,
    (counts_never_zero _
      (ReachableBy.step _ (Op.handleDataPacket acceptingCollaborators scenarioPacket)
        (ReachableBy.fresh 1 2 scenarioSettings 1 scenarioListener rfl) trivial trivial)).1,
    (counts_never_zero _
      (ReachableBy.step _ (Op.handleDataPacket acceptingCollaborators scenarioPacket)
        (ReachableBy.fresh 1 2 scenarioSettings 1 scenarioListener rfl) trivial trivial)).2.1⟩

/-! ## Pending associations and the remote capabilities -/

theorem cancel_capabilities (w : Collaborators) (s : SCTPTransportListener) :
    (cancel w s).state.mRemoteCapabilities = s.mRemoteCapabilities := by
  cases hs : isShutdown s with
  | true => rw [cancel_shutdown w s hs]
  | false =>
    by_cases hg : s.mGracefulShutdownReference = true ∨ s.mThisWeak = true
    · rw [cancel_graceful w s hs hg]
      obtain ⟨P, L, R, T, hfr⟩ := cancelLoop_frame w s.mTransports
        ({ s with mGracefulShutdownReference := true }, [])
      split
      · simp only [hfr]
      · unfold cancelFinal
        simp only [hfr]
    · have hg1 : s.mGracefulShutdownReference = false := by
        cases h : s.mGracefulShutdownReference with
        | true => exact absurd (Or.inl h) hg
        | false => rfl
      have hw1 : s.mThisWeak = false := by
        cases h : s.mThisWeak with
        | true => exact absurd (Or.inr h) hg
        | false => rfl
      rw [cancel_unreferenced w s hs hg1 hw1]
      rfl

theorem handleDataPacket_pending (w : Collaborators) (s : SCTPTransportListener)
    (buffer : List BYTE) (caps : Capabilities) (hcaps : s.mRemoteCapabilities = some caps) :
    (handleDataPacket w s buffer).state.mPendingTransports = s.mPendingTransports := by
  by_cases h4 : buffer.length < 4
  · rw [handleDataPacket_short w s buffer h4]
  · by_cases h0 : (getLocalRemoteTuple buffer Directions.Direction_Incoming).1 = 0
    · rw [handleDataPacket_zero w s buffer h0]
    · cases hf : mapFind s.mTransports
          (getLocalRemoteTuple buffer Directions.Direction_Incoming).1 with
      | some transport =>
        rw [handleDataPacket_known w s buffer transport (by omega) h0 hf]
      | none =>
        cases hc : w.create (getLocalRemoteTuple buffer Directions.Direction_Incoming).2.1
            (getLocalRemoteTuple buffer Directions.Direction_Incoming).2.2 with
        | none =>
          rw [handleDataPacket_createFails w s buffer (by omega) h0 hf hc]
        | some transport =>
          rw [handleDataPacket_creates w s buffer transport (by omega) h0 hf hc]
          simp only [hcaps]

/-- Every operation keeps: when the remote capabilities are stored, nothing is
pending. -/
theorem apply_pendingEmpty (s : SCTPTransportListener) (op : Op)
    (h : s.mRemoteCapabilities ≠ none → s.mPendingTransports = []) :
    (op.apply s).mRemoteCapabilities ≠ none → (op.apply s).mPendingTransports = [] := by
  have hsub : ∀ l : List (Nat × UseSCTPTransport), l.Sublist [] → l = [] :=
    fun l hl => List.eq_nil_of_sublist_nil hl
  have hcancel : ∀ w, (cancel w s).state.mRemoteCapabilities ≠ none →
      (cancel w s).state.mPendingTransports = [] := by
    intro w hc
    rw [cancel_capabilities] at hc
    rcases cancel_tables w s with h1 | h1
    · exact h1.2
    · have := h1.2
      rw [h hc] at this
      exact hsub _ this
  cases op with
  | handleDataPacket w buffer =>
    intro hc
    obtain ⟨P, L, R, T, hfr⟩ := handleDataPacket_frame w s buffer
    have hc1 : (handleDataPacket w s buffer).state.mRemoteCapabilities ≠ none := hc
    rw [hfr] at hc1
    have hc2 : s.mRemoteCapabilities ≠ none := hc1
    cases hcaps : s.mRemoteCapabilities with
    | none => exact absurd hcaps hc2
    | some caps =>
      show (handleDataPacket w s buffer).state.mPendingTransports = []
      rw [handleDataPacket_pending w s buffer caps hcaps]
      exact h hc2
  | registerNewTransport w dtls io l r =>
    intro hc
    obtain ⟨c, L, R, T, hfr⟩ := registerNewTransport_frame w s dtls io l r
    have hc1 : (registerNewTransport w s dtls io l r).state.mRemoteCapabilities ≠ none := hc
    show (registerNewTransport w s dtls io l r).state.mPendingTransports = []
    rw [hfr] at hc1 ⊢
    exact h hc1
  | announceTransport t l r =>
    intro hc
    obtain ⟨A, hfr⟩ := announceTransport_frame s t l r
    have hc1 : (announceTransport s t l r).state.mRemoteCapabilities ≠ none := hc
    show (announceTransport s t l r).state.mPendingTransports = []
    rw [hfr] at hc1 ⊢
    exact h hc1
  | notifyShutdown t l r =>
    intro hc
    obtain ⟨P, A, L, R, T, hfr⟩ := notifyShutdown_frame s t l r
    have hc1 : (notifyShutdown s t l r).state.mRemoteCapabilities ≠ none := hc
    rw [hfr] at hc1
    have hc2 : s.mRemoteCapabilities ≠ none := hc1
    have hs := (notifyShutdown_tables s t l r).1
    rw [h hc2] at hs
    exact hsub _ hs
  | subscribe d caps =>
    intro _
    exact (subscribe_tables s d caps).1
  | cancel w => exact hcancel w
  | onWake w =>
    show (onWake w s).state.mRemoteCapabilities ≠ none →
      (onWake w s).state.mPendingTransports = []
    rcases onWake_eq w s with ⟨_, h1⟩ | ⟨_, h1⟩
    · rw [h1]
      exact h
    · rw [h1]
      exact hcancel w

/-- C38: in every reachable listener, when remote capabilities are stored
`mPendingTransports` is empty; equivalently, while an association is pending no remote
capabilities are stored. -/
theorem pending_empty_once_subscribed (s : SCTPTransportListener) (hreach : Reachable s) :
    (∀ caps, s.mRemoteCapabilities = some caps → s.mPendingTransports = []) ∧
      (∀ e, e ∈ s.mPendingTransports → s.mRemoteCapabilities = none) := by
  have hinv : s.mRemoteCapabilities ≠ none → s.mPendingTransports = [] := by
    induction hreach with
    | fresh mID secureTransport settings increment s h =>
      unfold construct at h
      split at h
      · cases h
        intro _
        rfl
      · cases h
    | step s op _ _ _ ih => exact apply_pendingEmpty s op ih
  constructor
  · intro caps hc
    exact hinv (by rw [hc]; exact Option.some_ne_none caps)
  · intro e he
    cases hc : s.mRemoteCapabilities with
    | none => rfl
    | some caps =>
      rw [hinv (by rw [hc]; exact Option.some_ne_none caps)] at he
      cases he

/-- Witness of C38, scenario S2: after the packet of scenario S1 the association `1` is
pending and no capabilities are stored; after the subscription the capabilities are
stored and nothing is pending. -/
theorem pending_empty_once_subscribed_witness :
    (handleDataPacket acceptingCollaborators scenarioListener
      scenarioPacket).state.mPendingTransports = [(1, ⟨1⟩)] ∧
    (handleDataPacket acceptingCollaborators scenarioListener
      scenarioPacket).state.mRemoteCapabilities = none ∧
    (subscribe (handleDataPacket acceptingCollaborators scenarioListener
      scenarioPacket).state (some 42) scenarioCapabilities).state.mRemoteCapabilities =
        some scenarioCapabilities ∧
    (subscribe (handleDataPacket acceptingCollaborators scenarioListener
      scenarioPacket).state (some 42) scenarioCapabilities).state.mPendingTransports = [] :=
  ⟨by decide,
    (pending_empty_once_subscribed _
      (ReachableBy.step _ (Op.handleDataPacket acceptingCollaborators scenarioPacket)
        (ReachableBy.fresh 1 2 scenarioSettings 1 scenarioListener rfl) trivial trivial)).2
      (1, ⟨1⟩) (by decide),
    by decide,
    (pending_empty_once_subscribed _
      (ReachableBy.step _ (Op.subscribe (some 42) scenarioCapabilities)
        (ReachableBy.step _ (Op.handleDataPacket acceptingCollaborators scenarioPacket)
          (ReachableBy.fresh 1 2 scenarioSettings 1 scenarioListener rfl) trivial trivial)
        trivial trivial)).1 scenarioCapabilities (by decide)⟩

/-! ## Tuples sharing a remote port -/

/-- C34: on a running listener with empty tables, for non-zero ports `L1 ≠ L2` and a
non-zero port `R`, `registerNewTransport(L1, R)` followed by
`registerNewTransport(L2, R)` both return their association on the requested ports,
`mTransports` then holds exactly the tuples `(L1, R)` and `(L2, R)`, and the count of
remote port `R` is `2`. -/
theorem registerNewTransport_shared_remote (w : Collaborators) (s : SCTPTransportListener)
    (dtls : IDTLSTransport) (t1 t2 : UseSCTPTransport) (l1 l2 r listener : Nat)
    (hsec : dtls.isSecureTransport = true) (hdata : dtls.dataTransport = some listener)
    (hrun : isRunning s = true) (hT : s.mTransports = [])
    (hL : s.mAllocatedLocalPorts = []) (hR : s.mAllocatedRemotePorts = [])
    (hl1 : l1 ≠ 0) (hl2 : l2 ≠ 0) (hr : r ≠ 0) (hne : l1 ≠ l2) :
    (registerNewTransport w s (some dtls) (some t1) l1 r).thrown = none ∧
    (registerNewTransport w s (some dtls) (some t1) l1 r).ioTransport = some t1 ∧
    (registerNewTransport w s (some dtls) (some t1) l1 r).ioLocalPort = l1 ∧
    (registerNewTransport w s (some dtls) (some t1) l1 r).ioRemotePort = r ∧
    (registerNewTransport w (registerNewTransport w s (some dtls) (some t1) l1 r).state
      (some dtls) (some t2) l2 r).thrown = none ∧
    (registerNewTransport w (registerNewTransport w s (some dtls) (some t1) l1 r).state
      (some dtls) (some t2) l2 r).ioTransport = some t2 ∧
    (registerNewTransport w (registerNewTransport w s (some dtls) (some t1) l1 r).state
      (some dtls) (some t2) l2 r).ioLocalPort = l2 ∧
    (registerNewTransport w (registerNewTransport w s (some dtls) (some t1) l1 r).state
      (some dtls) (some t2) l2 r).ioRemotePort = r ∧
    mapFind (registerNewTransport w (registerNewTransport w s (some dtls) (some t1) l1 r).state
      (some dtls) (some t2) l2 r).state.mTransports (createTuple l1 r) = some t1 ∧
    mapFind (registerNewTransport w (registerNewTransport w s (some dtls) (some t1) l1 r).state
      (some dtls) (some t2) l2 r).state.mTransports (createTuple l2 r) = some t2 ∧
    (registerNewTransport w (registerNewTransport w s (some dtls) (some t1) l1 r).state
      (some dtls) (some t2) l2 r).state.mTransports.length = 2 ∧
    portCount (registerNewTransport w (registerNewTransport w s (some dtls) (some t1) l1 r).state
      (some dtls) (some t2) l2 r).state.mAllocatedRemotePorts r = 2 ∧
    portCount (registerNewTransport w (registerNewTransport w s (some dtls) (some t1) l1 r).state
      (some dtls) (some t2) l2 r).state.mAllocatedLocalPorts l1 = 1 ∧
    portCount (registerNewTransport w (registerNewTransport w s (some dtls) (some t1) l1 r).state
      (some dtls) (some t2) l2 r).state.mAllocatedLocalPorts l2 = 1 := by
  have hr0 : (if r = 0 then l1 else r) = r := if_neg hr
  have hr02 : (if r = 0 then l2 else r) = r := if_neg hr
  have hkey : createTuple l2 r ≠ createTuple l1 r := by
    unfold createTuple
    omega
  have hfirst : registerNewTransport w s (some dtls) (some t1) l1 r =
      ⟨none, some t1, l1, r,
        { s with
          mAllocatedLocalPorts := allocatePort s.mAllocatedLocalPorts l1
          mAllocatedRemotePorts := allocatePort s.mAllocatedRemotePorts r
          mTransports := mapAssign s.mTransports (createTuple l1 r) t1 }⟩ := by
    rw [registerNewTransport_valid w s dtls t1 l1 r listener hsec hdata, hr0]
    exact registerLocked_explicit w s t1 l1 r hrun hl1 (by rw [hT]; rfl) (by rw [hL]; rfl)
  rw [hfirst]
  have hsecond : registerNewTransport w
      { s with
        mAllocatedLocalPorts := allocatePort s.mAllocatedLocalPorts l1
        mAllocatedRemotePorts := allocatePort s.mAllocatedRemotePorts r
        mTransports := mapAssign s.mTransports (createTuple l1 r) t1 }
      (some dtls) (some t2) l2 r =
      ⟨none, some t2, l2, r,
        { s with
          mAllocatedLocalPorts := allocatePort (allocatePort s.mAllocatedLocalPorts l1) l2
          mAllocatedRemotePorts := allocatePort (allocatePort s.mAllocatedRemotePorts r) r
          mTransports :=
            mapAssign (mapAssign s.mTransports (createTuple l1 r) t1) (createTuple l2 r) t2 }⟩ := by
    rw [registerNewTransport_valid w _ dtls t2 l2 r listener hsec hdata, hr02]
    refine registerLocked_explicit w _ t2 l2 r hrun hl2 ?_ ?_
    · show mapFind (mapAssign s.mTransports (createTuple l1 r) t1) (createTuple l2 r) = none
      rw [mapFind_mapAssign, if_neg hkey, hT]
      rfl
    · show (mapFind (allocatePort s.mAllocatedLocalPorts l1) l2).isSome = false
      rw [hL]
      unfold allocatePort
      simp only [mapFind]
      rw [if_neg hne]
      rfl
  simp only [hsecond]
  refine ⟨trivial, trivial, trivial, trivial, trivial, trivial, trivial, trivial, ?_, ?_, ?_,
    ?_, ?_, ?_⟩
  · rw [mapFind_mapAssign, if_neg (fun h => hkey h.symm), mapFind_mapAssign, if_pos rfl]
  · rw [mapFind_mapAssign, if_pos rfl]
  · rw [hT]
    have hkey2 : createTuple l1 r ≠ createTuple l2 r := fun h => hkey h.symm
    simp only [mapAssign]
    by_cases hlt : createTuple l2 r < createTuple l1 r
    · rw [if_pos hlt]
      rfl
    · rw [if_neg hlt, if_neg hkey]
      rfl
  · rw [portCount_allocatePort, portCount_allocatePort, hR]
    simp [portCount, mapFind]
  · rw [portCount_allocatePort, portCount_allocatePort, hL]
    simp [portCount, mapFind, hne]
  · rw [portCount_allocatePort, portCount_allocatePort, hL]
    simp [portCount, mapFind, hne, Ne.symm hne]

/-- Witness of C34, on the listener of scenario S1: ports `7000` and `7001` both bound
to remote port `8000`. -/
theorem registerNewTransport_shared_remote_witness :
    (registerNewTransport acceptingCollaborators
      (registerNewTransport acceptingCollaborators scenarioListener (some scenarioDTLS)
        (some ⟨7⟩) 7000 8000).state
      (some scenarioDTLS) (some ⟨8⟩) 7001 8000).state.mTransports =
        [(createTuple 7000 8000, ⟨7⟩), (createTuple 7001 8000, ⟨8⟩)] ∧
    portCount (registerNewTransport acceptingCollaborators
      (registerNewTransport acceptingCollaborators scenarioListener (some scenarioDTLS)
        (some ⟨7⟩) 7000 8000).state
      (some scenarioDTLS) (some ⟨8⟩) 7001 8000).state.mAllocatedRemotePorts 8000 = 2 :=
  ⟨by decide,
    (registerNewTransport_shared_remote acceptingCollaborators scenarioListener scenarioDTLS
      ⟨7⟩ ⟨8⟩ 7000 7001 8000 1 rfl rfl (by decide) rfl rfl rfl (by decide) (by decide)
      (by decide) (by decide)).2.2.2.2.2.2.2.2.2.2.2.1⟩

/-! ## The allocation cursor -/

theorem nextPort_iterate_settings (k : Nat) (s : SCTPTransportListener) :
    (nextPort^[k] s).mMinAllocationPort = s.mMinAllocationPort ∧
      (nextPort^[k] s).mMaxAllocationPort = s.mMaxAllocationPort ∧
      (nextPort^[k] s).mNextAllocationIncremement = s.mNextAllocationIncremement := by
  induction k generalizing s with
  | zero => exact ⟨rfl, rfl, rfl⟩
  | succ k ih =>
    rw [Function.iterate_succ_apply]
    exact ih (nextPort s)

/-- The cursor `allocateLocalPort` leaves is the cursor after some number of advances,
and the port it returns is `0` or that cursor. -/
theorem allocateLocalPortLoop_cursor (r n : Nat) (s : SCTPTransportListener) :
    ∃ k, k ≤ n + 1 ∧
      (allocateLocalPortLoop r n s).2.mCurrentAllocationPort =
        (nextPort^[k] s).mCurrentAllocationPort ∧
      ((allocateLocalPortLoop r n s).1 = 0 ∨
        (allocateLocalPortLoop r n s).1 = (nextPort^[k] s).mCurrentAllocationPort) := by
  induction n generalizing s with
  | zero =>
    unfold allocateLocalPortLoop
    split
    · exact ⟨1, Nat.le_refl _, rfl, Or.inl rfl⟩
    · exact ⟨0, Nat.zero_le _, rfl, Or.inr rfl⟩
  | succ n ih =>
    unfold allocateLocalPortLoop
    split
    · obtain ⟨k, hk, h1, h2⟩ := ih (nextPort s)
      refine ⟨k + 1, Nat.succ_le_succ hk, ?_, ?_⟩
      · rw [Function.iterate_succ_apply]
        exact h1
      · rw [Function.iterate_succ_apply]
        exact h2
    · exact ⟨0, Nat.zero_le _, rfl, Or.inr rfl⟩

/-- Every operation leaves the three allocation settings alone and moves the cursor by
some number of advances. -/
theorem apply_cursor (s : SCTPTransportListener) (op : Op) :
    (op.apply s).mMinAllocationPort = s.mMinAllocationPort ∧
    (op.apply s).mMaxAllocationPort = s.mMaxAllocationPort ∧
    (op.apply s).mNextAllocationIncremement = s.mNextAllocationIncremement ∧
    ∃ k, (op.apply s).mCurrentAllocationPort = (nextPort^[k] s).mCurrentAllocationPort := by
  have hsame : ∀ s1 : SCTPTransportListener,
      s1.mMinAllocationPort = s.mMinAllocationPort →
      s1.mMaxAllocationPort = s.mMaxAllocationPort →
      s1.mNextAllocationIncremement = s.mNextAllocationIncremement →
      s1.mCurrentAllocationPort = s.mCurrentAllocationPort →
      s1.mMinAllocationPort = s.mMinAllocationPort ∧
      s1.mMaxAllocationPort = s.mMaxAllocationPort ∧
      s1.mNextAllocationIncremement = s.mNextAllocationIncremement ∧
      ∃ k, s1.mCurrentAllocationPort = (nextPort^[k] s).mCurrentAllocationPort :=
    fun s1 h1 h2 h3 h4 => ⟨h1, h2, h3, 0, h4⟩
  have hcancel : ∀ w, (cancel w s).state.mMinAllocationPort = s.mMinAllocationPort ∧
      (cancel w s).state.mMaxAllocationPort = s.mMaxAllocationPort ∧
      (cancel w s).state.mNextAllocationIncremement = s.mNextAllocationIncremement ∧
      (cancel w s).state.mCurrentAllocationPort = s.mCurrentAllocationPort := by
    intro w
    cases hs : isShutdown s with
    | true =>
      rw [cancel_shutdown w s hs]
      exact ⟨rfl, rfl, rfl, rfl⟩
    | false =>
      by_cases hg : s.mGracefulShutdownReference = true ∨ s.mThisWeak = true
      · rw [cancel_graceful w s hs hg]
        obtain ⟨P, L, R, T, hfr⟩ := cancelLoop_frame w s.mTransports
          ({ s with mGracefulShutdownReference := true }, [])
        split
        · simp only [hfr]
          exact ⟨trivial, trivial, trivial, trivial⟩
        · unfold cancelFinal
          simp only [hfr]
          exact ⟨trivial, trivial, trivial, trivial⟩
      · have hg1 : s.mGracefulShutdownReference = false := by
          cases h : s.mGracefulShutdownReference with
          | true => exact absurd (Or.inl h) hg
          | false => rfl
        have hw1 : s.mThisWeak = false := by
          cases h : s.mThisWeak with
          | true => exact absurd (Or.inr h) hg
          | false => rfl
        rw [cancel_unreferenced w s hs hg1 hw1]
        exact ⟨rfl, rfl, rfl, rfl⟩
  cases op with
  | handleDataPacket w buffer =>
    obtain ⟨P, L, R, T, h⟩ := handleDataPacket_frame w s buffer
    have happ : (Op.handleDataPacket w buffer).apply s = (handleDataPacket w s buffer).state :=
      rfl
    rw [happ, h]
    exact hsame _ rfl rfl rfl rfl
  | registerNewTransport w dtls io l r =>
    have happ : (Op.registerNewTransport w dtls io l r).apply s =
      (registerNewTransport w s dtls io l r).state := rfl
    rw [happ]
    rcases registerNewTransport_state w s dtls io l r with h | ⟨transport, h⟩
    · rw [h]
      exact hsame _ rfl rfl rfl rfl
    · rw [h]
      generalize (if r = 0 then l else r) = r1
      cases hrun : isRunning s with
      | false =>
        rw [registerLocked_shutdown w s transport l r1 hrun]
        exact hsame _ rfl rfl rfl rfl
      | true =>
        by_cases hl0 : l = 0
        · subst hl0
          by_cases hfull : s.mTransports.length + 1 > s.mMaxPorts
          · rw [registerLocked_full w s transport r1 hrun hfull]
            exact hsame _ rfl rfl rfl rfl
          · rw [registerLocked_ephemeral w s transport r1 hrun hfull]
            obtain ⟨c, L, R, hfr⟩ := allocateLocalPortLoop_frame r1
              ((s.mMaxAllocationPort + 65536 - s.mMinAllocationPort) % 65536) s
            obtain ⟨k, _, hk, _⟩ := allocateLocalPortLoop_cursor r1
              ((s.mMaxAllocationPort + 65536 - s.mMinAllocationPort) % 65536) s
            have hdef : allocateLocalPort s r1 = allocateLocalPortLoop r1
              ((s.mMaxAllocationPort + 65536 - s.mMinAllocationPort) % 65536) s := rfl
            rw [← hdef] at hfr hk
            have h1 : (allocateLocalPort s r1).2.mMinAllocationPort = s.mMinAllocationPort := by
              rw [hfr]
            have h2 : (allocateLocalPort s r1).2.mMaxAllocationPort = s.mMaxAllocationPort := by
              rw [hfr]
            have h3 : (allocateLocalPort s r1).2.mNextAllocationIncremement =
                s.mNextAllocationIncremement := by
              rw [hfr]
            split
            · exact ⟨h1, h2, h3, k, hk⟩
            · exact ⟨h1, h2, h3, k, hk⟩
        · cases hf : mapFind s.mTransports (createTuple l r1) with
          | some found =>
            rw [registerLocked_found w s transport found l r1 hrun hl0 hf]
            split <;> exact hsame _ rfl rfl rfl rfl
          | none =>
            cases hu : (mapFind s.mAllocatedLocalPorts l).isSome with
            | true =>
              rw [registerLocked_inUse w s transport l r1 hrun hl0 hf hu]
              exact hsame _ rfl rfl rfl rfl
            | false =>
              rw [registerLocked_explicit w s transport l r1 hrun hl0 hf hu]
              exact hsame _ rfl rfl rfl rfl
  | announceTransport t l r =>
    obtain ⟨A, h⟩ := announceTransport_frame s t l r
    have happ : (Op.announceTransport t l r).apply s = (announceTransport s t l r).state := rfl
    rw [happ, h]
    exact hsame _ rfl rfl rfl rfl
  | notifyShutdown t l r =>
    obtain ⟨P, A, L, R, T, h⟩ := notifyShutdown_frame s t l r
    have happ : (Op.notifyShutdown t l r).apply s = (notifyShutdown s t l r).state := rfl
    rw [happ, h]
    exact hsame _ rfl rfl rfl rfl
  | subscribe d caps =>
    obtain ⟨S, h⟩ := subscribe_frame s d caps
    have happ : (Op.subscribe d caps).apply s = (subscribe s d caps).state := rfl
    rw [happ, h]
    exact hsame _ rfl rfl rfl rfl
  | cancel w =>
    have happ : (Op.cancel w).apply s = (cancel w s).state := rfl
    rw [happ]
    obtain ⟨h1, h2, h3, h4⟩ := hcancel w
    exact hsame _ h1 h2 h3 h4
  | onWake w =>
    have happ : (Op.onWake w).apply s = (onWake w s).state := rfl
    rw [happ]
    rcases onWake_eq w s with ⟨_, h1⟩ | ⟨_, h1⟩
    · rw [h1]
      exact hsame _ rfl rfl rfl rfl
    · rw [h1]
      obtain ⟨h1, h2, h3, h4⟩ := hcancel w
      exact hsame _ h1 h2 h3 h4

theorem nextPort_parity (s : SCTPTransportListener)
    (hmin : s.mMinAllocationPort % 2 = 0) (hstep : s.mNextAllocationIncremement % 2 = 0) :
    (nextPort s).mCurrentAllocationPort % 2 = s.mCurrentAllocationPort % 2 := by
  unfold nextPort
  simp only
  split_ifs <;> omega

theorem nextPort_iterate_parity (k : Nat) (s : SCTPTransportListener)
    (hmin : s.mMinAllocationPort % 2 = 0) (hstep : s.mNextAllocationIncremement % 2 = 0) :
    (nextPort^[k] s).mCurrentAllocationPort % 2 = s.mCurrentAllocationPort % 2 := by
  induction k generalizing s with
  | zero => rfl
  | succ k ih =>
    rw [Function.iterate_succ_apply, ih (nextPort s) hmin hstep]
    exact nextPort_parity s hmin hstep

/-- C35: when `mMinAllocationPort` and `mNextAllocationIncremement` are even, one
advance of the cursor keeps its parity (also when the 16-bit addition overflows and
when the cursor wraps), `allocateLocalPort` leaves a cursor of the parity it found, and
every non-zero port it returns has the parity the cursor had before the call. -/
theorem allocateLocalPort_keeps_parity (s : SCTPTransportListener) (remotePort : Nat)
    (hmin : s.mMinAllocationPort % 2 = 0) (hstep : s.mNextAllocationIncremement % 2 = 0) :
    (nextPort s).mCurrentAllocationPort % 2 = s.mCurrentAllocationPort % 2 ∧
    (allocateLocalPort s remotePort).2.mCurrentAllocationPort % 2 =
      s.mCurrentAllocationPort % 2 ∧
    ((allocateLocalPort s remotePort).1 ≠ 0 →
      (allocateLocalPort s remotePort).1 % 2 = s.mCurrentAllocationPort % 2) := by
  obtain ⟨k, _, hk, hret⟩ := allocateLocalPortLoop_cursor remotePort
    ((s.mMaxAllocationPort + 65536 - s.mMinAllocationPort) % 65536) s
  have hdef : allocateLocalPort s remotePort = allocateLocalPortLoop remotePort
    ((s.mMaxAllocationPort + 65536 - s.mMinAllocationPort) % 65536) s := rfl
  rw [← hdef] at hk hret
  refine ⟨nextPort_parity s hmin hstep, ?_, ?_⟩
  · rw [hk]
    exact nextPort_iterate_parity k s hmin hstep
  · intro hne
    rcases hret with h0 | h1
    · exact absurd h0 hne
    · rw [h1]
      exact nextPort_iterate_parity k s hmin hstep

/-- Witness of C35, scenario S4: the second call finds `5002` taken, wraps from `5004`
to `5000` and returns `5000`, of the parity of the cursor `5002`. -/
theorem allocateLocalPort_keeps_parity_witness :
    (allocateLocalPort wrapListener 0).2.mCurrentAllocationPort = 5002 ∧
    (allocateLocalPort (allocateLocalPort wrapListener 0).2 0).1 = 5000 ∧
    (allocateLocalPort (allocateLocalPort wrapListener 0).2 0).1 % 2 =
      (allocateLocalPort wrapListener 0).2.mCurrentAllocationPort % 2 :=
  ⟨by decide, by decide,
    (allocateLocalPort_keeps_parity (allocateLocalPort wrapListener 0).2 0
      (by decide) (by decide)).2.2 (by decide)⟩

theorem nextPort_inRange (s : SCTPTransportListener)
    (hlt : s.mMinAllocationPort < s.mMaxAllocationPort) (hmax : s.mMaxAllocationPort < 65536) :
    s.mMinAllocationPort ≤ (nextPort s).mCurrentAllocationPort ∧
      (nextPort s).mCurrentAllocationPort ≤ s.mMaxAllocationPort := by
  unfold nextPort
  simp only
  split_ifs <;> omega

theorem nextPort_iterate_inRange (k : Nat) (s : SCTPTransportListener)
    (hlt : s.mMinAllocationPort < s.mMaxAllocationPort) (hmax : s.mMaxAllocationPort < 65536)
    (hlo : s.mMinAllocationPort ≤ s.mCurrentAllocationPort)
    (hhi : s.mCurrentAllocationPort ≤ s.mMaxAllocationPort) :
    s.mMinAllocationPort ≤ (nextPort^[k] s).mCurrentAllocationPort ∧
      (nextPort^[k] s).mCurrentAllocationPort ≤ s.mMaxAllocationPort := by
  induction k generalizing s with
  | zero => exact ⟨hlo, hhi⟩
  | succ k ih =>
    rw [Function.iterate_succ_apply]
    have h := nextPort_inRange s hlt hmax
    exact ih (nextPort s) hlt hmax h.1 h.2

/-- Counterexample to C32 as stated: the listener constructed with the one-port range
`5000..5000` and default port `5000` (step `1`) has its cursor in the range. The first
`registerNewTransport(0, 0)` takes port `5000`; the second finds it taken, advances the
cursor to `5001` and wraps it to `5000 + (5001 mod 2) = 5001`, above the maximum. -/
theorem cursor_leaves_single_port_range :
    construct 1 2 singlePortSettings 1 = some singlePortListener ∧
    singlePortListener.mMinAllocationPort ≤ singlePortListener.mCurrentAllocationPort ∧
    singlePortListener.mCurrentAllocationPort ≤ singlePortListener.mMaxAllocationPort ∧
    Reachable (registerNewTransport acceptingCollaborators
      (registerNewTransport acceptingCollaborators singlePortListener (some scenarioDTLS)
        (some ⟨7⟩) 0 0).state (some scenarioDTLS) (some ⟨8⟩) 0 0).state ∧
    (registerNewTransport acceptingCollaborators
      (registerNewTransport acceptingCollaborators singlePortListener (some scenarioDTLS)
        (some ⟨7⟩) 0 0).state
      (some scenarioDTLS) (some ⟨8⟩) 0 0).state.mCurrentAllocationPort = 5001 ∧
    (registerNewTransport acceptingCollaborators
      (registerNewTransport acceptingCollaborators singlePortListener (some scenarioDTLS)
        (some ⟨7⟩) 0 0).state
      (some scenarioDTLS) (some ⟨8⟩) 0 0).state.mMaxAllocationPort = 5000 := by
  refine ⟨rfl, by decide, by decide, ?_, by decide, by decide⟩
  exact ReachableBy.step _
    (Op.registerNewTransport acceptingCollaborators (some scenarioDTLS) (some ⟨8⟩) 0 0)
    (ReachableBy.step _
      (Op.registerNewTransport acceptingCollaborators (some scenarioDTLS) (some ⟨7⟩) 0 0)
      (ReachableBy.fresh 1 2 singlePortSettings 1 singlePortListener rfl)
      ⟨by decide, by decide⟩ trivial)
    ⟨by decide, by decide⟩ trivial

/-- C32, amended: for every listener constructed with
`listenerMinPort ≤ listenerDefaultPort ≤ listenerMaxPort` and
`listenerMinPort < listenerMaxPort`, in every state reached by any sequence of
operations the cursor lies in `[mMinAllocationPort, mMaxAllocationPort]`, the range is
the constructed one, and the cursor lies in the range after a further
`allocateLocalPort` call, whatever it returns. -/
theorem cursor_stays_in_range (mID secureTransport increment : Nat) (settings : Settings)
    (s0 s : SCTPTransportListener)
    (hc : construct mID secureTransport settings increment = some s0)
    (hlo : settings.listenerMinPort ≤ settings.listenerDefaultPort)
    (hhi : settings.listenerDefaultPort ≤ settings.listenerMaxPort)
    (hlt : settings.listenerMinPort < settings.listenerMaxPort)
    (hreach : ReachableFrom s0 (fun _ => True) s) :
    s.mMinAllocationPort = settings.listenerMinPort ∧
    s.mMaxAllocationPort = settings.listenerMaxPort ∧
    s.mMinAllocationPort ≤ s.mCurrentAllocationPort ∧
    s.mCurrentAllocationPort ≤ s.mMaxAllocationPort ∧
    (∀ remotePort,
      s.mMinAllocationPort ≤ (allocateLocalPort s remotePort).2.mCurrentAllocationPort ∧
      (allocateLocalPort s remotePort).2.mCurrentAllocationPort ≤ s.mMaxAllocationPort) := by
  have hmax : settings.listenerMaxPort < 65536 := by
    unfold construct at hc
    split at hc
    · rename_i h
      exact h.2.2
    · cases hc
  have hinv : s.mMinAllocationPort = settings.listenerMinPort ∧
      s.mMaxAllocationPort = settings.listenerMaxPort ∧
      s.mMinAllocationPort ≤ s.mCurrentAllocationPort ∧
      s.mCurrentAllocationPort ≤ s.mMaxAllocationPort := by
    induction hreach with
    | start =>
      unfold construct at hc
      split at hc
      · injection hc with hc
        subst hc
        exact ⟨rfl, rfl, hlo, hhi⟩
      · cases hc
    | step s1 op _ _ _ ih =>
      obtain ⟨h1, h2, h3, h4⟩ := ih
      obtain ⟨a1, a2, _, k, a4⟩ := apply_cursor s1 op
      have hr := nextPort_iterate_inRange k s1 (by omega) (by omega) h3 h4
      rw [a1, a2, a4]
      exact ⟨h1, h2, hr.1, hr.2⟩
  obtain ⟨h1, h2, h3, h4⟩ := hinv
  refine ⟨h1, h2, h3, h4, ?_⟩
  intro remotePort
  obtain ⟨k, _, hk, _⟩ := allocateLocalPortLoop_cursor remotePort
    ((s.mMaxAllocationPort + 65536 - s.mMinAllocationPort) % 65536) s
  have hdef : allocateLocalPort s remotePort = allocateLocalPortLoop remotePort
    ((s.mMaxAllocationPort + 65536 - s.mMinAllocationPort) % 65536) s := rfl
  rw [← hdef] at hk
  rw [hk]
  exact nextPort_iterate_inRange k s (by omega) (by omega) h3 h4

/-- Witness of C32, scenario S4: after the three ephemeral registrations the cursor is
`5000`, in the range `5000..5003`. -/
theorem cursor_stays_in_range_witness :
    ((Op.registerNewTransport acceptingCollaborators (some scenarioDTLS) (some ⟨9⟩) 0 0).apply
      ((Op.registerNewTransport acceptingCollaborators (some scenarioDTLS) (some ⟨8⟩) 0 0).apply
        ((Op.registerNewTransport acceptingCollaborators (some scenarioDTLS)
          (some ⟨7⟩) 0 0).apply wrapListener))).mCurrentAllocationPort = 5000 ∧
    ((Op.registerNewTransport acceptingCollaborators (some scenarioDTLS) (some ⟨9⟩) 0 0).apply
      ((Op.registerNewTransport acceptingCollaborators (some scenarioDTLS) (some ⟨8⟩) 0 0).apply
        ((Op.registerNewTransport acceptingCollaborators (some scenarioDTLS)
          (some ⟨7⟩) 0 0).apply wrapListener))).mMinAllocationPort ≤
    ((Op.registerNewTransport acceptingCollaborators (some scenarioDTLS) (some ⟨9⟩) 0 0).apply
      ((Op.registerNewTransport acceptingCollaborators (some scenarioDTLS) (some ⟨8⟩) 0 0).apply
        ((Op.registerNewTransport acceptingCollaborators (some scenarioDTLS)
          (some ⟨7⟩) 0 0).apply wrapListener))).mCurrentAllocationPort ∧
    ((Op.registerNewTransport acceptingCollaborators (some scenarioDTLS) (some ⟨9⟩) 0 0).apply
      ((Op.registerNewTransport acceptingCollaborators (some scenarioDTLS) (some ⟨8⟩) 0 0).apply
        ((Op.registerNewTransport acceptingCollaborators (some scenarioDTLS)
          (some ⟨7⟩) 0 0).apply wrapListener))).mCurrentAllocationPort ≤
    ((Op.registerNewTransport acceptingCollaborators (some scenarioDTLS) (some ⟨9⟩) 0 0).apply
      ((Op.registerNewTransport acceptingCollaborators (some scenarioDTLS) (some ⟨8⟩) 0 0).apply
        ((Op.registerNewTransport acceptingCollaborators (some scenarioDTLS)
          (some ⟨7⟩) 0 0).apply wrapListener))).mMaxAllocationPort := by
  have h := cursor_stays_in_range 1 2 2 wrapSettings wrapListener
    ((Op.registerNewTransport acceptingCollaborators (some scenarioDTLS) (some ⟨9⟩) 0 0).apply
      ((Op.registerNewTransport acceptingCollaborators (some scenarioDTLS) (some ⟨8⟩) 0 0).apply
        ((Op.registerNewTransport acceptingCollaborators (some scenarioDTLS)
          (some ⟨7⟩) 0 0).apply wrapListener)))
    rfl (by decide) (by decide) (by decide)
    (ReachableFrom.step _ _
      (ReachableFrom.step _ _
        (ReachableFrom.step _ _ ReachableFrom.start ⟨by decide, by decide⟩ trivial)
        ⟨by decide, by decide⟩ trivial)
      ⟨by decide, by decide⟩ trivial)
  exact ⟨by decide, h.2.2.1, h.2.2.2.1⟩

/-! ## The candidates of one search -/

theorem allocateLocalPortCandidates_length (r n : Nat) (s : SCTPTransportListener) :
    1 ≤ (allocateLocalPortCandidates r n s).length ∧
      (allocateLocalPortCandidates r n s).length ≤ n + 1 := by
  induction n generalizing s with
  | zero =>
    unfold allocateLocalPortCandidates
    exact ⟨Nat.le_refl _, Nat.le_refl _⟩
  | succ n ih =>
    unfold allocateLocalPortCandidates
    split
    · have := ih (nextPort s)
      rw [List.length_cons]
      omega
    · rw [List.length_singleton]
      omega

/-- The candidates are the cursor values after `0, 1, 2, …` advances; all but the last
are rejected; the call accepts the last one, or rejects it too and returns `0` after one
more advance. -/
theorem allocateLocalPortCandidates_spec (r n : Nat) (s : SCTPTransportListener) :
    allocateLocalPortCandidates r n s =
      (List.range (allocateLocalPortCandidates r n s).length).map
        (fun i => (nextPort^[i] s).mCurrentAllocationPort) ∧
    (∀ i, i + 1 < (allocateLocalPortCandidates r n s).length →
      portTaken (nextPort^[i] s) r = true) ∧
    allocateLocalPortLoop r n s =
      (if portTaken (nextPort^[(allocateLocalPortCandidates r n s).length - 1] s) r then
        (0, nextPort^[(allocateLocalPortCandidates r n s).length] s)
      else foundPort (nextPort^[(allocateLocalPortCandidates r n s).length - 1] s) r) ∧
    (portTaken (nextPort^[(allocateLocalPortCandidates r n s).length - 1] s) r = true →
      (allocateLocalPortCandidates r n s).length = n + 1) := by
  induction n generalizing s with
  | zero =>
    unfold allocateLocalPortCandidates allocateLocalPortLoop
    refine ⟨rfl, ?_, rfl, fun _ => rfl⟩
    intro i hi
    simp at hi
  | succ n ih =>
    unfold allocateLocalPortCandidates allocateLocalPortLoop
    by_cases ht : portTaken s r = true
    · rw [if_pos ht, if_pos ht]
      obtain ⟨h1, h2, h3, h4⟩ := ih (nextPort s)
      have hlen := (allocateLocalPortCandidates_length r n (nextPort s)).1
      rw [List.length_cons]
      refine ⟨?_, ?_, ?_, ?_⟩
      · rw [List.range_succ_eq_map, List.map_cons, List.map_map]
        congr 1
      · intro i hi
        cases i with
        | zero => exact ht
        | succ i =>
          rw [Function.iterate_succ_apply]
          exact h2 i (by omega)
      · have hsub : (allocateLocalPortCandidates r n (nextPort s)).length + 1 - 1 =
            ((allocateLocalPortCandidates r n (nextPort s)).length - 1) + 1 := by omega
        rw [h3, hsub, Function.iterate_succ_apply, Function.iterate_succ_apply]
      · intro hlast
        have hsub : (allocateLocalPortCandidates r n (nextPort s)).length + 1 - 1 =
            ((allocateLocalPortCandidates r n (nextPort s)).length - 1) + 1 := by omega
        rw [hsub, Function.iterate_succ_apply] at hlast
        rw [h4 hlast]
    · rw [if_neg ht, if_neg ht]
      refine ⟨rfl, ?_, ?_, ?_⟩
      · intro i hi
        simp at hi
      · show foundPort s r = if portTaken s r = true then _ else foundPort s r
        rw [if_neg ht]
      · intro hlast
        exact absurd hlast ht

/-- Counterexample to C36 as stated: the third call of scenario S4 (range `5000..5003`,
so `max − min = 3`) tests four candidates, `5000, 5002, 5000, 5002`, before it returns
`0`; and on a listener with the one-port range `5000..5000` (`max − min = 0`) the first
call tests one candidate and accepts it. -/
theorem allocateLocalPort_examines_one_more :
    candidatesExamined (allocateLocalPort (allocateLocalPort wrapListener 0).2 0).2 0 =
      [5000, 5002, 5000, 5002] ∧
    (allocateLocalPort (allocateLocalPort wrapListener 0).2 0).2.mMaxAllocationPort -
      (allocateLocalPort (allocateLocalPort wrapListener 0).2 0).2.mMinAllocationPort = 3 ∧
    (allocateLocalPort (allocateLocalPort (allocateLocalPort wrapListener 0).2 0).2 0).1 = 0 ∧
    candidatesExamined singlePortListener 0 = [5000] ∧
    singlePortListener.mMaxAllocationPort - singlePortListener.mMinAllocationPort = 0 ∧
    (allocateLocalPort singlePortListener 0).1 = 5000 := by
  decide

/-- C36, amended: `allocateLocalPort` is a total function of the listener state and the
remote port: its loop is bounded by the counter `maxSearching`, set to
`mMaxAllocationPort − mMinAllocationPort` in 16-bit arithmetic. In one call it tests at
least one and at most `maxSearching + 1` candidates, that is at most
`mMaxAllocationPort − mMinAllocationPort + 1` when the range is well-formed. The
candidates are the cursor values after `0, 1, 2, …` advances, every candidate but the
last is rejected, and the call either accepts the last candidate or, having tested
exactly `maxSearching + 1` candidates, returns `0`. -/
theorem allocateLocalPort_examines (s : SCTPTransportListener) (remotePort : Nat) :
    1 ≤ (candidatesExamined s remotePort).length ∧
    (candidatesExamined s remotePort).length ≤
      (s.mMaxAllocationPort + 65536 - s.mMinAllocationPort) % 65536 + 1 ∧
    (s.mMinAllocationPort ≤ s.mMaxAllocationPort → s.mMaxAllocationPort < 65536 →
      (candidatesExamined s remotePort).length ≤
        s.mMaxAllocationPort - s.mMinAllocationPort + 1) ∧
    candidatesExamined s remotePort =
      (List.range (candidatesExamined s remotePort).length).map
        (fun i => (nextPort^[i] s).mCurrentAllocationPort) ∧
    (∀ i, i + 1 < (candidatesExamined s remotePort).length →
      portTaken (nextPort^[i] s) remotePort = true) ∧
    (portTaken (nextPort^[(candidatesExamined s remotePort).length - 1] s) remotePort = false →
      allocateLocalPort s remotePort =
        foundPort (nextPort^[(candidatesExamined s remotePort).length - 1] s) remotePort) ∧
    (portTaken (nextPort^[(candidatesExamined s remotePort).length - 1] s) remotePort = true →
      (candidatesExamined s remotePort).length =
        (s.mMaxAllocationPort + 65536 - s.mMinAllocationPort) % 65536 + 1 ∧
      allocateLocalPort s remotePort =
        (0, nextPort^[(candidatesExamined s remotePort).length] s)) := by
  have hlen := allocateLocalPortCandidates_length remotePort
    ((s.mMaxAllocationPort + 65536 - s.mMinAllocationPort) % 65536) s
  obtain ⟨h1, h2, h3, h4⟩ := allocateLocalPortCandidates_spec remotePort
    ((s.mMaxAllocationPort + 65536 - s.mMinAllocationPort) % 65536) s
  have hdef : allocateLocalPort s remotePort = allocateLocalPortLoop remotePort
    ((s.mMaxAllocationPort + 65536 - s.mMinAllocationPort) % 65536) s := rfl
  have hcand : candidatesExamined s remotePort = allocateLocalPortCandidates remotePort
    ((s.mMaxAllocationPort + 65536 - s.mMinAllocationPort) % 65536) s := rfl
  rw [← hdef] at h3
  rw [← hcand] at hlen h1 h2 h3 h4
  refine ⟨hlen.1, hlen.2, ?_, h1, h2, ?_, ?_⟩
  · intro hle hmax
    have := hlen.2
    omega
  · intro hfree
    rw [h3, hfree]
    rfl
  · intro htaken
    refine ⟨h4 htaken, ?_⟩
    rw [h3, if_pos htaken]

/-- Witness of C36: the second call of scenario S4 tests `5002`, which is taken, then
`5000`, and accepts it. -/
theorem allocateLocalPort_examines_witness :
    candidatesExamined (allocateLocalPort wrapListener 0).2 0 = [5002, 5000] ∧
    (candidatesExamined (allocateLocalPort wrapListener 0).2 0).length ≤
      (allocateLocalPort wrapListener 0).2.mMaxAllocationPort -
        (allocateLocalPort wrapListener 0).2.mMinAllocationPort + 1 ∧
    (allocateLocalPort (allocateLocalPort wrapListener 0).2 0).1 = 5000 := by
  have h := allocateLocalPort_examines (allocateLocalPort wrapListener 0).2 0
  exact ⟨by decide, h.2.2.1 (by decide) (by decide), by decide⟩

/-! ## A free port in the range, with step 1 -/

theorem nextPort_step_one (s : SCTPTransportListener)
    (hstep : s.mNextAllocationIncremement = 1)
    (hlo : s.mMinAllocationPort ≤ s.mCurrentAllocationPort)
    (hhi : s.mCurrentAllocationPort ≤ s.mMaxAllocationPort)
    (hmax : s.mMaxAllocationPort < 65536) (hmin : 1 ≤ s.mMinAllocationPort)
    (hodd : s.mMaxAllocationPort % 2 = 1 ∨ s.mCurrentAllocationPort < s.mMaxAllocationPort) :
    (nextPort s).mCurrentAllocationPort =
      if s.mCurrentAllocationPort < s.mMaxAllocationPort then s.mCurrentAllocationPort + 1
      else s.mMinAllocationPort := by
  unfold nextPort
  simp only [hstep]
  split_ifs <;> omega

theorem nextPort_iterate_step_one (s : SCTPTransportListener)
    (hstep : s.mNextAllocationIncremement = 1)
    (hlo : s.mMinAllocationPort ≤ s.mCurrentAllocationPort)
    (hhi : s.mCurrentAllocationPort ≤ s.mMaxAllocationPort)
    (hmax : s.mMaxAllocationPort < 65536) (hmin : 1 ≤ s.mMinAllocationPort)
    (hodd : s.mMaxAllocationPort % 2 = 1 ∨ s.mCurrentAllocationPort = s.mMinAllocationPort)
    (k : Nat) (hk : k ≤ s.mMaxAllocationPort - s.mMinAllocationPort) :
    (nextPort^[k] s).mCurrentAllocationPort =
      if s.mCurrentAllocationPort + k ≤ s.mMaxAllocationPort then s.mCurrentAllocationPort + k
      else s.mMinAllocationPort + (s.mCurrentAllocationPort + k - s.mMaxAllocationPort - 1) := by
  induction k with
  | zero =>
    rw [if_pos (by omega)]
    rfl
  | succ k ih =>
    have ih1 := ih (by omega)
    obtain ⟨s1, s2, s3⟩ := nextPort_iterate_settings k s
    rw [Function.iterate_succ_apply', nextPort_step_one (nextPort^[k] s)
      (by rw [s3]; exact hstep) (by rw [s1, ih1]; split_ifs <;> omega)
      (by rw [s2, ih1]; split_ifs <;> omega) (by rw [s2]; exact hmax)
      (by rw [s1]; exact hmin) (by rw [s2, ih1]; split_ifs <;> omega), s1, s2, ih1]
    split_ifs <;> omega

theorem portTaken_of_fields (t s : SCTPTransportListener) (r : Nat)
    (hl : t.mAllocatedLocalPorts = s.mAllocatedLocalPorts)
    (hr : t.mAllocatedRemotePorts = s.mAllocatedRemotePorts) :
    portTaken t r = !portAcceptable s r t.mCurrentAllocationPort := by
  unfold portAcceptable portTaken
  simp only [hl, hr, Bool.not_not]

/-- Counterexample to C39 as stated: the listener constructed with the range
`5000..5002`, default port `5001` and step `1`, after two `registerNewTransport(0, 0)`
calls took the ports `5001` and `5002`. The cursor `5002` is in the range and port
`5000` is in neither map of counts, yet `allocateLocalPort(0)` returns `0`: after `5002`
the cursor wraps to `5000 + (5003 mod 2) = 5001`, and the search ends without testing
`5000`. -/
theorem allocateLocalPort_skips_minimum :
    Reachable (registerNewTransport acceptingCollaborators
      (registerNewTransport acceptingCollaborators evenMaxListener (some scenarioDTLS)
        (some ⟨7⟩) 0 0).state (some scenarioDTLS) (some ⟨8⟩) 0 0).state ∧
    (registerNewTransport acceptingCollaborators
      (registerNewTransport acceptingCollaborators evenMaxListener (some scenarioDTLS)
        (some ⟨7⟩) 0 0).state
      (some scenarioDTLS) (some ⟨8⟩) 0 0).state.mNextAllocationIncremement = 1 ∧
    (registerNewTransport acceptingCollaborators
      (registerNewTransport acceptingCollaborators evenMaxListener (some scenarioDTLS)
        (some ⟨7⟩) 0 0).state
      (some scenarioDTLS) (some ⟨8⟩) 0 0).state.mCurrentAllocationPort = 5002 ∧
    (registerNewTransport acceptingCollaborators
      (registerNewTransport acceptingCollaborators evenMaxListener (some scenarioDTLS)
        (some ⟨7⟩) 0 0).state
      (some scenarioDTLS) (some ⟨8⟩) 0 0).state.mAllocatedLocalPorts = [(5001, 1), (5002, 1)] ∧
    portAcceptable (registerNewTransport acceptingCollaborators
      (registerNewTransport acceptingCollaborators evenMaxListener (some scenarioDTLS)
        (some ⟨7⟩) 0 0).state (some scenarioDTLS) (some ⟨8⟩) 0 0).state 0 5000 = true ∧
    candidatesExamined (registerNewTransport acceptingCollaborators
      (registerNewTransport acceptingCollaborators evenMaxListener (some scenarioDTLS)
        (some ⟨7⟩) 0 0).state (some scenarioDTLS) (some ⟨8⟩) 0 0).state 0 =
          [5002, 5001, 5002] ∧
    (allocateLocalPort (registerNewTransport acceptingCollaborators
      (registerNewTransport acceptingCollaborators evenMaxListener (some scenarioDTLS)
        (some ⟨7⟩) 0 0).state (some scenarioDTLS) (some ⟨8⟩) 0 0).state 0).1 = 0 := by
  refine ⟨?_, by decide, by decide, by decide, by decide, by decide, by decide⟩
  exact ReachableBy.step _
    (Op.registerNewTransport acceptingCollaborators (some scenarioDTLS) (some ⟨8⟩) 0 0)
    (ReachableBy.step _
      (Op.registerNewTransport acceptingCollaborators (some scenarioDTLS) (some ⟨7⟩) 0 0)
      (ReachableBy.fresh 1 2 evenMaxSettings 1 evenMaxListener rfl)
      ⟨by decide, by decide⟩ trivial)
    ⟨by decide, by decide⟩ trivial

/-- C39, amended: with `mNextAllocationIncremement = 1`, a cursor in
`[mMinAllocationPort, mMaxAllocationPort]`, `mMinAllocationPort ≥ 1`, and
`mMaxAllocationPort` odd or the cursor on `mMinAllocationPort`, whenever some port of
the range is acceptable (absent from `mAllocatedLocalPorts` and, for remote port `0`,
from `mAllocatedRemotePorts`), `allocateLocalPort` returns a non-zero port, which lies
in the range and was acceptable. -/
theorem allocateLocalPort_finds_free (s : SCTPTransportListener) (remotePort : Nat)
    (hstep : s.mNextAllocationIncremement = 1)
    (hlo : s.mMinAllocationPort ≤ s.mCurrentAllocationPort)
    (hhi : s.mCurrentAllocationPort ≤ s.mMaxAllocationPort)
    (hmax : s.mMaxAllocationPort < 65536) (hmin : 1 ≤ s.mMinAllocationPort)
    (hodd : s.mMaxAllocationPort % 2 = 1 ∨ s.mCurrentAllocationPort = s.mMinAllocationPort)
    (port : Nat) (hp1 : s.mMinAllocationPort ≤ port) (hp2 : port ≤ s.mMaxAllocationPort)
    (hfree : portAcceptable s remotePort port = true) :
    (allocateLocalPort s remotePort).1 ≠ 0 ∧
    s.mMinAllocationPort ≤ (allocateLocalPort s remotePort).1 ∧
    (allocateLocalPort s remotePort).1 ≤ s.mMaxAllocationPort ∧
    portAcceptable s remotePort (allocateLocalPort s remotePort).1 = true := by
  have hbudget : (s.mMaxAllocationPort + 65536 - s.mMinAllocationPort) % 65536 =
      s.mMaxAllocationPort - s.mMinAllocationPort := by omega
  have hdef : allocateLocalPort s remotePort = allocateLocalPortLoop remotePort
    (s.mMaxAllocationPort - s.mMinAllocationPort) s := by
    rw [← hbudget]
    rfl
  obtain ⟨_, h2, h3, h4⟩ := allocateLocalPortCandidates_spec remotePort
    (s.mMaxAllocationPort - s.mMinAllocationPort) s
  have hlen := allocateLocalPortCandidates_length remotePort
    (s.mMaxAllocationPort - s.mMinAllocationPort) s
  generalize (allocateLocalPortCandidates remotePort
    (s.mMaxAllocationPort - s.mMinAllocationPort) s).length = len at h2 h3 h4 hlen
  have hcur := nextPort_iterate_step_one s hstep hlo hhi hmax hmin hodd
  have htaken : ∀ k, portTaken (nextPort^[k] s) remotePort =
      !portAcceptable s remotePort (nextPort^[k] s).mCurrentAllocationPort :=
    fun k => portTaken_of_fields _ s remotePort (nextPort_iterate_fields k s).1
      (nextPort_iterate_fields k s).2.1
  -- the index at which the free port is tested
  have hidx : ∃ k, k ≤ s.mMaxAllocationPort - s.mMinAllocationPort ∧
      (nextPort^[k] s).mCurrentAllocationPort = port := by
    by_cases hge : s.mCurrentAllocationPort ≤ port
    · refine ⟨port - s.mCurrentAllocationPort, by omega, ?_⟩
      rw [hcur _ (by omega)]
      split_ifs <;> omega
    · refine ⟨s.mMaxAllocationPort - s.mCurrentAllocationPort + 1 +
        (port - s.mMinAllocationPort), by omega, ?_⟩
      rw [hcur _ (by omega)]
      split_ifs <;> omega
  obtain ⟨k, hk, hkp⟩ := hidx
  have hkfree : portTaken (nextPort^[k] s) remotePort = false := by
    rw [htaken k, hkp, hfree]
    rfl
  have hlast : portTaken (nextPort^[len - 1] s) remotePort = false := by
    cases hl : portTaken (nextPort^[len - 1] s) remotePort with
    | false => rfl
    | true =>
      have hfull := h4 hl
      by_cases hk1 : k + 1 < len
      · rw [h2 k hk1] at hkfree
        cases hkfree
      · have : k = len - 1 := by omega
        rw [this, hl] at hkfree
        cases hkfree
  have hret : (allocateLocalPort s remotePort).1 =
      (nextPort^[len - 1] s).mCurrentAllocationPort := by
    rw [hdef, h3, hlast]
    rfl
  have hin := hcur (len - 1) (by omega)
  have hacc : portAcceptable s remotePort (nextPort^[len - 1] s).mCurrentAllocationPort
      = true := by
    have := htaken (len - 1)
    rw [hlast] at this
    cases hb : portAcceptable s remotePort (nextPort^[len - 1] s).mCurrentAllocationPort with
    | true => rfl
    | false =>
      rw [hb] at this
      cases this
  rw [hret]
  refine ⟨?_, ?_, ?_, hacc⟩
  · rw [hin]
    split_ifs <;> omega
  · rw [hin]
    split_ifs <;> omega
  · rw [hin]
    split_ifs <;> omega

/-- Witness of C39: the listener of scenario S1 (range `5000..65535`, step `1`) after
the packet of scenario S1 counted local port `5001` and remote port `5000`. For remote
port `0` the cursor `5000` is rejected, port `5002` is acceptable, and the call returns
`5002`. -/
theorem allocateLocalPort_finds_free_witness :
    portAcceptable (handleDataPacket acceptingCollaborators scenarioListener
      scenarioPacket).state 0 5000 = false ∧
    (allocateLocalPort (handleDataPacket acceptingCollaborators scenarioListener
      scenarioPacket).state 0).1 ≠ 0 ∧
    (allocateLocalPort (handleDataPacket acceptingCollaborators scenarioListener
      scenarioPacket).state 0).1 = 5002 :=
  ⟨by decide,
    (allocateLocalPort_finds_free (handleDataPacket acceptingCollaborators scenarioListener
      scenarioPacket).state 0 (by decide) (by decide) (by decide) (by decide) (by decide)
      (Or.inl (by decide)) 5002 (by decide) (by decide) (by decide)).1,
    by decide⟩

/-! ## What a `cancel` pass releases -/

/-- What the first loop of `cancel` leaves in `mPendingTransports`: the entries whose
key is not the id of a visited association that reported `isShutdown()`. -/
theorem cancelLoop_pending (w : Collaborators) (rest : List (Nat × UseSCTPTransport)) :
    ∀ acc : SCTPTransportListener × List Call,
      (rest.foldl (cancelVisit w) acc).1.mPendingTransports =
        acc.1.mPendingTransports.filter
          (fun e => !(rest.any (fun v => w.isShutdown v.2.id && decide (v.2.id = e.1)))) := by
  induction rest with
  | nil =>
    intro acc
    simp
  | cons v rest ih =>
    intro acc
    rw [List.foldl_cons, ih]
    cases hsd : w.isShutdown v.2.id with
    | false =>
      rw [cancelVisit_alive w acc v hsd]
      simp [hsd]
    | true =>
      rw [cancelVisit_shutdown w acc v hsd]
      show List.filter _ (mapErase acc.1.mPendingTransports v.2.id) = _
      unfold mapErase
      rw [List.filter_filter]
      congr 1
      funext e
      have hcomm : decide (v.2.id = e.1) = decide (e.1 = v.2.id) := by
        by_cases hk : e.1 = v.2.id
        · rw [hk]
        · have hk2 : ¬ v.2.id = e.1 := fun h => hk h.symm
          simp only [hk, hk2]
      simp only [hsd, List.any_cons, Bool.true_and, Bool.not_or, ne_eq, decide_not, hcomm]
      rw [Bool.and_comm]

/-- The first loop of `cancel` lowers the count of a port once for every visited
association on that port that reported `isShutdown()`. -/
theorem cancelLoop_counts (w : Collaborators) (rest : List (Nat × UseSCTPTransport))
    (p : Nat) :
    ∀ acc : SCTPTransportListener × List Call,
      rest.countP (fun e => w.isShutdown e.2.id && decide ((splitTuple e.1).1 = p)) ≤
        portCount acc.1.mAllocatedLocalPorts p →
      rest.countP (fun e => w.isShutdown e.2.id && decide ((splitTuple e.1).2 = p)) ≤
        portCount acc.1.mAllocatedRemotePorts p →
      portCount (rest.foldl (cancelVisit w) acc).1.mAllocatedLocalPorts p +
          rest.countP (fun e => w.isShutdown e.2.id && decide ((splitTuple e.1).1 = p)) =
        portCount acc.1.mAllocatedLocalPorts p ∧
      portCount (rest.foldl (cancelVisit w) acc).1.mAllocatedRemotePorts p +
          rest.countP (fun e => w.isShutdown e.2.id && decide ((splitTuple e.1).2 = p)) =
        portCount acc.1.mAllocatedRemotePorts p := by
  induction rest with
  | nil =>
    intro acc _ _
    exact ⟨rfl, rfl⟩
  | cons v rest ih =>
    intro acc hl hr
    rw [List.foldl_cons]
    rw [List.countP_cons] at hl hr ⊢
    rw [List.countP_cons]
    cases hsd : w.isShutdown v.2.id with
    | false =>
      rw [cancelVisit_alive w acc v hsd]
      simp only [hsd, Bool.false_and, Bool.false_eq_true, if_false, Nat.add_zero] at hl hr ⊢
      exact ih _ hl hr
    | true =>
      have hv := cancelVisit_shutdown w acc v hsd
      have e1 : (cancelVisit w acc v).1.mAllocatedLocalPorts =
          deallocatePort acc.1.mAllocatedLocalPorts (splitTuple v.1).1 := by rw [hv]
      have e2 : (cancelVisit w acc v).1.mAllocatedRemotePorts =
          deallocatePort acc.1.mAllocatedRemotePorts (splitTuple v.1).2 := by rw [hv]
      simp only [hsd, Bool.true_and, decide_eq_true_eq] at hl hr ⊢
      have h1 : portCount (deallocatePort acc.1.mAllocatedLocalPorts (splitTuple v.1).1) p =
          if (splitTuple v.1).1 = p then portCount acc.1.mAllocatedLocalPorts p - 1
          else portCount acc.1.mAllocatedLocalPorts p := by
        rw [portCount_deallocatePort]
        by_cases hp : (splitTuple v.1).1 = p
        · rw [if_pos hp.symm, if_pos hp, hp]
        · rw [if_neg (fun h => hp h.symm), if_neg hp]
      have h2 : portCount (deallocatePort acc.1.mAllocatedRemotePorts (splitTuple v.1).2) p =
          if (splitTuple v.1).2 = p then portCount acc.1.mAllocatedRemotePorts p - 1
          else portCount acc.1.mAllocatedRemotePorts p := by
        rw [portCount_deallocatePort]
        by_cases hp : (splitTuple v.1).2 = p
        · rw [if_pos hp.symm, if_pos hp, hp]
        · rw [if_neg (fun h => hp h.symm), if_neg hp]
      have hi := ih (cancelVisit w acc v)
        (by
          rw [e1, h1]
          by_cases hp : (splitTuple v.1).1 = p
          · rw [if_pos hp] at hl ⊢
            omega
          · rw [if_neg hp] at hl ⊢
            omega)
        (by
          rw [e2, h2]
          by_cases hp : (splitTuple v.1).2 = p
          · rw [if_pos hp] at hr ⊢
            omega
          · rw [if_neg hp] at hr ⊢
            omega)
      rw [e1, h1, e2, h2] at hi
      constructor
      · have := hi.1
        by_cases hp : (splitTuple v.1).1 = p
        · rw [if_pos hp] at hl this ⊢
          omega
        · rw [if_neg hp] at hl this ⊢
          omega
      · have := hi.2
        by_cases hp : (splitTuple v.1).2 = p
        · rw [if_pos hp] at hr this ⊢
          omega
        · rw [if_neg hp] at hr this ⊢
          omega

/-- A `cancel` pass during which some association refuses to shut down returns after
the first loop. -/
theorem cancel_waiting (w : Collaborators) (s : SCTPTransportListener)
    (hcons : Consistent s) (hs : isShutdown s = false)
    (hg : s.mGracefulShutdownReference = true ∨ s.mThisWeak = true)
    (e : Nat × UseSCTPTransport) (he : e ∈ s.mTransports)
    (hw : w.isShutdown e.2.id = false) :
    (cancel w s).state =
      (s.mTransports.foldl (cancelVisit w)
        ({ s with mGracefulShutdownReference := true }, [])).1 := by
  have hmem : e ∈ (s.mTransports.foldl (cancelVisit w)
      ({ s with mGracefulShutdownReference := true }, [])).1.mTransports := by
    rw [cancelLoop_transports]
    show e ∈ List.filter _ s.mTransports
    rw [List.mem_filter]
    refine ⟨he, ?_⟩
    simp only [Bool.not_eq_true', List.any_eq_false]
    intro v hv hc
    rw [Bool.and_eq_true, decide_eq_true_eq] at hc
    have h1 := mapFind_of_mem_sorted _ hcons.sorted v hv
    have h2 := mapFind_of_mem_sorted _ hcons.sorted e he
    rw [hc.2, h2] at h1
    injection h1 with h1
    rw [← h1, hw] at hc
    exact absurd hc.1 (by decide)
  rw [cancel_graceful w s hs hg, if_pos (List.length_pos_of_mem hmem)]

/-- C33, the failing run: on the listener of scenario S1 the associations `7` (ports
`(7000, 8000)`) and `8` (ports `(7001, 8001)`) are registered and `7` is announced.
During `cancel()` the association `7` reports `isShutdown()` and `8` does not. The pass
returns in the shutting-down state with `7` removed from `mTransports` and its two
ports released, but `7` is still filed in `mAnnouncedTransports`: the statement that
should purge it, `mPendingTransports.erase(found)`, names the pending map. -/
theorem cancel_keeps_announced :
    Reachable announcedPairListener ∧
    announcedPairListener.mThisWeak = true ∧
    partialCollaborators.isShutdown 7 = true ∧
    partialCollaborators.isShutdown 8 = false ∧
    announcedPairListener.mTransports =
      [(createTuple 7000 8000, ⟨7⟩), (createTuple 7001 8001, ⟨8⟩)] ∧
    announcedPairListener.mAnnouncedTransports = [(7, ⟨7⟩)] ∧
    isShuttingDown (cancel partialCollaborators announcedPairListener).state = true ∧
    (cancel partialCollaborators announcedPairListener).state.mTransports =
      [(createTuple 7001 8001, ⟨8⟩)] ∧
    (cancel partialCollaborators announcedPairListener).state.mAllocatedLocalPorts =
      [(7001, 1)] ∧
    (cancel partialCollaborators announcedPairListener).state.mAllocatedRemotePorts =
      [(8001, 1)] ∧
    (cancel partialCollaborators announcedPairListener).state.mAnnouncedTransports =
      [(7, ⟨7⟩)] := by
  refine ⟨?_, by decide, by decide, by decide, by decide, by decide, by decide, by decide,
    by decide, by decide, by decide⟩
  exact ReachableBy.step _ (Op.announceTransport ⟨7⟩ 7000 8000)
    (ReachableBy.step _
      (Op.registerNewTransport acceptingCollaborators (some scenarioDTLS) (some ⟨8⟩)
        7001 8001)
      (ReachableBy.step _
        (Op.registerNewTransport acceptingCollaborators (some scenarioDTLS) (some ⟨7⟩)
          7000 8000)
        (ReachableBy.fresh 1 2 scenarioSettings 1 scenarioListener rfl)
        ⟨by decide, by decide⟩ trivial)
      ⟨by decide, by decide⟩ trivial)
    ⟨by decide, by decide⟩ trivial

/-- What holds of C33: on a reachable listener that is not shut down and whose object
is still referenced, a `cancel()` pass during which some association refuses to shut
down returns in the shutting-down state; every association that reported
`isShutdown()` is then absent from `mTransports` and from `mPendingTransports`, the
count of every port has dropped by the number of such associations on it, and
`mAnnouncedTransports` is as it was. -/
theorem cancel_releases_shutdown (s : SCTPTransportListener) (hreach : Reachable s)
    (hweak : s.mThisWeak = true) (hnot : isShutdown s = false) (w : Collaborators)
    (e0 : Nat × UseSCTPTransport) (he0 : e0 ∈ s.mTransports)
    (hw0 : w.isShutdown e0.2.id = false) :
    isShuttingDown (cancel w s).state = true ∧
    (∀ e ∈ s.mTransports, w.isShutdown e.2.id = true →
      mapFind (cancel w s).state.mTransports e.1 = none ∧
      mapFind (cancel w s).state.mPendingTransports e.2.id = none) ∧
    (∀ p, portCount (cancel w s).state.mAllocatedLocalPorts p +
        s.mTransports.countP
          (fun e => w.isShutdown e.2.id && decide ((splitTuple e.1).1 = p)) =
      portCount s.mAllocatedLocalPorts p) ∧
    (∀ p, portCount (cancel w s).state.mAllocatedRemotePorts p +
        s.mTransports.countP
          (fun e => w.isShutdown e.2.id && decide ((splitTuple e.1).2 = p)) =
      portCount s.mAllocatedRemotePorts p) ∧
    (cancel w s).state.mAnnouncedTransports = s.mAnnouncedTransports := by
  have hcons := reachableBy_consistent _ s hreach
  have hst := cancel_waiting w s hcons hnot (Or.inr hweak) e0 he0 hw0
  have hg := (cancel_refused w s hcons hnot (Or.inr hweak) e0 he0 hw0).1
  rw [hst] at hg ⊢
  refine ⟨(isShutdown_of_graceful _ hg).1, ?_, ?_, ?_, ?_⟩
  · intro e he hsd
    constructor
    · rw [cancelLoop_transports, mapFind_none_iff]
      intro v hv hkey
      rw [List.mem_filter] at hv
      have hany : (s.mTransports.any
          (fun v1 => w.isShutdown v1.2.id && decide (v1.1 = v.1))) = true := by
        rw [List.any_eq_true]
        exact ⟨e, he, by rw [hsd, hkey]; simp⟩
      rw [hany] at hv
      exact absurd hv.2 (by decide)
    · rw [cancelLoop_pending, mapFind_none_iff]
      intro v hv hkey
      rw [List.mem_filter] at hv
      have hany : (s.mTransports.any
          (fun v1 => w.isShutdown v1.2.id && decide (v1.2.id = v.1))) = true := by
        rw [List.any_eq_true]
        exact ⟨e, he, by rw [hsd, hkey]; simp⟩
      rw [hany] at hv
      exact absurd hv.2 (by decide)
  · intro p
    refine (cancelLoop_counts w s.mTransports p
      ({ s with mGracefulShutdownReference := true }, []) ?_ ?_).1
    · refine le_trans ?_ (hcons.localCounted p)
      unfold tuplesWithLocalPort
      apply List.countP_mono_left
      intro x _ hx
      rw [Bool.and_eq_true] at hx
      exact hx.2
    · refine le_trans ?_ (hcons.remoteCounted p)
      unfold tuplesWithRemotePort
      apply List.countP_mono_left
      intro x _ hx
      rw [Bool.and_eq_true] at hx
      exact hx.2
  · intro p
    refine (cancelLoop_counts w s.mTransports p
      ({ s with mGracefulShutdownReference := true }, []) ?_ ?_).2
    · refine le_trans ?_ (hcons.localCounted p)
      unfold tuplesWithLocalPort
      apply List.countP_mono_left
      intro x _ hx
      rw [Bool.and_eq_true] at hx
      exact hx.2
    · refine le_trans ?_ (hcons.remoteCounted p)
      unfold tuplesWithRemotePort
      apply List.countP_mono_left
      intro x _ hx
      rw [Bool.and_eq_true] at hx
      exact hx.2
  · exact (cancelLoop_tables w s.mTransports
      ({ s with mGracefulShutdownReference := true }, [])).1

/-- An instance of `cancel_releases_shutdown`: the pass over the listener holding the
associations `7` and `8`, of which only `7` has shut down. -/
theorem cancel_releases_shutdown_witness :
    isShuttingDown (cancel partialCollaborators announcedPairListener).state = true ∧
    portCount (cancel partialCollaborators announcedPairListener).state.mAllocatedLocalPorts
        7000 +
      announcedPairListener.mTransports.countP
        (fun e => partialCollaborators.isShutdown e.2.id && decide ((splitTuple e.1).1 = 7000))
      = portCount announcedPairListener.mAllocatedLocalPorts 7000 := by
  have h := cancel_releases_shutdown announcedPairListener
    (ReachableBy.step _ (Op.announceTransport ⟨7⟩ 7000 8000)
      (ReachableBy.step _
        (Op.registerNewTransport acceptingCollaborators (some scenarioDTLS) (some ⟨8⟩)
          7001 8001)
        (ReachableBy.step _
          (Op.registerNewTransport acceptingCollaborators (some scenarioDTLS) (some ⟨7⟩)
            7000 8000)
          (ReachableBy.fresh 1 2 scenarioSettings 1 scenarioListener rfl)
          ⟨by decide, by decide⟩ trivial)
        ⟨by decide, by decide⟩ trivial)
      ⟨by decide, by decide⟩ trivial)
    (by decide) (by decide) partialCollaborators (createTuple 7001 8001, ⟨8⟩) (by decide)
    (by decide)
  exact ⟨h.1, h.2.2.1 7000⟩

/-! ## The `start` calls of a run -/

theorem startedIds_append (a b : List Call) :
    startedIds (a ++ b) = startedIds a ++ startedIds b := by
  unfold startedIds
  rw [List.filterMap_append]

theorem startedIds_map_start (m : List (Nat × UseSCTPTransport)) (caps : Capabilities) :
    startedIds (m.map (fun entry => Call.start entry.2.id caps)) =
      m.map (fun entry => entry.2.id) := by
  induction m with
  | nil => rfl
  | cons e m ih =>
    rw [List.map_cons, List.map_cons, ← ih]
    rfl

theorem startedIds_map_onSCTPTransport (m : List (Nat × UseSCTPTransport)) (d : Nat) :
    startedIds (m.map (fun entry => Call.onSCTPTransport d entry.2.id)) = [] := by
  induction m with
  | nil => rfl
  | cons e m ih =>
    rw [List.map_cons]
    exact ih

theorem startedIds_map_notify (m : List (Nat × UseSCTPTransport)) :
    startedIds (m.map (fun entry => Call.notifyShutdown entry.2.id)) = [] := by
  induction m with
  | nil => rfl
  | cons e m ih =>
    rw [List.map_cons]
    exact ih

theorem startedIds_map_delegates (subs : List Nat) (t : Nat) :
    startedIds (subs.map (fun delegate => Call.onSCTPTransport delegate t)) = [] := by
  induction subs with
  | nil => rfl
  | cons e m ih =>
    rw [List.map_cons]
    exact ih

theorem cancelLoop_started (w : Collaborators) (rest : List (Nat × UseSCTPTransport)) :
    ∀ acc : SCTPTransportListener × List Call,
      startedIds (rest.foldl (cancelVisit w) acc).2 = startedIds acc.2 := by
  induction rest with
  | nil =>
    intro acc
    rfl
  | cons e rest ih =>
    intro acc
    rw [List.foldl_cons, ih]
    cases hsd : w.isShutdown e.2.id with
    | false =>
      rw [cancelVisit_alive w acc e hsd]
      show startedIds (acc.2 ++ [Call.notifyShutdown e.2.id]) = _
      rw [startedIds_append]
      exact List.append_nil _
    | true =>
      rw [cancelVisit_shutdown w acc e hsd]
      show startedIds (acc.2 ++ [Call.notifyShutdown e.2.id]) = _
      rw [startedIds_append]
      exact List.append_nil _

theorem cancel_started (w : Collaborators) (s : SCTPTransportListener) :
    startedIds (cancel w s).calls = [] := by
  cases hs : isShutdown s with
  | true =>
    rw [cancel_shutdown w s hs]
    rfl
  | false =>
    by_cases hg : s.mGracefulShutdownReference = true ∨ s.mThisWeak = true
    · rw [cancel_graceful w s hs hg]
      have hl := cancelLoop_started w s.mTransports
        ({ s with mGracefulShutdownReference := true }, [])
      split
      · exact hl
      · unfold cancelFinal
        show startedIds (_ ++ _) = []
        rw [startedIds_append, hl, startedIds_map_notify]
        rfl
    · have hg1 : s.mGracefulShutdownReference = false := by
        cases h : s.mGracefulShutdownReference with
        | true => exact absurd (Or.inl h) hg
        | false => rfl
      have hw1 : s.mThisWeak = false := by
        cases h : s.mThisWeak with
        | true => exact absurd (Or.inr h) hg
        | false => rfl
      rw [cancel_unreferenced w s hs hg1 hw1]
      unfold cancelFinal
      show startedIds ([] ++ _) = []
      rw [startedIds_append, startedIds_map_notify]
      rfl

/-- An operation that makes no `start` call, asks nothing of the factory and only
removes entries from `mPendingTransports` keeps the ledger. -/
theorem ledger_of_quiet (s s1 : SCTPTransportListener) (created started : List Nat)
    (h : StartLedger s created started)
    (hp : s1.mPendingTransports.Sublist s.mPendingTransports) :
    StartLedger s1 created started :=
  ⟨mapSorted_sublist _ _ hp h.pendingSorted,
    fun e he => h.pendingKeys e (hp.subset he),
    fun e he => h.pendingCreated e (hp.subset he),
    h.startedOnce, h.startedCreated,
    fun t ht => mapFind_none_sublist _ _ hp t (h.startedGone t ht)⟩

/-- The operations other than `handleDataPacket` and `subscribe` make no `start` call,
ask nothing of the factory and only remove entries from `mPendingTransports`. -/
theorem apply_quiet (s : SCTPTransportListener) (op : Op)
    (hp : ∀ w buffer, op ≠ Op.handleDataPacket w buffer)
    (hsub : ∀ d caps, op ≠ Op.subscribe d caps) :
    startedIds (op.calls s) = [] ∧ op.created s = none ∧
      (op.apply s).mPendingTransports.Sublist s.mPendingTransports := by
  cases op with
  | handleDataPacket w buffer => exact absurd rfl (hp w buffer)
  | subscribe d caps => exact absurd rfl (hsub d caps)
  | registerNewTransport w dtls io l r =>
    refine ⟨rfl, rfl, ?_⟩
    show (registerNewTransport w s dtls io l r).state.mPendingTransports.Sublist _
    rw [(registerNewTransport_tables w s dtls io l r).1]
  | announceTransport t l r =>
    refine ⟨?_, rfl, ?_⟩
    · show startedIds (announceTransport s t l r).calls = []
      unfold announceTransport
      split
      · rfl
      · split
        · rfl
        · exact startedIds_map_delegates _ _
    · show (announceTransport s t l r).state.mPendingTransports.Sublist _
      rw [(announceTransport_tables s t l r).1]
  | notifyShutdown t l r =>
    refine ⟨?_, rfl, (notifyShutdown_tables s t l r).1⟩
    show startedIds (notifyShutdown s t l r).calls = []
    unfold notifyShutdown
    split
    · rfl
    · rfl
  | cancel w =>
    refine ⟨cancel_started w s, rfl, ?_⟩
    show (cancel w s).state.mPendingTransports.Sublist _
    rcases cancel_tables w s with h | h
    · rw [h.2]
      exact List.nil_sublist _
    · exact h.2
  | onWake w =>
    show startedIds (onWake w s).calls = [] ∧ _ ∧
      (onWake w s).state.mPendingTransports.Sublist _
    rcases onWake_eq w s with ⟨_, h1⟩ | ⟨_, h1⟩
    · rw [h1]
      exact ⟨rfl, rfl, List.Sublist.refl _⟩
    · rw [h1]
      refine ⟨cancel_started w s, rfl, ?_⟩
      rcases cancel_tables w s with h | h
      · rw [h.2]
        exact List.nil_sublist _
      · exact h.2

theorem ledger_of_same (s s1 : SCTPTransportListener) (created started : List Nat)
    (h : StartLedger s created started)
    (hp : s1.mPendingTransports = s.mPendingTransports) :
    StartLedger s1 (created ++ []) (started ++ []) := by
  rw [List.append_nil, List.append_nil]
  exact ledger_of_quiet s s1 created started h (by rw [hp])

theorem handleDataPacket_ledger (w : Collaborators) (s : SCTPTransportListener)
    (buffer : List BYTE) (created started : List Nat)
    (h : StartLedger s created started)
    (hnd : (created ++ ((Op.handleDataPacket w buffer).created s).toList).Nodup) :
    StartLedger (handleDataPacket w s buffer).state
      (created ++ ((Op.handleDataPacket w buffer).created s).toList)
      (started ++ startedIds (handleDataPacket w s buffer).calls) := by
  have hcr : (Op.handleDataPacket w buffer).created s =
      if buffer.length < 4 then none
      else if (getLocalRemoteTuple buffer Directions.Direction_Incoming).1 = 0 then none
      else
        match mapFind s.mTransports
            (getLocalRemoteTuple buffer Directions.Direction_Incoming).1 with
        | some _ => none
        | none =>
          match w.create (getLocalRemoteTuple buffer Directions.Direction_Incoming).2.1
              (getLocalRemoteTuple buffer Directions.Direction_Incoming).2.2 with
          | some transport => some transport.id
          | none => none := rfl
  rw [hcr] at hnd ⊢
  by_cases h4 : buffer.length < 4
  · rw [handleDataPacket_short w s buffer h4, if_pos h4]
    exact ledger_of_same s s created started h rfl
  · rw [if_neg h4] at hnd ⊢
    by_cases h0 : (getLocalRemoteTuple buffer Directions.Direction_Incoming).1 = 0
    · rw [handleDataPacket_zero w s buffer h0, if_pos h0]
      exact ledger_of_same s s created started h rfl
    · rw [if_neg h0] at hnd ⊢
      cases hf : mapFind s.mTransports
          (getLocalRemoteTuple buffer Directions.Direction_Incoming).1 with
      | some transport =>
        rw [handleDataPacket_known w s buffer transport (by omega) h0 hf]
        exact ledger_of_same s s created started h rfl
      | none =>
        rw [hf] at hnd
        cases hc : w.create (getLocalRemoteTuple buffer Directions.Direction_Incoming).2.1
            (getLocalRemoteTuple buffer Directions.Direction_Incoming).2.2 with
        | none =>
          rw [handleDataPacket_createFails w s buffer (by omega) h0 hf hc]
          exact ledger_of_same s s created started h rfl
        | some a =>
          rw [hc] at hnd
          rw [handleDataPacket_creates w s buffer a (by omega) h0 hf hc]
          have hnd1 : (created ++ [a.id]).Nodup := hnd
          have hfresh : a.id ∉ created := by
            intro hin
            have := List.nodup_append.1 hnd1
            exact this.2.2 hin (List.mem_singleton_self _)
          have hnotStarted : a.id ∉ started := fun hin => hfresh (h.startedCreated _ hin)
          have hnotPending : mapFind s.mPendingTransports a.id = none := by
            rw [mapFind_none_iff]
            intro e he heq
            exact hfresh (heq ▸ h.pendingCreated e he)
          show StartLedger _ (created ++ [a.id]) _
          cases hcaps : s.mRemoteCapabilities with
          | some caps =>
            simp only [hcaps]
            refine ⟨h.pendingSorted, h.pendingKeys,
              fun e he => List.mem_append_left _ (h.pendingCreated e he), ?_, ?_, ?_⟩
            · show (started ++ startedIds ([Call.create _ _] ++ [Call.start a.id caps] ++
                [Call.handleDataPacket a.id buffer])).Nodup
              show (started ++ [a.id]).Nodup
              rw [List.nodup_append]
              refine ⟨h.startedOnce, List.nodup_singleton _, ?_⟩
              intro x hx hx1
              rw [List.mem_singleton] at hx1
              exact hnotStarted (hx1 ▸ hx)
            · intro t ht
              have ht1 : t ∈ started ++ [a.id] := ht
              rcases List.mem_append.1 ht1 with h1 | h1
              · exact List.mem_append_left _ (h.startedCreated t h1)
              · exact List.mem_append_right _ h1
            · intro t ht
              have ht1 : t ∈ started ++ [a.id] := ht
              rcases List.mem_append.1 ht1 with h1 | h1
              · exact h.startedGone t h1
              · rw [List.mem_singleton] at h1
                rw [h1]
                exact hnotPending
          | none =>
            simp only [hcaps]
            have hk := mapSorted_keys_mapAssign s.mPendingTransports a h.pendingSorted
              h.pendingKeys
            refine ⟨hk.1, hk.2, ?_, ?_, ?_, ?_⟩
            · intro e he
              rcases mem_mapAssign _ _ _ _ he with h1 | h1
              · rw [h1]
                exact List.mem_append_right _ (List.mem_singleton_self _)
              · exact List.mem_append_left _ (h.pendingCreated e h1)
            · show (started ++ []).Nodup
              rw [List.append_nil]
              exact h.startedOnce
            · intro t ht
              have ht1 : t ∈ started ++ [] := ht
              rw [List.append_nil] at ht1
              exact List.mem_append_left _ (h.startedCreated t ht1)
            · intro t ht
              have ht1 : t ∈ started ++ [] := ht
              rw [List.append_nil] at ht1
              show mapFind (mapAssign s.mPendingTransports a.id a) t = none
              rw [mapFind_mapAssign, if_neg (fun (heq : t = a.id) => hnotStarted (heq ▸ ht1))]
              exact h.startedGone t ht1

theorem subscribe_ledger (s : SCTPTransportListener) (d : Option Nat) (caps : Capabilities)
    (created started : List Nat) (h : StartLedger s created started) :
    StartLedger (subscribe s d caps).state created
      (started ++ startedIds (subscribe s d caps).calls) := by
  have hcalls : startedIds (subscribe s d caps).calls =
      s.mPendingTransports.map (fun entry => entry.1) := by
    have hkeys : s.mPendingTransports.map (fun entry => entry.2.id) =
        s.mPendingTransports.map (fun entry => entry.1) := by
      apply List.map_congr_left
      intro e he
      exact (h.pendingKeys e he).symm
    cases d with
    | none =>
      have hc : (subscribe s none caps).calls =
          s.mPendingTransports.map (fun entry => Call.start entry.2.id caps) ++ [] := rfl
      rw [hc, List.append_nil, startedIds_map_start, hkeys]
    | some delegate =>
      have hc : (subscribe s (some delegate) caps).calls =
          s.mPendingTransports.map (fun entry => Call.start entry.2.id caps) ++
            s.mAnnouncedTransports.map
              (fun entry => Call.onSCTPTransport delegate entry.2.id) := rfl
      rw [hc, startedIds_append, startedIds_map_start, startedIds_map_onSCTPTransport,
        List.append_nil, hkeys]
  have hp : (subscribe s d caps).state.mPendingTransports = [] := (subscribe_tables s d caps).1
  rw [hcalls]
  refine ⟨?_, ?_, ?_, ?_, ?_, ?_⟩
  · rw [hp]
    exact List.Pairwise.nil
  · rw [hp]
    intro e he
    cases he
  · rw [hp]
    intro e he
    cases he
  · rw [List.nodup_append]
    refine ⟨h.startedOnce, ?_, ?_⟩
    · exact List.Pairwise.imp (fun hab => Nat.ne_of_lt hab) h.pendingSorted
    · intro x hx hx1
      rcases List.mem_map.1 hx1 with ⟨e, he, hxe⟩
      have := h.startedGone x hx
      rw [mapFind_none_iff] at this
      exact this e he hxe
  · intro t ht
    rcases List.mem_append.1 ht with h1 | h1
    · exact h.startedCreated t h1
    · rcases List.mem_map.1 h1 with ⟨e, he, hxe⟩
      rw [← hxe]
      exact h.pendingCreated e he
  · intro t _
    rw [hp]
    rfl

/-- Every operation keeps the ledger, when the id it obtains from the factory is new. -/
theorem apply_ledger (s : SCTPTransportListener) (op : Op) (created started : List Nat)
    (h : StartLedger s created started)
    (hnd : (created ++ (op.created s).toList).Nodup) :
    StartLedger (op.apply s) (created ++ (op.created s).toList)
      (started ++ startedIds (op.calls s)) := by
  by_cases hp : ∀ w buffer, op ≠ Op.handleDataPacket w buffer
  · by_cases hsub : ∀ d caps, op ≠ Op.subscribe d caps
    · obtain ⟨h1, h2, h3⟩ := apply_quiet s op hp hsub
      rw [h1, h2]
      show StartLedger _ (created ++ []) (started ++ [])
      rw [List.append_nil, List.append_nil]
      exact ledger_of_quiet s _ created started h h3
    · cases op with
      | subscribe d caps =>
        show StartLedger (subscribe s d caps).state (created ++ [])
          (started ++ startedIds (subscribe s d caps).calls)
        rw [List.append_nil]
        exact subscribe_ledger s d caps created started h
      | handleDataPacket w buffer => exact absurd (fun d caps => by simp) hsub
      | registerNewTransport w dtls io l r => exact absurd (fun d caps => by simp) hsub
      | announceTransport t l r => exact absurd (fun d caps => by simp) hsub
      | notifyShutdown t l r => exact absurd (fun d caps => by simp) hsub
      | cancel w => exact absurd (fun d caps => by simp) hsub
      | onWake w => exact absurd (fun d caps => by simp) hsub
  · cases op with
    | handleDataPacket w buffer => exact handleDataPacket_ledger w s buffer created started h hnd
    | subscribe d caps => exact absurd (fun w buffer => by simp) hp
    | registerNewTransport w dtls io l r => exact absurd (fun w buffer => by simp) hp
    | announceTransport t l r => exact absurd (fun w buffer => by simp) hp
    | notifyShutdown t l r => exact absurd (fun w buffer => by simp) hp
    | cancel w => exact absurd (fun w buffer => by simp) hp
    | onWake w => exact absurd (fun w buffer => by simp) hp

theorem run_ledger (ops : List Op) :
    ∀ (s : SCTPTransportListener) (created started : List Nat),
      StartLedger s created started → (created ++ createdIds s ops).Nodup →
      (started ++ startedIds (runCalls s ops)).Nodup ∧
        ∀ t ∈ started ++ startedIds (runCalls s ops), t ∈ created ++ createdIds s ops := by
  induction ops with
  | nil =>
    intro s created started h _
    show (started ++ []).Nodup ∧ ∀ t ∈ started ++ [], t ∈ created ++ []
    rw [List.append_nil, List.append_nil]
    exact ⟨h.startedOnce, h.startedCreated⟩
  | cons op ops ih =>
    intro s created started h hnd
    have hc : createdIds s (op :: ops) = (op.created s).toList ++ createdIds (op.apply s) ops :=
      rfl
    have hr : runCalls s (op :: ops) = op.calls s ++ runCalls (op.apply s) ops := rfl
    rw [hc, ← List.append_assoc] at hnd ⊢
    rw [hr, startedIds_append, ← List.append_assoc]
    have hnd1 : (created ++ (op.created s).toList).Nodup := (List.nodup_append.1 hnd).1
    exact ih (op.apply s) _ _ (apply_ledger s op created started h hnd1) hnd

/-- C40: over every sequence of operations on a freshly constructed listener during
which the factory never yields the same association twice, the listener calls `start`
at most once on each association it created from a packet: the ids on which `start` is
called have no duplicate and are ids the factory yielded. `subscribe` calls `start` on
exactly the associations pending before it and leaves nothing pending, so a later
`subscribe` starts none of them again; the operations other than `handleDataPacket`
and `subscribe` never call `start`. -/
theorem start_at_most_once (mID secureTransport increment : Nat) (settings : Settings)
    (s0 : SCTPTransportListener)
    (hc : construct mID secureTransport settings increment = some s0)
    (ops : List Op) (hfresh : (createdIds s0 ops).Nodup) :
    (startedIds (runCalls s0 ops)).Nodup ∧
    (∀ t ∈ startedIds (runCalls s0 ops), t ∈ createdIds s0 ops) ∧
    (∀ (s : SCTPTransportListener) (d : Option Nat) (caps : Capabilities),
      startedIds (subscribe s d caps).calls =
        s.mPendingTransports.map (fun entry => entry.2.id) ∧
      (subscribe s d caps).state.mPendingTransports = []) ∧
    (∀ (s : SCTPTransportListener) (op : Op),
      (∀ w buffer, op ≠ Op.handleDataPacket w buffer) →
      (∀ d caps, op ≠ Op.subscribe d caps) → startedIds (op.calls s) = []) := by
  have hinit : StartLedger s0 [] [] := by
    have ht := construct_tables mID secureTransport settings increment s0 hc
    refine ⟨?_, ?_, ?_, List.nodup_nil, ?_, ?_⟩
    · rw [ht.1]
      exact List.Pairwise.nil
    · rw [ht.1]
      intro e he
      cases he
    · rw [ht.1]
      intro e he
      cases he
    · intro t ht1
      cases ht1
    · intro t ht1
      cases ht1
  have h := run_ledger ops s0 [] [] hinit (by rw [List.nil_append]; exact hfresh)
  rw [List.nil_append, List.nil_append] at h
  refine ⟨h.1, h.2, ?_, ?_⟩
  · intro s d caps
    refine ⟨?_, (subscribe_tables s d caps).1⟩
    cases d with
    | none =>
      have hcalls : (subscribe s none caps).calls =
          s.mPendingTransports.map (fun entry => Call.start entry.2.id caps) ++ [] := rfl
      rw [hcalls, List.append_nil, startedIds_map_start]
    | some delegate =>
      have hcalls : (subscribe s (some delegate) caps).calls =
          s.mPendingTransports.map (fun entry => Call.start entry.2.id caps) ++
            s.mAnnouncedTransports.map
              (fun entry => Call.onSCTPTransport delegate entry.2.id) := rfl
      rw [hcalls, startedIds_append, startedIds_map_start, startedIds_map_onSCTPTransport,
        List.append_nil]
  · intro s op hp hsub
    exact (apply_quiet s op hp hsub).1

/-- Witness of C40: the packet of scenario S1, a subscription, a second packet and a
second subscription. The association `1` is started by the first subscription only. -/
theorem start_at_most_once_witness :
    runCalls scenarioListener
      [Op.handleDataPacket acceptingCollaborators scenarioPacket,
        Op.subscribe (some 42) scenarioCapabilities,
        Op.handleDataPacket acceptingCollaborators scenarioPacket,
        Op.subscribe (some 43) scenarioCapabilities] =
      [Call.create 5001 5000, Call.handleDataPacket 1 scenarioPacket,
        Call.start 1 scenarioCapabilities, Call.handleDataPacket 1 scenarioPacket] ∧
    (startedIds (runCalls scenarioListener
      [Op.handleDataPacket acceptingCollaborators scenarioPacket,
        Op.subscribe (some 42) scenarioCapabilities,
        Op.handleDataPacket acceptingCollaborators scenarioPacket,
        Op.subscribe (some 43) scenarioCapabilities])).Nodup :=
  ⟨by decide,
    (start_at_most_once 1 2 1 scenarioSettings scenarioListener rfl
      [Op.handleDataPacket acceptingCollaborators scenarioPacket,
        Op.subscribe (some 42) scenarioCapabilities,
        Op.handleDataPacket acceptingCollaborators scenarioPacket,
        Op.subscribe (some 43) scenarioCapabilities] (by decide)).1⟩

end Ortc
